import Mathlib

/-!
# Validated numerical programs: embedding and verified properties

The repository is a collection of stand-alone C programs (Newton-Raphson, 2-D Newton,
Runge-Kutta steppers, a Fourier engine) sharing a small numeric guard.

## Modelling conventions

* A C `double` is a `Doble α`: NaN, `+Inf`, `-Inf`, or a finite element of a linearly
  ordered field `α` (exact arithmetic: no rounding and no overflow; signed zeros are
  not distinguished).  At `α = ℚ` every definition is executable; at `α = ℝ` the same
  definitions speak about exact real arithmetic.
* A decimal literal of the source denotes its exact decimal value
  (`1e100` is `10 ^ 100`, `1e-15` is `1 / 10 ^ 15`).
* `exit(EXIT_FAILURE)` inside `verificar_nan_inf` is the `Except.error` result of the
  embedding; text printed by `printf` is not modelled, values written to data files are
  returned as lists of records.
* The object-like macros of each program (`FUNCION`, `X_INICIAL`, `MAX_ITER`, ...) are
  parameters of the embedded loop, with the configured values given as definitions.
* A C `int` is an `Int`.  The conversion `(int)v` and `int` arithmetic are defined in C
  only inside `[INT_MIN, INT_MAX]`: `truncar` and the counters of the loops carry the
  mathematical value, `convertirAInt` and `enInt` return `none` outside that range.
-/

namespace Informe

/-- A C double over exact arithmetic: the three IEEE special values or a finite value. -/
inductive Doble (α : Type) where
  | nan : Doble α
  | posInf : Doble α
  | negInf : Doble α
  | fin (v : α) : Doble α
  deriving DecidableEq, Repr

namespace Doble

variable {α : Type} [LinearOrderedField α]

/-- The C library test `isnan`. -/
def isnan : Doble α → Bool
  | nan => true
  | _ => false

/-- The C library test `isinf`. -/
def isinf : Doble α → Bool
  | posInf => true
  | negInf => true
  | _ => false

/-- The C library function `fabs`. -/
def fabs : Doble α → Doble α
  | nan => nan
  | posInf => posInf
  | negInf => posInf
  | fin v => fin |v|

/-- Unary minus. -/
def neg : Doble α → Doble α
  | nan => nan
  | posInf => negInf
  | negInf => posInf
  | fin v => fin (-v)

/-- Addition with the IEEE rules for the special values. -/
def add : Doble α → Doble α → Doble α
  | nan, _ => nan
  | _, nan => nan
  | posInf, negInf => nan
  | negInf, posInf => nan
  | posInf, _ => posInf
  | negInf, _ => negInf
  | fin _, posInf => posInf
  | fin _, negInf => negInf
  | fin a, fin b => fin (a + b)

/-- Subtraction, `a - b = a + (-b)`. -/
def sub (a b : Doble α) : Doble α := add a (neg b)

/-- An infinity carrying the sign of a nonzero finite factor. -/
def infConSigno (positivo : Bool) : Doble α := if positivo then posInf else negInf

/-- Multiplication with the IEEE rules for the special values (`Inf * 0` is NaN). -/
def mul : Doble α → Doble α → Doble α
  | nan, _ => nan
  | _, nan => nan
  | posInf, posInf => posInf
  | posInf, negInf => negInf
  | negInf, posInf => negInf
  | negInf, negInf => posInf
  | posInf, fin b => if b = 0 then nan else infConSigno (decide (0 < b))
  | negInf, fin b => if b = 0 then nan else infConSigno (decide (b < 0))
  | fin a, posInf => if a = 0 then nan else infConSigno (decide (0 < a))
  | fin a, negInf => if a = 0 then nan else infConSigno (decide (a < 0))
  | fin a, fin b => fin (a * b)

/-- Division with the IEEE rules for the special values (`0/0` and `Inf/Inf` are NaN,
a nonzero finite value over zero is an infinity). -/
def div : Doble α → Doble α → Doble α
  | nan, _ => nan
  | _, nan => nan
  | posInf, posInf => nan
  | posInf, negInf => nan
  | negInf, posInf => nan
  | negInf, negInf => nan
  | posInf, fin b => infConSigno (decide (0 ≤ b))
  | negInf, fin b => infConSigno (decide (b < 0))
  | fin _, posInf => fin 0
  | fin _, negInf => fin 0
  | fin a, fin b =>
    if b = 0 then (if a = 0 then nan else infConSigno (decide (0 < a))) else fin (a / b)

instance : Add (Doble α) := ⟨add⟩
instance : Sub (Doble α) := ⟨sub⟩
instance : Mul (Doble α) := ⟨mul⟩
instance : Div (Doble α) := ⟨div⟩
instance : Neg (Doble α) := ⟨neg⟩

/-- The C comparison `a < b` (false as soon as one side is NaN). -/
def lt : Doble α → Doble α → Bool
  | nan, _ => false
  | _, nan => false
  | posInf, _ => false
  | _, negInf => false
  | negInf, _ => true
  | fin _, posInf => true
  | fin a, fin b => decide (a < b)

/-- The C comparison `a > b`. -/
def gt (a b : Doble α) : Bool := lt b a

/-- The C comparison `a <= b` (false as soon as one side is NaN). -/
def le : Doble α → Doble α → Bool
  | nan, _ => false
  | _, nan => false
  | negInf, _ => true
  | _, posInf => true
  | posInf, _ => false
  | fin _, negInf => false
  | fin a, fin b => decide (a ≤ b)

/-- The C comparison `a >= b`. -/
def ge (a b : Doble α) : Bool := le b a

/-- A library function of `math.h` that is total on the reals (`exp`), lifted to the
special values by its limits: `g(+Inf) = +Inf`, `g(-Inf) = 0`. -/
def cexp (g : α → α) : Doble α → Doble α
  | nan => nan
  | posInf => posInf
  | negInf => fin 0
  | fin v => fin (g v)

/-- The library function `sqrt`, lifted: NaN on negative arguments. -/
def csqrt (g : α → α) : Doble α → Doble α
  | nan => nan
  | posInf => posInf
  | negInf => nan
  | fin v => if v < 0 then nan else fin (g v)

/-- A periodic library function of `math.h` (`sin`, `cos`), lifted to the special values:
NaN at NaN and at the two infinities. -/
def ctrig (g : α → α) : Doble α → Doble α
  | fin v => fin (g v)
  | _ => nan

end Doble

open Doble

/-- Reason for which `verificar_nan_inf` (or `validar_punto`) ends the run, with the
name of the checked variable (the first argument supplied by the `VALIDAR` macro). -/
inductive Falla where
  | esNaN (nombre : String) : Falla
  | esInfinito (nombre : String) : Falla
  | esInvalido (nombre : String) : Falla
  | puntoInvalido (contexto : String) : Falla
  deriving DecidableEq, Repr

variable {α : Type} [LinearOrderedField α]

/-- The guard `es_numerico_valido`, textually identical in the seven programs:
`!(isnan(valor) || isinf(valor) || fabs(valor) > 1e100)`. -/
def es_numerico_valido (valor : Doble α) : Bool :=
  !(isnan valor || isinf valor || gt (fabs valor) (fin (10 ^ 100)))

/-- Sequencing of a fail-fast check inside a loop body: when the check ends the run the
result is built from the fault, otherwise the body goes on. -/
def trasValidar {β : Type} (chequeo : Except Falla Unit) (alFallar : Falla → β) (sigue : β) : β :=
  match chequeo with
  | .error e => alFallar e
  | .ok _ => sigue

/-- Whether a fail-fast check ended the run (`exit(EXIT_FAILURE)`) instead of returning. -/
def terminaCorrida (chequeo : Except Falla Unit) : Bool :=
  match chequeo with
  | .error _ => true
  | .ok _ => false

/-! ## The fail-fast check `verificar_nan_inf` / `VALIDAR`, program by program

The printed line number (third argument, `__LINE__`) is not modelled. -/

namespace Newtonrhapson

/-- `verificar_nan_inf` of `newtonrhapson.c`: NaN, infinity, then `!es_numerico_valido`. -/
def verificar_nan_inf (nombre : String) (valor : Doble α) : Except Falla Unit :=
  if isnan valor then .error (.esNaN nombre)
  else if isinf valor then .error (.esInfinito nombre)
  else if !es_numerico_valido valor then .error (.esInvalido nombre)
  else .ok ()

end Newtonrhapson

namespace Newtonsistemas

/-- `verificar_nan_inf` of `newtonsistemas.c`: NaN, infinity, then `!es_numerico_valido`. -/
def verificar_nan_inf (nombre : String) (valor : Doble α) : Except Falla Unit :=
  if isnan valor then .error (.esNaN nombre)
  else if isinf valor then .error (.esInfinito nombre)
  else if !es_numerico_valido valor then .error (.esInvalido nombre)
  else .ok ()

end Newtonsistemas

namespace Derivadas

/-- `verificar_nan_inf` of `derivadas.c`: NaN, infinity, then `!es_numerico_valido`. -/
def verificar_nan_inf (nombre : String) (valor : Doble α) : Except Falla Unit :=
  if isnan valor then .error (.esNaN nombre)
  else if isinf valor then .error (.esInfinito nombre)
  else if !es_numerico_valido valor then .error (.esInvalido nombre)
  else .ok ()

end Derivadas

namespace Ecuacion1

/-- `verificar_nan_inf` of `ecuacion1.c`: only the NaN and the infinity tests. -/
def verificar_nan_inf (nombre : String) (valor : Doble α) : Except Falla Unit :=
  if isnan valor then .error (.esNaN nombre)
  else if isinf valor then .error (.esInfinito nombre)
  else .ok ()

end Ecuacion1

namespace Ecuacion2

/-- `verificar_nan_inf` of `ecuacion2.c`: only the NaN and the infinity tests. -/
def verificar_nan_inf (nombre : String) (valor : Doble α) : Except Falla Unit :=
  if isnan valor then .error (.esNaN nombre)
  else if isinf valor then .error (.esInfinito nombre)
  else .ok ()

end Ecuacion2

namespace Ecuacion3

/-- `verificar_nan_inf` of `ecuacion3.c`: only the NaN and the infinity tests. -/
def verificar_nan_inf (nombre : String) (valor : Doble α) : Except Falla Unit :=
  if isnan valor then .error (.esNaN nombre)
  else if isinf valor then .error (.esInfinito nombre)
  else .ok ()

end Ecuacion3

namespace Fourier

/-- `verificar_nan_inf` of `fourier.c`: only the NaN and the infinity tests. -/
def verificar_nan_inf (nombre : String) (valor : Doble α) : Except Falla Unit :=
  if isnan valor then .error (.esNaN nombre)
  else if isinf valor then .error (.esInfinito nombre)
  else .ok ()

end Fourier

/-- The exit status of a run, `EXIT_SUCCESS` or `EXIT_FAILURE`. -/
inductive CodigoSalida where
  | EXIT_SUCCESS : CodigoSalida
  | EXIT_FAILURE : CodigoSalida
  deriving DecidableEq, Repr

/-! ## `newtonrhapson.c`: the scalar Newton loop -/

namespace Newtonrhapson

/-- The macro `VALIDAR(variable)`: `verificar_nan_inf(#variable, variable, __LINE__)`. -/
def VALIDAR (nombre : String) (valor : Doble α) : Except Falla Unit :=
  verificar_nan_inf nombre valor

/-- The macro `FUNCION(x)`: `((x)*(x)*(x) - 2*(x) - 5)`. -/
def FUNCION (x : Doble α) : Doble α := x * x * x - fin 2 * x - fin 5

/-- The macro `DERIVADA(x)`: `(3*(x)*(x) - 2)`. -/
def DERIVADA (x : Doble α) : Doble α := fin 3 * x * x - fin 2

/-- The macro `X_INICIAL`, 2.0. -/
def X_INICIAL : Doble α := fin 2

/-- The macro `TOLERANCIA`, 1e-6. -/
def TOLERANCIA : Doble α := fin (1 / 10 ^ 6)

/-- The macro `MAX_ITER`, 100. -/
def MAX_ITER : Int := 100

/-- One line of `iteraciones.dat`: `iter x f(x) error`. -/
structure Registro (α : Type) where
  iter : Int
  x : Doble α
  fx : Doble α
  error : Doble α
  deriving DecidableEq, Repr

/-- How the do-while loop of `main` is left.  `numericFault` is an `exit` inside
`VALIDAR`; `sinCombustible` is not a state of the program, it marks a model run whose
iteration budget was used up. -/
inductive Parada where
  | converged : Parada
  | diverged : Parada
  | derivativeZero : Parada
  | maxIterExceeded : Parada
  | numericFault (f : Falla) : Parada
  | sinCombustible : Parada
  deriving DecidableEq, Repr

/-- The variables of `main` that the loop changes, and the records written so far. -/
structure Estado (α : Type) where
  x : Doble α
  iter : Int
  registros : List (Registro α)
  deriving DecidableEq, Repr

/-- Outcome of one execution of the loop body: go round again, or leave the loop. -/
inductive Paso (α : Type) where
  | sigue (s : Estado α) : Paso α
  | para (motivo : Parada) (s : Estado α) : Paso α
  deriving DecidableEq, Repr

/-- The body of the do-while loop of `main` (lines 172-238), with `FUNCION`, `DERIVADA`,
`TOLERANCIA` and `MAX_ITER` as parameters. -/
def cuerpo (f df : Doble α → Doble α) (tol : Doble α) (maxIter : Int) (s : Estado α) : Paso α :=
  let fx := f s.x
  let dfx := df s.x
  trasValidar (VALIDAR "fx" fx) (fun e => .para (.numericFault e) s) <|
  trasValidar (VALIDAR "dfx" dfx) (fun e => .para (.numericFault e) s) <|
  if lt (fabs dfx) (fin (1 / 10 ^ 15)) then .para .derivativeZero s
  else
    let x_nuevo := s.x - fx / dfx
    trasValidar (VALIDAR "x_nuevo" x_nuevo) (fun e => .para (.numericFault e) s) <|
    let error := fabs (x_nuevo - s.x)
    trasValidar (VALIDAR "error" error) (fun e => .para (.numericFault e) s) <|
    if gt error (fin (10 ^ 10)) && decide (s.iter > 5) then .para .diverged s
    else
      let s1 : Estado α :=
        { x := x_nuevo, iter := s.iter + 1,
          registros := s.registros ++ [{ iter := s.iter, x := s.x, fx := fx, error := error }] }
      if lt error tol then .para .converged s1
      else if s1.iter ≥ maxIter then .para .maxIterExceeded s1
      else .sigue s1

/-- The do-while loop of `main`: the body is repeated until it leaves the loop; the
first argument bounds the number of repetitions of the model run. -/
def bucle (f df : Doble α → Doble α) (tol : Doble α) (maxIter : Int) :
    Nat → Estado α → Parada × Estado α
  | 0, s => (.sinCombustible, s)
  | n + 1, s =>
    match cuerpo f df tol maxIter s with
    | .sigue s1 => bucle f df tol maxIter n s1
    | .para motivo s1 => (motivo, s1)

/-- The loop as `main` enters it: `x = x0`, `iter = 0`, no record written; `MAX_ITER`
repetitions are provided (at least one, the body of a do-while runs once). -/
def newton (f df : Doble α → Doble α) (x0 tol : Doble α) (maxIter : Int) : Parada × Estado α :=
  bucle f df tol maxIter (max 1 maxIter.toNat) { x := x0, iter := 0, registros := [] }

/-- Number of executions of the loop body in a run of the loop from state `s`
(the body that leaves the loop is counted). -/
def ejecuciones (f df : Doble α → Doble α) (tol : Doble α) (maxIter : Int) :
    Nat → Estado α → Nat
  | 0, _ => 0
  | n + 1, s =>
    match cuerpo f df tol maxIter s with
    | .sigue s1 => ejecuciones f df tol maxIter n s1 + 1
    | .para _ _ => 1

/-- Whether the body executed from `s` reaches the divergence test of line 199, that is,
computes `x_nuevo` and `error` and both pass their checks: `fx` and `dfx` pass `VALIDAR`,
the derivative guard does not fire, `x_nuevo` and `error` pass `VALIDAR`. -/
def validaError (f df : Doble α → Doble α) (s : Estado α) : Bool :=
  !terminaCorrida (VALIDAR "fx" (f s.x)) && !terminaCorrida (VALIDAR "dfx" (df s.x)) &&
    !lt (fabs (df s.x)) (fin (1 / 10 ^ 15)) &&
    !terminaCorrida (VALIDAR "x_nuevo" (s.x - f s.x / df s.x)) &&
    !terminaCorrida (VALIDAR "error" (fabs (s.x - f s.x / df s.x - s.x)))

/-- Number of executions of the loop body, in a run of the loop from state `s`, in which
`x_nuevo` and `error` are computed and pass their checks. -/
def iteracionesConError (f df : Doble α → Doble α) (tol : Doble α) (maxIter : Int) :
    Nat → Estado α → Nat
  | 0, _ => 0
  | n + 1, s =>
    (if validaError f df s then 1 else 0) +
      match cuerpo f df tol maxIter s with
      | .sigue s1 => iteracionesConError f df tol maxIter n s1
      | .para _ _ => 0

/-- Lines 240-280 of `main`: what the run does once the loop is left.  A stop inside the
body by `return EXIT_FAILURE` (zero derivative) or by the `exit` of `VALIDAR` has already
ended the run with failure; after a `break` the residual `fx_final = FUNCION(x)` is
checked by `VALIDAR` and `main` returns `EXIT_SUCCESS`.  The plot files are not modelled;
there is no exit status for a model run whose budget was used up. -/
def finDeMain (f : Doble α → Doble α) (r : Parada × Estado α) : Option CodigoSalida :=
  match r.1 with
  | .sinCombustible => none
  | .derivativeZero => some .EXIT_FAILURE
  | .numericFault _ => some .EXIT_FAILURE
  | .converged | .diverged | .maxIterExceeded =>
    match VALIDAR "fx_final" (f r.2.x) with
    | .error _ => some .EXIT_FAILURE
    | .ok _ => some .EXIT_SUCCESS

end Newtonrhapson

/-- Enclosure of a value between two endpoints with sixteen decimals, `lo / 10^16` and
`hi / 10^16`; the 2-D Newton run is followed over the reals by such enclosures. -/
def entre (lo hi : Int) (v : α) : Prop := (lo : α) / 10 ^ 16 ≤ v ∧ v ≤ (hi : α) / 10 ^ 16

/-! ## `newtonsistemas.c`: the 2-D Newton loop -/

namespace Newtonsistemas

/-- The macro `VALIDAR(variable)`: `verificar_nan_inf(#variable, variable, __LINE__)`. -/
def VALIDAR (nombre : String) (valor : Doble α) : Except Falla Unit :=
  verificar_nan_inf nombre valor

/-- The function `validar_punto`: the run ends when one coordinate is rejected by
`es_numerico_valido`. -/
def validar_punto (x y : Doble α) (contexto : String) : Except Falla Unit :=
  if !es_numerico_valido x || !es_numerico_valido y then .error (.puntoInvalido contexto)
  else .ok ()

/-- The macro `F1(x,y)`: `((x)*(x) + (y)*(y) - 4)`. -/
def F1 (x y : Doble α) : Doble α := x * x + y * y - fin 4

/-- The macro `F2(x,y)`: `(exp(x) + (y) - 1)`; the library function `exp` is a parameter. -/
def F2 (exp : α → α) (x y : Doble α) : Doble α := cexp exp x + y - fin 1

/-- The macro `DF1_DX(x,y)`: `(2*(x))`. -/
def DF1_DX (x _y : Doble α) : Doble α := fin 2 * x

/-- The macro `DF1_DY(x,y)`: `(2*(y))`. -/
def DF1_DY (_x y : Doble α) : Doble α := fin 2 * y

/-- The macro `DF2_DX(x,y)`: `(exp(x))`. -/
def DF2_DX (exp : α → α) (x _y : Doble α) : Doble α := cexp exp x

/-- The macro `DF2_DY(x,y)`: `(1)`. -/
def DF2_DY (_x _y : Doble α) : Doble α := fin 1

/-- The macro `X_INICIAL`, 1.0. -/
def X_INICIAL : Doble α := fin 1

/-- The macro `Y_INICIAL`, 1.0. -/
def Y_INICIAL : Doble α := fin 1

/-- The macro `TOLERANCIA`, 1e-6. -/
def TOLERANCIA : Doble α := fin (1 / 10 ^ 6)

/-- The macro `MAX_ITER`, 50. -/
def MAX_ITER : Int := 50

/-- The functions of the system and their four partial derivatives (the six
function-like macros of the program). -/
structure Sistema (α : Type) where
  f1 : Doble α → Doble α → Doble α
  f2 : Doble α → Doble α → Doble α
  df1_dx : Doble α → Doble α → Doble α
  df1_dy : Doble α → Doble α → Doble α
  df2_dx : Doble α → Doble α → Doble α
  df2_dy : Doble α → Doble α → Doble α

/-- The system configured in the program. -/
def sistemaConfigurado (exp : α → α) : Sistema α :=
  { f1 := F1, f2 := F2 exp, df1_dx := DF1_DX, df1_dy := DF1_DY,
    df2_dx := DF2_DX exp, df2_dy := DF2_DY }

/-- The determinant of the Jacobian, `df1_dx*df2_dy - df1_dy*df2_dx` (line 196). -/
def determinante (df1_dx df1_dy df2_dx df2_dy : Doble α) : Doble α :=
  df1_dx * df2_dy - df1_dy * df2_dx

/-- The closed-form solve of lines 212-213:
`dx = (-f1*df2_dy + f2*df1_dy) / det`, `dy = (-df1_dx*f2 + f1*df2_dx) / det`. -/
def incrementos (f1 f2 df1_dx df1_dy df2_dx df2_dy det : Doble α) : Doble α × Doble α :=
  ((-f1 * df2_dy + f2 * df1_dy) / det, (-df1_dx * f2 + f1 * df2_dx) / det)

/-- The value of `det` (line 196) for the configured system at a finite point `(x, y)`:
`df1_dx*df2_dy - df1_dy*df2_dx` with `df1_dx = 2x`, `df1_dy = 2y`, `df2_dx = exp(x)`,
`df2_dy = 1`. -/
def detConfigurado (exp : α → α) (x y : α) : α := 2 * x * 1 - 2 * y * exp x

/-- The value of `dx` (line 212) for the configured system at a finite point `(x, y)`. -/
def dxConfigurado (exp : α → α) (x y : α) : α :=
  (-(x * x + y * y - 4) * 1 + (exp x + y - 1) * (2 * y)) / detConfigurado exp x y

/-- The value of `dy` (line 213) for the configured system at a finite point `(x, y)`. -/
def dyConfigurado (exp : α → α) (x y : α) : α :=
  (-(2 * x) * (exp x + y - 1) + (x * x + y * y - 4) * exp x) / detConfigurado exp x y

/-- One line of `sistema_iteraciones.dat`: `iter x y f1 f2 det_j error`. -/
structure Registro (α : Type) where
  iter : Int
  x : Doble α
  y : Doble α
  f1 : Doble α
  f2 : Doble α
  det : Doble α
  error : Doble α
  deriving DecidableEq, Repr

/-- How the do-while loop of `main` is left (see `Newtonrhapson.Parada`). -/
inductive Parada where
  | converged : Parada
  | diverged : Parada
  | singularJacobian : Parada
  | maxIterExceeded : Parada
  | numericFault (f : Falla) : Parada
  | sinCombustible : Parada
  deriving DecidableEq, Repr

/-- The variables of `main` that the loop changes, the records of
`sistema_iteraciones.dat` and the points of `sistema_trayectoria.dat` written so far. -/
structure Estado (α : Type) where
  x : Doble α
  y : Doble α
  iteracion : Int
  registros : List (Registro α)
  trayectoria : List (Doble α × Doble α)
  deriving DecidableEq, Repr

/-- Outcome of one execution of the loop body. -/
inductive Paso (α : Type) where
  | sigue (s : Estado α) : Paso α
  | para (motivo : Parada) (s : Estado α) : Paso α
  deriving DecidableEq, Repr

/-- The body of the do-while loop of `main` (lines 182-268); `sqrt` is a parameter. -/
def cuerpo (raiz : α → α) (S : Sistema α) (tol : Doble α) (maxIter : Int) (s : Estado α) :
    Paso α :=
  let f1 := S.f1 s.x s.y
  let f2 := S.f2 s.x s.y
  trasValidar (VALIDAR "f1" f1) (fun e => .para (.numericFault e) s) <|
  trasValidar (VALIDAR "f2" f2) (fun e => .para (.numericFault e) s) <|
  let df1_dx := S.df1_dx s.x s.y
  let df1_dy := S.df1_dy s.x s.y
  let df2_dx := S.df2_dx s.x s.y
  let df2_dy := S.df2_dy s.x s.y
  trasValidar (VALIDAR "df1_dx" df1_dx) (fun e => .para (.numericFault e) s) <|
  trasValidar (VALIDAR "df1_dy" df1_dy) (fun e => .para (.numericFault e) s) <|
  trasValidar (VALIDAR "df2_dx" df2_dx) (fun e => .para (.numericFault e) s) <|
  trasValidar (VALIDAR "df2_dy" df2_dy) (fun e => .para (.numericFault e) s) <|
  let det := determinante df1_dx df1_dy df2_dx df2_dy
  trasValidar (VALIDAR "det" det) (fun e => .para (.numericFault e) s) <|
  if lt (fabs det) (fin (1 / 10 ^ 15)) then .para .singularJacobian s
  else
    let d := incrementos f1 f2 df1_dx df1_dy df2_dx df2_dy det
    let dx := d.1
    let dy := d.2
    trasValidar (VALIDAR "dx" dx) (fun e => .para (.numericFault e) s) <|
    trasValidar (VALIDAR "dy" dy) (fun e => .para (.numericFault e) s) <|
    let error := csqrt raiz (dx * dx + dy * dy)
    trasValidar (VALIDAR "error" error) (fun e => .para (.numericFault e) s) <|
    let s1 : Estado α :=
      { s with registros := s.registros ++
          [{ iter := s.iteracion, x := s.x, y := s.y, f1 := f1, f2 := f2, det := det,
             error := error }] }
    let x_nuevo := s.x + dx
    let y_nuevo := s.y + dy
    trasValidar (validar_punto x_nuevo y_nuevo "nuevo punto")
      (fun e => .para (.numericFault e) s1) <|
    let s2 : Estado α :=
      { s1 with x := x_nuevo, y := y_nuevo,
                trayectoria := s1.trayectoria ++ [(x_nuevo, y_nuevo)],
                iteracion := s1.iteracion + 1 }
    if gt error (fin (10 ^ 5)) && decide (s2.iteracion > 3) then .para .diverged s2
    else if lt error tol then .para .converged s2
    else if s2.iteracion ≥ maxIter then .para .maxIterExceeded s2
    else .sigue s2

/-- The do-while loop of `main`; the first argument bounds the repetitions of the
model run. -/
def bucle (raiz : α → α) (S : Sistema α) (tol : Doble α) (maxIter : Int) :
    Nat → Estado α → Parada × Estado α
  | 0, s => (.sinCombustible, s)
  | n + 1, s =>
    match cuerpo raiz S tol maxIter s with
    | .sigue s1 => bucle raiz S tol maxIter n s1
    | .para motivo s1 => (motivo, s1)

/-- The loop as `main` enters it: `x = x0`, `y = y0`, `iteracion = 0`, no record, the
starting point already written to the trajectory file (line 177). -/
def newton (raiz : α → α) (S : Sistema α) (x0 y0 tol : Doble α) (maxIter : Int) :
    Parada × Estado α :=
  bucle raiz S tol maxIter (max 1 maxIter.toNat)
    { x := x0, y := y0, iteracion := 0, registros := [], trayectoria := [(x0, y0)] }

/-- Number of executions of the loop body in a run of the loop from state `s` (the body
that leaves the loop is counted). -/
def ejecuciones (raiz : α → α) (S : Sistema α) (tol : Doble α) (maxIter : Int) :
    Nat → Estado α → Nat
  | 0, _ => 0
  | n + 1, s =>
    match cuerpo raiz S tol maxIter s with
    | .sigue s1 => ejecuciones raiz S tol maxIter n s1 + 1
    | .para _ _ => 1

/-- The value of `det` (line 196) at the state `s`. -/
def detEn (S : Sistema α) (s : Estado α) : Doble α :=
  determinante (S.df1_dx s.x s.y) (S.df1_dy s.x s.y) (S.df2_dx s.x s.y) (S.df2_dy s.x s.y)

/-- Whether the body executed from `s` reaches the singularity test of line 200: `f1`,
`f2`, the four partial derivatives and `det` pass `VALIDAR` (lines 185-197). -/
def llegaADet (S : Sistema α) (s : Estado α) : Bool :=
  !terminaCorrida (VALIDAR "f1" (S.f1 s.x s.y)) && !terminaCorrida (VALIDAR "f2" (S.f2 s.x s.y)) &&
    !terminaCorrida (VALIDAR "df1_dx" (S.df1_dx s.x s.y)) &&
    !terminaCorrida (VALIDAR "df1_dy" (S.df1_dy s.x s.y)) &&
    !terminaCorrida (VALIDAR "df2_dx" (S.df2_dx s.x s.y)) &&
    !terminaCorrida (VALIDAR "df2_dy" (S.df2_dy s.x s.y)) &&
    !terminaCorrida (VALIDAR "det" (detEn S s))

/-- The values of `dx` and `dy` (lines 212-213) at the state `s`. -/
def incrementosEn (S : Sistema α) (s : Estado α) : Doble α × Doble α :=
  incrementos (S.f1 s.x s.y) (S.f2 s.x s.y) (S.df1_dx s.x s.y) (S.df1_dy s.x s.y)
    (S.df2_dx s.x s.y) (S.df2_dy s.x s.y) (detEn S s)

/-- The value of `error` (line 217) at the state `s`. -/
def errorEn (raiz : α → α) (S : Sistema α) (s : Estado α) : Doble α :=
  csqrt raiz ((incrementosEn S s).1 * (incrementosEn S s).1 +
    (incrementosEn S s).2 * (incrementosEn S s).2)

/-- Whether the body executed from `s` reaches the divergence test of line 241: the
singularity test is reached and does not fire, `dx`, `dy` and `error` pass `VALIDAR` and
the new point passes `validar_punto`. -/
def llegaADivergencia (raiz : α → α) (S : Sistema α) (s : Estado α) : Bool :=
  llegaADet S s && !lt (fabs (detEn S s)) (fin (1 / 10 ^ 15)) &&
    !terminaCorrida (VALIDAR "dx" (incrementosEn S s).1) &&
    !terminaCorrida (VALIDAR "dy" (incrementosEn S s).2) &&
    !terminaCorrida (VALIDAR "error" (errorEn raiz S s)) &&
    !terminaCorrida
      (validar_punto (s.x + (incrementosEn S s).1) (s.y + (incrementosEn S s).2) "nuevo punto")

/-- The state of the loop when line 241 is reached: the record of the iteration written,
the point moved and written to the trajectory, `iteracion` incremented. -/
def trasActualizar (raiz : α → α) (S : Sistema α) (s : Estado α) : Estado α :=
  { x := s.x + (incrementosEn S s).1,
    y := s.y + (incrementosEn S s).2,
    iteracion := s.iteracion + 1,
    registros := s.registros ++
      [{ iter := s.iteracion, x := s.x, y := s.y, f1 := S.f1 s.x s.y, f2 := S.f2 s.x s.y,
         det := detEn S s, error := errorEn raiz S s }],
    trayectoria := s.trayectoria ++ [(s.x + (incrementosEn S s).1, s.y + (incrementosEn S s).2)] }

/-- An example configuration of the six macros: `F1 = -1e6`, `F2 = 0` and the identity
matrix as Jacobian, for which every Newton step moves the point by `(1e6, 0)`. -/
def sistemaPasoConstante : Sistema α :=
  { f1 := fun _ _ => fin (-(10 ^ 6)), f2 := fun _ _ => fin 0,
    df1_dx := fun _ _ => fin 1, df1_dy := fun _ _ => fin 0,
    df2_dx := fun _ _ => fin 0, df2_dy := fun _ _ => fin 1 }

/-- An example configuration of the macros: `F1` and `F2` as configured, `DF1_DX = 1e101`
and the other three partial derivatives 0, so that `det = 1e101*0 - 0*0 = 0` at every
point. -/
def sistemaDerivadaEnorme (exp : α → α) : Sistema α :=
  { f1 := F1, f2 := F2 exp,
    df1_dx := fun _ _ => fin (10 ^ 101), df1_dy := fun _ _ => fin 0,
    df2_dx := fun _ _ => fin 0, df2_dy := fun _ _ => fin 0 }

/-- Lines 200-209 and 270-327 of `main`: what the run does once the loop is left.  A stop
inside the body by `return EXIT_FAILURE` (singular Jacobian, line 208) or by the `exit` of
`VALIDAR` or `validar_punto` has already ended the run with failure; after a `break` the
residuals `f1_final = F1(x, y)` and `f2_final = F2(x, y)` are checked by `VALIDAR` and
`main` returns `EXIT_SUCCESS`.  The plot files are not modelled; there is no exit status
for a model run whose budget was used up. -/
def finDeMain (S : Sistema α) (r : Parada × Estado α) : Option CodigoSalida :=
  match r.1 with
  | .sinCombustible => none
  | .singularJacobian => some .EXIT_FAILURE
  | .numericFault _ => some .EXIT_FAILURE
  | .converged | .diverged | .maxIterExceeded =>
    match VALIDAR "f1_final" (S.f1 r.2.x r.2.y) with
    | .error _ => some .EXIT_FAILURE
    | .ok _ =>
      match VALIDAR "f2_final" (S.f2 r.2.x r.2.y) with
      | .error _ => some .EXIT_FAILURE
      | .ok _ => some .EXIT_SUCCESS

end Newtonsistemas

/-- The value of the C conversion `(int)v` of a double, truncation toward zero, as an
integer without bound: it is the result of the conversion whenever that result is defined,
that is, whenever it lies in the range of `int` (see `convertirAInt`).  The conversion of
a NaN or an infinity is undefined in C; the model returns 0 there. -/
def truncar [FloorRing α] : Doble α → Int
  | fin v => if 0 ≤ v then ⌊v⌋ else ⌈v⌉
  | _ => 0

/-- The largest value of the C type `int` (32 bits), `2^31 - 1`. -/
def INT_MAX : Int := 2147483647

/-- The smallest value of the C type `int` (32 bits), `-2^31`. -/
def INT_MIN : Int := -2147483648

/-- A result of `int` arithmetic: the mathematical value when it lies in the range of
`int`; on overflow the behaviour is undefined in C and there is no value. -/
def enInt (v : Int) : Option Int :=
  if INT_MIN ≤ v ∧ v ≤ INT_MAX then some v else none

/-- The C conversion `(int)v` of a double with its domain: the value truncated toward zero
when it lies in the range of `int`; otherwise, and for a NaN or an infinity, the behaviour
is undefined in C and there is no value. -/
def convertirAInt [FloorRing α] : Doble α → Option Int
  | fin v => enInt (truncar (fin v))
  | _ => none

/-! ## `ecuacion1.c`: scalar RK4 for `y' = x - y` -/

namespace Ecuacion1

/-- The macro `VALIDAR(variable)`: `verificar_nan_inf(#variable, variable, __LINE__)`. -/
def VALIDAR (nombre : String) (valor : Doble α) : Except Falla Unit :=
  verificar_nan_inf nombre valor

/-- The macro `EDO_FUNCION(x,y)`: `((x) - (y))`. -/
def EDO_FUNCION (x y : Doble α) : Doble α := x - y

/-- The macro `SOLUCION_EXACTA(x)`: `((x) - 1 + 2*exp(-(x)))`; the library function
`exp` is a parameter. -/
def SOLUCION_EXACTA (exp : α → α) (x : Doble α) : Doble α :=
  x - fin 1 + fin 2 * cexp exp (-x)

/-- The macro `X_INICIAL`, 0.0. -/
def X_INICIAL : Doble α := fin 0

/-- The macro `X_FINAL`, 5.0. -/
def X_FINAL : Doble α := fin 5

/-- The macro `Y_INICIAL`, 1.0. -/
def Y_INICIAL : Doble α := fin 1

/-- The macro `PASO_H`, 0.1. -/
def PASO_H : Doble α := fin (1 / 10)

/-- What a call of `rk4_validado` produces: the returned value, and whether the
instability warning was printed. -/
structure SalidaRK4 (α : Type) where
  resultado : Doble α
  inestable : Bool
  deriving DecidableEq, Repr

/-- The function `rk4_validado` (lines 85-127), with `EDO_FUNCION` as the parameter `f`. -/
def rk4_validado (f : Doble α → Doble α → Doble α) (x y h : Doble α) (paso_actual : Int) :
    Except Falla (SalidaRK4 α) := do
  let k1 := f x y
  VALIDAR "k1" k1
  let x2 := x + h / fin 2
  let y2 := y + h * k1 / fin 2
  VALIDAR "x2" x2
  VALIDAR "y2" y2
  let k2 := f x2 y2
  VALIDAR "k2" k2
  let x3 := x + h / fin 2
  let y3 := y + h * k2 / fin 2
  VALIDAR "x3" x3
  VALIDAR "y3" y3
  let k3 := f x3 y3
  VALIDAR "k3" k3
  let x4 := x + h
  let y4 := y + h * k3
  VALIDAR "x4" x4
  VALIDAR "y4" y4
  let k4 := f x4 y4
  VALIDAR "k4" k4
  let resultado := y + h * (k1 + fin 2 * k2 + fin 2 * k3 + k4) / fin 6
  VALIDAR "resultado" resultado
  pure { resultado := resultado,
         inestable := gt (fabs resultado) (fin (10 ^ 10)) && decide (paso_actual > 10) }

/-- How the integration loop of `main` is left.  `condicionFalsa`: the `while` condition
fails; `ultimoPunto`: the `break` at `x >= X_FINAL`; `valorInvalido`: the
`return EXIT_FAILURE` on a rejected `y`; `sinRecuperacion`: the `break` after a failed
half-step retry; `demasiadosPasos`: the `break` at the step cap; `numericFault`: an `exit`
inside `VALIDAR`; `sinCombustible`: budget of the model run used up (not a program state). -/
inductive Parada where
  | condicionFalsa : Parada
  | ultimoPunto : Parada
  | valorInvalido : Parada
  | sinRecuperacion : Parada
  | demasiadosPasos : Parada
  | numericFault (f : Falla) : Parada
  | sinCombustible : Parada
  deriving DecidableEq, Repr

/-- The variables of `main` that the loop changes, and the lines written so far to
`rk4_solucion.dat` (`x y`) and `rk4_error.dat` (`x error`). -/
structure Estado (α : Type) where
  x : Doble α
  y : Doble α
  paso : Int
  errores_numericos : Int
  error_maximo : Doble α
  datos_sol : List (Doble α × Doble α)
  datos_err : List (Doble α × Doble α)
  deriving DecidableEq, Repr

/-- Outcome of one evaluation of the loop condition and body. -/
inductive Paso (α : Type) where
  | sigue (s : Estado α) : Paso α
  | para (motivo : Parada) (s : Estado α) : Paso α
  deriving DecidableEq, Repr

/-- Lines 238-246: accept `y_nuevo`, advance `x` and `paso`, test the step cap. -/
def avanzar (h : Doble α) (pasos_totales : Int) (s : Estado α) (y_nuevo : Doble α) : Paso α :=
  let s1 : Estado α := { s with y := y_nuevo, x := s.x + h, paso := s.paso + 1 }
  if s1.paso > pasos_totales * 10 then .para .demasiadosPasos s1 else .sigue s1

/-- The `while` condition and body of the integration loop of `main` (lines 173-247),
with `EDO_FUNCION`, `SOLUCION_EXACTA`, `X_FINAL`, `PASO_H` and `pasos_totales` as
parameters. -/
def cuerpo (f : Doble α → Doble α → Doble α) (sol : Doble α → Doble α) (xFinal h : Doble α)
    (pasos_totales : Int) (s : Estado α) : Paso α :=
  if !(le s.x (xFinal + h / fin 2)) then .para .condicionFalsa s
  else
    let exacta := sol s.x
    trasValidar (VALIDAR "exacta" exacta) (fun e => .para (.numericFault e) s) <|
    let error := fabs (s.y - exacta)
    trasValidar (VALIDAR "error" error) (fun e => .para (.numericFault e) s) <|
    let s1 : Estado α :=
      { s with error_maximo := if gt error s.error_maximo then error else s.error_maximo }
    if !es_numerico_valido s.y then
      .para .valorInvalido { s1 with errores_numericos := s1.errores_numericos + 1 }
    else
      let s2 : Estado α :=
        { s1 with datos_sol := s1.datos_sol ++ [(s.x, s.y)],
                  datos_err := s1.datos_err ++ [(s.x, error)] }
      if ge s.x xFinal then .para .ultimoPunto s2
      else
        match rk4_validado f s.x s.y h s.paso with
        | .error e => .para (.numericFault e) s2
        | .ok r =>
          if !es_numerico_valido r.resultado then
            match rk4_validado f s.x s.y (h / fin 2) s.paso with
            | .error e => .para (.numericFault e) s2
            | .ok r1 =>
              match rk4_validado f (s.x + h / fin 2) r1.resultado (h / fin 2) s.paso with
              | .error e => .para (.numericFault e) s2
              | .ok r2 =>
                if es_numerico_valido r2.resultado then avanzar h pasos_totales s2 r2.resultado
                else .para .sinRecuperacion s2
          else avanzar h pasos_totales s2 r.resultado

/-- Whether the body executed from `s` reaches the call of `rk4_validado` at line 219:
the loop condition holds, `exacta` and `error` pass `VALIDAR`, `y` is accepted by
`es_numerico_valido` and `x` is not yet the last point. -/
def llegaAlPaso (sol : Doble α → Doble α) (xFinal h : Doble α) (s : Estado α) : Bool :=
  le s.x (xFinal + h / fin 2) && !terminaCorrida (VALIDAR "exacta" (sol s.x)) &&
    !terminaCorrida (VALIDAR "error" (fabs (s.y - sol s.x))) && es_numerico_valido s.y &&
    !ge s.x xFinal

/-- The state of the loop when line 219 is reached: `error_maximo` updated (lines 181-183)
and the two lines of the current point written (lines 212-213). -/
def trasEscribir (sol : Doble α → Doble α) (s : Estado α) : Estado α :=
  { s with error_maximo :=
             if gt (fabs (s.y - sol s.x)) s.error_maximo then fabs (s.y - sol s.x)
             else s.error_maximo,
           datos_sol := s.datos_sol ++ [(s.x, s.y)],
           datos_err := s.datos_err ++ [(s.x, fabs (s.y - sol s.x))] }

/-- The value of the specification (section 4.2) in the arithmetic of the program, without
any check: `y + h*(k1 + 2*k2 + 2*k3 + k4)/6` with the four slopes of `f`. -/
def pasoRK4SinValidar (f : Doble α → Doble α → Doble α) (x y h : Doble α) : Doble α :=
  let k1 := f x y
  let k2 := f (x + h / fin 2) (y + h * k1 / fin 2)
  let k3 := f (x + h / fin 2) (y + h * k2 / fin 2)
  let k4 := f (x + h) (y + h * k3)
  y + h * (k1 + fin 2 * k2 + fin 2 * k3 + k4) / fin 6

/-- The integration loop of `main`; the first argument bounds the repetitions of the
model run. -/
def bucle (f : Doble α → Doble α → Doble α) (sol : Doble α → Doble α) (xFinal h : Doble α)
    (pasos_totales : Int) : Nat → Estado α → Parada × Estado α
  | 0, s => (.sinCombustible, s)
  | n + 1, s =>
    match cuerpo f sol xFinal h pasos_totales s with
    | .sigue s1 => bucle f sol xFinal h pasos_totales n s1
    | .para motivo s1 => (motivo, s1)

/-- The estimate `pasos_totales = (int)((X_FINAL - X_INICIAL) / PASO_H) + 1` (line 144) as
an integer without bound: the value of the variable whenever the conversion and the sum
stay in the range of `int` (see `pasos_totales_int`). -/
def pasos_totales [FloorRing α] (xInicial xFinal h : Doble α) : Int :=
  truncar ((xFinal - xInicial) / h) + 1

/-- The variable `int pasos_totales = (int)((X_FINAL - X_INICIAL) / PASO_H) + 1` (line 144)
with the range of `int`: there is no value when the conversion or the sum leaves it. -/
def pasos_totales_int [FloorRing α] (xInicial xFinal h : Doble α) : Option Int :=
  (convertirAInt ((xFinal - xInicial) / h)).bind fun q => enInt (q + 1)

/-- The product `pasos_totales * 10` of the cap test `paso > pasos_totales * 10`
(line 243) with the range of `int`. -/
def tope_de_pasos (pasos_totales : Int) : Option Int :=
  enInt (pasos_totales * 10)

/-- The state in which `main` enters the loop (lines 141-143, 167-168). -/
def estadoInicial (xInicial yInicial : Doble α) : Estado α :=
  { x := xInicial, y := yInicial, paso := 0, errores_numericos := 0, error_maximo := fin 0,
    datos_sol := [], datos_err := [] }

/-- The integration of `main`, from the initial state, with the macros as parameters.
The step cap stops the loop after at most `10 * pasos_totales + 1` bodies, which is the
budget given to the model run. -/
def integrar [FloorRing α] (f : Doble α → Doble α → Doble α) (sol : Doble α → Doble α)
    (xInicial xFinal yInicial h : Doble α) : Parada × Estado α :=
  let n := pasos_totales xInicial xFinal h
  bucle f sol xFinal h n ((n * 10).toNat + 2) (estadoInicial xInicial yInicial)

/-- The step of the specification (section 4.2), over the exact field:
`k1 = f(x, y)`, `k2 = f(x + h/2, y + h*k1/2)`, `k3 = f(x + h/2, y + h*k2/2)`,
`k4 = f(x + h, y + h*k3)`, `y_next = y + h*(k1 + 2k2 + 2k3 + k4)/6`. -/
def pasoRK4Especificado (f : α → α → α) (x y h : α) : α :=
  let k1 := f x y
  let k2 := f (x + h / 2) (y + h * k1 / 2)
  let k3 := f (x + h / 2) (y + h * k2 / 2)
  let k4 := f (x + h) (y + h * k3)
  y + h * (k1 + 2 * k2 + 2 * k3 + k4) / 6

/-- The amplification factor of one RK4 step on `y' = x - y`: the degree-4 Taylor
polynomial of `exp(-h)`. -/
def factorRK4 (h : α) : α := 1 - h + h ^ 2 / 2 - h ^ 3 / 6 + h ^ 4 / 24

/-- Number of executions of the loop body in a run of the loop from state `s`
(the body that leaves the loop is counted). -/
def ejecuciones (f : Doble α → Doble α → Doble α) (sol : Doble α → Doble α)
    (xFinal h : Doble α) (pasos_totales : Int) : Nat → Estado α → Nat
  | 0, _ => 0
  | n + 1, s =>
    match cuerpo f sol xFinal h pasos_totales s with
    | .sigue s1 => ejecuciones f sol xFinal h pasos_totales n s1 + 1
    | .para _ _ => 1

/-- Lines 249-379 of `main`: what the run does once the loop is left.  A stop inside the
body by `return EXIT_FAILURE` (rejected `y`, line 202) or by the `exit` of `VALIDAR` has
already ended the run with failure; after the loop condition fails or after a `break`,
`main` goes through the report and returns
`(errores_numericos == 0) ? EXIT_SUCCESS : EXIT_FAILURE` (line 379).  The plot files are
not modelled; there is no exit status for a model run whose budget was used up. -/
def finDeMain (r : Parada × Estado α) : Option CodigoSalida :=
  match r.1 with
  | .sinCombustible => none
  | .valorInvalido => some .EXIT_FAILURE
  | .numericFault _ => some .EXIT_FAILURE
  | .condicionFalsa | .ultimoPunto | .sinRecuperacion | .demasiadosPasos =>
    if r.2.errores_numericos = 0 then some .EXIT_SUCCESS else some .EXIT_FAILURE

/-- The word printed after `Estado:` in the final summary (lines 369-370),
`(errores_numericos == 0) ? "EXITOSO" : "CON ADVERTENCIAS"`, when the run reaches it. -/
def estadoDelResumen (r : Parada × Estado α) : Option String :=
  match r.1 with
  | .sinCombustible => none
  | .valorInvalido => none
  | .numericFault _ => none
  | .condicionFalsa | .ultimoPunto | .sinRecuperacion | .demasiadosPasos =>
    if r.2.errores_numericos = 0 then some "EXITOSO" else some "CON ADVERTENCIAS"

/-- Whether the body executed from `s` enters the recovery branch of lines 222-236: it
reaches the call of line 219, the call returns, and `es_numerico_valido` rejects the
returned value. -/
def entraEnRecuperacion (f : Doble α → Doble α → Doble α) (sol : Doble α → Doble α)
    (xFinal h : Doble α) (s : Estado α) : Bool :=
  llegaAlPaso sol xFinal h s &&
    match rk4_validado f s.x s.y h s.paso with
    | .error _ => false
    | .ok r => !es_numerico_valido r.resultado

/-- The assignments of lines 219 and 238-240 (`y = rk4_validado(x, y, PASO_H, paso)`,
`x += PASO_H`, `paso++`) repeated `n` times from `(x, y, paso)`, without the tests of the
loop; a fault inside `rk4_validado` ends the repetition. -/
def pasosSeguidos (f : Doble α → Doble α → Doble α) (h : Doble α) :
    Nat → Doble α × Doble α × Int → Except Falla (Doble α × Doble α × Int)
  | 0, e => .ok e
  | n + 1, e =>
    match rk4_validado f e.1 e.2.1 h e.2.2 with
    | .error err => .error err
    | .ok r => pasosSeguidos f h n (e.1 + h, r.resultado, e.2.2 + 1)

end Ecuacion1

/-! ## `ecuacion2.c`: RK4 for `y'' + y = 0` as a system in `(y, y')` -/

namespace Ecuacion2

/-- The macro `VALIDAR(variable)`: `verificar_nan_inf(#variable, variable, __LINE__)`. -/
def VALIDAR (nombre : String) (valor : Doble α) : Except Falla Unit :=
  verificar_nan_inf nombre valor

/-- The macro `EDO_FUNCION(x,y,yp)`: `(-(y))`. -/
def EDO_FUNCION (_x y _yp : Doble α) : Doble α := -y

/-- The macro `SOLUCION_EXACTA(x)`: `(sin(x))`; the library function `sin` is a
parameter. -/
def SOLUCION_EXACTA (seno : α → α) (x : Doble α) : Doble α := ctrig seno x

/-- The macro `X_INICIAL`, 0.0. -/
def X_INICIAL : Doble α := fin 0

/-- The macro `X_FINAL`, `4*M_PI`; the constant `M_PI` is a parameter. -/
def X_FINAL (pi : α) : Doble α := fin 4 * fin pi

/-- The macro `Y_INICIAL`, 0.0. -/
def Y_INICIAL : Doble α := fin 0

/-- The macro `YP_INICIAL`, 1.0. -/
def YP_INICIAL : Doble α := fin 1

/-- The macro `PASO_H`, 0.05. -/
def PASO_H : Doble α := fin (5 / 100)

/-- What a call of `rk4_sistema_validado` produces: the values stored through the
pointers `y` and `yp`, and whether each of the two warnings was printed. -/
structure SalidaRK4 (α : Type) where
  y : Doble α
  yp : Doble α
  aviso_energia : Bool
  aviso_inestabilidad : Bool
  deriving DecidableEq, Repr

/-- The function `rk4_sistema_validado` (lines 83-145), with `EDO_FUNCION` as the
parameter `f`. -/
def rk4_sistema_validado (f : Doble α → Doble α → Doble α → Doble α) (x y yp h : Doble α)
    (paso_actual : Int) : Except Falla (SalidaRK4 α) := do
  let k1_y := yp
  let k1_yp := f x y yp
  VALIDAR "k1_y" k1_y
  VALIDAR "k1_yp" k1_yp
  let x2 := x + h / fin 2
  let y2 := y + h * k1_y / fin 2
  let yp2 := yp + h * k1_yp / fin 2
  VALIDAR "x2" x2
  VALIDAR "y2" y2
  VALIDAR "yp2" yp2
  let k2_y := yp2
  let k2_yp := f x2 y2 yp2
  VALIDAR "k2_y" k2_y
  VALIDAR "k2_yp" k2_yp
  let x3 := x + h / fin 2
  let y3 := y + h * k2_y / fin 2
  let yp3 := yp + h * k2_yp / fin 2
  VALIDAR "x3" x3
  VALIDAR "y3" y3
  VALIDAR "yp3" yp3
  let k3_y := yp3
  let k3_yp := f x3 y3 yp3
  VALIDAR "k3_y" k3_y
  VALIDAR "k3_yp" k3_yp
  let x4 := x + h
  let y4 := y + h * k3_y
  let yp4 := yp + h * k3_yp
  VALIDAR "x4" x4
  VALIDAR "y4" y4
  VALIDAR "yp4" yp4
  let k4_y := yp4
  let k4_yp := f x4 y4 yp4
  VALIDAR "k4_y" k4_y
  VALIDAR "k4_yp" k4_yp
  let y_nuevo := y + h * (k1_y + fin 2 * k2_y + fin 2 * k3_y + k4_y) / fin 6
  let yp_nuevo := yp + h * (k1_yp + fin 2 * k2_yp + fin 2 * k3_yp + k4_yp) / fin 6
  VALIDAR "y_nuevo" y_nuevo
  VALIDAR "yp_nuevo" yp_nuevo
  let energia_antes := y * y + yp * yp
  let energia_despues := y_nuevo * y_nuevo + yp_nuevo * yp_nuevo
  let delta_energia : Doble α := fabs (energia_despues - energia_antes)
  pure { y := y_nuevo, yp := yp_nuevo,
         aviso_energia := gt delta_energia (fin (1 / 100)) && decide (paso_actual > 10),
         aviso_inestabilidad :=
           gt (fabs y_nuevo) (fin 10 * fabs y) && decide (paso_actual > 5) }

/-- How the integration loop of `main` is left (see `Ecuacion1.Parada`). -/
inductive Parada where
  | condicionFalsa : Parada
  | ultimoPunto : Parada
  | valorInvalido : Parada
  | demasiadosPasos : Parada
  | numericFault (f : Falla) : Parada
  | sinCombustible : Parada
  deriving DecidableEq, Repr

/-- The variables of `main` that the loop changes, and the lines written so far to
`ypp_solucion.dat` (`x y`), `ypp_derivada.dat` (`x yp`) and `ypp_fase.dat` (`y yp`). -/
structure Estado (α : Type) where
  x : Doble α
  y : Doble α
  yp : Doble α
  paso : Int
  errores_numericos : Int
  error_maximo : Doble α
  datos_sol : List (Doble α × Doble α)
  datos_der : List (Doble α × Doble α)
  datos_fase : List (Doble α × Doble α)
  deriving DecidableEq, Repr

/-- Outcome of one evaluation of the loop condition and body. -/
inductive Paso (α : Type) where
  | sigue (s : Estado α) : Paso α
  | para (motivo : Parada) (s : Estado α) : Paso α
  deriving DecidableEq, Repr

/-- The `while` condition and body of the integration loop of `main` (lines 194-255),
with `EDO_FUNCION`, `SOLUCION_EXACTA`, `X_FINAL`, `PASO_H` and `pasos_totales` as
parameters. -/
def cuerpo (f : Doble α → Doble α → Doble α → Doble α) (sol : Doble α → Doble α)
    (xFinal h : Doble α) (pasos_totales : Int) (s : Estado α) : Paso α :=
  if !(le s.x (xFinal + h / fin 2)) then .para .condicionFalsa s
  else
    let exacta := sol s.x
    trasValidar (VALIDAR "exacta" exacta) (fun e => .para (.numericFault e) s) <|
    let error := fabs (s.y - exacta)
    trasValidar (VALIDAR "error" error) (fun e => .para (.numericFault e) s) <|
    let s1 : Estado α :=
      { s with error_maximo := if gt error s.error_maximo then error else s.error_maximo }
    let energia_actual := s.y * s.y + s.yp * s.yp
    trasValidar (VALIDAR "energia_actual" energia_actual)
      (fun e => .para (.numericFault e) s1) <|
    if !es_numerico_valido s.y || !es_numerico_valido s.yp then
      .para .valorInvalido { s1 with errores_numericos := s1.errores_numericos + 1 }
    else
      let s2 : Estado α :=
        { s1 with datos_sol := s1.datos_sol ++ [(s.x, s.y)],
                  datos_der := s1.datos_der ++ [(s.x, s.yp)],
                  datos_fase := s1.datos_fase ++ [(s.y, s.yp)] }
      if ge s.x xFinal then .para .ultimoPunto s2
      else
        match rk4_sistema_validado f s.x s.y s.yp h s.paso with
        | .error e => .para (.numericFault e) s2
        | .ok r =>
          let s3 : Estado α := { s2 with y := r.y, yp := r.yp, x := s.x + h, paso := s.paso + 1 }
          if s3.paso > pasos_totales * 10 then .para .demasiadosPasos s3 else .sigue s3

/-- The integration loop of `main`; the first argument bounds the repetitions of the
model run. -/
def bucle (f : Doble α → Doble α → Doble α → Doble α) (sol : Doble α → Doble α)
    (xFinal h : Doble α) (pasos_totales : Int) : Nat → Estado α → Parada × Estado α
  | 0, s => (.sinCombustible, s)
  | n + 1, s =>
    match cuerpo f sol xFinal h pasos_totales s with
    | .sigue s1 => bucle f sol xFinal h pasos_totales n s1
    | .para motivo s1 => (motivo, s1)

/-- The state in which `main` enters the loop (lines 159-162, 187-188). -/
def estadoInicial (xInicial yInicial ypInicial : Doble α) : Estado α :=
  { x := xInicial, y := yInicial, yp := ypInicial, paso := 0, errores_numericos := 0,
    error_maximo := fin 0, datos_sol := [], datos_der := [], datos_fase := [] }

end Ecuacion2

/-! ## `ecuacion3.c`: RK4 for the system `dx/dt = y`, `dy/dt = -x` -/

namespace Ecuacion3

/-- The macro `VALIDAR(variable)`: `verificar_nan_inf(#variable, variable, __LINE__)`. -/
def VALIDAR (nombre : String) (valor : Doble α) : Except Falla Unit :=
  verificar_nan_inf nombre valor

/-- The macro `F1(x,y)`: `(y)`. -/
def F1 (_x y : Doble α) : Doble α := y

/-- The macro `F2(x,y)`: `(-(x))`. -/
def F2 (x _y : Doble α) : Doble α := -x

/-- The macro `T_INICIAL`, 0.0. -/
def T_INICIAL : Doble α := fin 0

/-- The macro `T_FINAL`, 10.0. -/
def T_FINAL : Doble α := fin 10

/-- The macro `X_INICIAL`, 1.0. -/
def X_INICIAL : Doble α := fin 1

/-- The macro `Y_INICIAL`, 0.0. -/
def Y_INICIAL : Doble α := fin 0

/-- The macro `PASO_H`, 0.05. -/
def PASO_H : Doble α := fin (5 / 100)

/-- What a call of `rk4_sistema2_validado` produces: the values stored through the
pointers `x` and `y`, and whether each of the two warnings was printed. -/
structure SalidaRK4 (α : Type) where
  x : Doble α
  y : Doble α
  aviso_energia : Bool
  aviso_radio : Bool
  deriving DecidableEq, Repr

/-- The function `rk4_sistema2_validado` (lines 84-145), with `F1`, `F2` as the
parameters `f1`, `f2` and the library function `sqrt` as the parameter `raiz`; the
argument `t` is not used by the source. -/
def rk4_sistema2_validado (raiz : α → α) (f1 f2 : Doble α → Doble α → Doble α)
    (_t x y h : Doble α) (iter_actual : Int) : Except Falla (SalidaRK4 α) := do
  let k1_x := f1 x y
  let k1_y := f2 x y
  VALIDAR "k1_x" k1_x
  VALIDAR "k1_y" k1_y
  let x2 := x + h * k1_x / fin 2
  let y2 := y + h * k1_y / fin 2
  VALIDAR "x2" x2
  VALIDAR "y2" y2
  let k2_x := f1 x2 y2
  let k2_y := f2 x2 y2
  VALIDAR "k2_x" k2_x
  VALIDAR "k2_y" k2_y
  let x3 := x + h * k2_x / fin 2
  let y3 := y + h * k2_y / fin 2
  VALIDAR "x3" x3
  VALIDAR "y3" y3
  let k3_x := f1 x3 y3
  let k3_y := f2 x3 y3
  VALIDAR "k3_x" k3_x
  VALIDAR "k3_y" k3_y
  let x4 := x + h * k3_x
  let y4 := y + h * k3_y
  VALIDAR "x4" x4
  VALIDAR "y4" y4
  let k4_x := f1 x4 y4
  let k4_y := f2 x4 y4
  VALIDAR "k4_x" k4_x
  VALIDAR "k4_y" k4_y
  let x_nuevo := x + h * (k1_x + fin 2 * k2_x + fin 2 * k3_x + k4_x) / fin 6
  let y_nuevo := y + h * (k1_y + fin 2 * k2_y + fin 2 * k3_y + k4_y) / fin 6
  VALIDAR "x_nuevo" x_nuevo
  VALIDAR "y_nuevo" y_nuevo
  let energia_antes := x * x + y * y
  let energia_despues := x_nuevo * x_nuevo + y_nuevo * y_nuevo
  let delta_energia : Doble α := fabs (energia_despues - energia_antes)
  let radio : Doble α := csqrt raiz (x_nuevo * x_nuevo + y_nuevo * y_nuevo)
  pure { x := x_nuevo, y := y_nuevo,
         aviso_energia := gt delta_energia (fin (1 / 1000)) && decide (iter_actual > 10),
         aviso_radio := gt (fabs (radio - fin 1)) (fin (1 / 10)) && decide (iter_actual > 5) }

/-- The classical vector RK4 step of the specification (section 4.3) on a system of two
equations over the exact field: every stage advances both components with the previous
slopes of both components. -/
def pasoRK4SistemaEspecificado (f1 f2 : α → α → α) (x y h : α) : α × α :=
  let k1_x := f1 x y
  let k1_y := f2 x y
  let k2_x := f1 (x + h * k1_x / 2) (y + h * k1_y / 2)
  let k2_y := f2 (x + h * k1_x / 2) (y + h * k1_y / 2)
  let k3_x := f1 (x + h * k2_x / 2) (y + h * k2_y / 2)
  let k3_y := f2 (x + h * k2_x / 2) (y + h * k2_y / 2)
  let k4_x := f1 (x + h * k3_x) (y + h * k3_y)
  let k4_y := f2 (x + h * k3_x) (y + h * k3_y)
  (x + h * (k1_x + 2 * k2_x + 2 * k3_x + k4_x) / 6,
   y + h * (k1_y + 2 * k2_y + 2 * k3_y + k4_y) / 6)

/-- How the integration loop of `main` is left (see `Ecuacion1.Parada`). -/
inductive Parada where
  | condicionFalsa : Parada
  | ultimoPunto : Parada
  | valorInvalido : Parada
  | demasiadasIteraciones : Parada
  | numericFault (f : Falla) : Parada
  | sinCombustible : Parada
  deriving DecidableEq, Repr

/-- The variables of `main` that the loop changes, and the lines written so far to
`sistema_fase.dat` (`x y`), `sistema_x.dat` (`t x`) and `sistema_y.dat` (`t y`). -/
structure Estado (α : Type) where
  t : Doble α
  x : Doble α
  y : Doble α
  iter : Int
  errores_numericos : Int
  energia_max_desvio : Doble α
  datos_fase : List (Doble α × Doble α)
  datos_x : List (Doble α × Doble α)
  datos_y : List (Doble α × Doble α)
  deriving DecidableEq, Repr

/-- Outcome of one evaluation of the loop condition and body. -/
inductive Paso (α : Type) where
  | sigue (s : Estado α) : Paso α
  | para (motivo : Parada) (s : Estado α) : Paso α
  deriving DecidableEq, Repr

/-- The `while` condition and body of the integration loop of `main` (lines 199-258),
with `F1`, `F2`, `T_FINAL`, `PASO_H`, `energia_inicial` and `iter_totales` as
parameters.  The unused locals `x_exacto`, `y_exacto` are left out. -/
def cuerpo (raiz : α → α) (f1 f2 : Doble α → Doble α → Doble α) (tFinal h energia_inicial : Doble α)
    (iter_totales : Int) (s : Estado α) : Paso α :=
  if !(le s.t (tFinal + h / fin 2)) then .para .condicionFalsa s
  else
    let energia_actual := s.x * s.x + s.y * s.y
    trasValidar (VALIDAR "energia_actual" energia_actual) (fun e => .para (.numericFault e) s) <|
    let desvio_energia := fabs (energia_actual - energia_inicial)
    let s1 : Estado α :=
      { s with energia_max_desvio :=
          if gt desvio_energia s.energia_max_desvio then desvio_energia
          else s.energia_max_desvio }
    if !es_numerico_valido s.x || !es_numerico_valido s.y then
      .para .valorInvalido { s1 with errores_numericos := s1.errores_numericos + 1 }
    else
      let s2 : Estado α :=
        { s1 with datos_fase := s1.datos_fase ++ [(s.x, s.y)],
                  datos_x := s1.datos_x ++ [(s.t, s.x)],
                  datos_y := s1.datos_y ++ [(s.t, s.y)] }
      if ge s.t tFinal then .para .ultimoPunto s2
      else
        match rk4_sistema2_validado raiz f1 f2 s.t s.x s.y h s.iter with
        | .error e => .para (.numericFault e) s2
        | .ok r =>
          let s3 : Estado α := { s2 with x := r.x, y := r.y, t := s.t + h, iter := s.iter + 1 }
          if s3.iter > iter_totales * 10 then .para .demasiadasIteraciones s3 else .sigue s3

/-- The integration loop of `main`; the first argument bounds the repetitions of the
model run. -/
def bucle (raiz : α → α) (f1 f2 : Doble α → Doble α → Doble α) (tFinal h energia_inicial : Doble α)
    (iter_totales : Int) : Nat → Estado α → Parada × Estado α
  | 0, s => (.sinCombustible, s)
  | n + 1, s =>
    match cuerpo raiz f1 f2 tFinal h energia_inicial iter_totales s with
    | .sigue s1 => bucle raiz f1 f2 tFinal h energia_inicial iter_totales n s1
    | .para motivo s1 => (motivo, s1)

/-- The estimate `iter_totales = (int)((T_FINAL - T_INICIAL) / PASO_H) + 1` (line 163). -/
def iter_totales [FloorRing α] (tInicial tFinal h : Doble α) : Int :=
  truncar ((tFinal - tInicial) / h) + 1

/-- The state in which `main` enters the loop (lines 159-162, 193-194). -/
def estadoInicial (tInicial xInicial yInicial : Doble α) : Estado α :=
  { t := tInicial, x := xInicial, y := yInicial, iter := 0, errores_numericos := 0,
    energia_max_desvio := fin 0, datos_fase := [], datos_x := [], datos_y := [] }

/-- The integration of `main`, from the initial state, with the macros as parameters;
`energia_inicial = X_INICIAL*X_INICIAL + Y_INICIAL*Y_INICIAL` (line 165).  The
iteration cap stops the loop after at most `10 * iter_totales + 1` bodies, which is
the budget given to the model run. -/
def integrar [FloorRing α] (raiz : α → α) (f1 f2 : Doble α → Doble α → Doble α)
    (tInicial tFinal xInicial yInicial h : Doble α) : Parada × Estado α :=
  let n := iter_totales tInicial tFinal h
  bucle raiz f1 f2 tFinal h (xInicial * xInicial + yInicial * yInicial) n
    ((n * 10).toNat + 2) (estadoInicial tInicial xInicial yInicial)

end Ecuacion3

/-! ## `fourier.c`: quadrature of the Fourier coefficients and error analysis -/

namespace Fourier

/-- The macro `VALIDAR(variable)`: `verificar_nan_inf(#variable, variable, __LINE__)`. -/
def VALIDAR (nombre : String) (valor : Doble α) : Except Falla Unit :=
  verificar_nan_inf nombre valor

/-- The macro `FUNCION_ORIGINAL(x)`: `((x) < L ? (x) : (2*L - (x)))`, with the macro `L`
as a parameter. -/
def FUNCION_ORIGINAL (L x : Doble α) : Doble α := if lt x L then x else fin 2 * L - x

/-- The macro `L`, `M_PI`; the constant `M_PI` is a parameter. -/
def L (pi : α) : Doble α := fin pi

/-- The macro `N_TERMINOS`, 10. -/
def N_TERMINOS : Nat := 10

/-- The macro `GRAFICO_INICIO`, 0.0. -/
def GRAFICO_INICIO : Doble α := fin 0

/-- The macro `GRAFICO_FIN`, `2*M_PI`. -/
def GRAFICO_FIN (pi : α) : Doble α := fin 2 * fin pi

/-- How the computation of the coefficients (lines 115-179) ends the run: an `exit` inside
`VALIDAR`, or one of the three `return EXIT_FAILURE` (invalid `dx_int`, invalid function
value, overflow of a partial sum of the term `n`). -/
inductive Parada where
  | numericFault (f : Falla) : Parada
  | dxInvalido : Parada
  | funcionInvalida : Parada
  | overflow (n : Nat) : Parada
  deriving DecidableEq, Repr

/-- The variable `a0` and the arrays `an`, `bn` of `main`; the cells that the program
never writes (index 0 and the indices above `N_TERMINOS`) hold NaN in the model. -/
structure Coeficientes (α : Type) where
  a0 : Doble α
  an : Nat → Doble α
  bn : Nat → Doble α

/-- The loop of lines 128-140, `for (i = 0; i < puntos_int; i++)`: the first argument is
the number of iterations left, the second the index `i`, the third the accumulator `a0`. -/
def bucleA0 (f : Doble α → Doble α) (dx_int : Doble α) :
    Nat → Nat → Doble α → Except Parada (Doble α)
  | 0, _, a0 => .ok a0
  | k + 1, i, a0 =>
    let x := fin (i : α) * dx_int
    let fv := f x
    match VALIDAR "f" fv with
    | .error e => .error (.numericFault e)
    | .ok _ =>
      if !es_numerico_valido fv then .error .funcionInvalida
      else
        let a0 := a0 + fv
        match VALIDAR "a0" a0 with
        | .error e => .error (.numericFault e)
        | .ok _ => bucleA0 f dx_int k (i + 1) a0

/-- The inner loop of lines 150-169 for the term `n`: the first argument is the number of
iterations left, the second the index `i`, the third the pair `(suma_an, suma_bn)`.  The
library functions `cos`, `sin` and the constant `M_PI` are parameters. -/
def bucleSumas (coseno seno : α → α) (pi : α) (f : Doble α → Doble α) (L dx_int : Doble α)
    (n : Nat) : Nat → Nat → Doble α × Doble α → Except Parada (Doble α × Doble α)
  | 0, _, s => .ok s
  | k + 1, i, s =>
    let x := fin (i : α) * dx_int
    let fv := f x
    match VALIDAR "f" fv with
    | .error e => .error (.numericFault e)
    | .ok _ =>
      let cos_val := ctrig coseno (fin (n : α) * fin pi * x / L)
      let sin_val := ctrig seno (fin (n : α) * fin pi * x / L)
      match VALIDAR "cos_val" cos_val with
      | .error e => .error (.numericFault e)
      | .ok _ =>
        match VALIDAR "sin_val" sin_val with
        | .error e => .error (.numericFault e)
        | .ok _ =>
          let suma_an := s.1 + fv * cos_val
          let suma_bn := s.2 + fv * sin_val
          match VALIDAR "suma_an" suma_an with
          | .error e => .error (.numericFault e)
          | .ok _ =>
            match VALIDAR "suma_bn" suma_bn with
            | .error e => .error (.numericFault e)
            | .ok _ =>
              if gt (fabs suma_an) (fin (10 ^ 50)) || gt (fabs suma_bn) (fin (10 ^ 50)) then
                .error (.overflow n)
              else bucleSumas coseno seno pi f L dx_int n k (i + 1) (suma_an, suma_bn)

/-- The outer loop of lines 147-179, `for (n = 1; n <= N_TERMINOS; n++)`: the first
argument is the number of terms left, the second the index `n`, the third the arrays. -/
def bucleTerminos (coseno seno : α → α) (pi : α) (f : Doble α → Doble α) (L dx_int : Doble α)
    (puntos_int : Nat) :
    Nat → Nat → (Nat → Doble α) × (Nat → Doble α) →
      Except Parada ((Nat → Doble α) × (Nat → Doble α))
  | 0, _, t => .ok t
  | k + 1, n, t =>
    match bucleSumas coseno seno pi f L dx_int n puntos_int 0 (fin 0, fin 0) with
    | .error e => .error e
    | .ok s =>
      let an_n := s.1 * dx_int / L
      let bn_n := s.2 * dx_int / L
      match VALIDAR "an[n]" an_n with
      | .error e => .error (.numericFault e)
      | .ok _ =>
        match VALIDAR "bn[n]" bn_n with
        | .error e => .error (.numericFault e)
        | .ok _ =>
          bucleTerminos coseno seno pi f L dx_int puntos_int k (n + 1)
            (Function.update t.1 n an_n, Function.update t.2 n bn_n)

/-- The computation of the coefficients, lines 115-179 of `main`, with the macros
`FUNCION_ORIGINAL`, `L`, `N_TERMINOS` and the local `puntos_int` as parameters. -/
def calcularCoeficientes (coseno seno : α → α) (pi : α) (f : Doble α → Doble α) (L : Doble α)
    (nTerminos puntos_int : Nat) : Except Parada (Coeficientes α) :=
  let dx_int := fin 2 * L / fin (puntos_int : α)
  match VALIDAR "dx_int" dx_int with
  | .error e => .error (.numericFault e)
  | .ok _ =>
    if le dx_int (fin 0) then .error .dxInvalido
    else
      match bucleA0 f dx_int puntos_int 0 (fin 0) with
      | .error e => .error e
      | .ok suma =>
        let a0 := suma * (dx_int / L)
        match VALIDAR "a0" a0 with
        | .error e => .error (.numericFault e)
        | .ok _ =>
          match bucleTerminos coseno seno pi f L dx_int puntos_int nTerminos 1
              (fun _ => nan, fun _ => nan) with
          | .error e => .error e
          | .ok t => .ok { a0 := a0, an := t.1, bn := t.2 }

/-- The function of the program over the exact field: `x` below `L`, `2*L - x` from `L`
on. -/
def triangular (L x : α) : α := if x < L then x else 2 * L - x

/-- The quadrature sum of the specification (section 4.7) for `a0`:
`(dx/L) * sum f(x_i)` over `x_i = i*dx`, `i = 0 .. puntos - 1`, `dx = 2L/puntos`. -/
def a0Especificado (f : α → α) (L : α) (puntos : Nat) : α :=
  (2 * L / puntos / L) * ∑ i in Finset.range puntos, f (i * (2 * L / puntos))

/-- The quadrature sum of the specification for `a_n`:
`(dx/L) * sum f(x_i)*cos(n*pi*x_i/L)`. -/
def anEspecificado (coseno : α → α) (pi : α) (f : α → α) (L : α) (puntos n : Nat) : α :=
  (2 * L / puntos / L) *
    ∑ i in Finset.range puntos,
      f (i * (2 * L / puntos)) * coseno (n * pi * (i * (2 * L / puntos)) / L)

/-- The quadrature sum of the specification for `b_n`:
`(dx/L) * sum f(x_i)*sin(n*pi*x_i/L)`. -/
def bnEspecificado (seno : α → α) (pi : α) (f : α → α) (L : α) (puntos n : Nat) : α :=
  (2 * L / puntos / L) *
    ∑ i in Finset.range puntos,
      f (i * (2 * L / puntos)) * seno (n * pi * (i * (2 * L / puntos)) / L)

/-- The variables `error_cuadratico`, `error_maximo` and `puntos_validos` of the error
analysis of `main` (lines 289-318). -/
structure AnalisisError (α : Type) where
  error_cuadratico : Doble α
  error_maximo : Doble α
  puntos_validos : Nat

/-- The inner loop of lines 299-301, `for (n = 1; n <= N_TERMINOS; n++)`
`f_serie += an[n] * cos(n * M_PI * x / L) + bn[n] * sin(n * M_PI * x / L)`: the first
argument is the number of terms left, the second the index `n`, the third `f_serie`. -/
def bucleSerie (coseno seno : α → α) (pi : α) (L : Doble α) (c : Coeficientes α) (x : Doble α) :
    Nat → Nat → Doble α → Doble α
  | 0, _, f_serie => f_serie
  | k + 1, n, f_serie =>
    bucleSerie coseno seno pi L c x k (n + 1)
      (f_serie + (c.an n * ctrig coseno (fin (n : α) * fin pi * x / L) +
        c.bn n * ctrig seno (fin (n : α) * fin pi * x / L)))

/-- The loop of lines 294-309, `for (i = 0; i <= puntos_error; i++)`: the first argument
is the number of iterations left, the second the index `i`.  A point whose `f_orig` or
`f_serie` is not numerically valid is skipped. -/
def bucleError (coseno seno : α → α) (pi : α) (f : Doble α → Doble α)
    (L inicio final : Doble α) (c : Coeficientes α) (nTerminos puntos_error : Nat) :
    Nat → Nat → AnalisisError α → AnalisisError α
  | 0, _, s => s
  | k + 1, i, s =>
    let x := inicio + fin (i : α) * (final - inicio) / fin (puntos_error : α)
    let f_orig := f x
    let f_serie := bucleSerie coseno seno pi L c x nTerminos 1 (c.a0 / fin 2)
    if es_numerico_valido f_orig && es_numerico_valido f_serie then
      let error := fabs (f_orig - f_serie)
      bucleError coseno seno pi f L inicio final c nTerminos puntos_error k (i + 1)
        (AnalisisError.mk (s.error_cuadratico + error * error)
          (if gt error s.error_maximo then error else s.error_maximo) (s.puntos_validos + 1))
    else bucleError coseno seno pi f L inicio final c nTerminos puntos_error k (i + 1) s

/-- The error analysis of lines 289-318 of `main`, with the macros `FUNCION_ORIGINAL`, `L`,
`GRAFICO_INICIO`, `GRAFICO_FIN`, `N_TERMINOS` and the local `puntos_error` as parameters:
the loop, then `error_cuadratico = sqrt(error_cuadratico / puntos_validos)` when some point
was valid. -/
def analisisDeError (raiz coseno seno : α → α) (pi : α) (f : Doble α → Doble α)
    (L inicio final : Doble α) (c : Coeficientes α) (nTerminos puntos_error : Nat) :
    AnalisisError α :=
  let s := bucleError coseno seno pi f L inicio final c nTerminos puntos_error
    (puntos_error + 1) 0 (AnalisisError.mk (fin 0) (fin 0) 0)
  if 0 < s.puntos_validos then
    AnalisisError.mk (csqrt raiz (s.error_cuadratico / fin (s.puntos_validos : α)))
      s.error_maximo s.puntos_validos
  else s

/-- The `N`-term reconstruction of the specification:
`a0/2 + sum_{n = 1..N} (a_n*cos(n*pi*x/L) + b_n*sin(n*pi*x/L))`. -/
def serieEspecificada (coseno seno : α → α) (pi L a0 : α) (a b : Nat → α) (N : Nat) (x : α) : α :=
  a0 / 2 + ∑ n in Finset.Icc 1 N, (a n * coseno (n * pi * x / L) + b n * seno (n * pi * x / L))

/-- The mean-squared error of the specification between `f` and its `N`-term
reconstruction over the grid `x_j = inicio + j*(final - inicio)/puntos`, `j = 0..puntos`. -/
def errorCuadraticoMedio (coseno seno : α → α) (pi L : α) (f : α → α) (a0 : α) (a b : Nat → α)
    (inicio final : α) (puntos N : Nat) : α :=
  (∑ j in Finset.range (puntos + 1),
    (f (inicio + j * (final - inicio) / puntos) -
      serieEspecificada coseno seno pi L a0 a b N (inicio + j * (final - inicio) / puntos)) ^ 2) /
    ((puntos + 1 : Nat) : α)

/-- The macro `PUNTOS_GRAFICO`, 500. -/
def PUNTOS_GRAFICO : Nat := 500

/-- The term added by the reconstruction for the index `n` (line 212):
`an[n] * cos(n * M_PI * x / L) + bn[n] * sin(n * M_PI * x / L)`. -/
def termino (coseno seno : α → α) (pi : α) (L : Doble α) (c : Coeficientes α) (x : Doble α)
    (n : Nat) : Doble α :=
  c.an n * ctrig coseno (fin (n : α) * fin pi * x / L) +
    c.bn n * ctrig seno (fin (n : α) * fin pi * x / L)

/-- The inner loop of lines 211-225, `for (n = 1; n <= N_TERMINOS; n++)`: the first
argument is the number of terms left, the second the index `n`, the third `f_serie`.  The
result is the value of `f_serie` after the loop and whether the divergence branch of lines
219-224 was taken; an `exit` inside `VALIDAR` ends the run. -/
def bucleSerieGrafico (coseno seno : α → α) (pi : α) (L : Doble α) (c : Coeficientes α)
    (x : Doble α) : Nat → Nat → Doble α → Except Falla (Doble α × Bool)
  | 0, _, f_serie => .ok (f_serie, false)
  | k + 1, n, f_serie =>
    let t := termino coseno seno pi L c x n
    match VALIDAR "termino" t with
    | .error e => .error e
    | .ok _ =>
      let f_serie := f_serie + t
      match VALIDAR "f_serie" f_serie with
      | .error e => .error e
      | .ok _ =>
        if !es_numerico_valido f_serie then .ok (fin 0, true)
        else bucleSerieGrafico coseno seno pi L c x k (n + 1) f_serie

/-- The variable `errores_puntos` and the lines written so far to `fourier_original.dat`
(`x f_orig`) and `fourier_serie.dat` (`x f_serie`). -/
structure EstadoGrafico (α : Type) where
  errores_puntos : Int
  orig : List (Doble α × Doble α)
  serie : List (Doble α × Doble α)

/-- The body of the loop of lines 199-240 for the sample `i`, with the macros
`FUNCION_ORIGINAL`, `L`, `GRAFICO_INICIO`, `N_TERMINOS` as parameters.  The progress line
is not modelled. -/
def muestraGrafico (coseno seno : α → α) (pi : α) (f : Doble α → Doble α)
    (L inicio dx : Doble α) (c : Coeficientes α) (nTerminos : Nat) (i : Nat)
    (s : EstadoGrafico α) : Except Falla (EstadoGrafico α) :=
  let x := inicio + fin (i : α) * dx
  match VALIDAR "x" x with
  | .error e => .error e
  | .ok _ =>
    let f_orig := f x
    match VALIDAR "f_orig" f_orig with
    | .error e => .error e
    | .ok _ =>
      let f_serie := c.a0 / fin 2
      match VALIDAR "f_serie" f_serie with
      | .error e => .error e
      | .ok _ =>
        match bucleSerieGrafico coseno seno pi L c x nTerminos 1 f_serie with
        | .error e => .error e
        | .ok r =>
          let errores := if r.2 then s.errores_puntos + 1 else s.errores_puntos
          if es_numerico_valido f_orig && es_numerico_valido r.1 then
            .ok (EstadoGrafico.mk errores (s.orig ++ [(x, f_orig)]) (s.serie ++ [(x, r.1)]))
          else .ok (EstadoGrafico.mk (errores + 1) s.orig s.serie)

/-- The loop of lines 199-240, `for (i = 0; i <= PUNTOS_GRAFICO; i++)`: the first argument
is the number of samples left, the second the index `i`. -/
def bucleGrafico (coseno seno : α → α) (pi : α) (f : Doble α → Doble α)
    (L inicio dx : Doble α) (c : Coeficientes α) (nTerminos : Nat) :
    Nat → Nat → EstadoGrafico α → Except Falla (EstadoGrafico α)
  | 0, _, s => .ok s
  | k + 1, i, s =>
    match muestraGrafico coseno seno pi f L inicio dx c nTerminos i s with
    | .error e => .error e
    | .ok s1 => bucleGrafico coseno seno pi f L inicio dx c nTerminos k (i + 1) s1

/-- Lines 194-240 of `main`: `dx = (GRAFICO_FIN - GRAFICO_INICIO) / PUNTOS_GRAFICO`,
`VALIDAR(dx)`, then the loop over the samples `i = 0 .. PUNTOS_GRAFICO` from
`errores_puntos = 0` and the two empty data files. -/
def generarDatos (coseno seno : α → α) (pi : α) (f : Doble α → Doble α)
    (L inicio final : Doble α) (c : Coeficientes α) (nTerminos puntos : Nat) :
    Except Falla (EstadoGrafico α) :=
  let dx := (final - inicio) / fin (puntos : α)
  match VALIDAR "dx" dx with
  | .error e => .error e
  | .ok _ =>
    bucleGrafico coseno seno pi f L inicio dx c nTerminos (puntos + 1) 0
      (EstadoGrafico.mk 0 [] [])

/-- The partial sums of the reconstruction in the arithmetic of the program:
`a0 / 2`, then one `termino` more for each index. -/
def sumaParcial (coseno seno : α → α) (pi : α) (L : Doble α) (c : Coeficientes α)
    (x : Doble α) : Nat → Doble α
  | 0 => c.a0 / fin 2
  | n + 1 => sumaParcial coseno seno pi L c x n + termino coseno seno pi L c x (n + 1)

end Fourier

/-! ## `derivadas.c`: central differences and the sampling loop -/

namespace Derivadas

/-- The macro `VALIDAR(variable)`: `verificar_nan_inf(#variable, variable, __LINE__)`. -/
def VALIDAR (nombre : String) (valor : Doble α) : Except Falla Unit :=
  verificar_nan_inf nombre valor

/-- The macro `FUNCION_X(x)`: `(sin(x) + (x)*(x))`; the library function `sin` is a
parameter. -/
def FUNCION_X (seno : α → α) (x : Doble α) : Doble α := ctrig seno x + x * x

/-- The macro `PUNTO_X0`, 1.0. -/
def PUNTO_X0 : Doble α := fin 1

/-- The macro `PASO_H`, 0.0001. -/
def PASO_H : Doble α := fin (1 / 10 ^ 4)

/-- The macro `GRAFICO_INICIO`, `(PUNTO_X0 - 2.0)`. -/
def GRAFICO_INICIO : Doble α := PUNTO_X0 - fin 2

/-- The macro `GRAFICO_FIN`, `(PUNTO_X0 + 2.0)`. -/
def GRAFICO_FIN : Doble α := PUNTO_X0 + fin 2

/-- The macro `GRAFICO_PUNTOS`, 100. -/
def GRAFICO_PUNTOS : Nat := 100

/-- What a call of `calcular_derivada_primera` produces: the returned value, and whether
the warning of lines 105-108 was printed. -/
structure SalidaDerivada (α : Type) where
  derivada : Doble α
  aviso_diferencia : Bool

/-- The function `calcular_derivada_primera` (lines 97-114), with `FUNCION_X` as the
parameter `f`. -/
def calcular_derivada_primera (f : Doble α → Doble α) (x0 h : Doble α) :
    Except Falla (SalidaDerivada α) := do
  let f_plus := f (x0 + h)
  let f_minus := f (x0 - h)
  VALIDAR "f_plus" f_plus
  VALIDAR "f_minus" f_minus
  let derivada := (f_plus - f_minus) / (fin 2 * h)
  VALIDAR "derivada" derivada
  pure { derivada := derivada,
         aviso_diferencia := lt (fabs (f_plus - f_minus)) (fin (1 / 10 ^ 15)) }

/-- How the statements from the label `try_calc` to line 310 end for one sample: the
values are accepted (`valido` stays 1), the sample is given up (`valido = 0`, lines
307-308), or the budget of the model run is used up while jumping back (not a program
state).  The first component is the value of `h` at that moment. -/
inductive Intento (α : Type) where
  | aceptado (h d1 d2 : Doble α) : Intento α
  | abandonado (h : Doble α) : Intento α
  | sinCombustible : Intento α

/-- The statements from the label `try_calc` (line 296) to line 310, with `FUNCION_X` as
the parameter `f`; the first argument bounds the number of passes through the label. -/
def try_calc (f : Doble α → Doble α) (x : Doble α) : Nat → Doble α → Intento α
  | 0, _ => .sinCombustible
  | k + 1, h =>
    let d1 := (f (x + h) - f (x - h)) / (fin 2 * h)
    let d2 := (f (x + h) - fin 2 * f x + f (x - h)) / (h * h)
    if !es_numerico_valido d1 || !es_numerico_valido d2 then
      if gt h (fin (1 / 10 ^ 10)) then try_calc f x k (h * fin 2)
      else .abandonado h
    else .aceptado h d1 d2

/-- The variables of `main` that the sampling loop changes, and the lines written so far
to `derivadas.dat` (`x d1 d2`). -/
structure EstadoMuestreo (α : Type) where
  h : Doble α
  puntos_validos : Int
  puntos_invalidos : Int
  datos : List (Doble α × Doble α × Doble α)

/-- The loop of lines 289-322, `for (i = 0; i <= GRAFICO_PUNTOS; i++)`: the first argument
bounds the passes through `try_calc` of each sample, the second is the number of samples
left, the third the index `i`.  The result is `none` when the budget of a sample was used
up. -/
def bucleMuestreo (f : Doble α → Doble α) (inicio dx_graf : Doble α) (presupuesto : Nat) :
    Nat → Nat → EstadoMuestreo α → Option (EstadoMuestreo α)
  | 0, _, s => some s
  | k + 1, i, s =>
    let x := inicio + fin (i : α) * dx_graf
    match try_calc f x presupuesto s.h with
    | .sinCombustible => none
    | .abandonado h =>
      bucleMuestreo f inicio dx_graf presupuesto k (i + 1)
        (EstadoMuestreo.mk h s.puntos_validos (s.puntos_invalidos + 1) s.datos)
    | .aceptado h d1 d2 =>
      bucleMuestreo f inicio dx_graf presupuesto k (i + 1)
        (EstadoMuestreo.mk h (s.puntos_validos + 1) s.puntos_invalidos
          (s.datos ++ [(x, d1, d2)]))

/-- The sampling of `main` (lines 286-322) from the state in which the loop is entered:
`h` holds `PASO_H`, both counters are zero, `dx_graf = (GRAFICO_FIN - GRAFICO_INICIO) /
GRAFICO_PUNTOS`. -/
def muestrear (f : Doble α → Doble α) (inicio final h : Doble α) (puntos presupuesto : Nat) :
    Option (EstadoMuestreo α) :=
  bucleMuestreo f inicio ((final - inicio) / fin (puntos : α)) presupuesto (puntos + 1) 0
    (EstadoMuestreo.mk h 0 0 [])

end Derivadas

/-! # Lemmas and theorems -/

namespace Doble

variable {α : Type} [LinearOrderedField α]

@[simp] theorem fin_add_fin (a b : α) : (fin a + fin b : Doble α) = fin (a + b) := rfl

@[simp] theorem fin_sub_fin (a b : α) : (fin a - fin b : Doble α) = fin (a - b) := by
  show add (fin a) (neg (fin b)) = fin (a - b)
  simp [add, neg, sub_eq_add_neg]

@[simp] theorem fin_mul_fin (a b : α) : (fin a * fin b : Doble α) = fin (a * b) := rfl

@[simp] theorem neg_fin (a : α) : (-(fin a) : Doble α) = fin (-a) := rfl

theorem fin_div_fin (a b : α) (hb : b ≠ 0) : (fin a / fin b : Doble α) = fin (a / b) := by
  show div (fin a) (fin b) = fin (a / b)
  simp [div, hb]

@[simp] theorem fin_div_two (a : α) : (fin a / fin 2 : Doble α) = fin (a / 2) :=
  fin_div_fin a 2 two_ne_zero

@[simp] theorem fin_div_six (a : α) : (fin a / fin 6 : Doble α) = fin (a / 6) :=
  fin_div_fin a 6 (by norm_num)

@[simp] theorem fabs_fin (a : α) : fabs (fin a) = fin |a| := rfl

@[simp] theorem lt_fin_fin (a b : α) : lt (fin a) (fin b) = decide (a < b) := rfl

@[simp] theorem gt_fin_fin (a b : α) : gt (fin a) (fin b) = decide (b < a) := rfl

@[simp] theorem le_fin_fin (a b : α) : le (fin a) (fin b) = decide (a ≤ b) := rfl

@[simp] theorem ge_fin_fin (a b : α) : ge (fin a) (fin b) = decide (b ≤ a) := rfl

omit [LinearOrderedField α] in
@[simp] theorem isnan_fin (a : α) : isnan (fin a) = false := rfl

omit [LinearOrderedField α] in
@[simp] theorem isinf_fin (a : α) : isinf (fin a) = false := rfl

end Doble

/-! ## The numeric guard (C1) -/

section Guardia

theorem es_numerico_valido_fin (r : α) :
    es_numerico_valido (fin r) = decide (|r| ≤ 10 ^ 100) := by
  unfold es_numerico_valido
  generalize (10 : α) ^ 100 = c
  simp only [isnan_fin, isinf_fin, fabs_fin, gt_fin_fin, Bool.false_or]
  by_cases h : c < |r|
  · simp [h, not_le.2 h]
  · simp [h, le_of_not_lt h]

theorem es_numerico_valido_eq_true_iff (v : Doble α) :
    es_numerico_valido v = true ↔ ∃ r, v = fin r ∧ |r| ≤ 10 ^ 100 := by
  cases v with
  | nan => unfold es_numerico_valido; generalize (10 : α) ^ 100 = c; simp [isnan]
  | posInf => unfold es_numerico_valido; generalize (10 : α) ^ 100 = c; simp [isnan, isinf]
  | negInf => unfold es_numerico_valido; generalize (10 : α) ^ 100 = c; simp [isnan, isinf]
  | fin r => rw [es_numerico_valido_fin]; generalize (10 : α) ^ 100 = c; simp

theorem es_numerico_valido_eq_false_iff (v : Doble α) :
    es_numerico_valido v = false ↔
      (v = nan ∨ v = posInf ∨ v = negInf ∨ ∃ r, v = fin r ∧ |r| > 10 ^ 100) := by
  cases v with
  | nan => unfold es_numerico_valido; generalize (10 : α) ^ 100 = c; simp [isnan]
  | posInf => unfold es_numerico_valido; generalize (10 : α) ^ 100 = c; simp [isnan, isinf]
  | negInf => unfold es_numerico_valido; generalize (10 : α) ^ 100 = c; simp [isnan, isinf]
  | fin r => rw [es_numerico_valido_fin]; generalize (10 : α) ^ 100 = c; simp

theorem es_numerico_valido_1e101 :
    es_numerico_valido (fin (10 ^ 101) : Doble α) = false := by
  rw [es_numerico_valido_fin, decide_eq_false_iff_not, not_le, abs_of_nonneg (by positivity)]
  exact pow_lt_pow_right₀ (by norm_num) (by norm_num)

/-- C1: `es_numerico_valido(v)` is false exactly when `v` is NaN, infinite, or has
`|v| > 1e100`; it rejects NaN, `+Inf`, `-Inf` and `1e101`, and accepts `0.0`, `-1e99`,
`1e99` and the boundary value `1e100`. -/
theorem C1_es_numerico_valido_contrato :
    (∀ v : Doble α, es_numerico_valido v = false ↔
      (v = nan ∨ v = posInf ∨ v = negInf ∨ ∃ r, v = fin r ∧ |r| > 10 ^ 100)) ∧
    es_numerico_valido (nan : Doble α) = false ∧
    es_numerico_valido (posInf : Doble α) = false ∧
    es_numerico_valido (negInf : Doble α) = false ∧
    es_numerico_valido (fin (10 ^ 101) : Doble α) = false ∧
    es_numerico_valido (fin 0 : Doble α) = true ∧
    es_numerico_valido (fin (-(10 ^ 99)) : Doble α) = true ∧
    es_numerico_valido (fin (10 ^ 99) : Doble α) = true ∧
    es_numerico_valido (fin (10 ^ 100) : Doble α) = true := by
  refine ⟨es_numerico_valido_eq_false_iff, ?_, ?_, ?_, ?_, ?_, ?_, ?_, ?_⟩
  · exact (es_numerico_valido_eq_false_iff _).2 (Or.inl rfl)
  · exact (es_numerico_valido_eq_false_iff _).2 (Or.inr (Or.inl rfl))
  · exact (es_numerico_valido_eq_false_iff _).2 (Or.inr (Or.inr (Or.inl rfl)))
  · exact es_numerico_valido_1e101
  · rw [es_numerico_valido_fin, decide_eq_true_iff, abs_zero]
    positivity
  · rw [es_numerico_valido_fin, decide_eq_true_iff, abs_neg, abs_of_nonneg (by positivity)]
    exact pow_le_pow_right₀ (by norm_num) (by norm_num)
  · rw [es_numerico_valido_fin, decide_eq_true_iff, abs_of_nonneg (by positivity)]
    exact pow_le_pow_right₀ (by norm_num) (by norm_num)
  · rw [es_numerico_valido_fin, decide_eq_true_iff, abs_of_nonneg (by positivity)]

end Guardia

/-! ## The fail-fast check, program by program (C10) -/

section Verificar

theorem verificar_completa_aux (v : Doble α) (e1 e2 e3 : Falla) :
    terminaCorrida
      (if isnan v then Except.error e1 else if isinf v then Except.error e2
       else if !es_numerico_valido v then Except.error e3 else Except.ok ())
      = !es_numerico_valido v := by
  cases v with
  | nan => rw [(es_numerico_valido_eq_false_iff _).2 (Or.inl rfl)]; rfl
  | posInf => rw [(es_numerico_valido_eq_false_iff _).2 (Or.inr (Or.inl rfl))]; rfl
  | negInf => rw [(es_numerico_valido_eq_false_iff _).2 (Or.inr (Or.inr (Or.inl rfl)))]; rfl
  | fin r =>
    simp only [isnan_fin, isinf_fin, Bool.false_eq_true, if_false]
    cases es_numerico_valido (fin r) <;> rfl

omit [LinearOrderedField α] in
theorem verificar_basica_aux (v : Doble α) (e1 e2 : Falla) :
    terminaCorrida
      (if isnan v then Except.error e1 else if isinf v then Except.error e2 else Except.ok ())
      = (isnan v || isinf v) := by
  cases v <;> rfl

/-- C10 (counterexample): in `ecuacion1.c` the finite value `1e101` is rejected by
`es_numerico_valido`, yet `verificar_nan_inf` returns normally on it. -/
theorem C10_contraejemplo_ecuacion1 :
    es_numerico_valido (fin (10 ^ 101) : Doble ℚ) = false ∧
    terminaCorrida (Ecuacion1.verificar_nan_inf "resultado" (fin (10 ^ 101) : Doble ℚ)) = false :=
  ⟨es_numerico_valido_1e101, rfl⟩

/-- C10 (amended): in `newtonrhapson.c`, `newtonsistemas.c` and `derivadas.c`,
`verificar_nan_inf` ends the run exactly when `es_numerico_valido` is false; in
`ecuacion1.c`, `ecuacion2.c`, `ecuacion3.c` and `fourier.c` it ends the run exactly when
the value is NaN or infinite, and returns normally for every finite value. -/
theorem C10_verificar_nan_inf_por_programa (nombre : String) (v : Doble α) :
    terminaCorrida (Newtonrhapson.verificar_nan_inf nombre v) = !es_numerico_valido v ∧
    terminaCorrida (Newtonsistemas.verificar_nan_inf nombre v) = !es_numerico_valido v ∧
    terminaCorrida (Derivadas.verificar_nan_inf nombre v) = !es_numerico_valido v ∧
    terminaCorrida (Ecuacion1.verificar_nan_inf nombre v) = (isnan v || isinf v) ∧
    terminaCorrida (Ecuacion2.verificar_nan_inf nombre v) = (isnan v || isinf v) ∧
    terminaCorrida (Ecuacion3.verificar_nan_inf nombre v) = (isnan v || isinf v) ∧
    terminaCorrida (Fourier.verificar_nan_inf nombre v) = (isnan v || isinf v) ∧
    (∀ r : α, (isnan (fin r) || isinf (fin r)) = false) :=
  ⟨verificar_completa_aux v _ _ _, verificar_completa_aux v _ _ _,
   verificar_completa_aux v _ _ _, verificar_basica_aux v _ _, verificar_basica_aux v _ _,
   verificar_basica_aux v _ _, verificar_basica_aux v _ _, fun _ => rfl⟩

end Verificar

/-! ## The scalar RK4 step on finite values (C2) -/

namespace Ecuacion1

omit [LinearOrderedField α] in
@[simp] theorem VALIDAR_fin_e1 (nombre : String) (v : α) :
    VALIDAR nombre (fin v) = Except.ok () := rfl

theorem rk4_validado_fin (x y h : α) (paso : Int) :
    rk4_validado EDO_FUNCION (fin x) (fin y) (fin h) paso =
      Except.ok
        { resultado := fin (pasoRK4Especificado (fun a b => a - b) x y h),
          inestable :=
            decide ((10 : α) ^ 10 < |pasoRK4Especificado (fun a b => a - b) x y h|)
              && decide (paso > 10) } := by
  simp only [rk4_validado, EDO_FUNCION, pasoRK4Especificado, fin_sub_fin, fin_add_fin,
    fin_mul_fin, fin_div_two, fin_div_six, VALIDAR_fin_e1, bind, Except.bind, pure, Except.pure,
    fabs_fin, gt_fin_fin]

end Ecuacion1

/-- C2: on finite arguments `rk4_validado(x, y, h, paso)` returns, for every step index,
`y + h*(k1 + 2*k2 + 2*k3 + k4)/6` with `k1..k4` the four slopes of `f(x,y) = x - y`
(no `VALIDAR` fault can occur), the warning flag being the only effect of `paso`. -/
theorem C2_rk4_validado_formula (x y h : α) (paso : Int) :
    Ecuacion1.rk4_validado Ecuacion1.EDO_FUNCION (fin x) (fin y) (fin h) paso =
      Except.ok
        { resultado := fin (Ecuacion1.pasoRK4Especificado (fun a b => a - b) x y h),
          inestable :=
            decide ((10 : α) ^ 10 < |Ecuacion1.pasoRK4Especificado (fun a b => a - b) x y h|)
              && decide (paso > 10) } ∧
    Ecuacion1.pasoRK4Especificado (fun a b => a - b) x y h =
      y + h * ((x - y) + 2 * ((x + h / 2) - (y + h * (x - y) / 2))
        + 2 * ((x + h / 2) - (y + h * ((x + h / 2) - (y + h * (x - y) / 2)) / 2))
        + ((x + h) - (y + h * ((x + h / 2) -
            (y + h * ((x + h / 2) - (y + h * (x - y) / 2)) / 2)))) ) / 6 :=
  ⟨Ecuacion1.rk4_validado_fin x y h paso, rfl⟩

/-! ## The closed-form 2x2 solve (C8) -/

namespace Newtonsistemas

theorem incrementos_fin (f1 f2 a b c d : α) (hdet : a * d - b * c ≠ 0) :
    incrementos (fin f1) (fin f2) (fin a) (fin b) (fin c) (fin d)
        (determinante (fin a) (fin b) (fin c) (fin d)) =
      (fin ((-f1 * d + f2 * b) / (a * d - b * c)), fin ((-a * f2 + f1 * c) / (a * d - b * c))) := by
  simp only [incrementos, determinante, fin_mul_fin, fin_sub_fin, neg_fin, fin_add_fin,
    fin_div_fin _ _ hdet]

end Newtonsistemas

/-- C8: when `det = df1_dx*df2_dy - df1_dy*df2_dx` is nonzero, the increments computed by
the 2-D Newton step are `dx = (-f1*df2_dy + f2*df1_dy)/det`,
`dy = (-df1_dx*f2 + f1*df2_dx)/det`, and they are the unique solution of
`df1_dx*dx + df1_dy*dy = -f1`, `df2_dx*dx + df2_dy*dy = -f2`. -/
theorem C8_incrementos_solucion_unica (f1 f2 df1_dx df1_dy df2_dx df2_dy : α)
    (hdet : df1_dx * df2_dy - df1_dy * df2_dx ≠ 0) :
    ∃ dx dy : α,
      Newtonsistemas.incrementos (fin f1) (fin f2) (fin df1_dx) (fin df1_dy) (fin df2_dx)
          (fin df2_dy)
          (Newtonsistemas.determinante (fin df1_dx) (fin df1_dy) (fin df2_dx) (fin df2_dy))
        = (fin dx, fin dy) ∧
      dx = (-f1 * df2_dy + f2 * df1_dy) / (df1_dx * df2_dy - df1_dy * df2_dx) ∧
      dy = (-df1_dx * f2 + f1 * df2_dx) / (df1_dx * df2_dy - df1_dy * df2_dx) ∧
      (df1_dx * dx + df1_dy * dy = -f1 ∧ df2_dx * dx + df2_dy * dy = -f2) ∧
      ∀ u v : α, df1_dx * u + df1_dy * v = -f1 → df2_dx * u + df2_dy * v = -f2 →
        u = dx ∧ v = dy := by
  refine ⟨_, _, Newtonsistemas.incrementos_fin f1 f2 df1_dx df1_dy df2_dx df2_dy hdet,
    rfl, rfl, ⟨?_, ?_⟩, ?_⟩
  · field_simp
    ring
  · field_simp
    ring
  · intro u v h1 h2
    constructor
    · rw [eq_div_iff hdet]
      linear_combination df2_dy * h1 - df1_dy * h2
    · rw [eq_div_iff hdet]
      linear_combination df1_dx * h2 - df2_dx * h1

/-- C8 (witness): the Jacobian `[[2, 2], [1, 3]]` with residuals `(-2, 1)` over ℚ. -/
theorem C8_incrementos_solucion_unica_witness :
    ((2 : ℚ) * 3 - 2 * 1 ≠ 0) ∧
    ∃ dx dy : ℚ,
      Newtonsistemas.incrementos (fin (-2)) (fin 1) (fin 2) (fin 2) (fin 1) (fin 3)
          (Newtonsistemas.determinante (fin 2) (fin 2) (fin 1) (fin 3))
        = (fin dx, fin dy) ∧
      dx = (-(-2) * 3 + 1 * 2) / (2 * 3 - 2 * 1) ∧
      dy = (-2 * 1 + (-2) * 1) / (2 * 3 - 2 * 1) ∧
      (2 * dx + 2 * dy = -(-2) ∧ 1 * dx + 3 * dy = -1) ∧
      ∀ u v : ℚ, 2 * u + 2 * v = -(-2) → 1 * u + 3 * v = -1 → u = dx ∧ v = dy :=
  ⟨by norm_num, C8_incrementos_solucion_unica (-2) 1 2 2 1 3 (by norm_num)⟩

/-! ## The scalar Newton loop: termination, zero derivative, configured run (C4, C5, C9) -/

namespace Newtonrhapson

theorem VALIDAR_ok_iff (nombre : String) (v : Doble α) :
    VALIDAR nombre v = Except.ok () ↔ es_numerico_valido v = true := by
  unfold VALIDAR verificar_nan_inf
  cases v with
  | nan => simp [isnan, (es_numerico_valido_eq_false_iff (nan : Doble α)).2 (Or.inl rfl)]
  | posInf =>
    simp [isnan, isinf, (es_numerico_valido_eq_false_iff (posInf : Doble α)).2 (Or.inr (Or.inl rfl))]
  | negInf =>
    simp [isnan, isinf,
      (es_numerico_valido_eq_false_iff (negInf : Doble α)).2 (Or.inr (Or.inr (Or.inl rfl)))]
  | fin r =>
    simp only [isnan_fin, isinf_fin, Bool.false_eq_true, if_false]
    cases es_numerico_valido (fin r) <;> simp

theorem VALIDAR_of_valido (nombre : String) {v : Doble α} (h : es_numerico_valido v = true) :
    VALIDAR nombre v = Except.ok () := (VALIDAR_ok_iff nombre v).2 h

theorem bucle_sigue_nr {f df : Doble α → Doble α} {tol : Doble α} {maxIter : Int} {s s1 : Estado α}
    (n : Nat) (h : cuerpo f df tol maxIter s = .sigue s1) :
    bucle f df tol maxIter (n + 1) s = bucle f df tol maxIter n s1 := by
  simp only [bucle, h]

theorem bucle_para_nr {f df : Doble α → Doble α} {tol : Doble α} {maxIter : Int} {s s1 : Estado α}
    {m : Parada} (n : Nat) (h : cuerpo f df tol maxIter s = .para m s1) :
    bucle f df tol maxIter (n + 1) s = (m, s1) := by
  simp only [bucle, h]

theorem cuerpo_derivada_cero (f df : Doble α → Doble α) (tol : Doble α) (maxIter : Int)
    (s : Estado α) (hf : es_numerico_valido (f s.x) = true)
    (hdf : es_numerico_valido (df s.x) = true)
    (hcero : lt (fabs (df s.x)) (fin (1 / 10 ^ 15)) = true) :
    cuerpo f df tol maxIter s = .para .derivativeZero s := by
  simp only [cuerpo, VALIDAR_of_valido _ hf, VALIDAR_of_valido _ hdf, trasValidar, hcero, if_true]

theorem cuerpo_sigue_inv {f df : Doble α → Doble α} {tol : Doble α} {maxIter : Int}
    {s s1 : Estado α} (h : cuerpo f df tol maxIter s = .sigue s1) :
    s1.iter = s.iter + 1 ∧ s1.iter < maxIter ∧
      s1.registros.length = s.registros.length + 1 := by
  simp only [cuerpo, trasValidar] at h
  repeat' split at h
  all_goals cases h
  rename_i hmax
  exact ⟨rfl, not_le.1 hmax, by simp⟩

theorem cuerpo_para_inv {f df : Doble α → Doble α} {tol : Doble α} {maxIter : Int}
    {s s1 : Estado α} {m : Parada} (h : cuerpo f df tol maxIter s = .para m s1) :
    m ≠ .sinCombustible ∧
      ((s1 = s ∧ m ≠ .converged ∧ m ≠ .maxIterExceeded) ∨
       (s1.iter = s.iter + 1 ∧ s1.registros.length = s.registros.length + 1 ∧
         (m = .converged ∨ (m = .maxIterExceeded ∧ maxIter ≤ s1.iter)))) := by
  simp only [cuerpo, trasValidar] at h
  repeat' split at h
  all_goals cases h
  all_goals first
    | exact ⟨by simp, Or.inl ⟨rfl, by simp, by simp⟩⟩
    | exact ⟨by simp, Or.inr ⟨rfl, by simp, Or.inl rfl⟩⟩
    | (rename_i hmax; exact ⟨by simp, Or.inr ⟨rfl, by simp, Or.inr ⟨rfl, hmax⟩⟩⟩)

theorem cuerpo_fin (f df : Doble α → Doble α) (tol : α) (maxIter : Int) (x a b x1 e : α)
    (iter : Int) (regs : List (Registro α))
    (hf : f (fin x) = fin a) (hdf : df (fin x) = fin b)
    (ha : |a| ≤ 10 ^ 100) (hb : |b| ≤ 10 ^ 100) (hb0 : 1 / 10 ^ 15 ≤ |b|)
    (hx1 : x - a / b = x1) (hx1v : |x1| ≤ 10 ^ 100) (he : |x1 - x| = e)
    (hev : e ≤ 10 ^ 10) :
    cuerpo f df (fin tol) maxIter { x := fin x, iter := iter, registros := regs } =
      if e < tol then
        .para .converged
          { x := fin x1, iter := iter + 1,
            registros := regs ++ [{ iter := iter, x := fin x, fx := fin a, error := fin e }] }
      else if iter + 1 ≥ maxIter then
        .para .maxIterExceeded
          { x := fin x1, iter := iter + 1,
            registros := regs ++ [{ iter := iter, x := fin x, fx := fin a, error := fin e }] }
      else
        .sigue
          { x := fin x1, iter := iter + 1,
            registros := regs ++ [{ iter := iter, x := fin x, fx := fin a, error := fin e }] } := by
  have hb1 : b ≠ 0 := by
    intro h0
    rw [h0, abs_zero] at hb0
    exact absurd hb0 (not_le.2 (by positivity))
  have he0 : 0 ≤ e := he ▸ abs_nonneg _
  have hev2 : |e| ≤ 10 ^ 100 := by
    rw [abs_of_nonneg he0]
    exact le_trans hev (pow_le_pow_right₀ (by norm_num) (by norm_num))
  have v1 : VALIDAR "fx" (fin a) = Except.ok () :=
    VALIDAR_of_valido _ (by rw [es_numerico_valido_fin]; exact decide_eq_true ha)
  have v2 : VALIDAR "dfx" (fin b) = Except.ok () :=
    VALIDAR_of_valido _ (by rw [es_numerico_valido_fin]; exact decide_eq_true hb)
  have v3 : VALIDAR "x_nuevo" (fin x1) = Except.ok () :=
    VALIDAR_of_valido _ (by rw [es_numerico_valido_fin]; exact decide_eq_true hx1v)
  have v4 : VALIDAR "error" (fin e) = Except.ok () :=
    VALIDAR_of_valido _ (by rw [es_numerico_valido_fin]; exact decide_eq_true hev2)
  simp only [cuerpo, hf, hdf, fin_div_fin _ _ hb1, fin_sub_fin, hx1, fabs_fin, he, v1, v2, v3, v4,
    trasValidar, lt_fin_fin, gt_fin_fin, decide_eq_false (not_lt.2 hb0),
    decide_eq_false (not_lt.2 hev), Bool.false_and, Bool.false_eq_true, if_false,
    decide_eq_true_eq]

theorem FUNCION_fin (x : α) :
    FUNCION (fin x) = fin (x * x * x - 2 * x - 5) := by
  simp only [FUNCION, fin_mul_fin, fin_sub_fin]

theorem DERIVADA_fin (x : α) :
    DERIVADA (fin x) = fin (3 * x * x - 2) := by
  simp only [DERIVADA, fin_mul_fin, fin_sub_fin]

theorem iteracion_0 (regs : List (Registro α)) :
    cuerpo FUNCION DERIVADA (TOLERANCIA : Doble α) MAX_ITER
        { x := fin 2, iter := 0, registros := regs } =
      .sigue
        { x := fin (21 / 10),
          iter := 1,
          registros := regs ++ [
            { iter := 0,
              x := fin 2,
              fx := fin (-1),
              error := fin (1 / 10) }] } := by
  have h := cuerpo_fin FUNCION DERIVADA (1 / 10 ^ 6 : α) MAX_ITER 2
    (-1)
    10
    (21 / 10)
    (1 / 10) 0 regs
    (by rw [FUNCION_fin]; norm_num) (by rw [DERIVADA_fin]; norm_num)
    (abs_le.2 ⟨by norm_num, by norm_num⟩) (abs_le.2 ⟨by norm_num, by norm_num⟩)
    (by rw [abs_of_nonneg (by norm_num)]; norm_num)
    (by norm_num) (abs_le.2 ⟨by norm_num, by norm_num⟩)
    (by rw [abs_of_nonneg (by norm_num)]; norm_num) (by norm_num)
  rw [show (TOLERANCIA : Doble α) = fin (1 / 10 ^ 6) from rfl, h]
  norm_num [MAX_ITER]

theorem iteracion_1 (regs : List (Registro α)) :
    cuerpo FUNCION DERIVADA (TOLERANCIA : Doble α) MAX_ITER
        { x := fin (21 / 10), iter := 1, registros := regs } =
      .sigue
        { x := fin (11761 / 5615),
          iter := 2,
          registros := regs ++ [
            { iter := 1,
              x := fin (21 / 10),
              fx := fin (61 / 1000),
              error := fin (61 / 11230) }] } := by
  have h := cuerpo_fin FUNCION DERIVADA (1 / 10 ^ 6 : α) MAX_ITER (21 / 10)
    (61 / 1000)
    (1123 / 100)
    (11761 / 5615)
    (61 / 11230) 1 regs
    (by rw [FUNCION_fin]; norm_num) (by rw [DERIVADA_fin]; norm_num)
    (abs_le.2 ⟨by norm_num, by norm_num⟩) (abs_le.2 ⟨by norm_num, by norm_num⟩)
    (by rw [abs_of_nonneg (by norm_num)]; norm_num)
    (by norm_num) (abs_le.2 ⟨by norm_num, by norm_num⟩)
    (by rw [abs_of_nonpos (by norm_num)]; norm_num) (by norm_num)
  rw [show (TOLERANCIA : Doble α) = fin (1 / 10 ^ 6) from rfl, h]
  norm_num [MAX_ITER]

theorem iteracion_2 (regs : List (Registro α)) :
    cuerpo FUNCION DERIVADA (TOLERANCIA : Doble α) MAX_ITER
        { x := fin (11761 / 5615), iter := 2, registros := regs } =
      .sigue
        { x := fin (4138744325037 / 1975957316495),
          iter := 3,
          registros := regs ++ [
            { iter := 2,
              x := fin (11761 / 5615),
              fx := fin (32878756 / 177030983375),
              error := fin (32878756 / 1975957316495) }] } := by
  have h := cuerpo_fin FUNCION DERIVADA (1 / 10 ^ 6 : α) MAX_ITER (11761 / 5615)
    (32878756 / 177030983375)
    (351906913 / 31528225)
    (4138744325037 / 1975957316495)
    (32878756 / 1975957316495) 2 regs
    (by rw [FUNCION_fin]; norm_num) (by rw [DERIVADA_fin]; norm_num)
    (abs_le.2 ⟨by norm_num, by norm_num⟩) (abs_le.2 ⟨by norm_num, by norm_num⟩)
    (by rw [abs_of_nonneg (by norm_num)]; norm_num)
    (by norm_num) (abs_le.2 ⟨by norm_num, by norm_num⟩)
    (by rw [abs_of_nonpos (by norm_num)]; norm_num) (by norm_num)
  rw [show (TOLERANCIA : Doble α) = fin (1 / 10 ^ 6) from rfl, h]
  norm_num [MAX_ITER]

theorem iteracion_3 (regs : List (Registro α)) :
    cuerpo FUNCION DERIVADA (TOLERANCIA : Doble α) MAX_ITER
        { x := fin (4138744325037 / 1975957316495), iter := 3, registros := regs } =
      .para .converged
        { x := fin (180361507581342374686204847776335588181 / 86109846986684169676738889168418120215),
          iter := 4,
          registros := regs ++ [
            { iter := 3,
              x := fin (4138744325037 / 1975957316495),
              fx := fin (13422175326999498219819346928 / 7714942203832379715083684246339987375),
              error := fin (13422175326999498219819346928 / 86109846986684169676738889168418120215) }] } := by
  have h := cuerpo_fin FUNCION DERIVADA (1 / 10 ^ 6 : α) MAX_ITER (4138744325037 / 1975957316495)
    (13422175326999498219819346928 / 7714942203832379715083684246339987375)
    (43578799130857674916984057 / 3904407316610121599085025)
    (180361507581342374686204847776335588181 / 86109846986684169676738889168418120215)
    (13422175326999498219819346928 / 86109846986684169676738889168418120215) 3 regs
    (by rw [FUNCION_fin]; norm_num) (by rw [DERIVADA_fin]; norm_num)
    (abs_le.2 ⟨by norm_num, by norm_num⟩) (abs_le.2 ⟨by norm_num, by norm_num⟩)
    (by rw [abs_of_nonneg (by norm_num)]; norm_num)
    (by norm_num) (abs_le.2 ⟨by norm_num, by norm_num⟩)
    (by rw [abs_of_nonpos (by norm_num)]; norm_num) (by norm_num)
  rw [show (TOLERANCIA : Doble α) = fin (1 / 10 ^ 6) from rfl, h]
  norm_num [MAX_ITER]

theorem ejecuciones_sigue {f df : Doble α → Doble α} {tol : Doble α} {maxIter : Int}
    {s s1 : Estado α} (n : Nat) (h : cuerpo f df tol maxIter s = .sigue s1) :
    ejecuciones f df tol maxIter (n + 1) s = ejecuciones f df tol maxIter n s1 + 1 := by
  simp only [ejecuciones, h]

theorem ejecuciones_para {f df : Doble α → Doble α} {tol : Doble α} {maxIter : Int}
    {s s1 : Estado α} {m : Parada} (n : Nat) (h : cuerpo f df tol maxIter s = .para m s1) :
    ejecuciones f df tol maxIter (n + 1) s = 1 := by
  simp only [ejecuciones, h]

theorem combustible_configurado : max 1 (MAX_ITER).toNat = 96 + 1 + 1 + 1 + 1 := by decide

theorem corrida_configurada_nr :
    newton FUNCION DERIVADA (X_INICIAL : Doble α) TOLERANCIA MAX_ITER =
      (.converged,
        { x := fin (180361507581342374686204847776335588181 / 86109846986684169676738889168418120215),
          iter := 4,
          registros := [
            { iter := 0,
              x := fin 2,
              fx := fin (-1),
              error := fin (1 / 10) },
            { iter := 1,
              x := fin (21 / 10),
              fx := fin (61 / 1000),
              error := fin (61 / 11230) },
            { iter := 2,
              x := fin (11761 / 5615),
              fx := fin (32878756 / 177030983375),
              error := fin (32878756 / 1975957316495) },
            { iter := 3,
              x := fin (4138744325037 / 1975957316495),
              fx := fin (13422175326999498219819346928 / 7714942203832379715083684246339987375),
              error := fin (13422175326999498219819346928 / 86109846986684169676738889168418120215) }] }) ∧
    ejecuciones FUNCION DERIVADA (TOLERANCIA : Doble α) MAX_ITER (max 1 MAX_ITER.toNat)
      { x := X_INICIAL, iter := 0, registros := [] } = 4 := by
  have hx0 : (X_INICIAL : Doble α) = fin 2 := rfl
  constructor
  · unfold newton
    rw [combustible_configurado, hx0, bucle_sigue_nr _ (iteracion_0 _),
      bucle_sigue_nr _ (iteracion_1 _), bucle_sigue_nr _ (iteracion_2 _),
      bucle_para_nr _ (iteracion_3 _)]
    rfl
  · rw [combustible_configurado, hx0, ejecuciones_sigue _ (iteracion_0 _),
      ejecuciones_sigue _ (iteracion_1 _), ejecuciones_sigue _ (iteracion_2 _),
      ejecuciones_para _ (iteracion_3 _)]

end Newtonrhapson

/-- C4: on `f(x) = x^3 - 2x - 5`, `f'(x) = 3x^2 - 2`, `x0 = 2.0`, tolerance `1e-6`,
`MAX_ITER = 100`, the scalar Newton loop stops in the Converged state after 4 (at most 10)
iterations, and the final `x` is a finite value with `|x - 2.0945515| < 1e-6`. -/
theorem C4_newton_escalar_converge :
    (Newtonrhapson.newton Newtonrhapson.FUNCION Newtonrhapson.DERIVADA
        (Newtonrhapson.X_INICIAL : Doble α) Newtonrhapson.TOLERANCIA Newtonrhapson.MAX_ITER).1
      = Newtonrhapson.Parada.converged ∧
    (Newtonrhapson.newton Newtonrhapson.FUNCION Newtonrhapson.DERIVADA
        (Newtonrhapson.X_INICIAL : Doble α) Newtonrhapson.TOLERANCIA Newtonrhapson.MAX_ITER).2.iter
      ≤ 10 ∧
    Newtonrhapson.ejecuciones Newtonrhapson.FUNCION Newtonrhapson.DERIVADA
        (Newtonrhapson.TOLERANCIA : Doble α) Newtonrhapson.MAX_ITER
        (max 1 Newtonrhapson.MAX_ITER.toNat)
        { x := Newtonrhapson.X_INICIAL, iter := 0, registros := [] } ≤ 10 ∧
    ∃ xf : α,
      (Newtonrhapson.newton Newtonrhapson.FUNCION Newtonrhapson.DERIVADA
          (Newtonrhapson.X_INICIAL : Doble α) Newtonrhapson.TOLERANCIA
          Newtonrhapson.MAX_ITER).2.x = fin xf ∧
      |xf - 20945515 / 10 ^ 7| < 1 / 10 ^ 6 := by
  obtain ⟨hrun, hej⟩ := Newtonrhapson.corrida_configurada_nr (α := α)
  rw [hrun, hej]
  refine ⟨rfl, by norm_num, by norm_num, _, rfl, ?_⟩
  rw [abs_lt]
  constructor <;> norm_num

/-- C5: when `f(x0)` and `f'(x0)` are valid and `|f'(x0)| < 1e-15`, the scalar Newton
loop ends in the fatal DerivativeZero state in its first iteration: one execution of the
body, `x` still `x0`, `iter` still 0, and no record written. -/
theorem C5_derivada_cero_primera_iteracion (f df : Doble α → Doble α) (x0 tol : Doble α)
    (maxIter : Int) (hf : es_numerico_valido (f x0) = true)
    (hdf : es_numerico_valido (df x0) = true)
    (hcero : lt (fabs (df x0)) (fin (1 / 10 ^ 15)) = true) :
    Newtonrhapson.newton f df x0 tol maxIter =
      (Newtonrhapson.Parada.derivativeZero, { x := x0, iter := 0, registros := [] }) ∧
    Newtonrhapson.ejecuciones f df tol maxIter (max 1 maxIter.toNat)
      { x := x0, iter := 0, registros := [] } = 1 ∧
    ∀ n : Nat, Newtonrhapson.bucle f df tol maxIter (n + 1)
      { x := x0, iter := 0, registros := [] } =
        (Newtonrhapson.Parada.derivativeZero, { x := x0, iter := 0, registros := [] }) := by
  have hc := Newtonrhapson.cuerpo_derivada_cero f df tol maxIter
    { x := x0, iter := 0, registros := [] } hf hdf hcero
  obtain ⟨m, hm⟩ : ∃ m, max 1 maxIter.toNat = m + 1 := ⟨max 1 maxIter.toNat - 1, by omega⟩
  refine ⟨?_, ?_, fun n => Newtonrhapson.bucle_para_nr n hc⟩
  · unfold Newtonrhapson.newton
    rw [hm, Newtonrhapson.bucle_para_nr m hc]
  · rw [hm, Newtonrhapson.ejecuciones_para m hc]

/-- C5 (witness): `f(x) = x^2`, `f'(x) = 2x`, `x0 = 0` over ℚ, with the configured
tolerance and iteration limit. -/
theorem C5_derivada_cero_primera_iteracion_witness :
    (es_numerico_valido ((fun x : Doble ℚ => x * x) (fin 0)) = true ∧
     es_numerico_valido ((fun x : Doble ℚ => fin 2 * x) (fin 0)) = true ∧
     lt (fabs ((fun x : Doble ℚ => fin 2 * x) (fin 0))) (fin (1 / 10 ^ 15)) = true) ∧
    (Newtonrhapson.newton (fun x : Doble ℚ => x * x) (fun x => fin 2 * x) (fin 0)
        Newtonrhapson.TOLERANCIA Newtonrhapson.MAX_ITER =
      (Newtonrhapson.Parada.derivativeZero, { x := fin 0, iter := 0, registros := [] }) ∧
    Newtonrhapson.ejecuciones (fun x : Doble ℚ => x * x) (fun x => fin 2 * x)
      Newtonrhapson.TOLERANCIA Newtonrhapson.MAX_ITER (max 1 Newtonrhapson.MAX_ITER.toNat)
      { x := fin 0, iter := 0, registros := [] } = 1 ∧
    ∀ n : Nat, Newtonrhapson.bucle (fun x : Doble ℚ => x * x) (fun x => fin 2 * x)
      Newtonrhapson.TOLERANCIA Newtonrhapson.MAX_ITER (n + 1)
      { x := fin 0, iter := 0, registros := [] } =
        (Newtonrhapson.Parada.derivativeZero, { x := fin 0, iter := 0, registros := [] })) := by
  have h1 : es_numerico_valido ((fun x : Doble ℚ => x * x) (fin 0)) = true := by
    simp only [fin_mul_fin, es_numerico_valido_fin]
    norm_num
  have h2 : es_numerico_valido ((fun x : Doble ℚ => fin 2 * x) (fin 0)) = true := by
    simp only [fin_mul_fin, es_numerico_valido_fin]
    norm_num
  have h3 : lt (fabs ((fun x : Doble ℚ => fin 2 * x) (fin 0))) (fin (1 / 10 ^ 15)) = true := by
    simp only [fin_mul_fin, fabs_fin, lt_fin_fin]
    norm_num
  exact ⟨⟨h1, h2, h3⟩, C5_derivada_cero_primera_iteracion _ _ _ _ _ h1 h2 h3⟩

namespace Ecuacion3

omit [LinearOrderedField α] in
@[simp] theorem VALIDAR_fin_e3 (nombre : String) (v : α) :
    VALIDAR nombre (fin v) = Except.ok () := rfl

theorem rk4_sistema2_validado_fin (raiz : α → α) (t : Doble α) (x y h : α) (iter : Int) :
    ∃ r : SalidaRK4 α,
      rk4_sistema2_validado raiz F1 F2 t (fin x) (fin y) (fin h) iter = Except.ok r ∧
      r.x = fin (pasoRK4SistemaEspecificado (fun _ b => b) (fun a _ => -a) x y h).1 ∧
      r.y = fin (pasoRK4SistemaEspecificado (fun _ b => b) (fun a _ => -a) x y h).2 := by
  simp only [rk4_sistema2_validado, F1, F2, pasoRK4SistemaEspecificado, fin_sub_fin, fin_add_fin,
    fin_mul_fin, fin_div_two, fin_div_six, neg_fin, VALIDAR_fin_e3, bind, Except.bind, pure,
    Except.pure]
  exact ⟨_, rfl, rfl, rfl⟩

theorem energia_paso (x y h : α) :
    (pasoRK4SistemaEspecificado (fun _ b => b) (fun a _ => -a) x y h).1 *
        (pasoRK4SistemaEspecificado (fun _ b => b) (fun a _ => -a) x y h).1 +
      (pasoRK4SistemaEspecificado (fun _ b => b) (fun a _ => -a) x y h).2 *
        (pasoRK4SistemaEspecificado (fun _ b => b) (fun a _ => -a) x y h).2 =
      (1 - h ^ 6 / 72 + h ^ 8 / 576) * (x * x + y * y) := by
  simp only [pasoRK4SistemaEspecificado]
  ring


theorem cuerpo_ultimo_e3 (raiz : α → α) (tF h : α) (e0 : Doble α) (itot : Int) (s : Estado α)
    (t a b : α) (hst : s.t = fin t) (hsx : s.x = fin a) (hsy : s.y = fin b)
    (ht1 : t ≤ tF + h / 2) (ht2 : tF ≤ t) (ha : |a| ≤ 10 ^ 100) (hb : |b| ≤ 10 ^ 100) :
    ∃ s1 : Estado α,
      cuerpo raiz F1 F2 (fin tF) (fin h) e0 itot s = .para .ultimoPunto s1 ∧
      s1.datos_fase = s.datos_fase ++ [(fin a, fin b)] ∧ s1.iter = s.iter ∧
      s1.energia_max_desvio =
        (if gt (fabs (fin (a * a + b * b) - e0)) s.energia_max_desvio
          then fabs (fin (a * a + b * b) - e0) else s.energia_max_desvio) := by
  have va : es_numerico_valido (fin a) = true := by
    rw [es_numerico_valido_fin]; exact decide_eq_true ha
  have vb : es_numerico_valido (fin b) = true := by
    rw [es_numerico_valido_fin]; exact decide_eq_true hb
  simp only [cuerpo, hst, hsx, hsy, fin_div_two, fin_add_fin, le_fin_fin, decide_eq_true ht1,
    fin_mul_fin, VALIDAR_fin_e3, trasValidar, va, vb, ge_fin_fin, decide_eq_true ht2,
    Bool.not_true, Bool.false_eq_true, if_false, if_true, Bool.or_self]
  exact ⟨_, rfl, rfl, rfl, rfl⟩

theorem cuerpo_paso_e3 (raiz : α → α) (tF h : α) (e0 : Doble α) (itot : Int) (s : Estado α)
    (t a b : α) (hst : s.t = fin t) (hsx : s.x = fin a) (hsy : s.y = fin b)
    (ht1 : t ≤ tF + h / 2) (ht2 : t < tF) (ha : |a| ≤ 10 ^ 100) (hb : |b| ≤ 10 ^ 100)
    (hit : s.iter + 1 ≤ itot * 10) :
    ∃ s1 : Estado α,
      cuerpo raiz F1 F2 (fin tF) (fin h) e0 itot s = .sigue s1 ∧
      s1.t = fin (t + h) ∧
      s1.x = fin (pasoRK4SistemaEspecificado (fun _ b => b) (fun a _ => -a) a b h).1 ∧
      s1.y = fin (pasoRK4SistemaEspecificado (fun _ b => b) (fun a _ => -a) a b h).2 ∧
      s1.iter = s.iter + 1 ∧
      s1.datos_fase = s.datos_fase ++ [(fin a, fin b)] ∧
      s1.energia_max_desvio =
        (if gt (fabs (fin (a * a + b * b) - e0)) s.energia_max_desvio
          then fabs (fin (a * a + b * b) - e0) else s.energia_max_desvio) := by
  have va : es_numerico_valido (fin a) = true := by
    rw [es_numerico_valido_fin]; exact decide_eq_true ha
  have vb : es_numerico_valido (fin b) = true := by
    rw [es_numerico_valido_fin]; exact decide_eq_true hb
  obtain ⟨r, hr, hrx, hry⟩ := rk4_sistema2_validado_fin raiz (fin t) a b h s.iter
  simp only [cuerpo, hst, hsx, hsy, fin_div_two, fin_add_fin, le_fin_fin, decide_eq_true ht1,
    fin_mul_fin, VALIDAR_fin_e3, trasValidar, va, vb, ge_fin_fin, decide_eq_false (not_le.2 ht2),
    Bool.not_true, Bool.false_eq_true, if_false, if_true, Bool.or_self, hr, hrx, hry,
    gt_iff_lt, not_lt.2 hit]
  exact ⟨_, rfl, rfl, rfl, rfl, rfl, rfl, rfl⟩


theorem factor_energia_configurado :
    (0 : α) ≤ 1 - (5 / 100) ^ 6 / 72 + (5 / 100) ^ 8 / 576 ∧
    (1 : α) - (5 / 100) ^ 6 / 72 + (5 / 100) ^ 8 / 576 ≤ 1 ∧
    (200 : α) * (1 - (1 - (5 / 100) ^ 6 / 72 + (5 / 100) ^ 8 / 576)) < 1 / 100 := by
  refine ⟨by norm_num, by norm_num, by norm_num⟩

theorem energia_acotada (k : Nat) (hk : k ≤ 200) :
    (0 : α) ≤ (1 - (5 / 100) ^ 6 / 72 + (5 / 100) ^ 8 / 576) ^ k ∧
    ((1 : α) - (5 / 100) ^ 6 / 72 + (5 / 100) ^ 8 / 576) ^ k ≤ 1 ∧
    |((1 : α) - (5 / 100) ^ 6 / 72 + (5 / 100) ^ 8 / 576) ^ k - 1| < 1 / 100 := by
  obtain ⟨h0, h1, h2⟩ := factor_energia_configurado (α := α)
  generalize (1 : α) - (5 / 100) ^ 6 / 72 + (5 / 100) ^ 8 / 576 = g at h0 h1 h2
  have hp0 : 0 ≤ g ^ k := pow_nonneg h0 k
  have hp1 : g ^ k ≤ 1 := pow_le_one₀ h0 h1
  have hb : 1 + (k : α) * (g - 1) ≤ (1 + (g - 1)) ^ k :=
    one_add_mul_le_pow (by linarith) k
  rw [add_sub_cancel] at hb
  have hk1 : (k : α) ≤ 200 := by exact_mod_cast hk
  have hk2 : (k : α) * (1 - g) ≤ 200 * (1 - g) :=
    mul_le_mul_of_nonneg_right hk1 (by linarith)
  refine ⟨hp0, hp1, ?_⟩
  rw [abs_lt]
  constructor <;> nlinarith

theorem abs_le_de_energia {a b e : α} (h : a * a + b * b = e) (he : e ≤ 1) :
    |a| ≤ 10 ^ 100 ∧ |b| ≤ 10 ^ 100 := by
  have h1 : (1 : α) ≤ 10 ^ 100 := one_le_pow₀ (by norm_num)
  have ha : |a| ≤ 1 := abs_le.2 ⟨by nlinarith [mul_self_nonneg b, mul_self_nonneg (a + 1)],
    by nlinarith [mul_self_nonneg b, mul_self_nonneg (a - 1)]⟩
  have hb : |b| ≤ 1 := abs_le.2 ⟨by nlinarith [mul_self_nonneg a, mul_self_nonneg (b + 1)],
    by nlinarith [mul_self_nonneg a, mul_self_nonneg (b - 1)]⟩
  exact ⟨le_trans ha h1, le_trans hb h1⟩

theorem bucle_sigue_e3 {raiz : α → α} {f1 f2 : Doble α → Doble α → Doble α} {tF h e0 : Doble α}
    {itot : Int} {s s1 : Estado α} (n : Nat)
    (hc : cuerpo raiz f1 f2 tF h e0 itot s = .sigue s1) :
    bucle raiz f1 f2 tF h e0 itot (n + 1) s = bucle raiz f1 f2 tF h e0 itot n s1 := by
  simp only [bucle, hc]

theorem bucle_para_e3 {raiz : α → α} {f1 f2 : Doble α → Doble α → Doble α} {tF h e0 : Doble α}
    {itot : Int} {s s1 : Estado α} {m : Parada} (n : Nat)
    (hc : cuerpo raiz f1 f2 tF h e0 itot s = .para m s1) :
    bucle raiz f1 f2 tF h e0 itot (n + 1) s = (m, s1) := by
  simp only [bucle, hc]

theorem desvio_acotado (e d : α) (he : |e - 1| < 1 / 100) (hd0 : 0 ≤ d) (hd : d < 1 / 100) :
    ∃ d1 : α,
      (if gt (fabs (fin e - fin 1)) (fin d) then fabs (fin e - fin 1) else fin d) = fin d1 ∧
      0 ≤ d1 ∧ d1 < 1 / 100 := by
  simp only [fin_sub_fin, fabs_fin, gt_fin_fin, decide_eq_true_eq]
  by_cases h : d < |e - 1|
  · exact ⟨_, if_pos h, abs_nonneg _, he⟩
  · exact ⟨_, if_neg h, hd0, hd⟩

theorem bucle_configurado (raiz : α → α) :
    ∀ (n k : Nat) (s : Estado α), k ≤ 200 → 201 - k ≤ n →
      s.t = fin ((k : α) * (5 / 100)) →
      (∃ a b : α, s.x = fin a ∧ s.y = fin b ∧
        a * a + b * b = (1 - (5 / 100) ^ 6 / 72 + (5 / 100) ^ 8 / 576) ^ k) →
      s.iter = k → s.datos_fase.length = k →
      (∀ p ∈ s.datos_fase, ∃ x y : α, p = (fin x, fin y) ∧ |x * x + y * y - 1| < 1 / 100) →
      (∃ d : α, s.energia_max_desvio = fin d ∧ 0 ≤ d ∧ d < 1 / 100) →
      (bucle raiz F1 F2 (fin 10) (fin (5 / 100)) (fin 1) 201 n s).1 = .ultimoPunto ∧
      (bucle raiz F1 F2 (fin 10) (fin (5 / 100)) (fin 1) 201 n s).2.iter = 200 ∧
      (bucle raiz F1 F2 (fin 10) (fin (5 / 100)) (fin 1) 201 n s).2.datos_fase.length = 201 ∧
      (∀ p ∈ (bucle raiz F1 F2 (fin 10) (fin (5 / 100)) (fin 1) 201 n s).2.datos_fase,
        ∃ x y : α, p = (fin x, fin y) ∧ |x * x + y * y - 1| < 1 / 100) ∧
      (∃ d : α, (bucle raiz F1 F2 (fin 10) (fin (5 / 100)) (fin 1) 201 n s).2.energia_max_desvio
        = fin d ∧ 0 ≤ d ∧ d < 1 / 100) := by
  intro n
  induction n with
  | zero => intro k s hk hn; omega
  | succ n ih =>
    intro k s hk hn hst ⟨a, b, hsx, hsy, hE⟩ hit hlen hbuenos ⟨d, hd, hd0, hd1⟩
    obtain ⟨e0, e1, e2⟩ := energia_acotada (α := α) k hk
    obtain ⟨ha, hb⟩ := abs_le_de_energia hE e1
    have hkα : (k : α) ≤ 200 := by exact_mod_cast hk
    have ht1 : (k : α) * (5 / 100) ≤ 10 + (5 / 100) / 2 := by linarith
    have hmuestra : ∀ p ∈ s.datos_fase ++ [(fin a, fin b)],
        ∃ x y : α, p = (fin x, fin y) ∧ |x * x + y * y - 1| < 1 / 100 := by
      intro p hp
      rcases List.mem_append.1 hp with hp | hp
      · exact hbuenos p hp
      · rw [List.mem_singleton] at hp
        exact ⟨a, b, hp, by rw [hE]; exact e2⟩
    obtain ⟨d1, hd1eq, hd10, hd11⟩ := desvio_acotado (a * a + b * b) d (by rw [hE]; exact e2) hd0 hd1
    by_cases hult : k = 200
    · have ht2 : (10 : α) ≤ (k : α) * (5 / 100) := by
        rw [hult]; norm_num
      obtain ⟨s1, hc, h1, h2, h3⟩ :=
        cuerpo_ultimo_e3 raiz 10 (5 / 100) (fin 1) 201 s _ a b hst hsx hsy ht1 ht2 ha hb
      rw [bucle_para_e3 n hc]
      refine ⟨rfl, ?_, ?_, ?_, ?_⟩
      · show s1.iter = 200
        rw [h2, hit, hult]; rfl
      · show s1.datos_fase.length = 201
        rw [h1, List.length_append, hlen, hult]; rfl
      · show ∀ p ∈ s1.datos_fase, _
        rw [h1]; exact hmuestra
      · show ∃ d : α, s1.energia_max_desvio = fin d ∧ 0 ≤ d ∧ d < 1 / 100
        rw [h3, hd]
        exact ⟨d1, hd1eq, hd10, hd11⟩
    · have hk2 : k + 1 ≤ 200 := by omega
      have hkα2 : (k : α) + 1 ≤ 200 := by exact_mod_cast hk2
      have ht2 : (k : α) * (5 / 100) < 10 := by linarith
      obtain ⟨s1, hc, h1, h2, h3, h4, h5, h6⟩ :=
        cuerpo_paso_e3 raiz 10 (5 / 100) (fin 1) 201 s _ a b hst hsx hsy ht1 ht2 ha hb
          (by rw [hit]; omega)
      rw [bucle_sigue_e3 n hc]
      apply ih (k + 1) s1 hk2 (by omega)
      · rw [h1]; push_cast; congr 1; ring
      · exact ⟨_, _, h2, h3, by rw [energia_paso, hE, pow_succ]; ring⟩
      · rw [h4, hit]; push_cast; rfl
      · rw [h5, List.length_append, hlen]; rfl
      · rw [h5]; exact hmuestra
      · rw [h6, hd]
        exact ⟨d1, hd1eq, hd10, hd11⟩

end Ecuacion3
theorem truncar_natCast [FloorRing α] (n : Nat) : truncar (fin (n : α)) = n := by
  simp only [truncar, Nat.cast_nonneg, if_true, Int.floor_natCast]

namespace Ecuacion3

theorem iter_totales_configurado [FloorRing α] :
    iter_totales (T_INICIAL : Doble α) T_FINAL PASO_H = 201 := by
  have h : ((10 : α) - 0) / (5 / 100) = ((200 : Nat) : α) := by norm_num
  simp only [iter_totales, T_INICIAL, T_FINAL, PASO_H, fin_sub_fin,
    fin_div_fin _ _ (show (5 / 100 : α) ≠ 0 by norm_num), h, truncar_natCast]
  rfl

end Ecuacion3

/-- C7: the integration of `dx/dt = y`, `dy/dt = -x` from `(1, 0)` with `h = 0.05` over
`[0, 10]` runs its 200 steps to the last point, writes 201 samples, and the energy
`x^2 + y^2` of every written sample stays within 0.01 of 1; the deviation recorded by the
program itself (`energia_max_desvio`) is below 0.01 too.  Holds for every ordered field
and every `sqrt` (it only feeds a warning). -/
theorem C7_energia_acotada [FloorRing α] (raiz : α → α) :
    (Ecuacion3.integrar raiz Ecuacion3.F1 Ecuacion3.F2 (Ecuacion3.T_INICIAL : Doble α)
        Ecuacion3.T_FINAL Ecuacion3.X_INICIAL Ecuacion3.Y_INICIAL Ecuacion3.PASO_H).1
      = Ecuacion3.Parada.ultimoPunto ∧
    (Ecuacion3.integrar raiz Ecuacion3.F1 Ecuacion3.F2 (Ecuacion3.T_INICIAL : Doble α)
        Ecuacion3.T_FINAL Ecuacion3.X_INICIAL Ecuacion3.Y_INICIAL Ecuacion3.PASO_H).2.iter
      = 200 ∧
    (Ecuacion3.integrar raiz Ecuacion3.F1 Ecuacion3.F2 (Ecuacion3.T_INICIAL : Doble α)
        Ecuacion3.T_FINAL Ecuacion3.X_INICIAL Ecuacion3.Y_INICIAL
        Ecuacion3.PASO_H).2.datos_fase.length = 201 ∧
    (∀ p ∈ (Ecuacion3.integrar raiz Ecuacion3.F1 Ecuacion3.F2 (Ecuacion3.T_INICIAL : Doble α)
        Ecuacion3.T_FINAL Ecuacion3.X_INICIAL Ecuacion3.Y_INICIAL
        Ecuacion3.PASO_H).2.datos_fase,
      ∃ x y : α, p = (fin x, fin y) ∧ |x * x + y * y - 1| < 1 / 100) ∧
    (∃ d : α, (Ecuacion3.integrar raiz Ecuacion3.F1 Ecuacion3.F2
        (Ecuacion3.T_INICIAL : Doble α) Ecuacion3.T_FINAL Ecuacion3.X_INICIAL
        Ecuacion3.Y_INICIAL Ecuacion3.PASO_H).2.energia_max_desvio = fin d ∧
      0 ≤ d ∧ d < 1 / 100) := by
  have hrun : Ecuacion3.integrar raiz Ecuacion3.F1 Ecuacion3.F2 (Ecuacion3.T_INICIAL : Doble α)
      Ecuacion3.T_FINAL Ecuacion3.X_INICIAL Ecuacion3.Y_INICIAL Ecuacion3.PASO_H =
      Ecuacion3.bucle raiz Ecuacion3.F1 Ecuacion3.F2 (fin 10) (fin (5 / 100)) (fin 1) 201 2012
        (Ecuacion3.estadoInicial (fin 0) (fin 1) (fin 0)) := by
    simp only [Ecuacion3.integrar, Ecuacion3.iter_totales_configurado]
    simp only [Ecuacion3.T_INICIAL, Ecuacion3.T_FINAL, Ecuacion3.X_INICIAL, Ecuacion3.Y_INICIAL,
      Ecuacion3.PASO_H, fin_mul_fin, fin_add_fin, mul_one, mul_zero, add_zero]
    rfl
  rw [hrun]
  exact Ecuacion3.bucle_configurado raiz 2012 0 _ (by norm_num) (by norm_num)
    (by simp [Ecuacion3.estadoInicial]) ⟨1, 0, rfl, rfl, by norm_num⟩ rfl rfl
    (by intro p hp; simp [Ecuacion3.estadoInicial] at hp)
    ⟨0, rfl, le_refl _, by norm_num⟩

/-! ## Global error of the scalar integrator (C3) -/

namespace Ecuacion1

theorem pasoRK4_forma_cerrada (x y h : α) :
    pasoRK4Especificado (fun a b => a - b) x y h =
      (x + h) - 1 + factorRK4 h * (y - x + 1) := by
  simp only [pasoRK4Especificado, factorRK4]
  ring

theorem factorRK4_nonneg (h : α) : 0 ≤ factorRK4 h := by
  unfold factorRK4
  nlinarith [sq_nonneg (h ^ 2 - 2 * h), sq_nonneg (h - 3 / 2)]

theorem factorRK4_le_one {h : α} (h0 : 0 ≤ h) (h1 : h ≤ 1) : factorRK4 h ≤ 1 := by
  unfold factorRK4
  nlinarith [mul_nonneg h0 (sub_nonneg.2 h1), mul_nonneg (mul_nonneg h0 h0) (sub_nonneg.2 h1),
    mul_nonneg (mul_nonneg (mul_nonneg h0 h0) h0) (sub_nonneg.2 h1), pow_nonneg h0 3, pow_nonneg h0 4]

theorem factorRK4_le_catorce {h : α} (h0 : 0 ≤ h) (h5 : h ≤ 5) : factorRK4 h ≤ 14 := by
  unfold factorRK4
  nlinarith [mul_nonneg h0 (sub_nonneg.2 h5), mul_nonneg (mul_nonneg h0 h0) (sub_nonneg.2 h5),
    mul_nonneg (mul_nonneg (mul_nonneg h0 h0) h0) (sub_nonneg.2 h5), pow_nonneg h0 3,
    pow_nonneg h0 4, pow_nonneg h0 2]

theorem factorRK4_cerca_de_exp {h : ℝ} (h0 : 0 ≤ h) (h1 : h ≤ 1) :
    |factorRK4 h - Real.exp (-h)| ≤ h ^ 5 / 100 := by
  have hb := Real.exp_bound (x := -h) (by rw [abs_neg, abs_of_nonneg h0]; exact h1)
    (n := 5) (by norm_num)
  have hs : (∑ m ∈ Finset.range 5, (-h) ^ m / (m.factorial : ℝ)) = factorRK4 h := by
    simp only [Finset.sum_range_succ, Finset.sum_range_zero, Nat.factorial, factorRK4]
    norm_num
    ring
  rw [hs, abs_neg, abs_of_nonneg h0] at hb
  rw [abs_sub_comm]
  refine le_trans hb (le_of_eq ?_)
  norm_num [Nat.factorial]
  ring

theorem abs_pow_sub_pow_le_de_unidad {p q : ℝ} (hp0 : 0 ≤ p) (hp1 : p ≤ 1) (hq0 : 0 ≤ q)
    (hq1 : q ≤ 1) (k : ℕ) : |p ^ k - q ^ k| ≤ k * |p - q| := by
  induction k with
  | zero => simp
  | succ k ih =>
    have e : p ^ (k + 1) - q ^ (k + 1) = p * (p ^ k - q ^ k) + (p - q) * q ^ k := by ring
    have hqk : |q ^ k| ≤ 1 := by
      rw [abs_of_nonneg (pow_nonneg hq0 k)]; exact pow_le_one₀ hq0 hq1
    calc |p ^ (k + 1) - q ^ (k + 1)|
        = |p * (p ^ k - q ^ k) + (p - q) * q ^ k| := by rw [e]
      _ ≤ |p * (p ^ k - q ^ k)| + |(p - q) * q ^ k| := abs_add _ _
      _ = p * |p ^ k - q ^ k| + |p - q| * |q ^ k| := by
          rw [abs_mul, abs_mul, abs_of_nonneg hp0]
      _ ≤ 1 * (k * |p - q|) + |p - q| * 1 := by
          apply add_le_add
          · exact mul_le_mul hp1 ih (abs_nonneg _) zero_le_one
          · exact mul_le_mul_of_nonneg_left hqk (abs_nonneg _)
      _ = ((k + 1 : ℕ) : ℝ) * |p - q| := by push_cast; ring

theorem paso_malla_pos (n : ℕ) : (0 : ℝ) < 5 / ((n : ℝ) + 1) := by positivity

theorem potencia_factor_acotada (n k : ℕ) (hk : k ≤ n + 1) :
    0 ≤ factorRK4 (5 / ((n : ℝ) + 1)) ^ k ∧ factorRK4 (5 / ((n : ℝ) + 1)) ^ k ≤ 14 ^ 4 := by
  have hN : (0 : ℝ) < (n : ℝ) + 1 := by positivity
  have h0 : (0 : ℝ) ≤ 5 / ((n : ℝ) + 1) := (paso_malla_pos n).le
  have h5 : 5 / ((n : ℝ) + 1) ≤ 5 := by
    rw [div_le_iff₀ hN]; nlinarith [Nat.cast_nonneg (α := ℝ) n]
  have hp0 := factorRK4_nonneg (5 / ((n : ℝ) + 1))
  refine ⟨pow_nonneg hp0 k, ?_⟩
  by_cases hn : 4 ≤ n
  · have h1 : 5 / ((n : ℝ) + 1) ≤ 1 := by
      rw [div_le_iff₀ hN]
      have : (4 : ℝ) ≤ n := by exact_mod_cast hn
      linarith
    exact le_trans (pow_le_one₀ hp0 (factorRK4_le_one h0 h1)) (by norm_num)
  · have hk4 : k ≤ 4 := by omega
    calc factorRK4 (5 / ((n : ℝ) + 1)) ^ k ≤ 14 ^ k :=
          pow_le_pow_left₀ hp0 (factorRK4_le_catorce h0 h5) k
      _ ≤ 14 ^ 4 := pow_le_pow_right₀ (by norm_num) hk4

theorem error_global (n k : ℕ) (hk : k ≤ n + 1) :
    |((k : ℝ) * (5 / ((n : ℝ) + 1)) - 1 + 2 * factorRK4 (5 / ((n : ℝ) + 1)) ^ k) -
        ((k : ℝ) * (5 / ((n : ℝ) + 1)) - 1 + 2 * Real.exp (-((k : ℝ) * (5 / ((n : ℝ) + 1)))))|
      ≤ 10 ^ 5 * (5 / ((n : ℝ) + 1)) ^ 4 := by
  have hN : (0 : ℝ) < (n : ℝ) + 1 := by positivity
  have hpos := paso_malla_pos n
  obtain ⟨hpk0, hpk1⟩ := potencia_factor_acotada n k hk
  generalize hh : 5 / ((n : ℝ) + 1) = h at *
  have hexp : Real.exp (-((k : ℝ) * h)) = Real.exp (-h) ^ k := by
    rw [← Real.exp_nat_mul]; congr 1; ring
  have hq0 : 0 ≤ Real.exp (-h) := (Real.exp_pos _).le
  have hq1 : Real.exp (-h) ≤ 1 := Real.exp_le_one_iff.2 (by linarith)
  have hqk0 : 0 ≤ Real.exp (-h) ^ k := pow_nonneg hq0 k
  have hqk1 : Real.exp (-h) ^ k ≤ 1 := pow_le_one₀ hq0 hq1
  have e : ((k : ℝ) * h - 1 + 2 * factorRK4 h ^ k) -
      ((k : ℝ) * h - 1 + 2 * Real.exp (-((k : ℝ) * h))) =
      2 * (factorRK4 h ^ k - Real.exp (-h) ^ k) := by rw [hexp]; ring
  rw [e, abs_mul, abs_of_nonneg (by norm_num : (0 : ℝ) ≤ 2)]
  have hkh : (k : ℝ) * h ≤ 5 := by
    have : (k : ℝ) ≤ (n : ℝ) + 1 := by exact_mod_cast hk
    have h2 : ((n : ℝ) + 1) * h = 5 := by rw [← hh]; field_simp
    nlinarith
  by_cases h1 : h ≤ 1
  · have hd := abs_pow_sub_pow_le_de_unidad (factorRK4_nonneg h) (factorRK4_le_one hpos.le h1)
      hq0 hq1 k
    have hc := factorRK4_cerca_de_exp hpos.le h1
    have h4 : 0 ≤ h ^ 4 := by positivity
    have hk0 : (0 : ℝ) ≤ k := Nat.cast_nonneg k
    have : (k : ℝ) * |factorRK4 h - Real.exp (-h)| ≤ (k : ℝ) * (h ^ 5 / 100) :=
      mul_le_mul_of_nonneg_left hc hk0
    have h5 : (k : ℝ) * (h ^ 5 / 100) = ((k : ℝ) * h) * (h ^ 4 / 100) := by ring
    have h6 : ((k : ℝ) * h) * (h ^ 4 / 100) ≤ 5 * (h ^ 4 / 100) :=
      mul_le_mul_of_nonneg_right hkh (by positivity)
    nlinarith
  · have h1' : 1 ≤ h := (not_le.1 h1).le
    have h4 : 1 ≤ h ^ 4 := one_le_pow₀ h1'
    have habs : |factorRK4 h ^ k - Real.exp (-h) ^ k| ≤ 14 ^ 4 := by
      rw [abs_le]; constructor <;> nlinarith
    nlinarith

theorem SOLUCION_EXACTA_fin (g : α → α) (x : α) :
    SOLUCION_EXACTA g (fin x) = fin (x - 1 + 2 * g (-x)) := by
  simp only [SOLUCION_EXACTA, neg_fin, cexp, fin_sub_fin, fin_mul_fin, fin_add_fin]

theorem bucle_sigue_e1 {f : Doble α → Doble α → Doble α} {sol : Doble α → Doble α}
    {xF h : Doble α} {ptot : Int} {s s1 : Estado α} (n : Nat)
    (hc : cuerpo f sol xF h ptot s = .sigue s1) :
    bucle f sol xF h ptot (n + 1) s = bucle f sol xF h ptot n s1 := by
  simp only [bucle, hc]

theorem bucle_para_e1 {f : Doble α → Doble α → Doble α} {sol : Doble α → Doble α}
    {xF h : Doble α} {ptot : Int} {s s1 : Estado α} {m : Parada} (n : Nat)
    (hc : cuerpo f sol xF h ptot s = .para m s1) :
    bucle f sol xF h ptot (n + 1) s = (m, s1) := by
  simp only [bucle, hc]

theorem cuerpo_ultimo_e1 (g : α → α) (xF h : α) (ptot : Int) (s : Estado α) (x y : α)
    (hsx : s.x = fin x) (hsy : s.y = fin y) (hx1 : x ≤ xF + h / 2) (hx2 : xF ≤ x)
    (hy : |y| ≤ 10 ^ 100) :
    ∃ s1 : Estado α,
      cuerpo EDO_FUNCION (SOLUCION_EXACTA g) (fin xF) (fin h) ptot s = .para .ultimoPunto s1 ∧
      s1.datos_sol = s.datos_sol ++ [(fin x, fin y)] ∧
      s1.datos_err = s.datos_err ++ [(fin x, fin |y - (x - 1 + 2 * g (-x))|)] ∧
      s1.paso = s.paso ∧ s1.errores_numericos = s.errores_numericos ∧
      s1.error_maximo =
        (if gt (fin |y - (x - 1 + 2 * g (-x))|) s.error_maximo
          then fin |y - (x - 1 + 2 * g (-x))| else s.error_maximo) := by
  have vy : es_numerico_valido (fin y) = true := by
    rw [es_numerico_valido_fin]; exact decide_eq_true hy
  simp only [cuerpo, hsx, hsy, fin_div_two, fin_add_fin, le_fin_fin, decide_eq_true hx1,
    SOLUCION_EXACTA_fin, fin_sub_fin, fabs_fin, VALIDAR_fin_e1, trasValidar, vy, ge_fin_fin,
    decide_eq_true hx2, Bool.not_true, Bool.false_eq_true, if_false, if_true]
  exact ⟨_, rfl, rfl, rfl, rfl, rfl, rfl⟩

theorem cuerpo_paso_e1 (g : α → α) (xF h : α) (ptot : Int) (s : Estado α) (x y : α)
    (hsx : s.x = fin x) (hsy : s.y = fin y) (hx1 : x ≤ xF + h / 2) (hx2 : x < xF)
    (hy : |y| ≤ 10 ^ 100)
    (hy1 : |pasoRK4Especificado (fun a b => a - b) x y h| ≤ 10 ^ 100)
    (hp : s.paso + 1 ≤ ptot * 10) :
    ∃ s1 : Estado α,
      cuerpo EDO_FUNCION (SOLUCION_EXACTA g) (fin xF) (fin h) ptot s = .sigue s1 ∧
      s1.x = fin (x + h) ∧
      s1.y = fin (pasoRK4Especificado (fun a b => a - b) x y h) ∧
      s1.datos_sol = s.datos_sol ++ [(fin x, fin y)] ∧
      s1.datos_err = s.datos_err ++ [(fin x, fin |y - (x - 1 + 2 * g (-x))|)] ∧
      s1.paso = s.paso + 1 ∧ s1.errores_numericos = s.errores_numericos ∧
      s1.error_maximo =
        (if gt (fin |y - (x - 1 + 2 * g (-x))|) s.error_maximo
          then fin |y - (x - 1 + 2 * g (-x))| else s.error_maximo) := by
  have vy : es_numerico_valido (fin y) = true := by
    rw [es_numerico_valido_fin]; exact decide_eq_true hy
  have vy1 : es_numerico_valido (fin (pasoRK4Especificado (fun a b => a - b) x y h)) = true := by
    rw [es_numerico_valido_fin]; exact decide_eq_true hy1
  simp only [cuerpo, hsx, hsy, fin_div_two, fin_add_fin, le_fin_fin, decide_eq_true hx1,
    SOLUCION_EXACTA_fin, fin_sub_fin, fabs_fin, VALIDAR_fin_e1, trasValidar, vy, ge_fin_fin,
    decide_eq_false (not_le.2 hx2), Bool.not_true, Bool.false_eq_true, if_false, if_true,
    rk4_validado_fin, vy1, avanzar, gt_iff_lt, not_lt.2 hp]
  exact ⟨_, rfl, rfl, rfl, rfl, rfl, rfl, rfl, rfl⟩

theorem muestra_valida (n k : ℕ) (hk : k ≤ n + 1) :
    |(k : ℝ) * (5 / ((n : ℝ) + 1)) - 1 + 2 * factorRK4 (5 / ((n : ℝ) + 1)) ^ k| ≤ 10 ^ 100 := by
  obtain ⟨hpk0, hpk1⟩ := potencia_factor_acotada n k hk
  have hN : (0 : ℝ) < (n : ℝ) + 1 := by positivity
  have hkh : (k : ℝ) * (5 / ((n : ℝ) + 1)) ≤ 5 := by
    have : (k : ℝ) ≤ (n : ℝ) + 1 := by exact_mod_cast hk
    rw [mul_div_assoc', div_le_iff₀ hN]
    linarith
  have hkh0 : 0 ≤ (k : ℝ) * (5 / ((n : ℝ) + 1)) := by positivity
  have hbig : (10 : ℝ) ^ 5 ≤ 10 ^ 100 := pow_le_pow_right₀ (by norm_num) (by norm_num)
  rw [abs_le]
  constructor <;> nlinarith

theorem error_maximo_acotado (e d c : ℝ) (he : e ≤ c) (he0 : 0 ≤ e) (hd0 : 0 ≤ d) (hd : d ≤ c) :
    ∃ d1 : ℝ, (if gt (fin e) (fin d) then (fin e : Doble ℝ) else fin d) = fin d1 ∧
      0 ≤ d1 ∧ d1 ≤ c := by
  simp only [gt_fin_fin, decide_eq_true_eq]
  by_cases h : d < e
  · exact ⟨_, if_pos h, he0, he⟩
  · exact ⟨_, if_neg h, hd0, hd⟩

theorem bucle_malla (n : ℕ) :
    ∀ (fuel k : ℕ) (s : Estado ℝ), k ≤ n + 1 → n + 2 - k ≤ fuel →
      s.x = fin ((k : ℝ) * (5 / ((n : ℝ) + 1))) →
      s.y = fin ((k : ℝ) * (5 / ((n : ℝ) + 1)) - 1 + 2 * factorRK4 (5 / ((n : ℝ) + 1)) ^ k) →
      s.paso = k →
      s.datos_sol = (List.range k).map (fun j : ℕ =>
        ((fin ((j : ℝ) * (5 / ((n : ℝ) + 1))) : Doble ℝ),
         (fin ((j : ℝ) * (5 / ((n : ℝ) + 1)) - 1 + 2 * factorRK4 (5 / ((n : ℝ) + 1)) ^ j)
           : Doble ℝ))) →
      s.datos_err = (List.range k).map (fun j : ℕ =>
        ((fin ((j : ℝ) * (5 / ((n : ℝ) + 1))) : Doble ℝ),
         (fin |((j : ℝ) * (5 / ((n : ℝ) + 1)) - 1 + 2 * factorRK4 (5 / ((n : ℝ) + 1)) ^ j) -
            ((j : ℝ) * (5 / ((n : ℝ) + 1)) - 1 +
              2 * Real.exp (-((j : ℝ) * (5 / ((n : ℝ) + 1)))))| : Doble ℝ))) →
      (∃ d : ℝ, s.error_maximo = fin d ∧ 0 ≤ d ∧ d ≤ 10 ^ 5 * (5 / ((n : ℝ) + 1)) ^ 4) →
      s.errores_numericos = 0 →
      (bucle EDO_FUNCION (SOLUCION_EXACTA Real.exp) (fin 5) (fin (5 / ((n : ℝ) + 1)))
          ((n : Int) + 2) fuel s).1 = .ultimoPunto ∧
      (bucle EDO_FUNCION (SOLUCION_EXACTA Real.exp) (fin 5) (fin (5 / ((n : ℝ) + 1)))
          ((n : Int) + 2) fuel s).2.paso = (n : Int) + 1 ∧
      (bucle EDO_FUNCION (SOLUCION_EXACTA Real.exp) (fin 5) (fin (5 / ((n : ℝ) + 1)))
          ((n : Int) + 2) fuel s).2.datos_sol = (List.range (n + 2)).map (fun j : ℕ =>
        ((fin ((j : ℝ) * (5 / ((n : ℝ) + 1))) : Doble ℝ),
         (fin ((j : ℝ) * (5 / ((n : ℝ) + 1)) - 1 + 2 * factorRK4 (5 / ((n : ℝ) + 1)) ^ j)
           : Doble ℝ))) ∧
      (bucle EDO_FUNCION (SOLUCION_EXACTA Real.exp) (fin 5) (fin (5 / ((n : ℝ) + 1)))
          ((n : Int) + 2) fuel s).2.datos_err = (List.range (n + 2)).map (fun j : ℕ =>
        ((fin ((j : ℝ) * (5 / ((n : ℝ) + 1))) : Doble ℝ),
         (fin |((j : ℝ) * (5 / ((n : ℝ) + 1)) - 1 + 2 * factorRK4 (5 / ((n : ℝ) + 1)) ^ j) -
            ((j : ℝ) * (5 / ((n : ℝ) + 1)) - 1 +
              2 * Real.exp (-((j : ℝ) * (5 / ((n : ℝ) + 1)))))| : Doble ℝ))) ∧
      (∃ d : ℝ, (bucle EDO_FUNCION (SOLUCION_EXACTA Real.exp) (fin 5)
          (fin (5 / ((n : ℝ) + 1))) ((n : Int) + 2) fuel s).2.error_maximo = fin d ∧
        0 ≤ d ∧ d ≤ 10 ^ 5 * (5 / ((n : ℝ) + 1)) ^ 4) ∧
      (bucle EDO_FUNCION (SOLUCION_EXACTA Real.exp) (fin 5) (fin (5 / ((n : ℝ) + 1)))
          ((n : Int) + 2) fuel s).2.errores_numericos = 0 := by
  have hN : (0 : ℝ) < (n : ℝ) + 1 := by positivity
  have hNh : ((n : ℝ) + 1) * (5 / ((n : ℝ) + 1)) = 5 := by field_simp
  have hpos := paso_malla_pos n
  intro fuel
  induction fuel with
  | zero => intro k s hk hn; omega
  | succ fuel ih =>
    intro k s hk hn hsx hsy hpaso hsol herr ⟨d, hd, hd0, hd1⟩ herrores
    have hkN : (k : ℝ) ≤ (n : ℝ) + 1 := by exact_mod_cast hk
    have hx1 : (k : ℝ) * (5 / ((n : ℝ) + 1)) ≤ 5 + (5 / ((n : ℝ) + 1)) / 2 := by nlinarith
    have hy := muestra_valida n k hk
    have heg := error_global n k hk
    obtain ⟨d1, hd1eq, hd10, hd11⟩ := error_maximo_acotado _ d _ heg (abs_nonneg _) hd0 hd1
    by_cases hult : k = n + 1
    · subst hult
      have hx2 : (5 : ℝ) ≤ ((n + 1 : ℕ) : ℝ) * (5 / ((n : ℝ) + 1)) := by
        push_cast; rw [hNh]
      obtain ⟨s1, hc, h1, h2, h3, h4, h5⟩ :=
        cuerpo_ultimo_e1 Real.exp 5 (5 / ((n : ℝ) + 1)) ((n : Int) + 2) s _ _ hsx hsy hx1 hx2 hy
      rw [bucle_para_e1 fuel hc]
      refine ⟨rfl, ?_, ?_, ?_, ?_, ?_⟩
      · show s1.paso = _
        rw [h3, hpaso]; push_cast; rfl
      · show s1.datos_sol = List.map _ (List.range (n + 1 + 1))
        rw [h1, hsol, List.range_succ (n + 1), List.map_append]; rfl
      · show s1.datos_err = List.map _ (List.range (n + 1 + 1))
        rw [h2, herr, List.range_succ (n + 1), List.map_append]; rfl
      · show ∃ d : ℝ, s1.error_maximo = fin d ∧ _
        rw [h5, hd]; exact ⟨d1, hd1eq, hd10, hd11⟩
      · show s1.errores_numericos = 0
        rw [h4, herrores]
    · have hk2 : k + 1 ≤ n + 1 := by omega
      have hkN2 : (k : ℝ) + 1 ≤ (n : ℝ) + 1 := by exact_mod_cast hk2
      have hx2 : (k : ℝ) * (5 / ((n : ℝ) + 1)) < 5 := by nlinarith
      have hnext : pasoRK4Especificado (fun a b => a - b) ((k : ℝ) * (5 / ((n : ℝ) + 1)))
          ((k : ℝ) * (5 / ((n : ℝ) + 1)) - 1 + 2 * factorRK4 (5 / ((n : ℝ) + 1)) ^ k)
          (5 / ((n : ℝ) + 1)) =
          ((k + 1 : ℕ) : ℝ) * (5 / ((n : ℝ) + 1)) - 1 +
            2 * factorRK4 (5 / ((n : ℝ) + 1)) ^ (k + 1) := by
        rw [pasoRK4_forma_cerrada]; push_cast; ring
      obtain ⟨s1, hc, h1, h2, h3, h4, h5, h6, h7⟩ :=
        cuerpo_paso_e1 Real.exp 5 (5 / ((n : ℝ) + 1)) ((n : Int) + 2) s _ _ hsx hsy hx1 hx2 hy
          (by rw [hnext]; exact muestra_valida n (k + 1) hk2) (by rw [hpaso]; omega)
      rw [bucle_sigue_e1 fuel hc]
      apply ih (k + 1) s1 hk2 (by omega)
      · rw [h1]; push_cast; congr 1; ring
      · rw [h2, hnext]
      · rw [h5, hpaso]; push_cast; rfl
      · rw [h3, hsol, List.range_succ, List.map_append]; rfl
      · rw [h4, herr, List.range_succ, List.map_append]; rfl
      · rw [h7, hd]; exact ⟨d1, hd1eq, hd10, hd11⟩
      · rw [h6, herrores]

theorem pasos_totales_malla (n : ℕ) :
    pasos_totales (X_INICIAL : Doble ℝ) X_FINAL (fin (5 / ((n : ℝ) + 1))) = (n : Int) + 2 := by
  have hN : (0 : ℝ) < (n : ℝ) + 1 := by positivity
  have h : ((5 : ℝ) - 0) / (5 / ((n : ℝ) + 1)) = ((n + 1 : ℕ) : ℝ) := by
    push_cast; field_simp
  simp only [pasos_totales, X_INICIAL, X_FINAL, fin_sub_fin,
    fin_div_fin _ _ (paso_malla_pos n).ne', h, truncar_natCast]
  push_cast
  ring

end Ecuacion1

/-- C3: for `y' = x - y`, `y(0) = 1` on `[0, 5]` there is a constant `C` such that for
every number of steps `n + 1`, with `h = 5/(n + 1)`, the integration loop of `ecuacion1.c`
(over exact reals, `exp` the real exponential) runs to the last point, writes exactly the
grid samples `(k*h, y_k)`, `k = 0..n+1`, with `y_k = k*h - 1 + 2*(1-h+h^2/2-h^3/6+h^4/24)^k`,
and every sample satisfies `|y_k - (x_k - 1 + 2e^{-x_k})| <= C*h^4`; the errors written by
the program and its `error_maximo` obey the same bound, and halving `h` divides the bound
by 16. -/
theorem C3_error_global_orden_cuatro :
    ∃ C : ℝ, 0 < C ∧ ∀ n : ℕ,
      (Ecuacion1.integrar Ecuacion1.EDO_FUNCION (Ecuacion1.SOLUCION_EXACTA Real.exp)
          Ecuacion1.X_INICIAL Ecuacion1.X_FINAL Ecuacion1.Y_INICIAL
          (fin (5 / ((n : ℝ) + 1)))).1 = Ecuacion1.Parada.ultimoPunto ∧
      (Ecuacion1.integrar Ecuacion1.EDO_FUNCION (Ecuacion1.SOLUCION_EXACTA Real.exp)
          Ecuacion1.X_INICIAL Ecuacion1.X_FINAL Ecuacion1.Y_INICIAL
          (fin (5 / ((n : ℝ) + 1)))).2.paso = (n : Int) + 1 ∧
      (Ecuacion1.integrar Ecuacion1.EDO_FUNCION (Ecuacion1.SOLUCION_EXACTA Real.exp)
          Ecuacion1.X_INICIAL Ecuacion1.X_FINAL Ecuacion1.Y_INICIAL
          (fin (5 / ((n : ℝ) + 1)))).2.datos_sol =
        (List.range (n + 2)).map (fun k : ℕ =>
          ((fin ((k : ℝ) * (5 / ((n : ℝ) + 1))) : Doble ℝ),
           (fin ((k : ℝ) * (5 / ((n : ℝ) + 1)) - 1 +
              2 * Ecuacion1.factorRK4 (5 / ((n : ℝ) + 1)) ^ k) : Doble ℝ))) ∧
      (∀ k : ℕ, k ≤ n + 1 →
        |((k : ℝ) * (5 / ((n : ℝ) + 1)) - 1 +
            2 * Ecuacion1.factorRK4 (5 / ((n : ℝ) + 1)) ^ k) -
          ((k : ℝ) * (5 / ((n : ℝ) + 1)) - 1 +
            2 * Real.exp (-((k : ℝ) * (5 / ((n : ℝ) + 1)))))|
          ≤ C * (5 / ((n : ℝ) + 1)) ^ 4) ∧
      (∀ q ∈ (Ecuacion1.integrar Ecuacion1.EDO_FUNCION (Ecuacion1.SOLUCION_EXACTA Real.exp)
          Ecuacion1.X_INICIAL Ecuacion1.X_FINAL Ecuacion1.Y_INICIAL
          (fin (5 / ((n : ℝ) + 1)))).2.datos_err,
        ∃ x e : ℝ, q = (fin x, fin e) ∧ e ≤ C * (5 / ((n : ℝ) + 1)) ^ 4) ∧
      (∃ d : ℝ, (Ecuacion1.integrar Ecuacion1.EDO_FUNCION (Ecuacion1.SOLUCION_EXACTA Real.exp)
          Ecuacion1.X_INICIAL Ecuacion1.X_FINAL Ecuacion1.Y_INICIAL
          (fin (5 / ((n : ℝ) + 1)))).2.error_maximo = fin d ∧
        d ≤ C * (5 / ((n : ℝ) + 1)) ^ 4) ∧
      C * ((5 / ((n : ℝ) + 1)) / 2) ^ 4 = C * (5 / ((n : ℝ) + 1)) ^ 4 / 16 := by
  refine ⟨10 ^ 5, by norm_num, fun n => ?_⟩
  have hrun : Ecuacion1.integrar Ecuacion1.EDO_FUNCION (Ecuacion1.SOLUCION_EXACTA Real.exp)
      Ecuacion1.X_INICIAL Ecuacion1.X_FINAL Ecuacion1.Y_INICIAL (fin (5 / ((n : ℝ) + 1))) =
      Ecuacion1.bucle Ecuacion1.EDO_FUNCION (Ecuacion1.SOLUCION_EXACTA Real.exp) (fin 5)
        (fin (5 / ((n : ℝ) + 1))) ((n : Int) + 2) ((((n : Int) + 2) * 10).toNat + 2)
        (Ecuacion1.estadoInicial (fin 0) (fin 1)) := by
    simp only [Ecuacion1.integrar, Ecuacion1.pasos_totales_malla]
    rfl
  obtain ⟨h1, h2, h3, h4, ⟨d, h5, _, h6⟩, _⟩ := Ecuacion1.bucle_malla n
    ((((n : Int) + 2) * 10).toNat + 2) 0 (Ecuacion1.estadoInicial (fin 0) (fin 1))
    (by omega) (by omega) (by simp [Ecuacion1.estadoInicial])
    (by simp [Ecuacion1.estadoInicial]; norm_num) rfl rfl rfl
    ⟨0, rfl, le_refl _, by positivity⟩ rfl
  rw [hrun]
  refine ⟨h1, h2, h3, fun k hk => Ecuacion1.error_global n k hk, ?_, ⟨d, h5, h6⟩, by ring⟩
  intro q hq
  rw [h4, List.mem_map] at hq
  obtain ⟨k, hk, rfl⟩ := hq
  rw [List.mem_range] at hk
  exact ⟨_, _, rfl, Ecuacion1.error_global n k (by omega)⟩

/-! ## Interval enclosures with sixteen-decimal endpoints

Products, quotients and sums of enclosed reals; every side condition is a comparison of
integers. -/

section Cotas

theorem const_mul_cotas {c b bl bu : α} (hb : bl ≤ b ∧ b ≤ bu) :
    (c * bl ≤ c * b ∨ c * bu ≤ c * b) ∧ (c * b ≤ c * bl ∨ c * b ≤ c * bu) := by
  rcases le_total 0 c with hc | hc
  · exact ⟨Or.inl (mul_le_mul_of_nonneg_left hb.1 hc), Or.inr (mul_le_mul_of_nonneg_left hb.2 hc)⟩
  · exact ⟨Or.inr (mul_le_mul_of_nonpos_left hb.2 hc), Or.inl (mul_le_mul_of_nonpos_left hb.1 hc)⟩

theorem mul_cotas {a b al au bl bu zl zu : α} (ha : al ≤ a ∧ a ≤ au) (hb : bl ≤ b ∧ b ≤ bu)
    (h1 : zl ≤ al * bl) (h2 : zl ≤ al * bu) (h3 : zl ≤ au * bl) (h4 : zl ≤ au * bu)
    (h5 : al * bl ≤ zu) (h6 : al * bu ≤ zu) (h7 : au * bl ≤ zu) (h8 : au * bu ≤ zu) :
    zl ≤ a * b ∧ a * b ≤ zu := by
  obtain ⟨p1, p2⟩ := const_mul_cotas (c := al) hb
  obtain ⟨q1, q2⟩ := const_mul_cotas (c := au) hb
  rcases le_total 0 b with hb0 | hb0
  · have l1 : al * b ≤ a * b := mul_le_mul_of_nonneg_right ha.1 hb0
    have u1 : a * b ≤ au * b := mul_le_mul_of_nonneg_right ha.2 hb0
    constructor
    · rcases p1 with p | p <;> linarith
    · rcases q2 with q | q <;> linarith
  · have l1 : au * b ≤ a * b := mul_le_mul_of_nonpos_right ha.2 hb0
    have u1 : a * b ≤ al * b := mul_le_mul_of_nonpos_right ha.1 hb0
    constructor
    · rcases q1 with q | q <;> linarith
    · rcases p2 with p | p <;> linarith

theorem escala_pos : (0 : α) < 10 ^ 16 := by positivity

theorem escala_prod {p q z : Int} (h : z * 10 ^ 16 ≤ p * q) :
    (z : α) / 10 ^ 16 ≤ (p : α) / 10 ^ 16 * ((q : α) / 10 ^ 16) := by
  have h1 : ((z * 10 ^ 16 : Int) : α) ≤ ((p * q : Int) : α) := Int.cast_le.2 h
  push_cast at h1
  rw [div_mul_div_comm, div_le_div_iff₀ (escala_pos) (mul_pos escala_pos escala_pos)]
  nlinarith [escala_pos (α := α)]

theorem prod_escala {p q z : Int} (h : p * q ≤ z * 10 ^ 16) :
    (p : α) / 10 ^ 16 * ((q : α) / 10 ^ 16) ≤ (z : α) / 10 ^ 16 := by
  have h1 : ((p * q : Int) : α) ≤ ((z * 10 ^ 16 : Int) : α) := Int.cast_le.2 h
  push_cast at h1
  rw [div_mul_div_comm, div_le_div_iff₀ (mul_pos escala_pos escala_pos) (escala_pos)]
  nlinarith [escala_pos (α := α)]

theorem entre_mul {a b : α} {A1 A2 B1 B2 : Int} (Z1 Z2 : Int) (ha : entre A1 A2 a)
    (hb : entre B1 B2 b)
    (h : (Z1 * 10 ^ 16 ≤ A1 * B1 ∧ Z1 * 10 ^ 16 ≤ A1 * B2 ∧ Z1 * 10 ^ 16 ≤ A2 * B1 ∧
          Z1 * 10 ^ 16 ≤ A2 * B2) ∧
         (A1 * B1 ≤ Z2 * 10 ^ 16 ∧ A1 * B2 ≤ Z2 * 10 ^ 16 ∧ A2 * B1 ≤ Z2 * 10 ^ 16 ∧
          A2 * B2 ≤ Z2 * 10 ^ 16)) :
    entre Z1 Z2 (a * b) :=
  mul_cotas ha hb (escala_prod h.1.1) (escala_prod h.1.2.1) (escala_prod h.1.2.2.1)
    (escala_prod h.1.2.2.2) (prod_escala h.2.1) (prod_escala h.2.2.1) (prod_escala h.2.2.2.1)
    (prod_escala h.2.2.2.2)

theorem entre_mono {a : α} {A1 A2 : Int} (Z1 Z2 : Int) (ha : entre A1 A2 a)
    (h : Z1 ≤ A1 ∧ A2 ≤ Z2) : entre Z1 Z2 a := by
  have h1 : (Z1 : α) ≤ A1 := Int.cast_le.2 h.1
  have h2 : (A2 : α) ≤ Z2 := Int.cast_le.2 h.2
  exact ⟨le_trans (div_le_div_of_nonneg_right h1 escala_pos.le) ha.1,
    le_trans ha.2 (div_le_div_of_nonneg_right h2 escala_pos.le)⟩

theorem entre_add {a b : α} {A1 A2 B1 B2 : Int} (ha : entre A1 A2 a) (hb : entre B1 B2 b) :
    entre (A1 + B1) (A2 + B2) (a + b) := by
  unfold entre at *
  push_cast
  rw [add_div, add_div]
  exact ⟨add_le_add ha.1 hb.1, add_le_add ha.2 hb.2⟩

theorem entre_neg {a : α} {A1 A2 : Int} (ha : entre A1 A2 a) : entre (-A2) (-A1) (-a) := by
  unfold entre at *
  push_cast
  rw [neg_div, neg_div]
  exact ⟨neg_le_neg ha.2, neg_le_neg ha.1⟩

theorem entre_sub {a b : α} {A1 A2 B1 B2 : Int} (ha : entre A1 A2 a) (hb : entre B1 B2 b) :
    entre (A1 + -B2) (A2 + -B1) (a - b) := by
  rw [sub_eq_add_neg]
  exact entre_add ha (entre_neg hb)

theorem entre_const (c : Int) : entre (c * 10 ^ 16) (c * 10 ^ 16) (c : α) := by
  have e : ((c * 10 ^ 16 : Int) : α) / 10 ^ 16 = c := by
    rw [Int.cast_mul, Int.cast_pow, Int.cast_ofNat, mul_div_assoc, div_self escala_pos.ne',
      mul_one]
  exact ⟨le_of_eq e, le_of_eq e.symm⟩

theorem inv_cotas_neg {b bl bu zl zu : α} (hb : bl ≤ b ∧ b ≤ bu) (hneg : bu < 0)
    (h1 : 1 ≤ zl * bu) (h2 : zu * bl ≤ 1) : zl ≤ b⁻¹ ∧ b⁻¹ ≤ zu := by
  have hb0 : b < 0 := lt_of_le_of_lt hb.2 hneg
  have hbl : bl < 0 := lt_of_le_of_lt hb.1 hb0
  have hi : b⁻¹ < 0 := inv_lt_zero.2 hb0
  have e : b * b⁻¹ = 1 := mul_inv_cancel₀ hb0.ne
  constructor
  · by_contra hc
    have hc : b⁻¹ < zl := not_le.1 hc
    have hz : zl < 0 := by
      by_contra hz
      have hz : 0 ≤ zl := not_lt.1 hz
      nlinarith [mul_nonpos_of_nonneg_of_nonpos hz hneg.le]
    nlinarith [mul_pos_of_neg_of_neg (sub_neg.2 hc) hb0,
      mul_nonneg_of_nonpos_of_nonpos hz.le (sub_nonpos.2 hb.2)]
  · by_contra hc
    have hc : zu < b⁻¹ := not_le.1 hc
    nlinarith [mul_pos_of_neg_of_neg (sub_neg.2 hc) hbl,
      mul_nonneg_of_nonpos_of_nonpos hi.le (sub_nonpos.2 hb.1)]

theorem entre_inv_neg {b : α} {B1 B2 : Int} (Z1 Z2 : Int) (hb : entre B1 B2 b)
    (h : B2 < 0 ∧ 10 ^ 32 ≤ Z1 * B2 ∧ Z2 * B1 ≤ 10 ^ 32) : entre Z1 Z2 b⁻¹ := by
  have hW := escala_pos (α := α)
  have hb2 : (B2 : α) / 10 ^ 16 < 0 := div_neg_of_neg_of_pos (Int.cast_lt_zero.2 h.1) hW
  have c1 : (1 : α) ≤ (Z1 : α) / 10 ^ 16 * ((B2 : α) / 10 ^ 16) := by
    have := escala_prod (α := α) (z := 10 ^ 16) (p := Z1) (q := B2) (by rw [← pow_add]; exact h.2.1)
    rwa [Int.cast_pow, Int.cast_ofNat, div_self hW.ne'] at this
  have c2 : (Z2 : α) / 10 ^ 16 * ((B1 : α) / 10 ^ 16) ≤ 1 := by
    have := prod_escala (α := α) (z := 10 ^ 16) (p := Z2) (q := B1) (by rw [← pow_add]; exact h.2.2)
    rwa [Int.cast_pow, Int.cast_ofNat, div_self hW.ne'] at this
  exact inv_cotas_neg hb hb2 c1 c2

theorem entre_div {a b : α} {A1 A2 I1 I2 : Int} (Z1 Z2 : Int) (ha : entre A1 A2 a)
    (hi : entre I1 I2 b⁻¹)
    (h : (Z1 * 10 ^ 16 ≤ A1 * I1 ∧ Z1 * 10 ^ 16 ≤ A1 * I2 ∧ Z1 * 10 ^ 16 ≤ A2 * I1 ∧
          Z1 * 10 ^ 16 ≤ A2 * I2) ∧
         (A1 * I1 ≤ Z2 * 10 ^ 16 ∧ A1 * I2 ≤ Z2 * 10 ^ 16 ∧ A2 * I1 ≤ Z2 * 10 ^ 16 ∧
          A2 * I2 ≤ Z2 * 10 ^ 16)) :
    entre Z1 Z2 (a / b) := by
  rw [div_eq_mul_inv]
  exact entre_mul Z1 Z2 ha hi h

theorem entre_abs_le {a : α} {A1 A2 : Int} (ha : entre A1 A2 a)
    (h : -(100 * 10 ^ 16) ≤ A1 ∧ A2 ≤ 100 * 10 ^ 16) : |a| ≤ 100 := by
  have h3 := entre_mono _ _ ha h
  have e : ((100 * 10 ^ 16 : Int) : α) / 10 ^ 16 = 100 := by
    rw [Int.cast_mul, Int.cast_pow, Int.cast_ofNat, Int.cast_ofNat, mul_div_assoc,
      div_self escala_pos.ne', mul_one]
  unfold entre at h3
  rw [Int.cast_neg, neg_div, e] at h3
  exact abs_le.2 h3

theorem entre_uno : entre (1 * 10 ^ 16) (1 * 10 ^ 16) (1 : α) := by
  have h := entre_const (α := α) 1
  rwa [Int.cast_one] at h

theorem entre_ofNat (n : ℕ) [n.AtLeastTwo] :
    entre ((n : Int) * 10 ^ 16) ((n : Int) * 10 ^ 16) (OfNat.ofNat n : α) := by
  have h := entre_const (α := α) (n : Int)
  rwa [Int.cast_natCast, Nat.cast_eq_ofNat] at h

theorem entre_le_menos_uno {a : α} {A1 A2 : Int} (ha : entre A1 A2 a)
    (h : A2 ≤ -(1 * 10 ^ 16)) : a ≤ -1 := by
  have h3 := (entre_mono A1 _ ha ⟨le_refl _, h⟩).2
  have e : ((1 * 10 ^ 16 : Int) : α) / 10 ^ 16 = 1 := by
    rw [Int.cast_mul, Int.cast_one, one_mul, Int.cast_pow, Int.cast_ofNat,
      div_self escala_pos.ne']
  rwa [Int.cast_neg, neg_div, e] at h3

theorem entre_abs_lt {a : α} {A1 A2 : Int} (ha : entre A1 A2 a)
    (h : -(10 ^ 11) < A1 ∧ A2 < 10 ^ 11) : |a| < 1 / 10 ^ 5 := by
  have hW := escala_pos (α := α)
  have h1 : ((-(10 ^ 11) : Int) : α) < A1 := Int.cast_lt.2 h.1
  have h2 : (A2 : α) < ((10 ^ 11 : Int) : α) := Int.cast_lt.2 h.2
  have e : ((10 ^ 11 : Int) : α) / 10 ^ 16 = 1 / 10 ^ 5 := by
    rw [Int.cast_pow, Int.cast_ofNat, div_eq_div_iff hW.ne' (by positivity)]
    norm_num
  rw [abs_lt]
  constructor
  · calc -(1 / 10 ^ 5 : α) = ((-(10 ^ 11) : Int) : α) / 10 ^ 16 := by
          rw [Int.cast_neg, neg_div, e]
      _ < (A1 : α) / 10 ^ 16 := div_lt_div_of_pos_right h1 hW
      _ ≤ a := ha.1
  · calc a ≤ (A2 : α) / 10 ^ 16 := ha.2
      _ < ((10 ^ 11 : Int) : α) / 10 ^ 16 := div_lt_div_of_pos_right h2 hW
      _ = 1 / 10 ^ 5 := e

end Cotas
/-! ## The configured 2-D Newton run, followed step by step (C6) -/

namespace Newtonsistemas

theorem VALIDAR_fin_ns (nombre : String) {v : α} (h : |v| ≤ 10 ^ 100) :
    VALIDAR nombre (fin v) = Except.ok () := by
  have hv : es_numerico_valido (fin v) = true := by
    rw [es_numerico_valido_fin]; exact decide_eq_true h
  simp only [VALIDAR, verificar_nan_inf, isnan_fin, isinf_fin, hv, Bool.false_eq_true, if_false,
    Bool.not_true]

theorem validar_punto_fin (contexto : String) {x y : α} (hx : |x| ≤ 10 ^ 100)
    (hy : |y| ≤ 10 ^ 100) : validar_punto (fin x) (fin y) contexto = Except.ok () := by
  have vx : es_numerico_valido (fin x) = true := by
    rw [es_numerico_valido_fin]; exact decide_eq_true hx
  have vy : es_numerico_valido (fin y) = true := by
    rw [es_numerico_valido_fin]; exact decide_eq_true hy
  simp only [validar_punto, vx, vy, Bool.not_true, Bool.or_self, Bool.false_eq_true, if_false]

theorem cien_le : (100 : α) ≤ 10 ^ 100 := by
  calc (100 : α) = 10 ^ 2 := by norm_num
    _ ≤ 10 ^ 100 := pow_le_pow_right₀ (by norm_num) (by norm_num)

theorem cuerpo_configurado_fin (g raiz : α → α) (tol : α) (maxIter : Int) (s : Estado α)
    (x y : α) (hsx : s.x = fin x) (hsy : s.y = fin y)
    (hf1 : |x * x + y * y - 4| ≤ 100) (hf2 : |g x + y - 1| ≤ 100)
    (h2x : |2 * x| ≤ 100) (h2y : |2 * y| ≤ 100) (hg : |g x| ≤ 100)
    (hdet : |detConfigurado g x y| ≤ 100) (hdet1 : detConfigurado g x y ≤ -1)
    (hdx : |dxConfigurado g x y| ≤ 100) (hdy : |dyConfigurado g x y| ≤ 100)
    (hx1 : |x + dxConfigurado g x y| ≤ 100) (hy1 : |y + dyConfigurado g x y| ≤ 100)
    (herr : |raiz (dxConfigurado g x y * dxConfigurado g x y +
      dyConfigurado g x y * dyConfigurado g x y)| ≤ 100) :
    ∃ s1 : Estado α,
      s1.x = fin (x + dxConfigurado g x y) ∧ s1.y = fin (y + dyConfigurado g x y) ∧
      s1.iteracion = s.iteracion + 1 ∧
      s1.registros.length = s.registros.length + 1 ∧
      cuerpo raiz (sistemaConfigurado g) (fin tol) maxIter s =
        if (10 ^ 5 < raiz (dxConfigurado g x y * dxConfigurado g x y +
              dyConfigurado g x y * dyConfigurado g x y) ∧ s.iteracion + 1 > 3)
        then .para .diverged s1
        else if raiz (dxConfigurado g x y * dxConfigurado g x y +
              dyConfigurado g x y * dyConfigurado g x y) < tol
        then .para .converged s1
        else if s.iteracion + 1 ≥ maxIter then .para .maxIterExceeded s1
        else .sigue s1 := by
  have c := cien_le (α := α)
  have hd0 : detConfigurado g x y ≠ 0 := by linarith
  have hdabs : ¬ |detConfigurado g x y| < 1 / 10 ^ 15 := by
    rw [abs_of_nonpos (by linarith), not_lt]
    have : (1 : α) / 10 ^ 15 ≤ 1 := by
      rw [div_le_one (by positivity)]; exact one_le_pow₀ (by norm_num)
    linarith
  have he2 : ¬ (dxConfigurado g x y * dxConfigurado g x y +
      dyConfigurado g x y * dyConfigurado g x y < 0) :=
    not_lt.2 (add_nonneg (mul_self_nonneg _) (mul_self_nonneg _))
  have e1 : (-(x * x + y * y - 4) * 1 + (g x + y - 1) * (2 * y)) / detConfigurado g x y =
      dxConfigurado g x y := rfl
  have e2 : (-(2 * x) * (g x + y - 1) + (x * x + y * y - 4) * g x) / detConfigurado g x y =
      dyConfigurado g x y := rfl
  have e3 : 2 * x * 1 - 2 * y * g x = detConfigurado g x y := rfl
  refine ⟨{ x := fin (x + dxConfigurado g x y), y := fin (y + dyConfigurado g x y),
             iteracion := s.iteracion + 1,
             registros := s.registros ++
               [{ iter := s.iteracion, x := fin x, y := fin y, f1 := fin (x * x + y * y - 4),
                  f2 := fin (g x + y - 1), det := fin (detConfigurado g x y),
                  error := fin (raiz (dxConfigurado g x y * dxConfigurado g x y +
                    dyConfigurado g x y * dyConfigurado g x y)) }],
             trayectoria := s.trayectoria ++
               [(fin (x + dxConfigurado g x y), fin (y + dyConfigurado g x y))] },
    rfl, rfl, rfl, by simp, ?_⟩
  · simp only [cuerpo, sistemaConfigurado, hsx, hsy, F1, F2, DF1_DX, DF1_DY, DF2_DX, DF2_DY, cexp,
      fin_mul_fin, fin_add_fin, fin_sub_fin, determinante, incrementos, neg_fin,
      e3, fin_div_fin _ _ hd0, e1, e2, csqrt, he2, if_false, fabs_fin,
      VALIDAR_fin_ns _ (le_trans hf1 c), VALIDAR_fin_ns _ (le_trans hf2 c),
      VALIDAR_fin_ns _ (le_trans h2x c), VALIDAR_fin_ns _ (le_trans h2y c),
      VALIDAR_fin_ns _ (le_trans hg c), VALIDAR_fin_ns _ (le_trans hdet c),
      VALIDAR_fin_ns _ (le_trans hdx c), VALIDAR_fin_ns _ (le_trans hdy c),
      VALIDAR_fin_ns _ (le_trans herr c),
      VALIDAR_fin_ns _ (show |(1 : α)| ≤ 10 ^ 100 by rw [abs_one]; exact one_le_pow₀ (by norm_num)),
      validar_punto_fin _ (le_trans hx1 c) (le_trans hy1 c),
      trasValidar, lt_fin_fin, gt_fin_fin, decide_eq_false hdabs, Bool.false_eq_true,
      Bool.and_eq_true, decide_eq_true_eq]

theorem exp_inf_0 :
    ((27182818284590452 : Int) : ℝ) / 10 ^ 16 ≤ Real.exp (((10000000000000000 : Int) : ℝ) / 10 ^ 16) := by
  have h := Real.exp_bound (x := (((10000000000000000 : Int) : ℝ) / 10 ^ 16 / 2))
    (by rw [abs_le]; constructor <;> norm_num) (n := 16) (by norm_num)
  have he : |(((10000000000000000 : Int) : ℝ) / 10 ^ 16 / 2)| ^ 16 *
      (((Nat.succ 16 : ℕ) : ℝ) / (((Nat.factorial 16 : ℕ) : ℝ) * ((16 : ℕ) : ℝ)))
      ≤ (7749 / 10000000000000000000000) := by
    rw [abs_of_nonneg (by norm_num)]
    norm_num [Nat.factorial]
  have h1 := abs_le.1 (le_trans h he)
  have hS : ((1648721270700128146097 / 1000000000000000000000) : ℝ) ≤
      (∑ m ∈ Finset.range 16, (((10000000000000000 : Int) : ℝ) / 10 ^ 16 / 2) ^ m / (m.factorial : ℝ)) := by
    simp only [Finset.sum_range_succ, Finset.sum_range_zero, Nat.factorial]
    norm_num
  have hpow : Real.exp (((10000000000000000 : Int) : ℝ) / 10 ^ 16) =
      Real.exp (((10000000000000000 : Int) : ℝ) / 10 ^ 16 / 2) ^ 2 := by
    rw [← Real.exp_nat_mul]; congr 1; norm_num
  rw [hpow]
  have hlo : ((41218031767503203633 / 25000000000000000000) : ℝ) ≤
      Real.exp (((10000000000000000 : Int) : ℝ) / 10 ^ 16 / 2) := by linarith [h1.1]
  calc ((27182818284590452 : Int) : ℝ) / 10 ^ 16 ≤ (41218031767503203633 / 25000000000000000000) ^ 2 := by norm_num
    _ ≤ Real.exp (((10000000000000000 : Int) : ℝ) / 10 ^ 16 / 2) ^ 2 :=
        pow_le_pow_left₀ (by norm_num) hlo _

theorem exp_sup_0 :
    Real.exp (((10000000000000000 : Int) : ℝ) / 10 ^ 16) ≤ ((27182818284590453 : Int) : ℝ) / 10 ^ 16 := by
  have h := Real.exp_bound (x := (((10000000000000000 : Int) : ℝ) / 10 ^ 16 / 2))
    (by rw [abs_le]; constructor <;> norm_num) (n := 16) (by norm_num)
  have he : |(((10000000000000000 : Int) : ℝ) / 10 ^ 16 / 2)| ^ 16 *
      (((Nat.succ 16 : ℕ) : ℝ) / (((Nat.factorial 16 : ℕ) : ℝ) * ((16 : ℕ) : ℝ)))
      ≤ (7749 / 10000000000000000000000) := by
    rw [abs_of_nonneg (by norm_num)]
    norm_num [Nat.factorial]
  have h1 := abs_le.1 (le_trans h he)
  have hS : (∑ m ∈ Finset.range 16, (((10000000000000000 : Int) : ℝ) / 10 ^ 16 / 2) ^ m / (m.factorial : ℝ))
      ≤ ((824360635350064073049 / 500000000000000000000) : ℝ) := by
    simp only [Finset.sum_range_succ, Finset.sum_range_zero, Nat.factorial]
    norm_num
  have hpow : Real.exp (((10000000000000000 : Int) : ℝ) / 10 ^ 16) =
      Real.exp (((10000000000000000 : Int) : ℝ) / 10 ^ 16 / 2) ^ 2 := by
    rw [← Real.exp_nat_mul]; congr 1; norm_num
  rw [hpow]
  have hhi : Real.exp (((10000000000000000 : Int) : ℝ) / 10 ^ 16 / 2) ≤
      ((5152253970937900459 / 3125000000000000000) : ℝ) := by linarith [h1.2]
  calc Real.exp (((10000000000000000 : Int) : ℝ) / 10 ^ 16 / 2) ^ 2 ≤ (5152253970937900459 / 3125000000000000000) ^ 2 :=
        pow_le_pow_left₀ (Real.exp_pos _).le hhi _
    _ ≤ ((27182818284590453 : Int) : ℝ) / 10 ^ 16 := by norm_num

theorem intervalo_0 (x y : ℝ) (hx : entre 10000000000000000 10000000000000000 (x))
    (hy : entre 10000000000000000 10000000000000000 (y)) :
    |x * x + y * y - 4| ≤ 100 ∧ |Real.exp x + y - 1| ≤ 100 ∧ |2 * x| ≤ 100 ∧
    |2 * y| ≤ 100 ∧ |Real.exp x| ≤ 100 ∧ |detConfigurado Real.exp x y| ≤ 100 ∧
    detConfigurado Real.exp x y ≤ -1 ∧ |dxConfigurado Real.exp x y| ≤ 100 ∧
    |dyConfigurado Real.exp x y| ≤ 100 ∧ |x + dxConfigurado Real.exp x y| ≤ 100 ∧
    |y + dyConfigurado Real.exp x y| ≤ 100 ∧
    entre 146932955811396419 146932955811396543 (dxConfigurado Real.exp x y * dxConfigurado Real.exp x y + dyConfigurado Real.exp x y * dyConfigurado Real.exp x y) ∧
    entre (-11639534137386536) (-11639534137386527) (x + dxConfigurado Real.exp x y) ∧
    entre 41639534137386526 41639534137386539 (y + dyConfigurado Real.exp x y) := by
  have hE : entre 27182818284590452 27182818284590453 (Real.exp x) :=
    ⟨le_trans exp_inf_0 (Real.exp_le_exp.2 hx.1),
      le_trans (Real.exp_le_exp.2 hx.2) exp_sup_0⟩
  have hxx := entre_mul 10000000000000000 10000000000000000 hx hx (by decide)
  have hyy := entre_mul 10000000000000000 10000000000000000 hy hy (by decide)
  have hf1 := entre_sub (entre_add hxx hyy) (entre_ofNat (α := ℝ) 4)
  have hf2 := entre_sub (entre_add hE hy) (entre_uno (α := ℝ))
  have ha := entre_mul 20000000000000000 20000000000000000 (entre_ofNat (α := ℝ) 2) hx (by decide)
  have hb := entre_mul 20000000000000000 20000000000000000 (entre_ofNat (α := ℝ) 2) hy (by decide)
  have ha1 := entre_mul 20000000000000000 20000000000000000 ha (entre_uno (α := ℝ)) (by decide)
  have hbE := entre_mul 54365636569180904 54365636569180906 hb hE (by decide)
  have hdet : entre (-34365636569180906) (-34365636569180904) (detConfigurado Real.exp x y) :=
    entre_mono _ _ (entre_sub ha1 hbE) (by decide)
  have hf2b := entre_mul 54365636569180904 54365636569180906 hf2 hb (by decide)
  have hnf1 := entre_mul 20000000000000000 20000000000000000 (entre_neg hf1) (entre_uno (α := ℝ)) (by decide)
  have hNx := entre_add hnf1 hf2b
  have hnaf2 := entre_mul (-54365636569180906) (-54365636569180904) (entre_neg ha) hf2 (by decide)
  have hf1E := entre_mul (-54365636569180906) (-54365636569180904) hf1 hE (by decide)
  have hNy := entre_add hnaf2 hf1E
  have hinv := entre_inv_neg (-2909883534346633) (-2909883534346632) hdet (by decide)
  have hdx : entre (-21639534137386536) (-21639534137386527) (dxConfigurado Real.exp x y) :=
    entre_div _ _ hNx hinv (by decide)
  have hdy : entre 31639534137386526 31639534137386539 (dyConfigurado Real.exp x y) :=
    entre_div _ _ hNy hinv (by decide)
  have hdxx := entre_mul 46826943768311686 46826943768311726 hdx hdx (by decide)
  have hdyy := entre_mul 100106012043084733 100106012043084817 hdy hdy (by decide)
  exact ⟨entre_abs_le hf1 (by decide), entre_abs_le hf2 (by decide),
    entre_abs_le ha (by decide), entre_abs_le hb (by decide),
    entre_abs_le hE (by decide), entre_abs_le hdet (by decide),
    entre_le_menos_uno hdet (by decide), entre_abs_le hdx (by decide),
    entre_abs_le hdy (by decide), entre_abs_le (entre_add hx hdx) (by decide),
    entre_abs_le (entre_add hy hdy) (by decide),
    entre_mono _ _ (entre_add hdxx hdyy) (by decide),
    entre_mono _ _ (entre_add hx hdx) (by decide),
    entre_mono _ _ (entre_add hy hdy) (by decide)⟩

theorem exp_inf_1 :
    ((3122492868960661 : Int) : ℝ) / 10 ^ 16 ≤ Real.exp ((((-11639534137386536) : Int) : ℝ) / 10 ^ 16) := by
  have h := Real.exp_bound (x := ((((-11639534137386536) : Int) : ℝ) / 10 ^ 16 / 2))
    (by rw [abs_le]; constructor <;> norm_num) (n := 16) (by norm_num)
  have he : |((((-11639534137386536) : Int) : ℝ) / 10 ^ 16 / 2)| ^ 16 *
      (((Nat.succ 16 : ℕ) : ℝ) / (((Nat.factorial 16 : ℕ) : ℝ) * ((16 : ℕ) : ℝ)))
      ≤ (87943 / 10000000000000000000000) := by
    rw [abs_of_nonpos (by norm_num)]
    norm_num [Nat.factorial]
  have h1 := abs_le.1 (le_trans h he)
  have hS : ((223517081905098679 / 400000000000000000) : ℝ) ≤
      (∑ m ∈ Finset.range 16, ((((-11639534137386536) : Int) : ℝ) / 10 ^ 16 / 2) ^ m / (m.factorial : ℝ)) := by
    simp only [Finset.sum_range_succ, Finset.sum_range_zero, Nat.factorial]
    norm_num
  have hpow : Real.exp ((((-11639534137386536) : Int) : ℝ) / 10 ^ 16) =
      Real.exp ((((-11639534137386536) : Int) : ℝ) / 10 ^ 16 / 2) ^ 2 := by
    rw [← Real.exp_nat_mul]; congr 1; norm_num
  rw [hpow]
  have hlo : ((5587927047627466887 / 10000000000000000000) : ℝ) ≤
      Real.exp ((((-11639534137386536) : Int) : ℝ) / 10 ^ 16 / 2) := by linarith [h1.1]
  calc ((3122492868960661 : Int) : ℝ) / 10 ^ 16 ≤ (5587927047627466887 / 10000000000000000000) ^ 2 := by norm_num
    _ ≤ Real.exp ((((-11639534137386536) : Int) : ℝ) / 10 ^ 16 / 2) ^ 2 :=
        pow_le_pow_left₀ (by norm_num) hlo _

theorem exp_sup_1 :
    Real.exp ((((-11639534137386527) : Int) : ℝ) / 10 ^ 16) ≤ ((3122492868960665 : Int) : ℝ) / 10 ^ 16 := by
  have h := Real.exp_bound (x := ((((-11639534137386527) : Int) : ℝ) / 10 ^ 16 / 2))
    (by rw [abs_le]; constructor <;> norm_num) (n := 16) (by norm_num)
  have he : |((((-11639534137386527) : Int) : ℝ) / 10 ^ 16 / 2)| ^ 16 *
      (((Nat.succ 16 : ℕ) : ℝ) / (((Nat.factorial 16 : ℕ) : ℝ) * ((16 : ℕ) : ℝ)))
      ≤ (87943 / 10000000000000000000000) := by
    rw [abs_of_nonpos (by norm_num)]
    norm_num [Nat.factorial]
  have h1 := abs_le.1 (le_trans h he)
  have hS : (∑ m ∈ Finset.range 16, ((((-11639534137386527) : Int) : ℝ) / 10 ^ 16 / 2) ^ m / (m.factorial : ℝ))
      ≤ ((279396352381373474479 / 500000000000000000000) : ℝ) := by
    simp only [Finset.sum_range_succ, Finset.sum_range_zero, Nat.factorial]
    norm_num
  have hpow : Real.exp ((((-11639534137386527) : Int) : ℝ) / 10 ^ 16) =
      Real.exp ((((-11639534137386527) : Int) : ℝ) / 10 ^ 16 / 2) ^ 2 := by
    rw [← Real.exp_nat_mul]; congr 1; norm_num
  rw [hpow]
  have hhi : Real.exp ((((-11639534137386527) : Int) : ℝ) / 10 ^ 16 / 2) ≤
      ((1746227202383584243 / 3125000000000000000) : ℝ) := by linarith [h1.2]
  calc Real.exp ((((-11639534137386527) : Int) : ℝ) / 10 ^ 16 / 2) ^ 2 ≤ (1746227202383584243 / 3125000000000000000) ^ 2 :=
        pow_le_pow_left₀ (Real.exp_pos _).le hhi _
    _ ≤ ((3122492868960665 : Int) : ℝ) / 10 ^ 16 := by norm_num

theorem intervalo_1 (x y : ℝ) (hx : entre (-11639534137386536) (-11639534137386527) (x))
    (hy : entre 41639534137386526 41639534137386539 (y)) :
    |x * x + y * y - 4| ≤ 100 ∧ |Real.exp x + y - 1| ≤ 100 ∧ |2 * x| ≤ 100 ∧
    |2 * y| ≤ 100 ∧ |Real.exp x| ≤ 100 ∧ |detConfigurado Real.exp x y| ≤ 100 ∧
    detConfigurado Real.exp x y ≤ -1 ∧ |dxConfigurado Real.exp x y| ≤ 100 ∧
    |dyConfigurado Real.exp x y| ≤ 100 ∧ |x + dxConfigurado Real.exp x y| ≤ 100 ∧
    |y + dyConfigurado Real.exp x y| ≤ 100 ∧
    entre 149879448160196808 149879448160198052 (dxConfigurado Real.exp x y * dxConfigurado Real.exp x y + dyConfigurado Real.exp x y * dyConfigurado Real.exp x y) ∧
    entre (-40566803462391462) (-40566803462391321) (x + dxConfigurado Real.exp x y) ∧
    entre 15910026349622502 15910026349622608 (y + dyConfigurado Real.exp x y) := by
  have hE : entre 3122492868960661 3122492868960665 (Real.exp x) :=
    ⟨le_trans exp_inf_1 (Real.exp_le_exp.2 hx.1),
      le_trans (Real.exp_le_exp.2 hx.2) exp_sup_1⟩
  have hxx := entre_mul 13547875493538632 13547875493538654 hx hx (by decide)
  have hyy := entre_mul 173385080317857785 173385080317857895 hy hy (by decide)
  have hf1 := entre_sub (entre_add hxx hyy) (entre_ofNat (α := ℝ) 4)
  have hf2 := entre_sub (entre_add hE hy) (entre_uno (α := ℝ))
  have ha := entre_mul (-23279068274773072) (-23279068274773054) (entre_ofNat (α := ℝ) 2) hx (by decide)
  have hb := entre_mul 83279068274773052 83279068274773078 (entre_ofNat (α := ℝ) 2) hy (by decide)
  have ha1 := entre_mul (-23279068274773072) (-23279068274773054) ha (entre_uno (α := ℝ)) (by decide)
  have hbE := entre_mul 26003829682166687 26003829682166729 hb hE (by decide)
  have hdet : entre (-49282897956939801) (-49282897956939741) (detConfigurado Real.exp x y) :=
    entre_mono _ _ (entre_sub ha1 hbE) (by decide)
  have hf2b := entre_mul 289494922043109207 289494922043109440 hf2 hb (by decide)
  have hnf1 := entre_mul (-146932955811396549) (-146932955811396417) (entre_neg hf1) (entre_uno (α := ℝ)) (by decide)
  have hNx := entre_add hnf1 hf2b
  have hnaf2 := entre_mul 80922760005026092 80922760005026195 (entre_neg ha) hf2 (by decide)
  have hf1E := entre_mul 45879710673639722 45879710673639823 hf1 hE (by decide)
  have hNy := entre_add hnaf2 hf1E
  have hinv := entre_inv_neg (-2029101455993389) (-2029101455993385) hdet (by decide)
  have hdx : entre (-28927269325004926) (-28927269325004794) (dxConfigurado Real.exp x y) :=
    entre_div _ _ hNx hinv (by decide)
  have hdy : entre (-25729507787764024) (-25729507787763931) (dyConfigurado Real.exp x y) :=
    entre_div _ _ hNy hinv (by decide)
  have hdxx := entre_mul 83678691060136331 83678691060137095 hdx hdx (by decide)
  have hdyy := entre_mul 66200757100060477 66200757100060957 hdy hdy (by decide)
  exact ⟨entre_abs_le hf1 (by decide), entre_abs_le hf2 (by decide),
    entre_abs_le ha (by decide), entre_abs_le hb (by decide),
    entre_abs_le hE (by decide), entre_abs_le hdet (by decide),
    entre_le_menos_uno hdet (by decide), entre_abs_le hdx (by decide),
    entre_abs_le hdy (by decide), entre_abs_le (entre_add hx hdx) (by decide),
    entre_abs_le (entre_add hy hdy) (by decide),
    entre_mono _ _ (entre_add hdxx hdyy) (by decide),
    entre_mono _ _ (entre_add hx hdx) (by decide),
    entre_mono _ _ (entre_add hy hdy) (by decide)⟩

theorem exp_inf_2 :
    ((173063750347480 : Int) : ℝ) / 10 ^ 16 ≤ Real.exp ((((-40566803462391462) : Int) : ℝ) / 10 ^ 16) := by
  have h := Real.exp_bound (x := ((((-40566803462391462) : Int) : ℝ) / 10 ^ 16 / 8))
    (by rw [abs_le]; constructor <;> norm_num) (n := 16) (by norm_num)
  have he : |((((-40566803462391462) : Int) : ℝ) / 10 ^ 16 / 8)| ^ 16 *
      (((Nat.succ 16 : ℕ) : ℝ) / (((Nat.factorial 16 : ℕ) : ℝ) * ((16 : ℕ) : ℝ)))
      ≤ (4853 / 5000000000000000000000) := by
    rw [abs_of_nonpos (by norm_num)]
    norm_num [Nat.factorial]
  have h1 := abs_le.1 (le_trans h he)
  have hS : ((120449710222613404253 / 200000000000000000000) : ℝ) ≤
      (∑ m ∈ Finset.range 16, ((((-40566803462391462) : Int) : ℝ) / 10 ^ 16 / 8) ^ m / (m.factorial : ℝ)) := by
    simp only [Finset.sum_range_succ, Finset.sum_range_zero, Nat.factorial]
    norm_num
  have hpow : Real.exp ((((-40566803462391462) : Int) : ℝ) / 10 ^ 16) =
      Real.exp ((((-40566803462391462) : Int) : ℝ) / 10 ^ 16 / 8) ^ 8 := by
    rw [← Real.exp_nat_mul]; congr 1; norm_num
  rw [hpow]
  have hlo : ((60224855111306702029 / 100000000000000000000) : ℝ) ≤
      Real.exp ((((-40566803462391462) : Int) : ℝ) / 10 ^ 16 / 8) := by linarith [h1.1]
  calc ((173063750347480 : Int) : ℝ) / 10 ^ 16 ≤ (60224855111306702029 / 100000000000000000000) ^ 8 := by norm_num
    _ ≤ Real.exp ((((-40566803462391462) : Int) : ℝ) / 10 ^ 16 / 8) ^ 8 :=
        pow_le_pow_left₀ (by norm_num) hlo _

theorem exp_sup_2 :
    Real.exp ((((-40566803462391321) : Int) : ℝ) / 10 ^ 16) ≤ ((173063750347483 : Int) : ℝ) / 10 ^ 16 := by
  have h := Real.exp_bound (x := ((((-40566803462391321) : Int) : ℝ) / 10 ^ 16 / 8))
    (by rw [abs_le]; constructor <;> norm_num) (n := 16) (by norm_num)
  have he : |((((-40566803462391321) : Int) : ℝ) / 10 ^ 16 / 8)| ^ 16 *
      (((Nat.succ 16 : ℕ) : ℝ) / (((Nat.factorial 16 : ℕ) : ℝ) * ((16 : ℕ) : ℝ)))
      ≤ (4853 / 5000000000000000000000) := by
    rw [abs_of_nonpos (by norm_num)]
    norm_num [Nat.factorial]
  have h1 := abs_le.1 (le_trans h he)
  have hS : (∑ m ∈ Finset.range 16, ((((-40566803462391321) : Int) : ℝ) / 10 ^ 16 / 8) ^ m / (m.factorial : ℝ))
      ≤ ((602248551113068082729 / 1000000000000000000000) : ℝ) := by
    simp only [Finset.sum_range_succ, Finset.sum_range_zero, Nat.factorial]
    norm_num
  have hpow : Real.exp ((((-40566803462391321) : Int) : ℝ) / 10 ^ 16) =
      Real.exp ((((-40566803462391321) : Int) : ℝ) / 10 ^ 16 / 8) ^ 8 := by
    rw [← Real.exp_nat_mul]; congr 1; norm_num
  rw [hpow]
  have hhi : Real.exp ((((-40566803462391321) : Int) : ℝ) / 10 ^ 16 / 8) ≤
      ((6022485511130680837 / 10000000000000000000) : ℝ) := by linarith [h1.2]
  calc Real.exp ((((-40566803462391321) : Int) : ℝ) / 10 ^ 16 / 8) ^ 8 ≤ (6022485511130680837 / 10000000000000000000) ^ 8 :=
        pow_le_pow_left₀ (Real.exp_pos _).le hhi _
    _ ≤ ((173063750347483 : Int) : ℝ) / 10 ^ 16 := by norm_num

theorem intervalo_2 (x y : ℝ) (hx : entre (-40566803462391462) (-40566803462391321) (x))
    (hy : entre 15910026349622502 15910026349622608 (y)) :
    |x * x + y * y - 4| ≤ 100 ∧ |Real.exp x + y - 1| ≤ 100 ∧ |2 * x| ≤ 100 ∧
    |2 * y| ≤ 100 ∧ |Real.exp x| ≤ 100 ∧ |detConfigurado Real.exp x y| ≤ 100 ∧
    detConfigurado Real.exp x y ≤ -1 ∧ |dxConfigurado Real.exp x y| ≤ 100 ∧
    |dyConfigurado Real.exp x y| ≤ 100 ∧ |x + dxConfigurado Real.exp x y| ≤ 100 ∧
    |y + dyConfigurado Real.exp x y| ≤ 100 ∧
    entre 29577207973911741 29577207973912932 (dxConfigurado Real.exp x y * dxConfigurado Real.exp x y + dyConfigurado Real.exp x y * dyConfigurado Real.exp x y) ∧
    entre (-24587841936978518) (-24587841936978071) (x + dxConfigurado Real.exp x y) ∧
    entre 9550398348827772 9550398348828044 (y + dyConfigurado Real.exp x y) := by
  have hE : entre 173063750347480 173063750347483 (Real.exp x) :=
    ⟨le_trans exp_inf_2 (Real.exp_le_exp.2 hx.1),
      le_trans (Real.exp_le_exp.2 hx.2) exp_sup_2⟩
  have hxx := entre_mul 164566554315628446 164566554315629591 hx hx (by decide)
  have hyy := entre_mul 25312893844568231 25312893844568569 hy hy (by decide)
  have hf1 := entre_sub (entre_add hxx hyy) (entre_ofNat (α := ℝ) 4)
  have hf2 := entre_sub (entre_add hE hy) (entre_uno (α := ℝ))
  have ha := entre_mul (-81133606924782924) (-81133606924782642) (entre_ofNat (α := ℝ) 2) hx (by decide)
  have hb := entre_mul 31820052699245004 31820052699245216 (entre_ofNat (α := ℝ) 2) hy (by decide)
  have ha1 := entre_mul (-81133606924782924) (-81133606924782642) ha (entre_uno (α := ℝ)) (by decide)
  have hbE := entre_mul 550689765638579 550689765638593 hb hE (by decide)
  have hdet : entre (-81684296690421517) (-81684296690421221) (detConfigurado Real.exp x y) :=
    entre_mono _ _ (entre_sub ha1 hbE) (by decide)
  have hf2b := entre_mul 19356424755530038 19356424755530515 hf2 hb (by decide)
  have hnf1 := entre_mul (-149879448160198160) (-149879448160196677) (entre_neg hf1) (entre_uno (α := ℝ)) (by decide)
  have hNx := entre_add hnf1 hf2b
  have hnaf2 := entre_mul 49354304105900126 49354304105901183 (entre_neg ha) hf2 (by decide)
  have hf1E := entre_mul 2593869939861434 2593869939861506 hf1 hE (by decide)
  have hNy := entre_add hnaf2 hf1E
  have hinv := entre_inv_neg (-1224225512756684) (-1224225512756679) hdet (by decide)
  have hdx : entre 15978961525412944 15978961525413250 (dxConfigurado Real.exp x y) :=
    entre_div _ _ hNx hinv (by decide)
  have hdy : entre (-6359628000794730) (-6359628000794564) (dyConfigurado Real.exp x y) :=
    entre_div _ _ hNy hinv (by decide)
  have hdxx := entre_mul 25532721143062715 25532721143063694 hdx hdx (by decide)
  have hdyy := entre_mul 4044486830849026 4044486830849238 hdy hdy (by decide)
  exact ⟨entre_abs_le hf1 (by decide), entre_abs_le hf2 (by decide),
    entre_abs_le ha (by decide), entre_abs_le hb (by decide),
    entre_abs_le hE (by decide), entre_abs_le hdet (by decide),
    entre_le_menos_uno hdet (by decide), entre_abs_le hdx (by decide),
    entre_abs_le hdy (by decide), entre_abs_le (entre_add hx hdx) (by decide),
    entre_abs_le (entre_add hy hdy) (by decide),
    entre_mono _ _ (entre_add hdxx hdyy) (by decide),
    entre_mono _ _ (entre_add hx hdx) (by decide),
    entre_mono _ _ (entre_add hy hdy) (by decide)⟩

theorem exp_inf_3 :
    ((855388864890591 : Int) : ℝ) / 10 ^ 16 ≤ Real.exp ((((-24587841936978518) : Int) : ℝ) / 10 ^ 16) := by
  have h := Real.exp_bound (x := ((((-24587841936978518) : Int) : ℝ) / 10 ^ 16 / 4))
    (by rw [abs_le]; constructor <;> norm_num) (n := 16) (by norm_num)
  have he : |((((-24587841936978518) : Int) : ℝ) / 10 ^ 16 / 4)| ^ 16 *
      (((Nat.succ 16 : ℕ) : ℝ) / (((Nat.factorial 16 : ℕ) : ℝ) * ((16 : ℕ) : ℝ)))
      ≤ (210997 / 10000000000000000000000) := by
    rw [abs_of_nonpos (by norm_num)]
    norm_num [Nat.factorial]
  have h1 := abs_le.1 (le_trans h he)
  have hS : ((135201312234438098869 / 250000000000000000000) : ℝ) ≤
      (∑ m ∈ Finset.range 16, ((((-24587841936978518) : Int) : ℝ) / 10 ^ 16 / 4) ^ m / (m.factorial : ℝ)) := by
    simp only [Finset.sum_range_succ, Finset.sum_range_zero, Nat.factorial]
    norm_num
  have hpow : Real.exp ((((-24587841936978518) : Int) : ℝ) / 10 ^ 16) =
      Real.exp ((((-24587841936978518) : Int) : ℝ) / 10 ^ 16 / 4) ^ 4 := by
    rw [← Real.exp_nat_mul]; congr 1; norm_num
  rw [hpow]
  have hlo : ((54080524893775237437 / 100000000000000000000) : ℝ) ≤
      Real.exp ((((-24587841936978518) : Int) : ℝ) / 10 ^ 16 / 4) := by linarith [h1.1]
  calc ((855388864890591 : Int) : ℝ) / 10 ^ 16 ≤ (54080524893775237437 / 100000000000000000000) ^ 4 := by norm_num
    _ ≤ Real.exp ((((-24587841936978518) : Int) : ℝ) / 10 ^ 16 / 4) ^ 4 :=
        pow_le_pow_left₀ (by norm_num) hlo _

theorem exp_sup_3 :
    Real.exp ((((-24587841936978071) : Int) : ℝ) / 10 ^ 16) ≤ ((855388864890631 : Int) : ℝ) / 10 ^ 16 := by
  have h := Real.exp_bound (x := ((((-24587841936978071) : Int) : ℝ) / 10 ^ 16 / 4))
    (by rw [abs_le]; constructor <;> norm_num) (n := 16) (by norm_num)
  have he : |((((-24587841936978071) : Int) : ℝ) / 10 ^ 16 / 4)| ^ 16 *
      (((Nat.succ 16 : ℕ) : ℝ) / (((Nat.factorial 16 : ℕ) : ℝ) * ((16 : ℕ) : ℝ)))
      ≤ (210997 / 10000000000000000000000) := by
    rw [abs_of_nonpos (by norm_num)]
    norm_num [Nat.factorial]
  have h1 := abs_le.1 (le_trans h he)
  have hS : (∑ m ∈ Finset.range 16, ((((-24587841936978071) : Int) : ℝ) / 10 ^ 16 / 4) ^ m / (m.factorial : ℝ))
      ≤ ((21632209957510337559 / 40000000000000000000) : ℝ) := by
    simp only [Finset.sum_range_succ, Finset.sum_range_zero, Nat.factorial]
    norm_num
  have hpow : Real.exp ((((-24587841936978071) : Int) : ℝ) / 10 ^ 16) =
      Real.exp ((((-24587841936978071) : Int) : ℝ) / 10 ^ 16 / 4) ^ 4 := by
    rw [← Real.exp_nat_mul]; congr 1; norm_num
  rw [hpow]
  have hhi : Real.exp ((((-24587841936978071) : Int) : ℝ) / 10 ^ 16 / 4) ≤
      ((6760065611721980751 / 12500000000000000000) : ℝ) := by linarith [h1.2]
  calc Real.exp ((((-24587841936978071) : Int) : ℝ) / 10 ^ 16 / 4) ^ 4 ≤ (6760065611721980751 / 12500000000000000000) ^ 4 :=
        pow_le_pow_left₀ (Real.exp_pos _).le hhi _
    _ ≤ ((855388864890631 : Int) : ℝ) / 10 ^ 16 := by norm_num

theorem intervalo_3 (x y : ℝ) (hx : entre (-24587841936978518) (-24587841936978071) (x))
    (hy : entre 9550398348827772 9550398348828044 (y)) :
    |x * x + y * y - 4| ≤ 100 ∧ |Real.exp x + y - 1| ≤ 100 ∧ |2 * x| ≤ 100 ∧
    |2 * y| ≤ 100 ∧ |Real.exp x| ≤ 100 ∧ |detConfigurado Real.exp x y| ≤ 100 ∧
    detConfigurado Real.exp x y ≤ -1 ∧ |dxConfigurado Real.exp x y| ≤ 100 ∧
    |dyConfigurado Real.exp x y| ≤ 100 ∧ |x + dxConfigurado Real.exp x y| ≤ 100 ∧
    |y + dyConfigurado Real.exp x y| ≤ 100 ∧
    entre 3292682972064719 3292682972065672 (dxConfigurado Real.exp x y * dxConfigurado Real.exp x y + dyConfigurado Real.exp x y * dyConfigurado Real.exp x y) ∧
    entre (-18919197943830156) (-18919197943828933) (x + dxConfigurado Real.exp x y) ∧
    entre 8659721640032205 8659721640032875 (y + dyConfigurado Real.exp x y) := by
  have hE : entre 855388864890591 855388864890631 (Real.exp x) :=
    ⟨le_trans exp_inf_3 (Real.exp_le_exp.2 hx.1),
      le_trans (Real.exp_le_exp.2 hx.2) exp_sup_3⟩
  have hxx := entre_mul 60456197111781753 60456197111783952 hx hx (by decide)
  have hyy := entre_mul 9121010862129223 9121010862129743 hy hy (by decide)
  have hf1 := entre_sub (entre_add hxx hyy) (entre_ofNat (α := ℝ) 4)
  have hf2 := entre_sub (entre_add hE hy) (entre_uno (α := ℝ))
  have ha := entre_mul (-49175683873957036) (-49175683873956142) (entre_ofNat (α := ℝ) 2) hx (by decide)
  have hb := entre_mul 19100796697655544 19100796697656088 (entre_ofNat (α := ℝ) 2) hy (by decide)
  have ha1 := entre_mul (-49175683873957036) (-49175683873956142) ha (entre_uno (α := ℝ)) (by decide)
  have hbE := entre_mul 1633860880571352 1633860880571476 hb hE (by decide)
  have hdet : entre (-50809544754528512) (-50809544754527494) (detConfigurado Real.exp x y) :=
    entre_mono _ _ (entre_sub ha1 hbE) (by decide)
  have hf2b := entre_mul 775085907174255 775085907174874 hf2 hb (by decide)
  have hnf1 := entre_mul (-29577207973913695) (-29577207973910976) (entre_neg hf1) (entre_uno (α := ℝ)) (by decide)
  have hNx := entre_add hnf1 hf2b
  have hnaf2 := entre_mul 1995486374190769 1995486374192341 (entre_neg ha) hf2 (by decide)
  have hf1E := entre_mul 2530001435543664 2530001435544016 hf1 hE (by decide)
  have hNy := entre_add hnaf2 hf1E
  have hinv := entre_inv_neg (-1968134146509733) (-1968134146509692) hdet (by decide)
  have hdx : entre 5668643993148362 5668643993149138 (dxConfigurado Real.exp x y) :=
    entre_div _ _ hNx hinv (by decide)
  have hdy : entre (-890676708795567) (-890676708795169) (dyConfigurado Real.exp x y) :=
    entre_div _ _ hNy hinv (by decide)
  have hdxx := entre_mul 3213352472105700 3213352472106581 hdx hdx (by decide)
  have hdyy := entre_mul 79330499959019 79330499959091 hdy hdy (by decide)
  exact ⟨entre_abs_le hf1 (by decide), entre_abs_le hf2 (by decide),
    entre_abs_le ha (by decide), entre_abs_le hb (by decide),
    entre_abs_le hE (by decide), entre_abs_le hdet (by decide),
    entre_le_menos_uno hdet (by decide), entre_abs_le hdx (by decide),
    entre_abs_le hdy (by decide), entre_abs_le (entre_add hx hdx) (by decide),
    entre_abs_le (entre_add hy hdy) (by decide),
    entre_mono _ _ (entre_add hdxx hdyy) (by decide),
    entre_mono _ _ (entre_add hx hdx) (by decide),
    entre_mono _ _ (entre_add hy hdy) (by decide)⟩

theorem exp_inf_4 :
    ((1507820602441863 : Int) : ℝ) / 10 ^ 16 ≤ Real.exp ((((-18919197943830156) : Int) : ℝ) / 10 ^ 16) := by
  have h := Real.exp_bound (x := ((((-18919197943830156) : Int) : ℝ) / 10 ^ 16 / 4))
    (by rw [abs_le]; constructor <;> norm_num) (n := 16) (by norm_num)
  have he : |((((-18919197943830156) : Int) : ℝ) / 10 ^ 16 / 4)| ^ 16 *
      (((Nat.succ 16 : ℕ) : ℝ) / (((Nat.factorial 16 : ℕ) : ℝ) * ((16 : ℕ) : ℝ)))
      ≤ (1593 / 5000000000000000000000) := by
    rw [abs_of_nonpos (by norm_num)]
    norm_num [Nat.factorial]
  have h1 := abs_le.1 (le_trans h he)
  have hS : ((623142565935881265757 / 1000000000000000000000) : ℝ) ≤
      (∑ m ∈ Finset.range 16, ((((-18919197943830156) : Int) : ℝ) / 10 ^ 16 / 4) ^ m / (m.factorial : ℝ)) := by
    simp only [Finset.sum_range_succ, Finset.sum_range_zero, Nat.factorial]
    norm_num
  have hpow : Real.exp ((((-18919197943830156) : Int) : ℝ) / 10 ^ 16) =
      Real.exp ((((-18919197943830156) : Int) : ℝ) / 10 ^ 16 / 4) ^ 4 := by
    rw [← Real.exp_nat_mul]; congr 1; norm_num
  rw [hpow]
  have hlo : ((62314256593588126543 / 100000000000000000000) : ℝ) ≤
      Real.exp ((((-18919197943830156) : Int) : ℝ) / 10 ^ 16 / 4) := by linarith [h1.1]
  calc ((1507820602441863 : Int) : ℝ) / 10 ^ 16 ≤ (62314256593588126543 / 100000000000000000000) ^ 4 := by norm_num
    _ ≤ Real.exp ((((-18919197943830156) : Int) : ℝ) / 10 ^ 16 / 4) ^ 4 :=
        pow_le_pow_left₀ (by norm_num) hlo _

theorem exp_sup_4 :
    Real.exp ((((-18919197943828933) : Int) : ℝ) / 10 ^ 16) ≤ ((1507820602442048 : Int) : ℝ) / 10 ^ 16 := by
  have h := Real.exp_bound (x := ((((-18919197943828933) : Int) : ℝ) / 10 ^ 16 / 4))
    (by rw [abs_le]; constructor <;> norm_num) (n := 16) (by norm_num)
  have he : |((((-18919197943828933) : Int) : ℝ) / 10 ^ 16 / 4)| ^ 16 *
      (((Nat.succ 16 : ℕ) : ℝ) / (((Nat.factorial 16 : ℕ) : ℝ) * ((16 : ℕ) : ℝ)))
      ≤ (1593 / 5000000000000000000000) := by
    rw [abs_of_nonpos (by norm_num)]
    norm_num [Nat.factorial]
  have h1 := abs_le.1 (le_trans h he)
  have hS : (∑ m ∈ Finset.range 16, ((((-18919197943828933) : Int) : ℝ) / 10 ^ 16 / 4) ^ m / (m.factorial : ℝ))
      ≤ ((311571282967950159171 / 500000000000000000000) : ℝ) := by
    simp only [Finset.sum_range_succ, Finset.sum_range_zero, Nat.factorial]
    norm_num
  have hpow : Real.exp ((((-18919197943828933) : Int) : ℝ) / 10 ^ 16) =
      Real.exp ((((-18919197943828933) : Int) : ℝ) / 10 ^ 16 / 4) ^ 4 := by
    rw [← Real.exp_nat_mul]; congr 1; norm_num
  rw [hpow]
  have hhi : Real.exp ((((-18919197943828933) : Int) : ℝ) / 10 ^ 16 / 4) ≤
      ((62314256593590031867 / 100000000000000000000) : ℝ) := by linarith [h1.2]
  calc Real.exp ((((-18919197943828933) : Int) : ℝ) / 10 ^ 16 / 4) ^ 4 ≤ (62314256593590031867 / 100000000000000000000) ^ 4 :=
        pow_le_pow_left₀ (Real.exp_pos _).le hhi _
    _ ≤ ((1507820602442048 : Int) : ℝ) / 10 ^ 16 := by norm_num

theorem intervalo_4 (x y : ℝ) (hx : entre (-18919197943830156) (-18919197943828933) (x))
    (hy : entre 8659721640032205 8659721640032875 (y)) :
    |x * x + y * y - 4| ≤ 100 ∧ |Real.exp x + y - 1| ≤ 100 ∧ |2 * x| ≤ 100 ∧
    |2 * y| ≤ 100 ∧ |Real.exp x| ≤ 100 ∧ |detConfigurado Real.exp x y| ≤ 100 ∧
    detConfigurado Real.exp x y ≤ -1 ∧ |dxConfigurado Real.exp x y| ≤ 100 ∧
    |dyConfigurado Real.exp x y| ≤ 100 ∧ |x + dxConfigurado Real.exp x y| ≤ 100 ∧
    |y + dyConfigurado Real.exp x y| ≤ 100 ∧
    entre 62907903310068 62907903310405 (dxConfigurado Real.exp x y * dxConfigurado Real.exp x y + dyConfigurado Real.exp x y * dyConfigurado Real.exp x y) ∧
    entre (-18176918652557553) (-18176918652554471) (x + dxConfigurado Real.exp x y) ∧
    entre 8380256996742354 8380256996744086 (y + dyConfigurado Real.exp x y) := by
  have hE : entre 1507820602441863 1507820602442048 (Real.exp x) :=
    ⟨le_trans exp_inf_4 (Real.exp_le_exp.2 hx.1),
      le_trans (Real.exp_le_exp.2 hx.2) exp_sup_4⟩
  have hxx := entre_mul 35793605083778092 35793605083782721 hx hx (by decide)
  have hyy := entre_mul 7499077888284206 7499077888285367 hy hy (by decide)
  have hf1 := entre_sub (entre_add hxx hyy) (entre_ofNat (α := ℝ) 4)
  have hf2 := entre_sub (entre_add hE hy) (entre_uno (α := ℝ))
  have ha := entre_mul (-37838395887660312) (-37838395887657866) (entre_ofNat (α := ℝ) 2) hx (by decide)
  have hb := entre_mul 17319443280064410 17319443280065750 (entre_ofNat (α := ℝ) 2) hy (by decide)
  have ha1 := entre_mul (-37838395887660312) (-37838395887657866) ha (entre_uno (α := ℝ)) (by decide)
  have hbE := entre_mul 2611461340050439 2611461340050962 hb hE (by decide)
  have hdet : entre (-40449857227711274) (-40449857227708305) (detConfigurado Real.exp x y) :=
    entre_mono _ _ (entre_sub ha1 hbE) (by decide)
  have hf2b := entre_mul 290173836554441 290173836555946 hf2 hb (by decide)
  have hnf1 := entre_mul (-3292682972068088) (-3292682972062298) (entre_neg hf1) (entre_uno (α := ℝ)) (by decide)
  have hNx := entre_add hnf1 hf2b
  have hnaf2 := entre_mul 633952969863975 633952969867252 (entre_neg ha) hf2 (by decide)
  have hf1E := entre_mul 496477522258503 496477522259438 hf1 hE (by decide)
  have hNy := entre_add hnaf2 hf1E
  have hinv := entre_inv_neg (-2472196612142790) (-2472196612142608) hdet (by decide)
  have hdx : entre 742279291272603 742279291274462 (dxConfigurado Real.exp x y) :=
    entre_div _ _ hNx hinv (by decide)
  have hdy : entre (-279464643289851) (-279464643288789) (dyConfigurado Real.exp x y) :=
    entre_div _ _ hNy hinv (by decide)
  have hdxx := entre_mul 55097854625215 55097854625492 hdx hdx (by decide)
  have hdyy := entre_mul 7810048684853 7810048684913 hdy hdy (by decide)
  exact ⟨entre_abs_le hf1 (by decide), entre_abs_le hf2 (by decide),
    entre_abs_le ha (by decide), entre_abs_le hb (by decide),
    entre_abs_le hE (by decide), entre_abs_le hdet (by decide),
    entre_le_menos_uno hdet (by decide), entre_abs_le hdx (by decide),
    entre_abs_le hdy (by decide), entre_abs_le (entre_add hx hdx) (by decide),
    entre_abs_le (entre_add hy hdy) (by decide),
    entre_mono _ _ (entre_add hdxx hdyy) (by decide),
    entre_mono _ _ (entre_add hx hdx) (by decide),
    entre_mono _ _ (entre_add hy hdy) (by decide)⟩

theorem exp_inf_5 :
    ((1624001601262847 : Int) : ℝ) / 10 ^ 16 ≤ Real.exp ((((-18176918652557553) : Int) : ℝ) / 10 ^ 16) := by
  have h := Real.exp_bound (x := ((((-18176918652557553) : Int) : ℝ) / 10 ^ 16 / 4))
    (by rw [abs_le]; constructor <;> norm_num) (n := 16) (by norm_num)
  have he : |((((-18176918652557553) : Int) : ℝ) / 10 ^ 16 / 4)| ^ 16 *
      (((Nat.succ 16 : ℕ) : ℝ) / (((Nat.factorial 16 : ℕ) : ℝ) * ((16 : ℕ) : ℝ)))
      ≤ (21 / 125000000000000000000) := by
    rw [abs_of_nonpos (by norm_num)]
    norm_num [Nat.factorial]
  have h1 := abs_le.1 (le_trans h he)
  have hS : ((317407085721751283511 / 500000000000000000000) : ℝ) ≤
      (∑ m ∈ Finset.range 16, ((((-18176918652557553) : Int) : ℝ) / 10 ^ 16 / 4) ^ m / (m.factorial : ℝ)) := by
    simp only [Finset.sum_range_succ, Finset.sum_range_zero, Nat.factorial]
    norm_num
  have hpow : Real.exp ((((-18176918652557553) : Int) : ℝ) / 10 ^ 16) =
      Real.exp ((((-18176918652557553) : Int) : ℝ) / 10 ^ 16 / 4) ^ 4 := by
    rw [← Real.exp_nat_mul]; congr 1; norm_num
  rw [hpow]
  have hlo : ((12696283428870051337 / 20000000000000000000) : ℝ) ≤
      Real.exp ((((-18176918652557553) : Int) : ℝ) / 10 ^ 16 / 4) := by linarith [h1.1]
  calc ((1624001601262847 : Int) : ℝ) / 10 ^ 16 ≤ (12696283428870051337 / 20000000000000000000) ^ 4 := by norm_num
    _ ≤ Real.exp ((((-18176918652557553) : Int) : ℝ) / 10 ^ 16 / 4) ^ 4 :=
        pow_le_pow_left₀ (by norm_num) hlo _

theorem exp_sup_5 :
    Real.exp ((((-18176918652554471) : Int) : ℝ) / 10 ^ 16) ≤ ((1624001601263348 : Int) : ℝ) / 10 ^ 16 := by
  have h := Real.exp_bound (x := ((((-18176918652554471) : Int) : ℝ) / 10 ^ 16 / 4))
    (by rw [abs_le]; constructor <;> norm_num) (n := 16) (by norm_num)
  have he : |((((-18176918652554471) : Int) : ℝ) / 10 ^ 16 / 4)| ^ 16 *
      (((Nat.succ 16 : ℕ) : ℝ) / (((Nat.factorial 16 : ℕ) : ℝ) * ((16 : ℕ) : ℝ)))
      ≤ (21 / 125000000000000000000) := by
    rw [abs_of_nonpos (by norm_num)]
    norm_num [Nat.factorial]
  have h1 := abs_le.1 (le_trans h he)
  have hS : (∑ m ∈ Finset.range 16, ((((-18176918652554471) : Int) : ℝ) / 10 ^ 16 / 4) ^ m / (m.factorial : ℝ))
      ≤ ((126962834288710295891 / 200000000000000000000) : ℝ) := by
    simp only [Finset.sum_range_succ, Finset.sum_range_zero, Nat.factorial]
    norm_num
  have hpow : Real.exp ((((-18176918652554471) : Int) : ℝ) / 10 ^ 16) =
      Real.exp ((((-18176918652554471) : Int) : ℝ) / 10 ^ 16 / 4) ^ 4 := by
    rw [← Real.exp_nat_mul]; congr 1; norm_num
  rw [hpow]
  have hhi : Real.exp ((((-18176918652554471) : Int) : ℝ) / 10 ^ 16 / 4) ≤
      ((63481417144355147963 / 100000000000000000000) : ℝ) := by linarith [h1.2]
  calc Real.exp ((((-18176918652554471) : Int) : ℝ) / 10 ^ 16 / 4) ^ 4 ≤ (63481417144355147963 / 100000000000000000000) ^ 4 :=
        pow_le_pow_left₀ (Real.exp_pos _).le hhi _
    _ ≤ ((1624001601263348 : Int) : ℝ) / 10 ^ 16 := by norm_num

theorem intervalo_5 (x y : ℝ) (hx : entre (-18176918652557553) (-18176918652554471) (x))
    (hy : entre 8380256996742354 8380256996744086 (y)) :
    |x * x + y * y - 4| ≤ 100 ∧ |Real.exp x + y - 1| ≤ 100 ∧ |2 * x| ≤ 100 ∧
    |2 * y| ≤ 100 ∧ |Real.exp x| ≤ 100 ∧ |detConfigurado Real.exp x y| ≤ 100 ∧
    detConfigurado Real.exp x y ≤ -1 ∧ |dxConfigurado Real.exp x y| ≤ 100 ∧
    |dyConfigurado Real.exp x y| ≤ 100 ∧ |x + dxConfigurado Real.exp x y| ≤ 100 ∧
    |y + dyConfigurado Real.exp x y| ≤ 100 ∧
    entre 24694940299 24694940317 (dxConfigurado Real.exp x y * dxConfigurado Real.exp x y + dyConfigurado Real.exp x y * dyConfigurado Real.exp x y) ∧
    entre (-18162646302627826) (-18162646302620171) (x + dxConfigurado Real.exp x y) ∧
    entre 8373680566820365 8373680566824765 (y + dyConfigurado Real.exp x y) := by
  have hE : entre 1624001601262847 1624001601263348 (Real.exp x) :=
    ⟨le_trans exp_inf_5 (Real.exp_le_exp.2 hx.1),
      le_trans (Real.exp_le_exp.2 hx.2) exp_sup_5⟩
  have hxx := entre_mul 33040037170158264 33040037170169469 hx hx (by decide)
  have hyy := entre_mul 7022870733144917 7022870733147821 hy hy (by decide)
  have hf1 := entre_sub (entre_add hxx hyy) (entre_ofNat (α := ℝ) 4)
  have hf2 := entre_sub (entre_add hE hy) (entre_uno (α := ℝ))
  have ha := entre_mul (-36353837305115106) (-36353837305108942) (entre_ofNat (α := ℝ) 2) hx (by decide)
  have hb := entre_mul 16760513993484708 16760513993488172 (entre_ofNat (α := ℝ) 2) hy (by decide)
  have ha1 := entre_mul (-36353837305115106) (-36353837305108942) ha (entre_uno (α := ℝ)) (by decide)
  have hbE := entre_mul 2721910156340752 2721910156342155 hb hE (by decide)
  have hdet : entre (-39075747461457261) (-39075747461449694) (detConfigurado Real.exp x y) :=
    entre_mono _ _ (entre_sub ha1 hbE) (by decide)
  have hf2b := entre_mul 7137629145879 7137629149624 hf2 hb (by decide)
  have hnf1 := entre_mul (-62907903317290) (-62907903303181) (entre_neg hf1) (entre_uno (α := ℝ)) (by decide)
  have hNx := entre_add hnf1 hf2b
  have hnaf2 := entre_mul 15481637902893 15481637911015 (entre_neg ha) hf2 (by decide)
  have hf1E := entre_mul 10216253569645 10216253571940 hf1 hE (by decide)
  have hNy := entre_add hnaf2 hf1E
  have hinv := entre_inv_neg (-2559132108698761) (-2559132108698265) hdet (by decide)
  have hdx : entre 14272349929727 14272349934300 (dxConfigurado Real.exp x y) :=
    entre_div _ _ hNx hinv (by decide)
  have hdy : entre (-6576429921989) (-6576429919321) (dyConfigurado Real.exp x y) :=
    entre_div _ _ hNy hinv (by decide)
  have hdxx := entre_mul 20369997251 20369997265 hdx hdx (by decide)
  have hdyy := entre_mul 4324943048 4324943052 hdy hdy (by decide)
  exact ⟨entre_abs_le hf1 (by decide), entre_abs_le hf2 (by decide),
    entre_abs_le ha (by decide), entre_abs_le hb (by decide),
    entre_abs_le hE (by decide), entre_abs_le hdet (by decide),
    entre_le_menos_uno hdet (by decide), entre_abs_le hdx (by decide),
    entre_abs_le hdy (by decide), entre_abs_le (entre_add hx hdx) (by decide),
    entre_abs_le (entre_add hy hdy) (by decide),
    entre_mono _ _ (entre_add hdxx hdyy) (by decide),
    entre_mono _ _ (entre_add hx hdx) (by decide),
    entre_mono _ _ (entre_add hy hdy) (by decide)⟩

theorem exp_inf_6 :
    ((1626321088009405 : Int) : ℝ) / 10 ^ 16 ≤ Real.exp ((((-18162646302627826) : Int) : ℝ) / 10 ^ 16) := by
  have h := Real.exp_bound (x := ((((-18162646302627826) : Int) : ℝ) / 10 ^ 16 / 4))
    (by rw [abs_le]; constructor <;> norm_num) (n := 16) (by norm_num)
  have he : |((((-18162646302627826) : Int) : ℝ) / 10 ^ 16 / 4)| ^ 16 *
      (((Nat.succ 16 : ℕ) : ℝ) / (((Nat.factorial 16 : ℕ) : ℝ) * ((16 : ℕ) : ℝ)))
      ≤ (1659 / 10000000000000000000000) := by
    rw [abs_of_nonpos (by norm_num)]
    norm_num [Nat.factorial]
  have h1 := abs_le.1 (le_trans h he)
  have hS : ((635040719108073129083 / 1000000000000000000000) : ℝ) ≤
      (∑ m ∈ Finset.range 16, ((((-18162646302627826) : Int) : ℝ) / 10 ^ 16 / 4) ^ m / (m.factorial : ℝ)) := by
    simp only [Finset.sum_range_succ, Finset.sum_range_zero, Nat.factorial]
    norm_num
  have hpow : Real.exp ((((-18162646302627826) : Int) : ℝ) / 10 ^ 16) =
      Real.exp ((((-18162646302627826) : Int) : ℝ) / 10 ^ 16 / 4) ^ 4 := by
    rw [← Real.exp_nat_mul]; congr 1; norm_num
  rw [hpow]
  have hlo : ((63504071910807312891 / 100000000000000000000) : ℝ) ≤
      Real.exp ((((-18162646302627826) : Int) : ℝ) / 10 ^ 16 / 4) := by linarith [h1.1]
  calc ((1626321088009405 : Int) : ℝ) / 10 ^ 16 ≤ (63504071910807312891 / 100000000000000000000) ^ 4 := by norm_num
    _ ≤ Real.exp ((((-18162646302627826) : Int) : ℝ) / 10 ^ 16 / 4) ^ 4 :=
        pow_le_pow_left₀ (by norm_num) hlo _

theorem exp_sup_6 :
    Real.exp ((((-18162646302620171) : Int) : ℝ) / 10 ^ 16) ≤ ((1626321088010651 : Int) : ℝ) / 10 ^ 16 := by
  have h := Real.exp_bound (x := ((((-18162646302620171) : Int) : ℝ) / 10 ^ 16 / 4))
    (by rw [abs_le]; constructor <;> norm_num) (n := 16) (by norm_num)
  have he : |((((-18162646302620171) : Int) : ℝ) / 10 ^ 16 / 4)| ^ 16 *
      (((Nat.succ 16 : ℕ) : ℝ) / (((Nat.factorial 16 : ℕ) : ℝ) * ((16 : ℕ) : ℝ)))
      ≤ (1659 / 10000000000000000000000) := by
    rw [abs_of_nonpos (by norm_num)]
    norm_num [Nat.factorial]
  have h1 := abs_le.1 (le_trans h he)
  have hS : (∑ m ∈ Finset.range 16, ((((-18162646302620171) : Int) : ℝ) / 10 ^ 16 / 4) ^ m / (m.factorial : ℝ))
      ≤ ((635040719108194660001 / 1000000000000000000000) : ℝ) := by
    simp only [Finset.sum_range_succ, Finset.sum_range_zero, Nat.factorial]
    norm_num
  have hpow : Real.exp ((((-18162646302620171) : Int) : ℝ) / 10 ^ 16) =
      Real.exp ((((-18162646302620171) : Int) : ℝ) / 10 ^ 16 / 4) ^ 4 := by
    rw [← Real.exp_nat_mul]; congr 1; norm_num
  rw [hpow]
  have hhi : Real.exp ((((-18162646302620171) : Int) : ℝ) / 10 ^ 16 / 4) ≤
      ((63504071910819466017 / 100000000000000000000) : ℝ) := by linarith [h1.2]
  calc Real.exp ((((-18162646302620171) : Int) : ℝ) / 10 ^ 16 / 4) ^ 4 ≤ (63504071910819466017 / 100000000000000000000) ^ 4 :=
        pow_le_pow_left₀ (Real.exp_pos _).le hhi _
    _ ≤ ((1626321088010651 : Int) : ℝ) / 10 ^ 16 := by norm_num

theorem intervalo_6 (x y : ℝ) (hx : entre (-18162646302627826) (-18162646302620171) (x))
    (hy : entre 8373680566820365 8373680566824765 (y)) :
    |x * x + y * y - 4| ≤ 100 ∧ |Real.exp x + y - 1| ≤ 100 ∧ |2 * x| ≤ 100 ∧
    |2 * y| ≤ 100 ∧ |Real.exp x| ≤ 100 ∧ |detConfigurado Real.exp x y| ≤ 100 ∧
    detConfigurado Real.exp x y ≤ -1 ∧ |dxConfigurado Real.exp x y| ≤ 100 ∧
    |dyConfigurado Real.exp x y| ≤ 100 ∧ |x + dxConfigurado Real.exp x y| ≤ 100 ∧
    |y + dyConfigurado Real.exp x y| ≤ 100 ∧
    entre 3811 3813 (dxConfigurado Real.exp x y * dxConfigurado Real.exp x y + dyConfigurado Real.exp x y * dyConfigurado Real.exp x y) ∧
    entre (-18162640688261915) (-18162640688242829) (x + dxConfigurado Real.exp x y) ∧
    entre 8373677998907315 8373677998918434 (y + dyConfigurado Real.exp x y) := by
  have hE : entre 1626321088009405 1626321088010651 (Real.exp x) :=
    ⟨le_trans exp_inf_6 (Real.exp_le_exp.2 hx.1),
      le_trans (Real.exp_le_exp.2 hx.2) exp_sup_6⟩
  have hxx := entre_mul 32988172071408216 32988172071436024 hx hx (by decide)
  have hyy := entre_mul 7011852623514502 7011852623521872 hy hy (by decide)
  have hf1 := entre_sub (entre_add hxx hyy) (entre_ofNat (α := ℝ) 4)
  have hf2 := entre_sub (entre_add hE hy) (entre_uno (α := ℝ))
  have ha := entre_mul (-36325292605255652) (-36325292605240342) (entre_ofNat (α := ℝ) 2) hx (by decide)
  have hb := entre_mul 16747361133640730 16747361133649530 (entre_ofNat (α := ℝ) 2) hy (by decide)
  have ha1 := entre_mul (-36325292605255652) (-36325292605240342) ha (entre_uno (α := ℝ)) (by decide)
  have hbE := entre_mul 2723658658014901 2723658658018420 hb hE (by decide)
  have hdet : entre (-39048951263274072) (-39048951263255243) (detConfigurado Real.exp x y) :=
    entre_mono _ _ (entre_sub ha1 hbE) (by decide)
  have hf2b := entre_mul 2771403177 2771412633 hf2 hb (by decide)
  have hnf1 := entre_mul (-24694957896) (-24694922718) (entre_neg hf1) (entre_uno (α := ℝ)) (by decide)
  have hNx := entre_add hnf1 hf2b
  have hnaf2 := entre_mul 6011217560 6011238070 (entre_neg ha) hf2 (by decide)
  have hf1E := entre_mul 4016187358 4016193080 hf1 hE (by decide)
  have hNy := entre_add hnaf2 hf1E
  have hinv := entre_inv_neg (-2560888238094610) (-2560888238093374) hdet (by decide)
  have hdx : entre 5614365911 5614377342 (dxConfigurado Real.exp x y) :=
    entre_div _ _ hNx hinv (by decide)
  have hdy : entre (-2567913050) (-2567906331) (dyConfigurado Real.exp x y) :=
    entre_div _ _ hNy hinv (by decide)
  have hdxx := entre_mul 3152 3153 hdx hdx (by decide)
  have hdyy := entre_mul 659 660 hdy hdy (by decide)
  exact ⟨entre_abs_le hf1 (by decide), entre_abs_le hf2 (by decide),
    entre_abs_le ha (by decide), entre_abs_le hb (by decide),
    entre_abs_le hE (by decide), entre_abs_le hdet (by decide),
    entre_le_menos_uno hdet (by decide), entre_abs_le hdx (by decide),
    entre_abs_le hdy (by decide), entre_abs_le (entre_add hx hdx) (by decide),
    entre_abs_le (entre_add hy hdy) (by decide),
    entre_mono _ _ (entre_add hdxx hdyy) (by decide),
    entre_mono _ _ (entre_add hx hdx) (by decide),
    entre_mono _ _ (entre_add hy hdy) (by decide)⟩

theorem exp_inf_7 :
    ((1626322001085829 : Int) : ℝ) / 10 ^ 16 ≤ Real.exp ((((-18162640688261915) : Int) : ℝ) / 10 ^ 16) := by
  have h := Real.exp_bound (x := ((((-18162640688261915) : Int) : ℝ) / 10 ^ 16 / 4))
    (by rw [abs_le]; constructor <;> norm_num) (n := 16) (by norm_num)
  have he : |((((-18162640688261915) : Int) : ℝ) / 10 ^ 16 / 4)| ^ 16 *
      (((Nat.succ 16 : ℕ) : ℝ) / (((Nat.factorial 16 : ℕ) : ℝ) * ((16 : ℕ) : ℝ)))
      ≤ (1659 / 10000000000000000000000) := by
    rw [abs_of_nonpos (by norm_num)]
    norm_num [Nat.factorial]
  have h1 := abs_le.1 (le_trans h he)
  have hS : ((317520404120926760443 / 500000000000000000000) : ℝ) ≤
      (∑ m ∈ Finset.range 16, ((((-18162640688261915) : Int) : ℝ) / 10 ^ 16 / 4) ^ m / (m.factorial : ℝ)) := by
    simp only [Finset.sum_range_succ, Finset.sum_range_zero, Nat.factorial]
    norm_num
  have hpow : Real.exp ((((-18162640688261915) : Int) : ℝ) / 10 ^ 16) =
      Real.exp ((((-18162640688261915) : Int) : ℝ) / 10 ^ 16 / 4) ^ 4 := by
    rw [← Real.exp_nat_mul]; congr 1; norm_num
  rw [hpow]
  have hlo : ((7938010103023169009 / 12500000000000000000) : ℝ) ≤
      Real.exp ((((-18162640688261915) : Int) : ℝ) / 10 ^ 16 / 4) := by linarith [h1.1]
  calc ((1626322001085829 : Int) : ℝ) / 10 ^ 16 ≤ (7938010103023169009 / 12500000000000000000) ^ 4 := by norm_num
    _ ≤ Real.exp ((((-18162640688261915) : Int) : ℝ) / 10 ^ 16 / 4) ^ 4 :=
        pow_le_pow_left₀ (by norm_num) hlo _

theorem exp_sup_7 :
    Real.exp ((((-18162640688242829) : Int) : ℝ) / 10 ^ 16) ≤ ((1626322001088934 : Int) : ℝ) / 10 ^ 16 := by
  have h := Real.exp_bound (x := ((((-18162640688242829) : Int) : ℝ) / 10 ^ 16 / 4))
    (by rw [abs_le]; constructor <;> norm_num) (n := 16) (by norm_num)
  have he : |((((-18162640688242829) : Int) : ℝ) / 10 ^ 16 / 4)| ^ 16 *
      (((Nat.succ 16 : ℕ) : ℝ) / (((Nat.factorial 16 : ℕ) : ℝ) * ((16 : ℕ) : ℝ)))
      ≤ (1659 / 10000000000000000000000) := by
    rw [abs_of_nonpos (by norm_num)]
    norm_num [Nat.factorial]
  have h1 := abs_le.1 (le_trans h he)
  have hS : (∑ m ∈ Finset.range 16, ((((-18162640688242829) : Int) : ℝ) / 10 ^ 16 / 4) ^ m / (m.factorial : ℝ))
      ≤ ((39690050515134783163 / 62500000000000000000) : ℝ) := by
    simp only [Finset.sum_range_succ, Finset.sum_range_zero, Nat.factorial]
    norm_num
  have hpow : Real.exp ((((-18162640688242829) : Int) : ℝ) / 10 ^ 16) =
      Real.exp ((((-18162640688242829) : Int) : ℝ) / 10 ^ 16 / 4) ^ 4 := by
    rw [← Real.exp_nat_mul]; congr 1; norm_num
  rw [hpow]
  have hhi : Real.exp ((((-18162640688242829) : Int) : ℝ) / 10 ^ 16 / 4) ≤
      ((31752040412107826539 / 50000000000000000000) : ℝ) := by linarith [h1.2]
  calc Real.exp ((((-18162640688242829) : Int) : ℝ) / 10 ^ 16 / 4) ^ 4 ≤ (31752040412107826539 / 50000000000000000000) ^ 4 :=
        pow_le_pow_left₀ (Real.exp_pos _).le hhi _
    _ ≤ ((1626322001088934 : Int) : ℝ) / 10 ^ 16 := by norm_num

theorem intervalo_final (x y : ℝ) (hx : entre (-18162640688261915) (-18162640688242829) (x))
    (hy : entre 8373677998907315 8373677998918434 (y)) :
    |x * x + y * y - 4| < 1 / 10 ^ 5 ∧ |Real.exp x + y - 1| < 1 / 10 ^ 5 := by
  have hE : entre 1626322001085829 1626322001088934 (Real.exp x) :=
    ⟨le_trans exp_inf_7 (Real.exp_le_exp.2 hx.1),
      le_trans (Real.exp_le_exp.2 hx.2) exp_sup_7⟩
  have hxx := entre_mul 32988151677021394 32988151677090725 hx hx (by decide)
  have hyy := entre_mul 7011848322938441 7011848322957063 hy hy (by decide)
  have hf1 := entre_sub (entre_add hxx hyy) (entre_ofNat (α := ℝ) 4)
  have hf2 := entre_sub (entre_add hE hy) (entre_uno (α := ℝ))
  exact ⟨entre_abs_lt hf1 (by decide), entre_abs_lt hf2 (by decide)⟩

theorem bucle_sigue_ns {raiz : α → α} {S : Sistema α} {tol : Doble α} {maxIter : Int}
    {s s1 : Estado α} (n : Nat) (hc : cuerpo raiz S tol maxIter s = .sigue s1) :
    bucle raiz S tol maxIter (n + 1) s = bucle raiz S tol maxIter n s1 := by
  simp only [bucle, hc]

theorem bucle_para_ns {raiz : α → α} {S : Sistema α} {tol : Doble α} {maxIter : Int}
    {s s1 : Estado α} {m : Parada} (n : Nat) (hc : cuerpo raiz S tol maxIter s = .para m s1) :
    bucle raiz S tol maxIter (n + 1) s = (m, s1) := by
  simp only [bucle, hc]

theorem raiz_cotas {e : ℝ} {E1 E2 : Int} (he : entre E1 E2 e)
    (h : 10 ^ 4 ≤ E1 ∧ E2 ≤ 10 ^ 20) : 1 / 10 ^ 6 ≤ √e ∧ √e ≤ 100 := by
  have hW := escala_pos (α := ℝ)
  have h1 : ((10 ^ 4 : Int) : ℝ) ≤ E1 := Int.cast_le.2 h.1
  have h2 : (E2 : ℝ) ≤ ((10 ^ 20 : Int) : ℝ) := Int.cast_le.2 h.2
  have e1 : (1 / 10 ^ 6 : ℝ) ^ 2 = ((10 ^ 4 : Int) : ℝ) / 10 ^ 16 := by
    rw [Int.cast_pow, Int.cast_ofNat]; norm_num
  have e2 : ((10 ^ 20 : Int) : ℝ) / 10 ^ 16 = 100 ^ 2 := by
    rw [Int.cast_pow, Int.cast_ofNat]; norm_num
  constructor
  · rw [Real.le_sqrt' (by positivity), e1]
    exact le_trans (div_le_div_of_nonneg_right h1 hW.le) he.1
  · rw [Real.sqrt_le_iff]
    refine ⟨by norm_num, ?_⟩
    rw [← e2]
    exact le_trans he.2 (div_le_div_of_nonneg_right h2 hW.le)

theorem raiz_pequena {e : ℝ} {E1 E2 : Int} (he : entre E1 E2 e) (h : E2 < 10 ^ 4) :
    √e < 1 / 10 ^ 6 := by
  have hW := escala_pos (α := ℝ)
  have h2 : (E2 : ℝ) < ((10 ^ 4 : Int) : ℝ) := Int.cast_lt.2 h
  have e1 : (1 / 10 ^ 6 : ℝ) ^ 2 = ((10 ^ 4 : Int) : ℝ) / 10 ^ 16 := by
    rw [Int.cast_pow, Int.cast_ofNat]; norm_num
  rw [Real.sqrt_lt' (by positivity), e1]
  exact lt_of_le_of_lt he.2 (div_lt_div_of_pos_right h2 hW)

theorem paso_sigue (s : Estado ℝ) (x y : ℝ) (E1 E2 X1 X2 Y1 Y2 : Int) (hsx : s.x = fin x)
    (hsy : s.y = fin y)
    (H : |x * x + y * y - 4| ≤ 100 ∧ |Real.exp x + y - 1| ≤ 100 ∧ |2 * x| ≤ 100 ∧
      |2 * y| ≤ 100 ∧ |Real.exp x| ≤ 100 ∧ |detConfigurado Real.exp x y| ≤ 100 ∧
      detConfigurado Real.exp x y ≤ -1 ∧ |dxConfigurado Real.exp x y| ≤ 100 ∧
      |dyConfigurado Real.exp x y| ≤ 100 ∧ |x + dxConfigurado Real.exp x y| ≤ 100 ∧
      |y + dyConfigurado Real.exp x y| ≤ 100 ∧
      entre E1 E2 (dxConfigurado Real.exp x y * dxConfigurado Real.exp x y +
        dyConfigurado Real.exp x y * dyConfigurado Real.exp x y) ∧
      entre X1 X2 (x + dxConfigurado Real.exp x y) ∧
      entre Y1 Y2 (y + dyConfigurado Real.exp x y))
    (hE : 10 ^ 4 ≤ E1 ∧ E2 ≤ 10 ^ 20) (hit : s.iteracion + 1 < 50) :
    ∃ (s1 : Estado ℝ) (x1 y1 : ℝ),
      cuerpo Real.sqrt (sistemaConfigurado Real.exp) TOLERANCIA MAX_ITER s = .sigue s1 ∧
      s1.x = fin x1 ∧ s1.y = fin y1 ∧ entre X1 X2 x1 ∧ entre Y1 Y2 y1 ∧
      s1.iteracion = s.iteracion + 1 ∧ s1.registros.length = s.registros.length + 1 := by
  obtain ⟨a1, a2, a3, a4, a5, a6, a7, a8, a9, a10, a11, a12, a13, a14⟩ := H
  obtain ⟨r1, r2⟩ := raiz_cotas a12 hE
  have r3 : |√(dxConfigurado Real.exp x y * dxConfigurado Real.exp x y +
      dyConfigurado Real.exp x y * dyConfigurado Real.exp x y)| ≤ 100 := by
    rw [abs_of_nonneg (Real.sqrt_nonneg _)]; exact r2
  obtain ⟨s1, b1, b2, b3, b4, b5⟩ := cuerpo_configurado_fin Real.exp Real.sqrt (1 / 10 ^ 6)
    MAX_ITER s x y hsx hsy a1 a2 a3 a4 a5 a6 a7 a8 a9 a10 a11 r3
  refine ⟨s1, _, _, ?_, b1, b2, a13, a14, b3, b4⟩
  have c1 : ¬ ((10 : ℝ) ^ 5 < √(dxConfigurado Real.exp x y * dxConfigurado Real.exp x y +
      dyConfigurado Real.exp x y * dyConfigurado Real.exp x y) ∧ s.iteracion + 1 > 3) := by
    intro h
    have : (100 : ℝ) < 10 ^ 5 := by norm_num
    linarith [h.1]
  have c2 : ¬ (s.iteracion + 1 ≥ MAX_ITER) := by
    simp only [MAX_ITER]; omega
  rw [show (TOLERANCIA : Doble ℝ) = fin (1 / 10 ^ 6) from rfl, b5, if_neg c1,
    if_neg (not_lt.2 r1), if_neg c2]

theorem paso_converge (s : Estado ℝ) (x y : ℝ) (E1 E2 X1 X2 Y1 Y2 : Int) (hsx : s.x = fin x)
    (hsy : s.y = fin y)
    (H : |x * x + y * y - 4| ≤ 100 ∧ |Real.exp x + y - 1| ≤ 100 ∧ |2 * x| ≤ 100 ∧
      |2 * y| ≤ 100 ∧ |Real.exp x| ≤ 100 ∧ |detConfigurado Real.exp x y| ≤ 100 ∧
      detConfigurado Real.exp x y ≤ -1 ∧ |dxConfigurado Real.exp x y| ≤ 100 ∧
      |dyConfigurado Real.exp x y| ≤ 100 ∧ |x + dxConfigurado Real.exp x y| ≤ 100 ∧
      |y + dyConfigurado Real.exp x y| ≤ 100 ∧
      entre E1 E2 (dxConfigurado Real.exp x y * dxConfigurado Real.exp x y +
        dyConfigurado Real.exp x y * dyConfigurado Real.exp x y) ∧
      entre X1 X2 (x + dxConfigurado Real.exp x y) ∧
      entre Y1 Y2 (y + dyConfigurado Real.exp x y))
    (hE : E2 < 10 ^ 4) :
    ∃ (s1 : Estado ℝ) (x1 y1 : ℝ),
      cuerpo Real.sqrt (sistemaConfigurado Real.exp) TOLERANCIA MAX_ITER s =
        .para .converged s1 ∧
      s1.x = fin x1 ∧ s1.y = fin y1 ∧ entre X1 X2 x1 ∧ entre Y1 Y2 y1 ∧
      s1.iteracion = s.iteracion + 1 ∧ s1.registros.length = s.registros.length + 1 := by
  obtain ⟨a1, a2, a3, a4, a5, a6, a7, a8, a9, a10, a11, a12, a13, a14⟩ := H
  have r1 := raiz_pequena a12 hE
  have r3 : |√(dxConfigurado Real.exp x y * dxConfigurado Real.exp x y +
      dyConfigurado Real.exp x y * dyConfigurado Real.exp x y)| ≤ 100 := by
    rw [abs_of_nonneg (Real.sqrt_nonneg _)]
    have : (1 : ℝ) / 10 ^ 6 ≤ 100 := by norm_num
    linarith
  obtain ⟨s1, b1, b2, b3, b4, b5⟩ := cuerpo_configurado_fin Real.exp Real.sqrt (1 / 10 ^ 6)
    MAX_ITER s x y hsx hsy a1 a2 a3 a4 a5 a6 a7 a8 a9 a10 a11 r3
  refine ⟨s1, _, _, ?_, b1, b2, a13, a14, b3, b4⟩
  have c1 : ¬ ((10 : ℝ) ^ 5 < √(dxConfigurado Real.exp x y * dxConfigurado Real.exp x y +
      dyConfigurado Real.exp x y * dyConfigurado Real.exp x y) ∧ s.iteracion + 1 > 3) := by
    intro h
    have : (1 : ℝ) / 10 ^ 6 < 10 ^ 5 := by norm_num
    linarith [h.1]
  rw [show (TOLERANCIA : Doble ℝ) = fin (1 / 10 ^ 6) from rfl, b5, if_neg c1, if_pos r1]

theorem corrida_configurada_ns :
    ∃ (s : Estado ℝ) (x y : ℝ),
      newton Real.sqrt (sistemaConfigurado Real.exp) X_INICIAL Y_INICIAL TOLERANCIA MAX_ITER =
        (.converged, s) ∧
      s.x = fin x ∧ s.y = fin y ∧ s.iteracion = 7 ∧ s.registros.length = 7 ∧
      |x * x + y * y - 4| < 1 / 10 ^ 5 ∧ |Real.exp x + y - 1| < 1 / 10 ^ 5 := by
  have hfuel : max 1 (MAX_ITER).toNat = 43 + 1 + 1 + 1 + 1 + 1 + 1 + 1 := by decide
  have hx0 : entre 10000000000000000 10000000000000000 (1 : ℝ) :=
    entre_mono _ _ (entre_uno (α := ℝ)) (by decide)
  obtain ⟨s1, x1, y1, c0, sx1, sy1, bx1, by1, it1, rg1⟩ :=
    paso_sigue
      { x := X_INICIAL, y := Y_INICIAL, iteracion := 0, registros := [], trayectoria := [(X_INICIAL, Y_INICIAL)] }
      1 1 146932955811396419 146932955811396543 _ _ _ _ rfl rfl (intervalo_0 1 1 hx0 hx0) (by decide) (by decide)
  obtain ⟨s2, x2, y2, c1, sx2, sy2, bx2, by2, it2, rg2⟩ :=
    paso_sigue s1 x1 y1 149879448160196808 149879448160198052 _ _ _ _ sx1 sy1
      (intervalo_1 x1 y1 bx1 by1) (by decide) (by rw [it1]; decide)
  rw [it1] at it2
  rw [rg1] at rg2
  obtain ⟨s3, x3, y3, c2, sx3, sy3, bx3, by3, it3, rg3⟩ :=
    paso_sigue s2 x2 y2 29577207973911741 29577207973912932 _ _ _ _ sx2 sy2
      (intervalo_2 x2 y2 bx2 by2) (by decide) (by rw [it2]; decide)
  rw [it2] at it3
  rw [rg2] at rg3
  obtain ⟨s4, x4, y4, c3, sx4, sy4, bx4, by4, it4, rg4⟩ :=
    paso_sigue s3 x3 y3 3292682972064719 3292682972065672 _ _ _ _ sx3 sy3
      (intervalo_3 x3 y3 bx3 by3) (by decide) (by rw [it3]; decide)
  rw [it3] at it4
  rw [rg3] at rg4
  obtain ⟨s5, x5, y5, c4, sx5, sy5, bx5, by5, it5, rg5⟩ :=
    paso_sigue s4 x4 y4 62907903310068 62907903310405 _ _ _ _ sx4 sy4
      (intervalo_4 x4 y4 bx4 by4) (by decide) (by rw [it4]; decide)
  rw [it4] at it5
  rw [rg4] at rg5
  obtain ⟨s6, x6, y6, c5, sx6, sy6, bx6, by6, it6, rg6⟩ :=
    paso_sigue s5 x5 y5 24694940299 24694940317 _ _ _ _ sx5 sy5
      (intervalo_5 x5 y5 bx5 by5) (by decide) (by rw [it5]; decide)
  rw [it5] at it6
  rw [rg5] at rg6
  obtain ⟨s7, x7, y7, c6, sx7, sy7, bx7, by7, it7, rg7⟩ :=
    paso_converge s6 x6 y6 3811 3813 _ _ _ _ sx6 sy6
      (intervalo_6 x6 y6 bx6 by6) (by decide)
  rw [it6] at it7
  rw [rg6] at rg7
  obtain ⟨hf1, hf2⟩ := intervalo_final x7 y7 bx7 by7
  refine ⟨s7, x7, y7, ?_, sx7, sy7, it7, rg7, hf1, hf2⟩
  unfold newton
  rw [hfuel, bucle_sigue_ns _ c0, bucle_sigue_ns _ c1, bucle_sigue_ns _ c2, bucle_sigue_ns _ c3,
    bucle_sigue_ns _ c4, bucle_sigue_ns _ c5, bucle_para_ns _ c6]

end Newtonsistemas

/-- C6: on `f1 = x^2 + y^2 - 4`, `f2 = e^x + y - 1` with the analytic partials,
`x0 = y0 = 1.0`, tolerance `1e-6`, `MAX_ITER = 50`, over exact real arithmetic (`exp` and
`sqrt` the real functions), the 2-D Newton loop stops in the Converged state, after 7
iterations, at a finite point `(x, y)` with `|f1(x,y)| < 1e-5` and `|f2(x,y)| < 1e-5`. -/
theorem C6_newton_sistema_converge :
    ∃ x y : ℝ,
      (Newtonsistemas.newton Real.sqrt (Newtonsistemas.sistemaConfigurado Real.exp)
          Newtonsistemas.X_INICIAL Newtonsistemas.Y_INICIAL Newtonsistemas.TOLERANCIA
          Newtonsistemas.MAX_ITER).1 = Newtonsistemas.Parada.converged ∧
      (Newtonsistemas.newton Real.sqrt (Newtonsistemas.sistemaConfigurado Real.exp)
          Newtonsistemas.X_INICIAL Newtonsistemas.Y_INICIAL Newtonsistemas.TOLERANCIA
          Newtonsistemas.MAX_ITER).2.x = fin x ∧
      (Newtonsistemas.newton Real.sqrt (Newtonsistemas.sistemaConfigurado Real.exp)
          Newtonsistemas.X_INICIAL Newtonsistemas.Y_INICIAL Newtonsistemas.TOLERANCIA
          Newtonsistemas.MAX_ITER).2.y = fin y ∧
      (Newtonsistemas.newton Real.sqrt (Newtonsistemas.sistemaConfigurado Real.exp)
          Newtonsistemas.X_INICIAL Newtonsistemas.Y_INICIAL Newtonsistemas.TOLERANCIA
          Newtonsistemas.MAX_ITER).2.iteracion = 7 ∧
      Newtonsistemas.F1 (fin x) (fin y) = fin (x * x + y * y - 4) ∧
      Newtonsistemas.F2 Real.exp (fin x) (fin y) = fin (Real.exp x + y - 1) ∧
      |x * x + y * y - 4| < 1 / 10 ^ 5 ∧ |Real.exp x + y - 1| < 1 / 10 ^ 5 := by
  obtain ⟨s, x, y, hrun, hx, hy, hit, _, hf1, hf2⟩ := Newtonsistemas.corrida_configurada_ns
  refine ⟨x, y, ?_, ?_, ?_, ?_, ?_, ?_, hf1, hf2⟩
  · rw [hrun]
  · rw [hrun]; exact hx
  · rw [hrun]; exact hy
  · rw [hrun]; exact hit
  · simp only [Newtonsistemas.F1, fin_mul_fin, fin_add_fin, fin_sub_fin]
  · simp only [Newtonsistemas.F2, cexp, fin_add_fin, fin_sub_fin]

/-! ## The half-step retry of the scalar integrator (C11, C20) -/

namespace Ecuacion1

theorem cuerpo_llega {f : Doble α → Doble α → Doble α} {sol : Doble α → Doble α}
    {xFinal h : Doble α} (pt : Int) {s : Estado α} (hl : llegaAlPaso sol xFinal h s = true) :
    cuerpo f sol xFinal h pt s =
      match rk4_validado f s.x s.y h s.paso with
      | .error e => .para (.numericFault e) (trasEscribir sol s)
      | .ok r =>
        if !es_numerico_valido r.resultado then
          match rk4_validado f s.x s.y (h / fin 2) s.paso with
          | .error e => .para (.numericFault e) (trasEscribir sol s)
          | .ok r1 =>
            match rk4_validado f (s.x + h / fin 2) r1.resultado (h / fin 2) s.paso with
            | .error e => .para (.numericFault e) (trasEscribir sol s)
            | .ok r2 =>
              if es_numerico_valido r2.resultado then
                avanzar h pt (trasEscribir sol s) r2.resultado
              else .para .sinRecuperacion (trasEscribir sol s)
        else avanzar h pt (trasEscribir sol s) r.resultado := by
  simp only [llegaAlPaso, Bool.and_eq_true, Bool.not_eq_true', Bool.not_eq_eq_eq_not,
    Bool.not_true] at hl
  obtain ⟨⟨⟨⟨h1, h2⟩, h3⟩, h4⟩, h5⟩ := hl
  have v1 : VALIDAR "exacta" (sol s.x) = Except.ok () := by
    cases hv : VALIDAR "exacta" (sol s.x) with
    | error e => rw [hv] at h2; cases h2
    | ok u => rfl
  have v2 : VALIDAR "error" (fabs (s.y - sol s.x)) = Except.ok () := by
    cases hv : VALIDAR "error" (fabs (s.y - sol s.x)) with
    | error e => rw [hv] at h3; cases h3
    | ok u => rfl
  simp only [cuerpo, h1, v1, v2, trasValidar, h4, h5, trasEscribir, Bool.not_true,
    Bool.false_eq_true, if_false]

theorem avanzar_campos (h : Doble α) (pt : Int) (s : Estado α) (y_nuevo : Doble α) :
    ∃ s1 : Estado α,
      (avanzar h pt s y_nuevo = .sigue s1 ∨ avanzar h pt s y_nuevo = .para .demasiadosPasos s1) ∧
      s1.y = y_nuevo ∧ s1.x = s.x + h ∧ s1.paso = s.paso + 1 := by
  unfold avanzar
  by_cases hc : s.paso + 1 > pt * 10
  · exact ⟨{ s with y := y_nuevo, x := s.x + h, paso := s.paso + 1 },
      Or.inr (by simp only [hc, if_true]), rfl, rfl, rfl⟩
  · exact ⟨{ s with y := y_nuevo, x := s.x + h, paso := s.paso + 1 },
      Or.inl (by simp only [hc, if_false]), rfl, rfl, rfl⟩

end Ecuacion1

/-- C11: in the loop of `ecuacion1.c`, when the body reaches the step, the full-step
result `rk4_validado(x, y, h)` is rejected by `es_numerico_valido` and the retry succeeds
(both half-steps return and the second result is accepted), the body accepts as next `y`
exactly `rk4_validado(x + h/2, rk4_validado(x, y, h/2), h/2)`, `x` becomes `x + h` and the
step index grows by one; the loop then goes on, or stops at the step cap. -/
theorem C11_reintento_dos_medios_pasos (f : Doble α → Doble α → Doble α)
    (sol : Doble α → Doble α) (xFinal h : Doble α) (pasos_totales : Int)
    (s : Ecuacion1.Estado α) (r r1 r2 : Ecuacion1.SalidaRK4 α)
    (hllega : Ecuacion1.llegaAlPaso sol xFinal h s = true)
    (hcompleto : Ecuacion1.rk4_validado f s.x s.y h s.paso = Except.ok r)
    (hrechazo : es_numerico_valido r.resultado = false)
    (hmedio1 : Ecuacion1.rk4_validado f s.x s.y (h / fin 2) s.paso = Except.ok r1)
    (hmedio2 : Ecuacion1.rk4_validado f (s.x + h / fin 2) r1.resultado (h / fin 2) s.paso
      = Except.ok r2)
    (hacepta : es_numerico_valido r2.resultado = true) :
    Ecuacion1.cuerpo f sol xFinal h pasos_totales s =
      Ecuacion1.avanzar h pasos_totales (Ecuacion1.trasEscribir sol s) r2.resultado ∧
    ∃ s1 : Ecuacion1.Estado α,
      (Ecuacion1.cuerpo f sol xFinal h pasos_totales s = .sigue s1 ∨
       Ecuacion1.cuerpo f sol xFinal h pasos_totales s = .para .demasiadosPasos s1) ∧
      s1.y = r2.resultado ∧ s1.x = s.x + h ∧ s1.paso = s.paso + 1 := by
  have hc : Ecuacion1.cuerpo f sol xFinal h pasos_totales s =
      Ecuacion1.avanzar h pasos_totales (Ecuacion1.trasEscribir sol s) r2.resultado := by
    rw [Ecuacion1.cuerpo_llega pasos_totales hllega]
    simp only [hcompleto, hrechazo, hmedio1, hmedio2, hacepta, Bool.not_false, if_true]
  refine ⟨hc, ?_⟩
  rw [hc]
  exact Ecuacion1.avanzar_campos h pasos_totales (Ecuacion1.trasEscribir sol s) r2.resultado

namespace Ecuacion1

theorem llegaAlPaso_fin (g : α → α) (xF h x y : α) (s : Estado α) (hx : s.x = fin x)
    (hy : s.y = fin y) (h1 : x ≤ xF + h / 2) (h2 : x < xF) (h3 : |y| ≤ 10 ^ 100) :
    llegaAlPaso (SOLUCION_EXACTA g) (fin xF) (fin h) s = true := by
  have vy : es_numerico_valido (fin y) = true := by
    rw [es_numerico_valido_fin]; exact decide_eq_true h3
  simp only [llegaAlPaso, hx, hy, fin_div_two, fin_add_fin, le_fin_fin, decide_eq_true h1,
    SOLUCION_EXACTA, neg_fin, cexp, fin_sub_fin, fin_mul_fin, fabs_fin, VALIDAR_fin_e1,
    terminaCorrida, vy, ge_fin_fin, decide_eq_false (not_le.2 h2), Bool.not_false, Bool.and_self]

theorem medios_pasos_ejemplo :
    pasoRK4Especificado (fun a b : ℚ => a - b) 0 (25 * 10 ^ 98) 4 = 125 * 10 ^ 98 + 8 ∧
    pasoRK4Especificado (fun a b : ℚ => a - b) 0 (25 * 10 ^ 98) (4 / 2) =
      (25 * 10 ^ 98 + 4) / 3 ∧
    pasoRK4Especificado (fun a b : ℚ => a - b) (0 + 4 / 2) ((25 * 10 ^ 98 + 4) / 3) (4 / 2) =
      (25 * 10 ^ 98 + 28) / 9 := by
  simp only [pasoRK4Especificado]
  norm_num

end Ecuacion1

set_option maxRecDepth 4000 in
/-- C11 (witness): `y' = x - y` at `x = 0`, `y = 2.5e99` with `h = 4`: the full step gives
`1.25e100 + 8`, which is rejected, and the two half-steps give `(2.5e99 + 28)/9`. -/
theorem C11_reintento_dos_medios_pasos_witness :
    (Ecuacion1.llegaAlPaso (Ecuacion1.SOLUCION_EXACTA (fun _ : ℚ => 1)) (fin 5) (fin 4)
        (Ecuacion1.estadoInicial (fin 0) (fin (25 * 10 ^ 98))) = true ∧
      es_numerico_valido (fin (125 * 10 ^ 98 + 8) : Doble ℚ) = false ∧
      es_numerico_valido (fin ((25 * 10 ^ 98 + 28) / 9) : Doble ℚ) = true) ∧
    Ecuacion1.cuerpo Ecuacion1.EDO_FUNCION (Ecuacion1.SOLUCION_EXACTA (fun _ : ℚ => 1)) (fin 5)
        (fin 4) 2 (Ecuacion1.estadoInicial (fin 0) (fin (25 * 10 ^ 98))) =
      Ecuacion1.avanzar (fin 4) 2
        (Ecuacion1.trasEscribir (Ecuacion1.SOLUCION_EXACTA (fun _ : ℚ => 1))
          (Ecuacion1.estadoInicial (fin 0) (fin (25 * 10 ^ 98))))
        (fin ((25 * 10 ^ 98 + 28) / 9)) ∧
    ∃ s1 : Ecuacion1.Estado ℚ,
      (Ecuacion1.cuerpo Ecuacion1.EDO_FUNCION (Ecuacion1.SOLUCION_EXACTA (fun _ : ℚ => 1))
          (fin 5) (fin 4) 2 (Ecuacion1.estadoInicial (fin 0) (fin (25 * 10 ^ 98))) = .sigue s1 ∨
       Ecuacion1.cuerpo Ecuacion1.EDO_FUNCION (Ecuacion1.SOLUCION_EXACTA (fun _ : ℚ => 1))
          (fin 5) (fin 4) 2 (Ecuacion1.estadoInicial (fin 0) (fin (25 * 10 ^ 98)))
          = .para .demasiadosPasos s1) ∧
      s1.y = fin ((25 * 10 ^ 98 + 28) / 9) ∧
      s1.x = (Ecuacion1.estadoInicial (fin 0) (fin (25 * 10 ^ 98)) : Ecuacion1.Estado ℚ).x + fin 4 ∧
      s1.paso = (Ecuacion1.estadoInicial (fin 0) (fin (25 * 10 ^ 98)) : Ecuacion1.Estado ℚ).paso
        + 1 := by
  obtain ⟨e0, e1, e2⟩ := Ecuacion1.medios_pasos_ejemplo
  have hl : Ecuacion1.llegaAlPaso (Ecuacion1.SOLUCION_EXACTA (fun _ : ℚ => 1)) (fin 5) (fin 4)
      (Ecuacion1.estadoInicial (fin 0) (fin (25 * 10 ^ 98))) = true :=
    Ecuacion1.llegaAlPaso_fin _ 5 4 0 (25 * 10 ^ 98) _ rfl rfl (by norm_num) (by norm_num)
      (by norm_num)
  have hr : es_numerico_valido (fin (125 * 10 ^ 98 + 8) : Doble ℚ) = false := by
    refine (es_numerico_valido_fin _).trans (decide_eq_false ?_)
    norm_num [abs_le]
  have ha : es_numerico_valido (fin ((25 * 10 ^ 98 + 28) / 9) : Doble ℚ) = true := by
    refine (es_numerico_valido_fin _).trans (decide_eq_true ?_)
    norm_num [abs_le]
  refine ⟨⟨hl, hr, ha⟩, ?_⟩
  have h0 := Ecuacion1.rk4_validado_fin (0 : ℚ) (25 * 10 ^ 98) 4 0
  have h1 := Ecuacion1.rk4_validado_fin (0 : ℚ) (25 * 10 ^ 98) (4 / 2) 0
  have h2 := Ecuacion1.rk4_validado_fin ((0 : ℚ) + 4 / 2) ((25 * 10 ^ 98 + 4) / 3) (4 / 2) 0
  rw [e0] at h0
  rw [e1] at h1
  rw [e2] at h2
  rw [← fin_div_two] at h1 h2
  rw [← fin_add_fin] at h2
  exact C11_reintento_dos_medios_pasos Ecuacion1.EDO_FUNCION
    (Ecuacion1.SOLUCION_EXACTA (fun _ : ℚ => 1)) (fin 5) (fin 4) 2
    (Ecuacion1.estadoInicial (fin 0) (fin (25 * 10 ^ 98))) _ _ _ hl h0 hr h1 h2 ha

namespace Doble

theorem fin_div_cero {a : α} (ha : 0 < a) : (fin a / fin 0 : Doble α) = posInf := by
  show div (fin a) (fin 0) = posInf
  simp [div, ne_of_gt ha, infConSigno, ha]

theorem fin_mul_posInf {a : α} (ha : 0 < a) : (fin a * posInf : Doble α) = posInf := by
  show mul (fin a) posInf = posInf
  simp [mul, ne_of_gt ha, infConSigno, ha]

theorem posInf_div_fin {b : α} (hb : 0 ≤ b) : (posInf / fin b : Doble α) = posInf := by
  show div posInf (fin b) = posInf
  simp [div, infConSigno, hb]

omit [LinearOrderedField α] in
theorem VALIDAR_basica_ok {v : Doble α} {e1 e2 : Falla} {u : Unit}
    (h : (if isnan v then Except.error e1 else if isinf v then Except.error e2
      else Except.ok ()) = Except.ok u) : ∃ r, v = fin r := by
  cases v with
  | nan => simp [isnan] at h
  | posInf => simp [isnan, isinf] at h
  | negInf => simp [isnan, isinf] at h
  | fin r => exact ⟨r, rfl⟩

end Doble

namespace Ecuacion1

theorem rk4_validado_ok {f : Doble α → Doble α → Doble α} {x y h : Doble α} {paso : Int}
    {r : SalidaRK4 α} (hr : rk4_validado f x y h paso = Except.ok r) :
    r.resultado = pasoRK4SinValidar f x y h ∧ ∃ v, r.resultado = fin v := by
  simp only [rk4_validado, bind, Except.bind, pure, Except.pure] at hr
  repeat' split at hr
  all_goals cases hr
  rename_i hv
  exact ⟨rfl, VALIDAR_basica_ok hv⟩

theorem rechazado_finito {v : Doble α} (hf : ∃ r, v = fin r)
    (hv : es_numerico_valido v = false) : ∃ r, v = fin r ∧ |r| > 10 ^ 100 := by
  obtain ⟨r, rfl⟩ := hf
  rcases (es_numerico_valido_eq_false_iff _).1 hv with h | h | h | h
  · cases h
  · cases h
  · cases h
  · exact h

end Ecuacion1

/-- C20 (counterexample): for `y' = y/x` at the state `x = 0`, `y = 1` with `h = 0.1` the
body reaches the step and the value of the RK4 formula is `+Inf`, which fails
`es_numerico_valido`; the run ends with the fault of `VALIDAR(k1)` inside `rk4_validado`,
and no half-step is tried. -/
theorem C20_contraejemplo_resultado_infinito :
    Ecuacion1.llegaAlPaso (Ecuacion1.SOLUCION_EXACTA (fun _ : ℚ => 1)) Ecuacion1.X_FINAL
      Ecuacion1.PASO_H (Ecuacion1.estadoInicial (fin 0) (fin 1)) = true ∧
    Ecuacion1.pasoRK4SinValidar (fun x y : Doble ℚ => y / x) (fin 0) (fin 1) Ecuacion1.PASO_H
      = posInf ∧
    es_numerico_valido (posInf : Doble ℚ) = false ∧
    Ecuacion1.cuerpo (fun x y : Doble ℚ => y / x) (Ecuacion1.SOLUCION_EXACTA (fun _ : ℚ => 1))
        Ecuacion1.X_FINAL Ecuacion1.PASO_H 51 (Ecuacion1.estadoInicial (fin 0) (fin 1)) =
      .para (.numericFault (.esInfinito "k1"))
        (Ecuacion1.trasEscribir (Ecuacion1.SOLUCION_EXACTA (fun _ : ℚ => 1))
          (Ecuacion1.estadoInicial (fin 0) (fin 1))) := by
  have hl : Ecuacion1.llegaAlPaso (Ecuacion1.SOLUCION_EXACTA (fun _ : ℚ => 1))
      Ecuacion1.X_FINAL Ecuacion1.PASO_H (Ecuacion1.estadoInicial (fin 0) (fin 1)) = true :=
    Ecuacion1.llegaAlPaso_fin _ 5 (1 / 10) 0 1 _ rfl rfl (by norm_num) (by norm_num)
      (by norm_num)
  have k1 : (fin 1 / fin 0 : Doble ℚ) = posInf := fin_div_cero one_pos
  refine ⟨hl, ?_, (es_numerico_valido_eq_false_iff _).2 (Or.inr (Or.inl rfl)), ?_⟩
  · simp only [Ecuacion1.pasoRK4SinValidar, Ecuacion1.PASO_H, k1, fin_div_two, fin_add_fin]
    have e1 : ∀ a : ℚ, (fin a + posInf : Doble ℚ) = posInf := fun _ => rfl
    have e2 : (posInf + posInf : Doble ℚ) = posInf := rfl
    simp (disch := norm_num) only [fin_mul_posInf, posInf_div_fin, e1, e2]
  · rw [Ecuacion1.cuerpo_llega 51 hl]
    have hk : Ecuacion1.rk4_validado (fun x y : Doble ℚ => y / x)
        (Ecuacion1.estadoInicial (fin 0) (fin 1) : Ecuacion1.Estado ℚ).x
        (Ecuacion1.estadoInicial (fin 0) (fin 1) : Ecuacion1.Estado ℚ).y Ecuacion1.PASO_H
        (Ecuacion1.estadoInicial (fin 0) (fin 1) : Ecuacion1.Estado ℚ).paso =
        Except.error (.esInfinito "k1") := by
      simp only [Ecuacion1.rk4_validado, Ecuacion1.estadoInicial, k1, bind, Except.bind]
      rfl
    rw [hk]

/-- C20 (amended): in the loop of `ecuacion1.c`, when the body reaches the step, a result
returned by the full-step call of `rk4_validado` is the value of the RK4 formula and is
finite; when the value of the formula is NaN or infinite the call ends the run with a
fault and no retry is made; a returned result that fails `es_numerico_valido` is finite
with magnitude above `1e100`, and then the body performs the two half-steps: its outcome is
the fault of a half-step, the acceptance of the second half-step result, or the stop
`sinRecuperacion`. -/
theorem C20_recuperacion_solo_de_valores_finitos (f : Doble α → Doble α → Doble α)
    (sol : Doble α → Doble α) (xFinal h : Doble α) (pasos_totales : Int)
    (s : Ecuacion1.Estado α) (hllega : Ecuacion1.llegaAlPaso sol xFinal h s = true) :
    (∀ r, Ecuacion1.rk4_validado f s.x s.y h s.paso = Except.ok r →
      r.resultado = Ecuacion1.pasoRK4SinValidar f s.x s.y h ∧ ∃ v, r.resultado = fin v) ∧
    ((isnan (Ecuacion1.pasoRK4SinValidar f s.x s.y h) ||
        isinf (Ecuacion1.pasoRK4SinValidar f s.x s.y h)) = true →
      ∃ e, Ecuacion1.rk4_validado f s.x s.y h s.paso = Except.error e ∧
        Ecuacion1.cuerpo f sol xFinal h pasos_totales s =
          .para (.numericFault e) (Ecuacion1.trasEscribir sol s)) ∧
    (∀ r, Ecuacion1.rk4_validado f s.x s.y h s.paso = Except.ok r →
      es_numerico_valido r.resultado = false →
      (∃ v, r.resultado = fin v ∧ |v| > 10 ^ 100) ∧
      Ecuacion1.cuerpo f sol xFinal h pasos_totales s =
        match Ecuacion1.rk4_validado f s.x s.y (h / fin 2) s.paso with
        | .error e => .para (.numericFault e) (Ecuacion1.trasEscribir sol s)
        | .ok r1 =>
          match Ecuacion1.rk4_validado f (s.x + h / fin 2) r1.resultado (h / fin 2) s.paso with
          | .error e => .para (.numericFault e) (Ecuacion1.trasEscribir sol s)
          | .ok r2 =>
            if es_numerico_valido r2.resultado then
              Ecuacion1.avanzar h pasos_totales (Ecuacion1.trasEscribir sol s) r2.resultado
            else .para .sinRecuperacion (Ecuacion1.trasEscribir sol s)) := by
  refine ⟨fun r hr => Ecuacion1.rk4_validado_ok hr, ?_, ?_⟩
  · intro hmal
    cases hk : Ecuacion1.rk4_validado f s.x s.y h s.paso with
    | error e =>
      refine ⟨e, rfl, ?_⟩
      rw [Ecuacion1.cuerpo_llega pasos_totales hllega, hk]
    | ok r =>
      obtain ⟨h1, v, h2⟩ := Ecuacion1.rk4_validado_ok hk
      rw [← h1, h2] at hmal
      cases hmal
  · intro r hr hrej
    refine ⟨Ecuacion1.rechazado_finito (Ecuacion1.rk4_validado_ok hr).2 hrej, ?_⟩
    rw [Ecuacion1.cuerpo_llega pasos_totales hllega]
    simp only [hr, hrej, Bool.not_false, if_true]

/-- C20 (witness): `y' = x - y` at `x = 0`, `y = 2.5e99` with `h = 4`, where the body
reaches the step. -/
theorem C20_recuperacion_solo_de_valores_finitos_witness :
    Ecuacion1.llegaAlPaso (Ecuacion1.SOLUCION_EXACTA (fun _ : ℚ => 1)) (fin 5) (fin 4)
        (Ecuacion1.estadoInicial (fin 0) (fin (25 * 10 ^ 98))) = true ∧
    ((∀ r, Ecuacion1.rk4_validado Ecuacion1.EDO_FUNCION
          (Ecuacion1.estadoInicial (fin 0) (fin (25 * 10 ^ 98)) : Ecuacion1.Estado ℚ).x
          (Ecuacion1.estadoInicial (fin 0) (fin (25 * 10 ^ 98)) : Ecuacion1.Estado ℚ).y (fin 4)
          (Ecuacion1.estadoInicial (fin 0) (fin (25 * 10 ^ 98)) : Ecuacion1.Estado ℚ).paso
          = Except.ok r →
        r.resultado = Ecuacion1.pasoRK4SinValidar Ecuacion1.EDO_FUNCION
          (Ecuacion1.estadoInicial (fin 0) (fin (25 * 10 ^ 98)) : Ecuacion1.Estado ℚ).x
          (Ecuacion1.estadoInicial (fin 0) (fin (25 * 10 ^ 98)) : Ecuacion1.Estado ℚ).y (fin 4) ∧
        ∃ v, r.resultado = fin v) ∧
    ((isnan (Ecuacion1.pasoRK4SinValidar Ecuacion1.EDO_FUNCION
          (Ecuacion1.estadoInicial (fin 0) (fin (25 * 10 ^ 98)) : Ecuacion1.Estado ℚ).x
          (Ecuacion1.estadoInicial (fin 0) (fin (25 * 10 ^ 98)) : Ecuacion1.Estado ℚ).y (fin 4)) ||
        isinf (Ecuacion1.pasoRK4SinValidar Ecuacion1.EDO_FUNCION
          (Ecuacion1.estadoInicial (fin 0) (fin (25 * 10 ^ 98)) : Ecuacion1.Estado ℚ).x
          (Ecuacion1.estadoInicial (fin 0) (fin (25 * 10 ^ 98)) : Ecuacion1.Estado ℚ).y (fin 4)))
        = true →
      ∃ e, Ecuacion1.rk4_validado Ecuacion1.EDO_FUNCION
          (Ecuacion1.estadoInicial (fin 0) (fin (25 * 10 ^ 98)) : Ecuacion1.Estado ℚ).x
          (Ecuacion1.estadoInicial (fin 0) (fin (25 * 10 ^ 98)) : Ecuacion1.Estado ℚ).y (fin 4)
          (Ecuacion1.estadoInicial (fin 0) (fin (25 * 10 ^ 98)) : Ecuacion1.Estado ℚ).paso
          = Except.error e ∧
        Ecuacion1.cuerpo Ecuacion1.EDO_FUNCION (Ecuacion1.SOLUCION_EXACTA (fun _ : ℚ => 1))
            (fin 5) (fin 4) 2 (Ecuacion1.estadoInicial (fin 0) (fin (25 * 10 ^ 98))) =
          .para (.numericFault e)
            (Ecuacion1.trasEscribir (Ecuacion1.SOLUCION_EXACTA (fun _ : ℚ => 1))
              (Ecuacion1.estadoInicial (fin 0) (fin (25 * 10 ^ 98))))) ∧
    (∀ r, Ecuacion1.rk4_validado Ecuacion1.EDO_FUNCION
          (Ecuacion1.estadoInicial (fin 0) (fin (25 * 10 ^ 98)) : Ecuacion1.Estado ℚ).x
          (Ecuacion1.estadoInicial (fin 0) (fin (25 * 10 ^ 98)) : Ecuacion1.Estado ℚ).y (fin 4)
          (Ecuacion1.estadoInicial (fin 0) (fin (25 * 10 ^ 98)) : Ecuacion1.Estado ℚ).paso
          = Except.ok r →
      es_numerico_valido r.resultado = false →
      (∃ v, r.resultado = fin v ∧ |v| > 10 ^ 100) ∧
      Ecuacion1.cuerpo Ecuacion1.EDO_FUNCION (Ecuacion1.SOLUCION_EXACTA (fun _ : ℚ => 1))
          (fin 5) (fin 4) 2 (Ecuacion1.estadoInicial (fin 0) (fin (25 * 10 ^ 98))) =
        match Ecuacion1.rk4_validado Ecuacion1.EDO_FUNCION
          (Ecuacion1.estadoInicial (fin 0) (fin (25 * 10 ^ 98)) : Ecuacion1.Estado ℚ).x
          (Ecuacion1.estadoInicial (fin 0) (fin (25 * 10 ^ 98)) : Ecuacion1.Estado ℚ).y
          (fin 4 / fin 2)
          (Ecuacion1.estadoInicial (fin 0) (fin (25 * 10 ^ 98)) : Ecuacion1.Estado ℚ).paso with
        | .error e =>
          .para (.numericFault e)
            (Ecuacion1.trasEscribir (Ecuacion1.SOLUCION_EXACTA (fun _ : ℚ => 1))
              (Ecuacion1.estadoInicial (fin 0) (fin (25 * 10 ^ 98))))
        | .ok r1 =>
          match Ecuacion1.rk4_validado Ecuacion1.EDO_FUNCION
            ((Ecuacion1.estadoInicial (fin 0) (fin (25 * 10 ^ 98)) : Ecuacion1.Estado ℚ).x
              + fin 4 / fin 2) r1.resultado (fin 4 / fin 2)
            (Ecuacion1.estadoInicial (fin 0) (fin (25 * 10 ^ 98)) : Ecuacion1.Estado ℚ).paso with
          | .error e =>
            .para (.numericFault e)
              (Ecuacion1.trasEscribir (Ecuacion1.SOLUCION_EXACTA (fun _ : ℚ => 1))
                (Ecuacion1.estadoInicial (fin 0) (fin (25 * 10 ^ 98))))
          | .ok r2 =>
            if es_numerico_valido r2.resultado then
              Ecuacion1.avanzar (fin 4) 2
                (Ecuacion1.trasEscribir (Ecuacion1.SOLUCION_EXACTA (fun _ : ℚ => 1))
                  (Ecuacion1.estadoInicial (fin 0) (fin (25 * 10 ^ 98)))) r2.resultado
            else
              .para .sinRecuperacion
                (Ecuacion1.trasEscribir (Ecuacion1.SOLUCION_EXACTA (fun _ : ℚ => 1))
                  (Ecuacion1.estadoInicial (fin 0) (fin (25 * 10 ^ 98)))))) :=
  have hl : Ecuacion1.llegaAlPaso (Ecuacion1.SOLUCION_EXACTA (fun _ : ℚ => 1)) (fin 5) (fin 4)
      (Ecuacion1.estadoInicial (fin 0) (fin (25 * 10 ^ 98))) = true :=
    Ecuacion1.llegaAlPaso_fin _ 5 4 0 (25 * 10 ^ 98) _ rfl rfl (by norm_num) (by norm_num)
      (by norm_num)
  ⟨hl, C20_recuperacion_solo_de_valores_finitos Ecuacion1.EDO_FUNCION
    (Ecuacion1.SOLUCION_EXACTA (fun _ : ℚ => 1)) (fin 5) (fin 4) 2
    (Ecuacion1.estadoInicial (fin 0) (fin (25 * 10 ^ 98))) hl⟩


/-! ## Validity of the samples written by the three integrators (C14) -/

omit [LinearOrderedField α] in
theorem todos_de_paso {β : Type} {P : β → Bool} {l l1 : List β} {p : β}
    (hl : l.all P = true) (h1 : l1 = l ∨ (l1 = l ++ [p] ∧ P p = true)) :
    l1.all P = true := by
  rcases h1 with rfl | ⟨rfl, hp⟩
  · exact hl
  · rw [List.all_append, hl, Bool.true_and]
    simp only [List.all_cons, hp, List.all_nil, Bool.and_self]

namespace Ecuacion1

/-- Every body either goes through `avanzar` (lines 238-246) from a state with the same
`x`, `paso` and `errores_numericos` to which the current `(x, y)` was written after `y`
was accepted by `es_numerico_valido`, or stops where it is: with `x` and `paso` unchanged,
with `errores_numericos` unchanged unless it returns at line 202, and with the data file
as it was or with the accepted `(x, y)` appended. -/
theorem cuerpo_casos (f : Doble α → Doble α → Doble α) (sol : Doble α → Doble α)
    (xFinal h : Doble α) (pt : Int) (s : Estado α) (P : Paso α → Prop)
    (h1 : ∀ (s2 : Estado α) (y_nuevo : Doble α), s2.paso = s.paso → s2.x = s.x →
      s2.errores_numericos = s.errores_numericos →
      s2.datos_sol = s.datos_sol ++ [(s.x, s.y)] → es_numerico_valido s.y = true →
      P (avanzar h pt s2 y_nuevo))
    (h2 : ∀ (m : Parada) (s1 : Estado α), m ≠ .sinCombustible → s1.paso = s.paso →
      s1.x = s.x → (m = .valorInvalido ∨ s1.errores_numericos = s.errores_numericos) →
      (s1.datos_sol = s.datos_sol ∨
        (s1.datos_sol = s.datos_sol ++ [(s.x, s.y)] ∧ es_numerico_valido s.y = true)) →
      P (.para m s1)) :
    P (cuerpo f sol xFinal h pt s) := by
  simp only [cuerpo, trasValidar, Bool.not_eq_true']
  repeat' split
  all_goals first
    | exact h1 _ _ rfl rfl rfl rfl (Bool.of_not_eq_false (by assumption))
    | exact h2 _ _ (fun hh => Parada.noConfusion hh) rfl rfl (Or.inr rfl) (Or.inl rfl)
    | exact h2 _ _ (fun hh => Parada.noConfusion hh) rfl rfl (Or.inl rfl) (Or.inl rfl)
    | exact h2 _ _ (fun hh => Parada.noConfusion hh) rfl rfl (Or.inr rfl)
        (Or.inr ⟨rfl, Bool.of_not_eq_false (by assumption)⟩)

/-- One body leaves `rk4_solucion.dat` as it was, or appends the current `(x, y)` after
`y` was accepted by `es_numerico_valido`. -/
theorem cuerpo_datos_sol {f : Doble α → Doble α → Doble α} {sol : Doble α → Doble α}
    {xF h : Doble α} {pt : Int} {s s1 : Estado α}
    (hc : cuerpo f sol xF h pt s = .sigue s1 ∨ ∃ m, cuerpo f sol xF h pt s = .para m s1) :
    s1.datos_sol = s.datos_sol ∨
      (s1.datos_sol = s.datos_sol ++ [(s.x, s.y)] ∧ es_numerico_valido s.y = true) := by
  revert hc
  refine cuerpo_casos f sol xF h pt s
    (fun r => (r = .sigue s1 ∨ ∃ m, r = .para m s1) → s1.datos_sol = s.datos_sol ∨
      (s1.datos_sol = s.datos_sol ++ [(s.x, s.y)] ∧ es_numerico_valido s.y = true))
    (fun s2 y _ _ _ b4 b5 hc => ?_) (fun m s2 _ _ _ _ a5 hc => ?_)
  · unfold avanzar at hc
    by_cases hcap : s2.paso + 1 > pt * 10
    · rw [if_pos hcap] at hc
      rcases hc with hc | ⟨m, hc⟩
      · cases hc
      · cases hc
        exact Or.inr ⟨b4, b5⟩
    · rw [if_neg hcap] at hc
      rcases hc with hc | ⟨m, hc⟩
      · cases hc
        exact Or.inr ⟨b4, b5⟩
      · cases hc
  · rcases hc with hc | ⟨m2, hc⟩
    · cases hc
    · cases hc
      exact a5

theorem bucle_datos_validos_e1 (f : Doble α → Doble α → Doble α) (sol : Doble α → Doble α)
    (xF h : Doble α) (pt : Int) :
    ∀ (n : Nat) (s : Estado α), s.datos_sol.all (fun p => es_numerico_valido p.2) = true →
      (bucle f sol xF h pt n s).2.datos_sol.all (fun p => es_numerico_valido p.2) = true := by
  intro n
  induction n with
  | zero => intro s hs; exact hs
  | succ n ih =>
    intro s hs
    cases hc : cuerpo f sol xF h pt s with
    | sigue s1 =>
      rw [bucle_sigue_e1 n hc]
      exact ih s1 (todos_de_paso hs (cuerpo_datos_sol (Or.inl hc)))
    | para m s1 =>
      rw [bucle_para_e1 n hc]
      exact todos_de_paso hs (cuerpo_datos_sol (Or.inr ⟨m, hc⟩))

end Ecuacion1

namespace Ecuacion2

theorem bucle_sigue_e2 {f : Doble α → Doble α → Doble α → Doble α} {sol : Doble α → Doble α}
    {xF h : Doble α} {pt : Int} {s s1 : Estado α} (n : Nat)
    (hc : cuerpo f sol xF h pt s = .sigue s1) :
    bucle f sol xF h pt (n + 1) s = bucle f sol xF h pt n s1 := by
  simp only [bucle, hc]

theorem bucle_para_e2 {f : Doble α → Doble α → Doble α → Doble α} {sol : Doble α → Doble α}
    {xF h : Doble α} {pt : Int} {s s1 : Estado α} {m : Parada} (n : Nat)
    (hc : cuerpo f sol xF h pt s = .para m s1) :
    bucle f sol xF h pt (n + 1) s = (m, s1) := by
  simp only [bucle, hc]

/-- One body leaves the three data files as they were, or appends the current point to
each of them after `y` and `yp` were accepted by `es_numerico_valido`. -/
theorem cuerpo_datos_e2 {f : Doble α → Doble α → Doble α → Doble α} {sol : Doble α → Doble α}
    {xF h : Doble α} {pt : Int} {s s1 : Estado α}
    (hc : cuerpo f sol xF h pt s = .sigue s1 ∨ ∃ m, cuerpo f sol xF h pt s = .para m s1) :
    (s1.datos_sol = s.datos_sol ∧ s1.datos_der = s.datos_der ∧ s1.datos_fase = s.datos_fase) ∨
      (s1.datos_sol = s.datos_sol ++ [(s.x, s.y)] ∧ s1.datos_der = s.datos_der ++ [(s.x, s.yp)] ∧
        s1.datos_fase = s.datos_fase ++ [(s.y, s.yp)] ∧
        es_numerico_valido s.y = true ∧ es_numerico_valido s.yp = true) := by
  rcases hc with hc | ⟨m, hc⟩
  · simp only [cuerpo, trasValidar, Bool.not_eq_true', Bool.or_eq_true] at hc
    repeat' split at hc
    all_goals cases hc
    all_goals first
      | exact Or.inl ⟨rfl, rfl, rfl⟩
      | exact Or.inr ⟨rfl, rfl, rfl, by simp_all, by simp_all⟩
  · simp only [cuerpo, trasValidar, Bool.not_eq_true', Bool.or_eq_true] at hc
    repeat' split at hc
    all_goals cases hc
    all_goals first
      | exact Or.inl ⟨rfl, rfl, rfl⟩
      | exact Or.inr ⟨rfl, rfl, rfl, by simp_all, by simp_all⟩

theorem bucle_datos_validos_e2 (f : Doble α → Doble α → Doble α → Doble α)
    (sol : Doble α → Doble α) (xF h : Doble α) (pt : Int) :
    ∀ (n : Nat) (s : Estado α),
      (s.datos_sol.all (fun p => es_numerico_valido p.2) = true ∧
       s.datos_der.all (fun p => es_numerico_valido p.2) = true ∧
       s.datos_fase.all (fun p => es_numerico_valido p.1 && es_numerico_valido p.2) = true) →
      ((bucle f sol xF h pt n s).2.datos_sol.all (fun p => es_numerico_valido p.2) = true ∧
       (bucle f sol xF h pt n s).2.datos_der.all (fun p => es_numerico_valido p.2) = true ∧
       (bucle f sol xF h pt n s).2.datos_fase.all
          (fun p => es_numerico_valido p.1 && es_numerico_valido p.2) = true) := by
  have paso : ∀ s s1 : Estado α,
      (cuerpo f sol xF h pt s = .sigue s1 ∨ ∃ m, cuerpo f sol xF h pt s = .para m s1) →
      (s.datos_sol.all (fun p => es_numerico_valido p.2) = true ∧
       s.datos_der.all (fun p => es_numerico_valido p.2) = true ∧
       s.datos_fase.all (fun p => es_numerico_valido p.1 && es_numerico_valido p.2) = true) →
      (s1.datos_sol.all (fun p => es_numerico_valido p.2) = true ∧
       s1.datos_der.all (fun p => es_numerico_valido p.2) = true ∧
       s1.datos_fase.all (fun p => es_numerico_valido p.1 && es_numerico_valido p.2) = true) := by
    intro s s1 hc ⟨a, b, c⟩
    rcases cuerpo_datos_e2 hc with ⟨e1, e2, e3⟩ | ⟨e1, e2, e3, vy, vyp⟩
    · rw [e1, e2, e3]; exact ⟨a, b, c⟩
    · exact ⟨todos_de_paso a (Or.inr ⟨e1, vy⟩), todos_de_paso b (Or.inr ⟨e2, vyp⟩),
        todos_de_paso c (Or.inr ⟨e3, by simp only [vy, vyp, Bool.and_self]⟩)⟩
  intro n
  induction n with
  | zero => intro s hs; exact hs
  | succ n ih =>
    intro s hs
    cases hc : cuerpo f sol xF h pt s with
    | sigue s1 =>
      rw [bucle_sigue_e2 n hc]
      exact ih s1 (paso s s1 (Or.inl hc) hs)
    | para m s1 =>
      rw [bucle_para_e2 n hc]
      exact paso s s1 (Or.inr ⟨m, hc⟩) hs

end Ecuacion2

namespace Ecuacion3

/-- One body leaves the three data files as they were, or appends the current point to
each of them after `x` and `y` were accepted by `es_numerico_valido`. -/
theorem cuerpo_datos_e3 {raiz : α → α} {f1 f2 : Doble α → Doble α → Doble α}
    {tF h e0 : Doble α} {itot : Int} {s s1 : Estado α}
    (hc : cuerpo raiz f1 f2 tF h e0 itot s = .sigue s1 ∨
      ∃ m, cuerpo raiz f1 f2 tF h e0 itot s = .para m s1) :
    (s1.datos_fase = s.datos_fase ∧ s1.datos_x = s.datos_x ∧ s1.datos_y = s.datos_y) ∨
      (s1.datos_fase = s.datos_fase ++ [(s.x, s.y)] ∧ s1.datos_x = s.datos_x ++ [(s.t, s.x)] ∧
        s1.datos_y = s.datos_y ++ [(s.t, s.y)] ∧
        es_numerico_valido s.x = true ∧ es_numerico_valido s.y = true) := by
  rcases hc with hc | ⟨m, hc⟩
  · simp only [cuerpo, trasValidar, Bool.not_eq_true', Bool.or_eq_true] at hc
    repeat' split at hc
    all_goals cases hc
    all_goals first
      | exact Or.inl ⟨rfl, rfl, rfl⟩
      | exact Or.inr ⟨rfl, rfl, rfl, by simp_all, by simp_all⟩
  · simp only [cuerpo, trasValidar, Bool.not_eq_true', Bool.or_eq_true] at hc
    repeat' split at hc
    all_goals cases hc
    all_goals first
      | exact Or.inl ⟨rfl, rfl, rfl⟩
      | exact Or.inr ⟨rfl, rfl, rfl, by simp_all, by simp_all⟩

theorem bucle_datos_validos_e3 (raiz : α → α) (f1 f2 : Doble α → Doble α → Doble α)
    (tF h e0 : Doble α) (itot : Int) :
    ∀ (n : Nat) (s : Estado α),
      (s.datos_fase.all (fun p => es_numerico_valido p.1 && es_numerico_valido p.2) = true ∧
       s.datos_x.all (fun p => es_numerico_valido p.2) = true ∧
       s.datos_y.all (fun p => es_numerico_valido p.2) = true) →
      ((bucle raiz f1 f2 tF h e0 itot n s).2.datos_fase.all
          (fun p => es_numerico_valido p.1 && es_numerico_valido p.2) = true ∧
       (bucle raiz f1 f2 tF h e0 itot n s).2.datos_x.all (fun p => es_numerico_valido p.2) = true ∧
       (bucle raiz f1 f2 tF h e0 itot n s).2.datos_y.all (fun p => es_numerico_valido p.2) = true) := by
  have paso : ∀ s s1 : Estado α,
      (cuerpo raiz f1 f2 tF h e0 itot s = .sigue s1 ∨
        ∃ m, cuerpo raiz f1 f2 tF h e0 itot s = .para m s1) →
      (s.datos_fase.all (fun p => es_numerico_valido p.1 && es_numerico_valido p.2) = true ∧
       s.datos_x.all (fun p => es_numerico_valido p.2) = true ∧
       s.datos_y.all (fun p => es_numerico_valido p.2) = true) →
      (s1.datos_fase.all (fun p => es_numerico_valido p.1 && es_numerico_valido p.2) = true ∧
       s1.datos_x.all (fun p => es_numerico_valido p.2) = true ∧
       s1.datos_y.all (fun p => es_numerico_valido p.2) = true) := by
    intro s s1 hc ⟨a, b, c⟩
    rcases cuerpo_datos_e3 hc with ⟨e1, e2, e3⟩ | ⟨e1, e2, e3, vx, vy⟩
    · rw [e1, e2, e3]; exact ⟨a, b, c⟩
    · exact ⟨todos_de_paso a (Or.inr ⟨e1, by simp only [vx, vy, Bool.and_self]⟩),
        todos_de_paso b (Or.inr ⟨e2, vx⟩), todos_de_paso c (Or.inr ⟨e3, vy⟩)⟩
  intro n
  induction n with
  | zero => intro s hs; exact hs
  | succ n ih =>
    intro s hs
    cases hc : cuerpo raiz f1 f2 tF h e0 itot s with
    | sigue s1 =>
      rw [bucle_sigue_e3 n hc]
      exact ih s1 (paso s s1 (Or.inl hc) hs)
    | para m s1 =>
      rw [bucle_para_e3 n hc]
      exact paso s s1 (Or.inr ⟨m, hc⟩) hs

end Ecuacion3

/-- C14: in the integration loops of `ecuacion1.c`, `ecuacion2.c` and `ecuacion3.c`, run
from the initial state for any number of bodies and with any functions and parameters,
every `y` written to `rk4_solucion.dat`, every `y` and `yp` written to `ypp_solucion.dat`,
`ypp_derivada.dat` and `ypp_fase.dat`, and every `x` and `y` written to `sistema_fase.dat`,
`sistema_x.dat` and `sistema_y.dat` is accepted by `es_numerico_valido`. -/
theorem C14_muestras_escritas_validas
    (f : Doble α → Doble α → Doble α) (g : Doble α → Doble α → Doble α → Doble α)
    (f1 f2 : Doble α → Doble α → Doble α) (raiz : α → α) (sol sol2 : Doble α → Doble α)
    (xFinal h xFinal2 h2 tFinal h3 energia_inicial : Doble α) (pasos_totales pasos_totales2
      iter_totales : Int) (x0 y0 x02 y02 yp02 t0 x03 y03 : Doble α) (n : Nat) :
    (Ecuacion1.bucle f sol xFinal h pasos_totales n
        (Ecuacion1.estadoInicial x0 y0)).2.datos_sol.all (fun p => es_numerico_valido p.2)
      = true ∧
    ((Ecuacion2.bucle g sol2 xFinal2 h2 pasos_totales2 n
        (Ecuacion2.estadoInicial x02 y02 yp02)).2.datos_sol.all
          (fun p => es_numerico_valido p.2) = true ∧
     (Ecuacion2.bucle g sol2 xFinal2 h2 pasos_totales2 n
        (Ecuacion2.estadoInicial x02 y02 yp02)).2.datos_der.all
          (fun p => es_numerico_valido p.2) = true ∧
     (Ecuacion2.bucle g sol2 xFinal2 h2 pasos_totales2 n
        (Ecuacion2.estadoInicial x02 y02 yp02)).2.datos_fase.all
          (fun p => es_numerico_valido p.1 && es_numerico_valido p.2) = true) ∧
    ((Ecuacion3.bucle raiz f1 f2 tFinal h3 energia_inicial iter_totales n
        (Ecuacion3.estadoInicial t0 x03 y03)).2.datos_fase.all
          (fun p => es_numerico_valido p.1 && es_numerico_valido p.2) = true ∧
     (Ecuacion3.bucle raiz f1 f2 tFinal h3 energia_inicial iter_totales n
        (Ecuacion3.estadoInicial t0 x03 y03)).2.datos_x.all
          (fun p => es_numerico_valido p.2) = true ∧
     (Ecuacion3.bucle raiz f1 f2 tFinal h3 energia_inicial iter_totales n
        (Ecuacion3.estadoInicial t0 x03 y03)).2.datos_y.all
          (fun p => es_numerico_valido p.2) = true) :=
  ⟨Ecuacion1.bucle_datos_validos_e1 f sol xFinal h pasos_totales n _ rfl,
   Ecuacion2.bucle_datos_validos_e2 g sol2 xFinal2 h2 pasos_totales2 n _ ⟨rfl, rfl, rfl⟩,
   Ecuacion3.bucle_datos_validos_e3 raiz f1 f2 tFinal h3 energia_inicial iter_totales n _
     ⟨rfl, rfl, rfl⟩⟩


/-! ## The two system steppers as classical vector RK4 (C16) -/

namespace Ecuacion2

omit [LinearOrderedField α] in
@[simp] theorem VALIDAR_fin_e2 (nombre : String) (v : α) :
    VALIDAR nombre (fin v) = Except.ok () := rfl

theorem rk4_sistema_validado_fin (x y yp h : α) (paso : Int) :
    ∃ r : SalidaRK4 α,
      rk4_sistema_validado EDO_FUNCION (fin x) (fin y) (fin yp) (fin h) paso = Except.ok r ∧
      r.y = fin (Ecuacion3.pasoRK4SistemaEspecificado (fun _ b => b) (fun a _ => -a) y yp h).1 ∧
      r.yp = fin (Ecuacion3.pasoRK4SistemaEspecificado (fun _ b => b) (fun a _ => -a) y yp h).2 := by
  simp only [rk4_sistema_validado, EDO_FUNCION, Ecuacion3.pasoRK4SistemaEspecificado,
    fin_sub_fin, fin_add_fin, fin_mul_fin, fin_div_two, fin_div_six, neg_fin, VALIDAR_fin_e2,
    bind, Except.bind, pure, Except.pure]
  exact ⟨_, rfl, rfl, rfl⟩

end Ecuacion2

/-- C16: on finite arguments one call of `rk4_sistema_validado` (state `(y, y')`, field
`(y', -y)`) and one call of `rk4_sistema2_validado` (state `(x, y)`, field `(y, -x)`)
return, without any fault, the classical vector RK4 step of the two-component system:
every stage is evaluated at the state advanced with the previous slopes of both
components and the new state is `state + h*(k1 + 2*k2 + 2*k3 + k4)/6` in each component;
for this linear field the step is the rotation-like map with coefficients
`1 - h^2/2 + h^4/24` and `h - h^3/6`. -/
theorem C16_rk4_sistema_es_rk4_vectorial (raiz : α → α) (t : Doble α) (x y yp h : α)
    (paso : Int) :
    (∃ r : Ecuacion2.SalidaRK4 α,
      Ecuacion2.rk4_sistema_validado Ecuacion2.EDO_FUNCION (fin x) (fin y) (fin yp) (fin h) paso
        = Except.ok r ∧
      r.y = fin (Ecuacion3.pasoRK4SistemaEspecificado (fun _ b => b) (fun a _ => -a) y yp h).1 ∧
      r.yp = fin (Ecuacion3.pasoRK4SistemaEspecificado (fun _ b => b) (fun a _ => -a) y yp h).2) ∧
    (∃ r : Ecuacion3.SalidaRK4 α,
      Ecuacion3.rk4_sistema2_validado raiz Ecuacion3.F1 Ecuacion3.F2 t (fin y) (fin yp) (fin h)
        paso = Except.ok r ∧
      r.x = fin (Ecuacion3.pasoRK4SistemaEspecificado (fun _ b => b) (fun a _ => -a) y yp h).1 ∧
      r.y = fin (Ecuacion3.pasoRK4SistemaEspecificado (fun _ b => b) (fun a _ => -a) y yp h).2) ∧
    Ecuacion3.pasoRK4SistemaEspecificado (fun _ b => b) (fun a _ => -a) y yp h =
      (y + h * (yp + 2 * (yp + h * (-y) / 2) + 2 * (yp + h * (-(y + h * yp / 2)) / 2)
          + (yp + h * (-(y + h * (yp + h * (-y) / 2) / 2)))) / 6,
       yp + h * (-y + 2 * (-(y + h * yp / 2)) + 2 * (-(y + h * (yp + h * (-y) / 2) / 2))
          + (-(y + h * (yp + h * (-(y + h * yp / 2)) / 2)))) / 6) ∧
    Ecuacion3.pasoRK4SistemaEspecificado (fun _ b => b) (fun a _ => -a) y yp h =
      ((1 - h ^ 2 / 2 + h ^ 4 / 24) * y + (h - h ^ 3 / 6) * yp,
       (1 - h ^ 2 / 2 + h ^ 4 / 24) * yp - (h - h ^ 3 / 6) * y) := by
  refine ⟨Ecuacion2.rk4_sistema_validado_fin x y yp h paso,
    Ecuacion3.rk4_sistema2_validado_fin raiz t y yp h paso, rfl, ?_⟩
  simp only [Ecuacion3.pasoRK4SistemaEspecificado, Prod.mk.injEq]
  constructor <;> ring

/-! ## Records and the divergence stop of the scalar Newton loop (C17, C18) -/

namespace Newtonrhapson

omit [LinearOrderedField α] in
theorem no_termina_iff (c : Except Falla Unit) : terminaCorrida c = false ↔ c = Except.ok () := by
  cases c with
  | error e => simp [terminaCorrida]
  | ok u => simp [terminaCorrida]

theorem validaError_iff (f df : Doble α → Doble α) (s : Estado α) :
    validaError f df s = true ↔
      (VALIDAR "fx" (f s.x) = Except.ok () ∧ VALIDAR "dfx" (df s.x) = Except.ok () ∧
       lt (fabs (df s.x)) (fin (1 / 10 ^ 15)) = false ∧
       VALIDAR "x_nuevo" (s.x - f s.x / df s.x) = Except.ok () ∧
       VALIDAR "error" (fabs (s.x - f s.x / df s.x - s.x)) = Except.ok ()) := by
  unfold validaError
  simp only [Bool.and_eq_true, Bool.not_eq_true', no_termina_iff]
  tauto

/-- The body from a state in which `x_nuevo` and `error` are computed and pass their checks. -/
theorem cuerpo_de_validaError {f df : Doble α → Doble α} (tol : Doble α) (maxIter : Int)
    {s : Estado α} (hv : validaError f df s = true) :
    cuerpo f df tol maxIter s =
      if gt (fabs (s.x - f s.x / df s.x - s.x)) (fin (10 ^ 10)) && decide (s.iter > 5) then
        .para .diverged s
      else if lt (fabs (s.x - f s.x / df s.x - s.x)) tol then
        .para .converged
          { x := s.x - f s.x / df s.x, iter := s.iter + 1,
            registros := s.registros ++
              [{ iter := s.iter, x := s.x, fx := f s.x,
                 error := fabs (s.x - f s.x / df s.x - s.x) }] }
      else if s.iter + 1 ≥ maxIter then
        .para .maxIterExceeded
          { x := s.x - f s.x / df s.x, iter := s.iter + 1,
            registros := s.registros ++
              [{ iter := s.iter, x := s.x, fx := f s.x,
                 error := fabs (s.x - f s.x / df s.x - s.x) }] }
      else
        .sigue
          { x := s.x - f s.x / df s.x, iter := s.iter + 1,
            registros := s.registros ++
              [{ iter := s.iter, x := s.x, fx := f s.x,
                 error := fabs (s.x - f s.x / df s.x - s.x) }] } := by
  obtain ⟨h1, h2, h3, h4, h5⟩ := (validaError_iff f df s).1 hv
  simp only [cuerpo, h1, h2, h3, h4, h5, trasValidar, Bool.false_eq_true, if_false]

/-- The body from a state in which `error` is not reached or not accepted: the run ends by
the zero-derivative return or by a fault, nothing is written. -/
theorem cuerpo_sin_validaError {f df : Doble α → Doble α} (tol : Doble α) (maxIter : Int)
    {s : Estado α} (hv : validaError f df s = false) :
    cuerpo f df tol maxIter s = .para .derivativeZero s ∨
      ∃ e, cuerpo f df tol maxIter s = .para (.numericFault e) s := by
  have hn : ¬ (VALIDAR "fx" (f s.x) = Except.ok () ∧ VALIDAR "dfx" (df s.x) = Except.ok () ∧
       lt (fabs (df s.x)) (fin (1 / 10 ^ 15)) = false ∧
       VALIDAR "x_nuevo" (s.x - f s.x / df s.x) = Except.ok () ∧
       VALIDAR "error" (fabs (s.x - f s.x / df s.x - s.x)) = Except.ok ()) := by
    rw [← validaError_iff, hv]; simp
  cases h1 : VALIDAR "fx" (f s.x) with
  | error e => exact Or.inr ⟨e, by simp only [cuerpo, h1, trasValidar]⟩
  | ok u1 =>
    cases h2 : VALIDAR "dfx" (df s.x) with
    | error e => exact Or.inr ⟨e, by simp only [cuerpo, h1, h2, trasValidar]⟩
    | ok u2 =>
      cases h3 : lt (fabs (df s.x)) (fin (1 / 10 ^ 15)) with
      | true => exact Or.inl (by simp only [cuerpo, h1, h2, h3, trasValidar, if_true])
      | false =>
        cases h4 : VALIDAR "x_nuevo" (s.x - f s.x / df s.x) with
        | error e =>
          exact Or.inr ⟨e, by
            simp only [cuerpo, h1, h2, h3, h4, trasValidar, Bool.false_eq_true, if_false]⟩
        | ok u4 =>
          cases h5 : VALIDAR "error" (fabs (s.x - f s.x / df s.x - s.x)) with
          | error e =>
            exact Or.inr ⟨e, by
              simp only [cuerpo, h1, h2, h3, h4, h5, trasValidar, Bool.false_eq_true, if_false]⟩
          | ok u5 => exact absurd ⟨h1, h2, h3, h4, h5⟩ hn

end Newtonrhapson

namespace Newtonrhapson

theorem validaError_iff_valido (f df : Doble α → Doble α) (s : Estado α) :
    validaError f df s = true ↔
      (es_numerico_valido (f s.x) = true ∧ es_numerico_valido (df s.x) = true ∧
       lt (fabs (df s.x)) (fin (1 / 10 ^ 15)) = false ∧
       es_numerico_valido (s.x - f s.x / df s.x) = true ∧
       es_numerico_valido (fabs (s.x - f s.x / df s.x - s.x)) = true) := by
  rw [validaError_iff, VALIDAR_ok_iff, VALIDAR_ok_iff, VALIDAR_ok_iff, VALIDAR_ok_iff]

theorem iteracionesConError_sigue {f df : Doble α → Doble α} {tol : Doble α} {maxIter : Int}
    {s s1 : Estado α} (n : Nat) (h : cuerpo f df tol maxIter s = .sigue s1) :
    iteracionesConError f df tol maxIter (n + 1) s =
      (if validaError f df s then 1 else 0) + iteracionesConError f df tol maxIter n s1 := by
  simp only [iteracionesConError, h]

theorem iteracionesConError_para {f df : Doble α → Doble α} {tol : Doble α} {maxIter : Int}
    {s s1 : Estado α} {m : Parada} (n : Nat) (h : cuerpo f df tol maxIter s = .para m s1) :
    iteracionesConError f df tol maxIter (n + 1) s = (if validaError f df s then 1 else 0) := by
  simp only [iteracionesConError, h, add_zero]

/-- Along any run the number of records grows by one in every body that computes and
accepts `error`, except in the body that stops as Diverged. -/
theorem registros_cuenta (f df : Doble α → Doble α) (tol : Doble α) (maxIter : Int) :
    ∀ (n : Nat) (s : Estado α),
      (bucle f df tol maxIter n s).2.registros.length +
          (if (bucle f df tol maxIter n s).1 = .diverged then 1 else 0) =
        s.registros.length + iteracionesConError f df tol maxIter n s := by
  intro n
  induction n with
  | zero => intro s; simp [bucle, iteracionesConError]
  | succ n ih =>
    intro s
    cases hv : validaError f df s with
    | false =>
      rcases cuerpo_sin_validaError tol maxIter hv with hc | ⟨e, hc⟩
      · rw [bucle_para_nr n hc, iteracionesConError_para n hc, hv]
        simp
      · rw [bucle_para_nr n hc, iteracionesConError_para n hc, hv]
        simp
    | true =>
      have hc := cuerpo_de_validaError tol maxIter hv
      split at hc
      · rw [bucle_para_nr n hc, iteracionesConError_para n hc, hv]
        simp
      · split at hc
        · rw [bucle_para_nr n hc, iteracionesConError_para n hc, hv]
          simp
        · split at hc
          · rw [bucle_para_nr n hc, iteracionesConError_para n hc, hv]
            simp
          · rw [bucle_sigue_nr n hc, iteracionesConError_sigue n hc, hv, ih]
            simp only [List.length_append, List.length_singleton, if_true]
            ring

/-- In a run that stops as Diverged, the counter `iter` of the final state is the 0-based
index of the body that stopped: the loop entered with `iter` plus the bodies executed
before it. -/
theorem indice_de_divergencia (f df : Doble α → Doble α) (tol : Doble α) (maxIter : Int) :
    ∀ (n : Nat) (s : Estado α), (bucle f df tol maxIter n s).1 = .diverged →
      (bucle f df tol maxIter n s).2.iter + 1 = s.iter + ejecuciones f df tol maxIter n s := by
  intro n
  induction n with
  | zero => intro s h; simp [bucle] at h
  | succ n ih =>
    intro s h
    cases hc : cuerpo f df tol maxIter s with
    | sigue s1 =>
      rw [bucle_sigue_nr n hc] at h ⊢
      rw [ejecuciones_sigue n hc, ih s1 h, (cuerpo_sigue_inv hc).1]
      push_cast
      ring
    | para m s1 =>
      rw [bucle_para_nr n hc] at h ⊢
      rw [ejecuciones_para n hc]
      simp only at h
      subst h
      rcases (cuerpo_para_inv hc).2 with ⟨h1, _, _⟩ | ⟨_, _, h3⟩
      · simp [h1]
      · rcases h3 with h3 | ⟨h3, _⟩ <;> cases h3

end Newtonrhapson

/-- C17 (amended): in every body of the scalar Newton loop in which `x_nuevo` and `error`
are computed and pass their checks, the Diverged test (`error > 1e10` and `iter > 5`)
comes first and, when it holds, leaves the loop without any record; otherwise exactly
one record `(iter, x, f(x), error)` is appended and the body then goes on or stops as
Converged or MaxIterExceeded.  A body that does not reach or accept `error` writes
nothing.  Hence along any run the number of records is the number of such bodies, minus
one when the run stops as Diverged. -/
theorem C17_un_registro_salvo_en_divergencia (f df : Doble α → Doble α) (tol : Doble α)
    (maxIter : Int) :
    (∀ s : Newtonrhapson.Estado α, Newtonrhapson.validaError f df s = true →
      ((gt (fabs (s.x - f s.x / df s.x - s.x)) (fin (10 ^ 10)) && decide (s.iter > 5)) = true →
        Newtonrhapson.cuerpo f df tol maxIter s = .para .diverged s) ∧
      ((gt (fabs (s.x - f s.x / df s.x - s.x)) (fin (10 ^ 10)) && decide (s.iter > 5)) = false →
        ∃ s1 : Newtonrhapson.Estado α,
          (Newtonrhapson.cuerpo f df tol maxIter s = .sigue s1 ∨
           Newtonrhapson.cuerpo f df tol maxIter s = .para .converged s1 ∨
           Newtonrhapson.cuerpo f df tol maxIter s = .para .maxIterExceeded s1) ∧
          s1.registros = s.registros ++
            [{ iter := s.iter, x := s.x, fx := f s.x,
               error := fabs (s.x - f s.x / df s.x - s.x) }])) ∧
    (∀ s : Newtonrhapson.Estado α, Newtonrhapson.validaError f df s = false →
      Newtonrhapson.cuerpo f df tol maxIter s = .para .derivativeZero s ∨
        ∃ e, Newtonrhapson.cuerpo f df tol maxIter s = .para (.numericFault e) s) ∧
    (∀ (n : Nat) (s : Newtonrhapson.Estado α),
      (Newtonrhapson.bucle f df tol maxIter n s).2.registros.length +
          (if (Newtonrhapson.bucle f df tol maxIter n s).1 = .diverged then 1 else 0) =
        s.registros.length + Newtonrhapson.iteracionesConError f df tol maxIter n s) := by
  refine ⟨fun s hv => ⟨fun hd => ?_, fun hd => ?_⟩,
    fun s hv => Newtonrhapson.cuerpo_sin_validaError tol maxIter hv,
    Newtonrhapson.registros_cuenta f df tol maxIter⟩
  · rw [Newtonrhapson.cuerpo_de_validaError tol maxIter hv, hd]
    rfl
  · have hc := Newtonrhapson.cuerpo_de_validaError tol maxIter hv
    rw [hd] at hc
    simp only [Bool.false_eq_true, if_false] at hc
    split at hc
    · exact ⟨_, Or.inr (Or.inl hc), rfl⟩
    · split at hc
      · exact ⟨_, Or.inr (Or.inr hc), rfl⟩
      · exact ⟨_, Or.inl hc, rfl⟩

/-- C18 (amended): the body of the scalar Newton loop executed with counter `iter = i`
stops as Diverged if and only if `f(x)`, `f'(x)`, `x_nuevo` and `error` are accepted by
`es_numerico_valido` (so `error <= 1e100`), `|f'(x)| >= 1e-15`, `error > 1e10` and
`i > 5`; it leaves the state as it was, and the run then passes the final check and
returns `EXIT_SUCCESS`.  No body with `i <= 5` stops as Diverged, and in a run that stops
as Diverged `i` is the number of bodies executed before (the 0-based index, when the
loop is entered with `iter = 0`). -/
theorem C18_divergencia_escalar (f df : Doble α → Doble α) (tol : Doble α) (maxIter : Int)
    (s : Newtonrhapson.Estado α) :
    ((∃ s1, Newtonrhapson.cuerpo f df tol maxIter s = .para .diverged s1) ↔
      (es_numerico_valido (f s.x) = true ∧ es_numerico_valido (df s.x) = true ∧
       lt (fabs (df s.x)) (fin (1 / 10 ^ 15)) = false ∧
       es_numerico_valido (s.x - f s.x / df s.x) = true ∧
       es_numerico_valido (fabs (s.x - f s.x / df s.x - s.x)) = true ∧
       gt (fabs (s.x - f s.x / df s.x - s.x)) (fin (10 ^ 10)) = true ∧ s.iter > 5)) ∧
    (∀ s1, Newtonrhapson.cuerpo f df tol maxIter s = .para .diverged s1 →
      s1 = s ∧ Newtonrhapson.finDeMain f (Newtonrhapson.Parada.diverged, s1)
        = some CodigoSalida.EXIT_SUCCESS) ∧
    (s.iter ≤ 5 → ∀ s1, Newtonrhapson.cuerpo f df tol maxIter s ≠ .para .diverged s1) ∧
    (∀ n : Nat, (Newtonrhapson.bucle f df tol maxIter n s).1 = .diverged →
      (Newtonrhapson.bucle f df tol maxIter n s).2.iter + 1 =
        s.iter + Newtonrhapson.ejecuciones f df tol maxIter n s) := by
  have clave : ∀ s1, Newtonrhapson.cuerpo f df tol maxIter s = .para .diverged s1 →
      Newtonrhapson.validaError f df s = true ∧
      gt (fabs (s.x - f s.x / df s.x - s.x)) (fin (10 ^ 10)) = true ∧ s.iter > 5 ∧ s1 = s := by
    intro s1 hc
    cases hv : Newtonrhapson.validaError f df s with
    | false =>
      rcases Newtonrhapson.cuerpo_sin_validaError tol maxIter hv with h | ⟨e, h⟩
      · rw [h] at hc; cases hc
      · rw [h] at hc; cases hc
    | true =>
      have h := Newtonrhapson.cuerpo_de_validaError tol maxIter hv
      rw [h] at hc
      split at hc
      · rename_i hd
        simp only [Bool.and_eq_true, decide_eq_true_eq] at hd
        cases hc
        exact ⟨rfl, hd.1, hd.2, rfl⟩
      · split at hc
        · cases hc
        · split at hc <;> cases hc
  refine ⟨⟨?_, ?_⟩, ?_, ?_, fun n => Newtonrhapson.indice_de_divergencia f df tol maxIter n s⟩
  · rintro ⟨s1, hc⟩
    obtain ⟨hv, hd, hi, _⟩ := clave s1 hc
    obtain ⟨a, b, c, d, e⟩ := (Newtonrhapson.validaError_iff_valido f df s).1 hv
    exact ⟨a, b, c, d, e, hd, hi⟩
  · rintro ⟨a, b, c, d, e, hd, hi⟩
    have hv := (Newtonrhapson.validaError_iff_valido f df s).2 ⟨a, b, c, d, e⟩
    refine ⟨s, ?_⟩
    rw [Newtonrhapson.cuerpo_de_validaError tol maxIter hv]
    simp only [hd, decide_eq_true hi, Bool.and_self, if_true]
  · intro s1 hc
    obtain ⟨hv, _, _, rfl⟩ := clave s1 hc
    refine ⟨rfl, ?_⟩
    obtain ⟨a, _⟩ := (Newtonrhapson.validaError_iff f df s1).1 hv
    simp only [Newtonrhapson.finDeMain]
    have hfin : Newtonrhapson.VALIDAR "fx_final" (f s1.x) = Except.ok () :=
      (Newtonrhapson.VALIDAR_ok_iff _ _).2 ((Newtonrhapson.VALIDAR_ok_iff _ _).1 a)
    rw [hfin]
  · intro hi s1 hc
    obtain ⟨_, _, h5, _⟩ := clave s1 hc
    omega

namespace Newtonrhapson

/-- The body on finite values whose checks pass, the three tests left as conditions. -/
theorem cuerpo_fin_general (f df : Doble α → Doble α) (tol : α) (maxIter : Int)
    (x a b x1 e : α) (iter : Int) (regs : List (Registro α))
    (hf : f (fin x) = fin a) (hdf : df (fin x) = fin b)
    (ha : |a| ≤ 10 ^ 100) (hb : |b| ≤ 10 ^ 100) (hb0 : 1 / 10 ^ 15 ≤ |b|)
    (hx1 : x - a / b = x1) (hx1v : |x1| ≤ 10 ^ 100) (he : |x1 - x| = e)
    (hev : e ≤ 10 ^ 100) :
    cuerpo f df (fin tol) maxIter { x := fin x, iter := iter, registros := regs } =
      if 10 ^ 10 < e ∧ iter > 5 then
        .para .diverged { x := fin x, iter := iter, registros := regs }
      else if e < tol then
        .para .converged
          { x := fin x1, iter := iter + 1,
            registros := regs ++ [{ iter := iter, x := fin x, fx := fin a, error := fin e }] }
      else if iter + 1 ≥ maxIter then
        .para .maxIterExceeded
          { x := fin x1, iter := iter + 1,
            registros := regs ++ [{ iter := iter, x := fin x, fx := fin a, error := fin e }] }
      else
        .sigue
          { x := fin x1, iter := iter + 1,
            registros := regs ++ [{ iter := iter, x := fin x, fx := fin a, error := fin e }] } := by
  have hb1 : b ≠ 0 := by
    intro h0
    rw [h0, abs_zero] at hb0
    exact absurd hb0 (not_le.2 (by positivity))
  have he0 : 0 ≤ e := he ▸ abs_nonneg _
  have hev2 : |e| ≤ 10 ^ 100 := by rw [abs_of_nonneg he0]; exact hev
  have v1 : VALIDAR "fx" (fin a) = Except.ok () :=
    VALIDAR_of_valido _ (by rw [es_numerico_valido_fin]; exact decide_eq_true ha)
  have v2 : VALIDAR "dfx" (fin b) = Except.ok () :=
    VALIDAR_of_valido _ (by rw [es_numerico_valido_fin]; exact decide_eq_true hb)
  have v3 : VALIDAR "x_nuevo" (fin x1) = Except.ok () :=
    VALIDAR_of_valido _ (by rw [es_numerico_valido_fin]; exact decide_eq_true hx1v)
  have v4 : VALIDAR "error" (fin e) = Except.ok () :=
    VALIDAR_of_valido _ (by rw [es_numerico_valido_fin]; exact decide_eq_true hev2)
  simp only [cuerpo, hf, hdf, fin_div_fin _ _ hb1, fin_sub_fin, hx1, fabs_fin, he, v1, v2, v3, v4,
    trasValidar, lt_fin_fin, gt_fin_fin, decide_eq_false (not_lt.2 hb0), Bool.false_eq_true,
    if_false, Bool.and_eq_true, decide_eq_true_eq]

theorem combustible_siete : max 1 (MAX_ITER).toNat = 93 + 1 + 6 := by decide

/-- One body for `FUNCION(x) = 1.5*x`, `DERIVADA(x) = 0.5` at a finite `x = v` with
`3*|v| <= 1e100`: `x_nuevo = -2*v`, `error = 3*|v|`. -/
theorem cuerpo_lineal (tol : α) (maxIter : Int) (v : α) (iter : Int)
    (regs : List (Registro α)) (hv : 3 * |v| ≤ 10 ^ 100) :
    cuerpo (fun x : Doble α => fin (3 / 2) * x) (fun _ => fin (1 / 2)) (fin tol) maxIter
        { x := fin v, iter := iter, registros := regs } =
      if 10 ^ 10 < 3 * |v| ∧ iter > 5 then
        .para .diverged { x := fin v, iter := iter, registros := regs }
      else if 3 * |v| < tol then
        .para .converged
          { x := fin (-2 * v), iter := iter + 1,
            registros := regs ++
              [{ iter := iter, x := fin v, fx := fin (3 / 2 * v), error := fin (3 * |v|) }] }
      else if iter + 1 ≥ maxIter then
        .para .maxIterExceeded
          { x := fin (-2 * v), iter := iter + 1,
            registros := regs ++
              [{ iter := iter, x := fin v, fx := fin (3 / 2 * v), error := fin (3 * |v|) }] }
      else
        .sigue
          { x := fin (-2 * v), iter := iter + 1,
            registros := regs ++
              [{ iter := iter, x := fin v, fx := fin (3 / 2 * v), error := fin (3 * |v|) }] } := by
  have h0 : 0 ≤ |v| := abs_nonneg v
  have h100 : (1 : α) ≤ 10 ^ 100 := one_le_pow₀ (by norm_num)
  refine cuerpo_fin_general _ _ tol maxIter v (3 / 2 * v) (1 / 2) (-2 * v) (3 * |v|) iter regs
    (by simp only [fin_mul_fin]) rfl ?_ ?_ ?_ ?_ ?_ ?_ hv
  · rw [abs_mul, abs_of_nonneg (by norm_num : (0 : α) ≤ 3 / 2)]; linarith
  · rw [abs_of_nonneg (by norm_num : (0 : α) ≤ 1 / 2)]; linarith
  · rw [abs_of_nonneg (by norm_num : (0 : α) ≤ 1 / 2), div_le_div_iff₀ (by positivity) (by norm_num)]
    calc (1 : α) * 2 ≤ 10 ^ 15 := by norm_num
      _ = 1 * 10 ^ 15 := (one_mul _).symm
  · field_simp
    ring
  · rw [abs_mul, abs_neg, abs_of_nonneg (by norm_num : (0 : α) ≤ 2)]; linarith
  · rw [show -2 * v - v = -(3 * v) by ring, abs_neg, abs_mul,
      abs_of_nonneg (by norm_num : (0 : α) ≤ 3)]

/-- One body for `FUNCION(x) = 1.5*x`, `DERIVADA(x) = 0.5` at a finite `x = v` with
`2*|v| <= 1e100 < 3*|v|`: `f(x)`, `f'(x)` and `x_nuevo = -2*v` pass their checks, and the
check of `error = 3*|v|` ends the run. -/
theorem cuerpo_lineal_falla (tol : Doble α) (maxIter : Int) (v : α) (iter : Int)
    (regs : List (Registro α)) (hv2 : 2 * |v| ≤ 10 ^ 100) (hv3 : 10 ^ 100 < 3 * |v|) :
    cuerpo (fun x : Doble α => fin (3 / 2) * x) (fun _ => fin (1 / 2)) tol maxIter
        { x := fin v, iter := iter, registros := regs } =
      .para (.numericFault (.esInvalido "error")) { x := fin v, iter := iter, registros := regs } := by
  have h0 : 0 ≤ |v| := abs_nonneg v
  have h100 : (1 : α) ≤ 10 ^ 100 := one_le_pow₀ (by norm_num)
  have hx1 : v - 3 / 2 * v / (1 / 2) = -2 * v := by field_simp; ring
  have he : |-2 * v - v| = 3 * |v| := by
    rw [show -2 * v - v = -(3 * v) by ring, abs_neg, abs_mul,
      abs_of_nonneg (by norm_num : (0 : α) ≤ 3)]
  have v1 : VALIDAR "fx" (fin (3 / 2 * v)) = Except.ok () :=
    VALIDAR_of_valido _ (by
      rw [es_numerico_valido_fin]
      refine decide_eq_true ?_
      rw [abs_mul, abs_of_nonneg (by norm_num : (0 : α) ≤ 3 / 2)]; linarith)
  have v2 : VALIDAR "dfx" (fin (1 / 2) : Doble α) = Except.ok () :=
    VALIDAR_of_valido _ (by
      rw [es_numerico_valido_fin]
      refine decide_eq_true ?_
      rw [abs_of_nonneg (by norm_num : (0 : α) ≤ 1 / 2)]; linarith)
  have v3 : VALIDAR "x_nuevo" (fin (-2 * v)) = Except.ok () :=
    VALIDAR_of_valido _ (by
      rw [es_numerico_valido_fin]
      refine decide_eq_true ?_
      rw [abs_mul, abs_neg, abs_of_nonneg (by norm_num : (0 : α) ≤ 2)]; exact hv2)
  have hinv : es_numerico_valido (fin (3 * |v|)) = false := by
    refine (es_numerico_valido_fin _).trans (decide_eq_false ?_)
    rw [not_le]
    exact lt_of_lt_of_le hv3 (le_abs_self _)
  have v4 : VALIDAR "error" (fin (3 * |v|)) = Except.error (.esInvalido "error") := by
    simp only [VALIDAR, verificar_nan_inf, isnan_fin, isinf_fin, hinv, Bool.false_eq_true,
      if_false, Bool.not_false, if_true]
  have hb0 : ¬ (|(1 : α) / 2| < 1 / 10 ^ 15) := by
    rw [abs_of_nonneg (by norm_num : (0 : α) ≤ 1 / 2), not_lt,
      div_le_div_iff₀ (by positivity) (by norm_num)]
    calc (1 : α) * 2 ≤ 10 ^ 15 := by norm_num
      _ = 1 * 10 ^ 15 := (one_mul _).symm
  simp only [cuerpo, fin_mul_fin, fin_div_fin _ _ (by norm_num : (1 : α) / 2 ≠ 0), fin_sub_fin,
    hx1, fabs_fin, he, v1, v2, v3, v4, trasValidar, lt_fin_fin, decide_eq_false hb0,
    Bool.false_eq_true, if_false]

/-- The first bodies for `FUNCION(x) = 1.5*x`, `DERIVADA(x) = 0.5` from `x0 = v0 >= 1` with
`96*v0 <= 1e100`: after `k <= 6` bodies `x = (-2)^k * v0`, `iter = k` and `k` records are
written. -/
theorem corrida_lineal (v0 : α) (h1 : 1 ≤ v0) (h96 : 96 * v0 ≤ 10 ^ 100) :
    ∀ k : Nat, k ≤ 6 → ∀ n : Nat, ∃ regs : List (Registro α), regs.length = k ∧
      bucle (fun x : Doble α => fin (3 / 2) * x) (fun _ => fin (1 / 2)) TOLERANCIA MAX_ITER
          (n + k) { x := fin v0, iter := 0, registros := [] } =
        bucle (fun x : Doble α => fin (3 / 2) * x) (fun _ => fin (1 / 2)) TOLERANCIA MAX_ITER n
          { x := fin ((-2) ^ k * v0), iter := k, registros := regs } ∧
      ejecuciones (fun x : Doble α => fin (3 / 2) * x) (fun _ => fin (1 / 2)) TOLERANCIA MAX_ITER
          (n + k) { x := fin v0, iter := 0, registros := [] } =
        ejecuciones (fun x : Doble α => fin (3 / 2) * x) (fun _ => fin (1 / 2)) TOLERANCIA
          MAX_ITER n { x := fin ((-2) ^ k * v0), iter := k, registros := regs } + k := by
  intro k
  induction k with
  | zero => intro _ n; exact ⟨[], rfl, by simp, by simp⟩
  | succ k ih =>
    intro hk n
    obtain ⟨regs, hl, hb, he⟩ := ih (by omega) (n + 1)
    have h0 : (0 : α) ≤ v0 := le_trans zero_le_one h1
    have habs : |(-2) ^ k * v0| = 2 ^ k * v0 := by
      rw [abs_mul, abs_pow, abs_neg, abs_of_nonneg (by norm_num : (0 : α) ≤ 2),
        abs_of_nonneg h0]
    have h2k : (2 : α) ^ k ≤ 2 ^ 5 := pow_le_pow_right₀ (by norm_num) (by omega)
    have h2k1 : (1 : α) ≤ 2 ^ k := one_le_pow₀ (by norm_num)
    have hv : 3 * |(-2) ^ k * v0| ≤ 10 ^ 100 := by
      rw [habs]
      calc 3 * (2 ^ k * v0) ≤ 3 * (2 ^ 5 * v0) := by
            have := mul_le_mul_of_nonneg_right h2k h0
            linarith
        _ = 96 * v0 := by ring
        _ ≤ 10 ^ 100 := h96
    have hc := cuerpo_lineal (1 / 10 ^ 6) MAX_ITER ((-2) ^ k * v0) (k : Int) regs hv
    have hnd : ¬ (10 ^ 10 < 3 * |(-2) ^ k * v0| ∧ (k : Int) > 5) := by
      intro h; omega
    have hnt : ¬ (3 * |(-2) ^ k * v0| < 1 / 10 ^ 6) := by
      rw [habs]
      have : (1 : α) / 10 ^ 6 ≤ 1 := by
        rw [div_le_iff₀ (by positivity)]
        calc (1 : α) ≤ 10 ^ 6 := one_le_pow₀ (by norm_num)
          _ = 1 * 10 ^ 6 := (one_mul _).symm
      have h3 : (1 : α) ≤ 2 ^ k * v0 := by
        calc (1 : α) = 1 * 1 := (one_mul _).symm
          _ ≤ 2 ^ k * v0 := mul_le_mul h2k1 h1 zero_le_one (by positivity)
      linarith
    have hnm : ¬ ((k : Int) + 1 ≥ MAX_ITER) := by
      unfold MAX_ITER; omega
    have hcast : (k : Int) + 1 = ((k + 1 : Nat) : Int) := by push_cast; rfl
    have hx : -2 * ((-2) ^ k * v0) = (-2) ^ (k + 1) * v0 := by ring
    rw [if_neg hnd, if_neg hnt, if_neg hnm, hx, hcast] at hc
    have hn : n + (k + 1) = n + 1 + k := by omega
    refine ⟨regs ++
      [{ iter := k
         x := fin ((-2) ^ k * v0)
         fx := fin (3 / 2 * ((-2) ^ k * v0))
         error := fin (3 * |(-2) ^ k * v0|) }], ?_, ?_, ?_⟩
    · exact (List.length_append _ _).trans (by rw [hl]; rfl)
    · rw [hn, hb]
      exact @bucle_sigue_nr α _ _ _ TOLERANCIA _ _ _ n hc
    · rw [hn, he, @ejecuciones_sigue α _ _ _ TOLERANCIA _ _ _ n hc]
      ring

end Newtonrhapson

set_option maxRecDepth 8000 in
/-- C17 (counterexample): with `FUNCION(x) = 1.5*x`, `DERIVADA(x) = 0.5` and `x0 = 1e9`
every step maps `x` to `-2*x` with `error = 3*|x|`; the bodies with `iter = 0..5` write
their records and go on, the body with `iter = 6` computes `x_nuevo = -1.28e11` and
`error = 1.92e11 > 1e10` and stops as Diverged before writing its record: seven bodies
computed and accepted `x_nuevo` and `error`, six records were written. -/
theorem C17_contraejemplo_divergencia_sin_registro :
    (Newtonrhapson.newton (fun x : Doble ℚ => fin (3 / 2) * x) (fun _ => fin (1 / 2))
      (fin (10 ^ 9)) Newtonrhapson.TOLERANCIA Newtonrhapson.MAX_ITER).1
        = Newtonrhapson.Parada.diverged ∧
    (Newtonrhapson.newton (fun x : Doble ℚ => fin (3 / 2) * x) (fun _ => fin (1 / 2))
      (fin (10 ^ 9)) Newtonrhapson.TOLERANCIA Newtonrhapson.MAX_ITER).2.x
        = fin (64 * 10 ^ 9) ∧
    (Newtonrhapson.newton (fun x : Doble ℚ => fin (3 / 2) * x) (fun _ => fin (1 / 2))
      (fin (10 ^ 9)) Newtonrhapson.TOLERANCIA Newtonrhapson.MAX_ITER).2.iter = 6 ∧
    (Newtonrhapson.newton (fun x : Doble ℚ => fin (3 / 2) * x) (fun _ => fin (1 / 2))
      (fin (10 ^ 9)) Newtonrhapson.TOLERANCIA Newtonrhapson.MAX_ITER).2.registros.length = 6 ∧
    Newtonrhapson.ejecuciones (fun x : Doble ℚ => fin (3 / 2) * x) (fun _ => fin (1 / 2))
      Newtonrhapson.TOLERANCIA Newtonrhapson.MAX_ITER (max 1 Newtonrhapson.MAX_ITER.toNat)
      { x := fin (10 ^ 9), iter := 0, registros := [] } = 7 ∧
    Newtonrhapson.iteracionesConError (fun x : Doble ℚ => fin (3 / 2) * x) (fun _ => fin (1 / 2))
      Newtonrhapson.TOLERANCIA Newtonrhapson.MAX_ITER (max 1 Newtonrhapson.MAX_ITER.toNat)
      { x := fin (10 ^ 9), iter := 0, registros := [] } = 7 := by
  obtain ⟨regs, hl, hb, he⟩ :=
    Newtonrhapson.corrida_lineal (10 ^ 9 : ℚ) (by norm_num) (by norm_num) 6 (le_refl _) (93 + 1)
  have hc := Newtonrhapson.cuerpo_lineal (1 / 10 ^ 6 : ℚ) Newtonrhapson.MAX_ITER
    ((-2) ^ 6 * 10 ^ 9) ((6 : Nat) : Int) regs (by norm_num [abs_of_nonneg])
  rw [if_pos ⟨by norm_num [abs_of_nonneg], by norm_num⟩] at hc
  have hn : Newtonrhapson.newton (fun x : Doble ℚ => fin (3 / 2) * x) (fun _ => fin (1 / 2))
      (fin (10 ^ 9)) Newtonrhapson.TOLERANCIA Newtonrhapson.MAX_ITER =
      (Newtonrhapson.Parada.diverged,
        Newtonrhapson.Estado.mk (fin ((-2) ^ 6 * 10 ^ 9)) ((6 : Nat) : Int) regs) := by
    unfold Newtonrhapson.newton
    rw [Newtonrhapson.combustible_siete, hb]
    exact @Newtonrhapson.bucle_para_nr ℚ _ _ _ Newtonrhapson.TOLERANCIA _ _ _ _ 93 hc
  have hcuenta := Newtonrhapson.registros_cuenta (fun x : Doble ℚ => fin (3 / 2) * x)
    (fun _ => fin (1 / 2)) Newtonrhapson.TOLERANCIA Newtonrhapson.MAX_ITER
    (max 1 Newtonrhapson.MAX_ITER.toNat) { x := fin (10 ^ 9), iter := 0, registros := [] }
  have hn2 : Newtonrhapson.bucle (fun x : Doble ℚ => fin (3 / 2) * x) (fun _ => fin (1 / 2))
      Newtonrhapson.TOLERANCIA Newtonrhapson.MAX_ITER (max 1 Newtonrhapson.MAX_ITER.toNat)
      { x := fin (10 ^ 9), iter := 0, registros := [] } =
      (Newtonrhapson.Parada.diverged,
        Newtonrhapson.Estado.mk (fin ((-2) ^ 6 * 10 ^ 9)) ((6 : Nat) : Int) regs) := hn
  rw [hn2] at hcuenta
  simp only [hl, if_true, List.length_nil, zero_add] at hcuenta
  refine ⟨by rw [hn], by rw [hn]; norm_num, by rw [hn]; rfl, by rw [hn]; exact hl, ?_,
    hcuenta.symm⟩
  rw [Newtonrhapson.combustible_siete, he,
    @Newtonrhapson.ejecuciones_para ℚ _ _ _ Newtonrhapson.TOLERANCIA _ _ _ _ 93 hc]

set_option maxRecDepth 8000 in
/-- C18 (counterexample): with `FUNCION(x) = 1.5*x`, `DERIVADA(x) = 0.5` and `x0 = 6.25e97`
every step maps `x` to `-2*x`; the body with `iter = 6` starts at `x = 4e99`, where
`f(x) = 6e99`, `f'(x) = 0.5` and `x_nuevo = -8e99` pass their checks, `|f'(x)| >= 1e-15`
and `error = |x_nuevo - x| = 1.2e100 > 1e10`, yet the run does not stop as Diverged:
`VALIDAR(error)` rejects the value and the run ends with failure. -/
theorem C18_contraejemplo_falla_en_lugar_de_divergencia :
    (Newtonrhapson.newton (fun x : Doble ℚ => fin (3 / 2) * x) (fun _ => fin (1 / 2))
      (fin (625 * 10 ^ 95)) Newtonrhapson.TOLERANCIA Newtonrhapson.MAX_ITER).1 =
        Newtonrhapson.Parada.numericFault (Falla.esInvalido "error") ∧
    (Newtonrhapson.newton (fun x : Doble ℚ => fin (3 / 2) * x) (fun _ => fin (1 / 2))
      (fin (625 * 10 ^ 95)) Newtonrhapson.TOLERANCIA Newtonrhapson.MAX_ITER).2.x
        = fin (4 * 10 ^ 99) ∧
    (Newtonrhapson.newton (fun x : Doble ℚ => fin (3 / 2) * x) (fun _ => fin (1 / 2))
      (fin (625 * 10 ^ 95)) Newtonrhapson.TOLERANCIA Newtonrhapson.MAX_ITER).2.iter = 6 ∧
    es_numerico_valido ((fun x : Doble ℚ => fin (3 / 2) * x) (fin (4 * 10 ^ 99))) = true ∧
    es_numerico_valido ((fun _ : Doble ℚ => (fin (1 / 2) : Doble ℚ)) (fin (4 * 10 ^ 99))) = true ∧
    lt (fabs ((fun _ : Doble ℚ => (fin (1 / 2) : Doble ℚ)) (fin (4 * 10 ^ 99))))
      (fin (1 / 10 ^ 15)) = false ∧
    es_numerico_valido ((fin (4 * 10 ^ 99) : Doble ℚ) -
      (fun x : Doble ℚ => fin (3 / 2) * x) (fin (4 * 10 ^ 99)) /
        (fun _ : Doble ℚ => (fin (1 / 2) : Doble ℚ)) (fin (4 * 10 ^ 99))) = true ∧
    gt (fabs ((fin (4 * 10 ^ 99) : Doble ℚ) -
        (fun x : Doble ℚ => fin (3 / 2) * x) (fin (4 * 10 ^ 99)) /
          (fun _ : Doble ℚ => (fin (1 / 2) : Doble ℚ)) (fin (4 * 10 ^ 99))
        - fin (4 * 10 ^ 99))) (fin (10 ^ 10)) = true ∧
    Newtonrhapson.finDeMain (fun x : Doble ℚ => fin (3 / 2) * x)
      (Newtonrhapson.newton (fun x : Doble ℚ => fin (3 / 2) * x) (fun _ => fin (1 / 2))
        (fin (625 * 10 ^ 95)) Newtonrhapson.TOLERANCIA Newtonrhapson.MAX_ITER)
      = some CodigoSalida.EXIT_FAILURE := by
  obtain ⟨regs, hl, hb, _⟩ :=
    Newtonrhapson.corrida_lineal (625 * 10 ^ 95 : ℚ) (by norm_num) (by norm_num) 6 (le_refl _)
      (93 + 1)
  have hc := Newtonrhapson.cuerpo_lineal_falla (Newtonrhapson.TOLERANCIA : Doble ℚ)
    Newtonrhapson.MAX_ITER ((-2) ^ 6 * (625 * 10 ^ 95)) ((6 : Nat) : Int) regs
    (by norm_num [abs_of_nonneg]) (by norm_num [abs_of_nonneg])
  have hn : Newtonrhapson.newton (fun x : Doble ℚ => fin (3 / 2) * x) (fun _ => fin (1 / 2))
      (fin (625 * 10 ^ 95)) Newtonrhapson.TOLERANCIA Newtonrhapson.MAX_ITER =
      (Newtonrhapson.Parada.numericFault (Falla.esInvalido "error"),
        Newtonrhapson.Estado.mk (fin ((-2) ^ 6 * (625 * 10 ^ 95))) ((6 : Nat) : Int) regs) := by
    unfold Newtonrhapson.newton
    rw [Newtonrhapson.combustible_siete, hb]
    exact Newtonrhapson.bucle_para_nr 93 hc
  refine ⟨by rw [hn], by rw [hn]; norm_num, by rw [hn]; rfl, ?_, ?_, ?_, ?_, ?_,
    by rw [hn]; rfl⟩
  · simp only [fin_mul_fin]
    exact (es_numerico_valido_fin _).trans (decide_eq_true (by norm_num [abs_of_nonneg]))
  · exact (es_numerico_valido_fin _).trans (decide_eq_true (by norm_num [abs_of_nonneg]))
  · simp only [fabs_fin, lt_fin_fin]
    exact decide_eq_false (by norm_num [abs_of_nonneg])
  · simp only [fin_mul_fin, fin_div_fin _ _ (by norm_num : (1 : ℚ) / 2 ≠ 0), fin_sub_fin]
    exact (es_numerico_valido_fin _).trans (decide_eq_true (by norm_num [abs_le]))
  · simp only [fin_mul_fin, fin_div_fin _ _ (by norm_num : (1 : ℚ) / 2 ≠ 0), fin_sub_fin,
      fabs_fin, gt_fin_fin]
    exact decide_eq_true (by norm_num [lt_abs])

/-! ## The singularity guard and the divergence stop of the 2-D Newton loop (C15, C19) -/

namespace Newtonsistemas

theorem VALIDAR_ok_iff_ns (nombre : String) (v : Doble α) :
    VALIDAR nombre v = Except.ok () ↔ es_numerico_valido v = true :=
  Newtonrhapson.VALIDAR_ok_iff nombre v

theorem llegaADet_iff (S : Sistema α) (s : Estado α) :
    llegaADet S s = true ↔
      (VALIDAR "f1" (S.f1 s.x s.y) = Except.ok () ∧ VALIDAR "f2" (S.f2 s.x s.y) = Except.ok () ∧
       VALIDAR "df1_dx" (S.df1_dx s.x s.y) = Except.ok () ∧
       VALIDAR "df1_dy" (S.df1_dy s.x s.y) = Except.ok () ∧
       VALIDAR "df2_dx" (S.df2_dx s.x s.y) = Except.ok () ∧
       VALIDAR "df2_dy" (S.df2_dy s.x s.y) = Except.ok () ∧
       VALIDAR "det" (detEn S s) = Except.ok ()) := by
  unfold llegaADet
  simp only [Bool.and_eq_true, Bool.not_eq_true', Newtonrhapson.no_termina_iff]
  tauto

/-- The body from a state in which the seven checks before the singularity test pass. -/
theorem cuerpo_de_llegaADet {raiz : α → α} {S : Sistema α} (tol : Doble α) (maxIter : Int)
    {s : Estado α} (hl : llegaADet S s = true) :
    cuerpo raiz S tol maxIter s =
      if lt (fabs (detEn S s)) (fin (1 / 10 ^ 15)) then .para .singularJacobian s
      else
        trasValidar (VALIDAR "dx" (incrementosEn S s).1) (fun e => .para (.numericFault e) s) <|
        trasValidar (VALIDAR "dy" (incrementosEn S s).2) (fun e => .para (.numericFault e) s) <|
        trasValidar (VALIDAR "error" (errorEn raiz S s)) (fun e => .para (.numericFault e) s) <|
        trasValidar
          (validar_punto (s.x + (incrementosEn S s).1) (s.y + (incrementosEn S s).2)
            "nuevo punto")
          (fun e => .para (.numericFault e)
            { s with registros := s.registros ++
                [{ iter := s.iteracion, x := s.x, y := s.y, f1 := S.f1 s.x s.y,
                   f2 := S.f2 s.x s.y, det := detEn S s, error := errorEn raiz S s }] }) <|
        if gt (errorEn raiz S s) (fin (10 ^ 5)) && decide (s.iteracion + 1 > 3) then
          .para .diverged (trasActualizar raiz S s)
        else if lt (errorEn raiz S s) tol then .para .converged (trasActualizar raiz S s)
        else if s.iteracion + 1 ≥ maxIter then .para .maxIterExceeded (trasActualizar raiz S s)
        else .sigue (trasActualizar raiz S s) := by
  obtain ⟨h1, h2, h3, h4, h5, h6, h7⟩ := (llegaADet_iff S s).1 hl
  unfold detEn at h7
  simp only [cuerpo, h1, h2, h3, h4, h5, h6, h7, trasValidar, detEn, incrementosEn, errorEn,
    trasActualizar]

/-- The body from a state in which one of the seven checks before the singularity test
fails: the run ends with a fault and nothing is written. -/
theorem cuerpo_sin_llegaADet {raiz : α → α} {S : Sistema α} (tol : Doble α) (maxIter : Int)
    {s : Estado α} (hl : llegaADet S s = false) :
    ∃ e, cuerpo raiz S tol maxIter s = .para (.numericFault e) s := by
  have hn : ¬ (VALIDAR "f1" (S.f1 s.x s.y) = Except.ok () ∧
       VALIDAR "f2" (S.f2 s.x s.y) = Except.ok () ∧
       VALIDAR "df1_dx" (S.df1_dx s.x s.y) = Except.ok () ∧
       VALIDAR "df1_dy" (S.df1_dy s.x s.y) = Except.ok () ∧
       VALIDAR "df2_dx" (S.df2_dx s.x s.y) = Except.ok () ∧
       VALIDAR "df2_dy" (S.df2_dy s.x s.y) = Except.ok () ∧
       VALIDAR "det" (detEn S s) = Except.ok ()) := by
    rw [← llegaADet_iff, hl]; simp
  cases h1 : VALIDAR "f1" (S.f1 s.x s.y) with
  | error e => exact ⟨e, by simp only [cuerpo, h1, trasValidar]⟩
  | ok u1 =>
  cases h2 : VALIDAR "f2" (S.f2 s.x s.y) with
  | error e => exact ⟨e, by simp only [cuerpo, h1, h2, trasValidar]⟩
  | ok u2 =>
  cases h3 : VALIDAR "df1_dx" (S.df1_dx s.x s.y) with
  | error e => exact ⟨e, by simp only [cuerpo, h1, h2, h3, trasValidar]⟩
  | ok u3 =>
  cases h4 : VALIDAR "df1_dy" (S.df1_dy s.x s.y) with
  | error e => exact ⟨e, by simp only [cuerpo, h1, h2, h3, h4, trasValidar]⟩
  | ok u4 =>
  cases h5 : VALIDAR "df2_dx" (S.df2_dx s.x s.y) with
  | error e => exact ⟨e, by simp only [cuerpo, h1, h2, h3, h4, h5, trasValidar]⟩
  | ok u5 =>
  cases h6 : VALIDAR "df2_dy" (S.df2_dy s.x s.y) with
  | error e => exact ⟨e, by simp only [cuerpo, h1, h2, h3, h4, h5, h6, trasValidar]⟩
  | ok u6 =>
  cases h7 : VALIDAR "det" (detEn S s) with
  | error e =>
    unfold detEn at h7
    exact ⟨e, by simp only [cuerpo, h1, h2, h3, h4, h5, h6, h7, trasValidar]⟩
  | ok u7 => exact absurd ⟨h1, h2, h3, h4, h5, h6, h7⟩ hn

end Newtonsistemas

namespace Newtonsistemas

theorem llegaADet_iff_valido (S : Sistema α) (s : Estado α) :
    llegaADet S s = true ↔
      (es_numerico_valido (S.f1 s.x s.y) = true ∧ es_numerico_valido (S.f2 s.x s.y) = true ∧
       es_numerico_valido (S.df1_dx s.x s.y) = true ∧
       es_numerico_valido (S.df1_dy s.x s.y) = true ∧
       es_numerico_valido (S.df2_dx s.x s.y) = true ∧
       es_numerico_valido (S.df2_dy s.x s.y) = true ∧
       es_numerico_valido (detEn S s) = true) := by
  rw [llegaADet_iff]
  simp only [VALIDAR_ok_iff_ns]

omit [LinearOrderedField α] in
theorem trasValidar_ok {β : Type} {c : Except Falla Unit} (h : c = Except.ok ())
    (g : Falla → β) (b : β) : trasValidar c g b = b := by
  rw [h]; rfl

omit [LinearOrderedField α] in
theorem trasValidar_error {β : Type} {c : Except Falla Unit} {e : Falla}
    (h : c = Except.error e) (g : Falla → β) (b : β) : trasValidar c g b = g e := by
  rw [h]; rfl

theorem llegaADivergencia_iff (raiz : α → α) (S : Sistema α) (s : Estado α) :
    llegaADivergencia raiz S s = true ↔
      (llegaADet S s = true ∧ lt (fabs (detEn S s)) (fin (1 / 10 ^ 15)) = false ∧
       VALIDAR "dx" (incrementosEn S s).1 = Except.ok () ∧
       VALIDAR "dy" (incrementosEn S s).2 = Except.ok () ∧
       VALIDAR "error" (errorEn raiz S s) = Except.ok () ∧
       validar_punto (s.x + (incrementosEn S s).1) (s.y + (incrementosEn S s).2) "nuevo punto"
         = Except.ok ()) := by
  unfold llegaADivergencia
  simp only [Bool.and_eq_true, Bool.not_eq_true', Newtonrhapson.no_termina_iff]
  tauto

theorem validar_punto_ok_iff (x y : Doble α) (contexto : String) :
    validar_punto x y contexto = Except.ok () ↔
      (es_numerico_valido x = true ∧ es_numerico_valido y = true) := by
  unfold validar_punto
  cases es_numerico_valido x <;> cases es_numerico_valido y <;> simp

theorem llegaADivergencia_iff_valido (raiz : α → α) (S : Sistema α) (s : Estado α) :
    llegaADivergencia raiz S s = true ↔
      ((es_numerico_valido (S.f1 s.x s.y) = true ∧ es_numerico_valido (S.f2 s.x s.y) = true ∧
        es_numerico_valido (S.df1_dx s.x s.y) = true ∧
        es_numerico_valido (S.df1_dy s.x s.y) = true ∧
        es_numerico_valido (S.df2_dx s.x s.y) = true ∧
        es_numerico_valido (S.df2_dy s.x s.y) = true ∧
        es_numerico_valido (detEn S s) = true) ∧
       lt (fabs (detEn S s)) (fin (1 / 10 ^ 15)) = false ∧
       es_numerico_valido (incrementosEn S s).1 = true ∧
       es_numerico_valido (incrementosEn S s).2 = true ∧
       es_numerico_valido (errorEn raiz S s) = true ∧
       es_numerico_valido (s.x + (incrementosEn S s).1) = true ∧
       es_numerico_valido (s.y + (incrementosEn S s).2) = true) := by
  rw [llegaADivergencia_iff, llegaADet_iff_valido, validar_punto_ok_iff]
  simp only [VALIDAR_ok_iff_ns]

/-- The body from a state in which the divergence test of line 241 is reached. -/
theorem cuerpo_de_llegaADivergencia {raiz : α → α} {S : Sistema α} (tol : Doble α)
    (maxIter : Int) {s : Estado α} (hl : llegaADivergencia raiz S s = true) :
    cuerpo raiz S tol maxIter s =
      if gt (errorEn raiz S s) (fin (10 ^ 5)) && decide (s.iteracion + 1 > 3) then
        .para .diverged (trasActualizar raiz S s)
      else if lt (errorEn raiz S s) tol then .para .converged (trasActualizar raiz S s)
      else if s.iteracion + 1 ≥ maxIter then .para .maxIterExceeded (trasActualizar raiz S s)
      else .sigue (trasActualizar raiz S s) := by
  obtain ⟨h0, h1, h2, h3, h4, h5⟩ := (llegaADivergencia_iff raiz S s).1 hl
  rw [cuerpo_de_llegaADet tol maxIter h0, h1]
  simp only [Bool.false_eq_true, if_false]
  rw [trasValidar_ok h2, trasValidar_ok h3, trasValidar_ok h4, trasValidar_ok h5]

/-- The body from a state in which the divergence test is not reached: the run ends by the
singular-Jacobian return or by a fault. -/
theorem cuerpo_sin_llegaADivergencia {raiz : α → α} {S : Sistema α} (tol : Doble α)
    (maxIter : Int) {s : Estado α} (hl : llegaADivergencia raiz S s = false) :
    ∃ s1, cuerpo raiz S tol maxIter s = .para .singularJacobian s1 ∨
      ∃ e, cuerpo raiz S tol maxIter s = .para (.numericFault e) s1 := by
  cases h0 : llegaADet S s with
  | false =>
    obtain ⟨e, he⟩ := @cuerpo_sin_llegaADet α _ raiz S tol maxIter s h0
    exact ⟨s, Or.inr ⟨e, he⟩⟩
  | true =>
    have hc := @cuerpo_de_llegaADet α _ raiz S tol maxIter s h0
    cases h1 : lt (fabs (detEn S s)) (fin (1 / 10 ^ 15)) with
    | true => exact ⟨s, Or.inl (by rw [hc, h1]; rfl)⟩
    | false =>
      rw [h1] at hc
      simp only [Bool.false_eq_true, if_false] at hc
      cases h2 : VALIDAR "dx" (incrementosEn S s).1 with
      | error e => rw [trasValidar_error h2] at hc; exact ⟨s, Or.inr ⟨e, hc⟩⟩
      | ok u2 =>
      rw [trasValidar_ok h2] at hc
      cases h3 : VALIDAR "dy" (incrementosEn S s).2 with
      | error e => rw [trasValidar_error h3] at hc; exact ⟨s, Or.inr ⟨e, hc⟩⟩
      | ok u3 =>
      rw [trasValidar_ok h3] at hc
      cases h4 : VALIDAR "error" (errorEn raiz S s) with
      | error e => rw [trasValidar_error h4] at hc; exact ⟨s, Or.inr ⟨e, hc⟩⟩
      | ok u4 =>
      rw [trasValidar_ok h4] at hc
      cases h5 : validar_punto (s.x + (incrementosEn S s).1) (s.y + (incrementosEn S s).2)
          "nuevo punto" with
      | error e => rw [trasValidar_error h5] at hc; exact ⟨_, Or.inr ⟨e, hc⟩⟩
      | ok u5 =>
        have : llegaADivergencia raiz S s = true :=
          (llegaADivergencia_iff raiz S s).2 ⟨h0, h1, h2, h3, h4, h5⟩
        rw [hl] at this
        cases this

end Newtonsistemas

namespace Newtonsistemas

/-- A value with `|v| < 1e-15` is finite and accepted by `es_numerico_valido`. -/
theorem valido_de_pequeno {v : Doble α} (h : lt (fabs v) (fin (1 / 10 ^ 15)) = true) :
    es_numerico_valido v = true := by
  cases v with
  | nan => cases h
  | posInf => cases h
  | negInf => cases h
  | fin r =>
    rw [fabs_fin, lt_fin_fin, decide_eq_true_iff] at h
    rw [es_numerico_valido_fin, decide_eq_true_iff]
    refine le_trans (le_of_lt h) ?_
    rw [div_le_iff₀ (by positivity)]
    calc (1 : α) ≤ 10 ^ 100 := one_le_pow₀ (by norm_num)
      _ ≤ 10 ^ 100 * 10 ^ 15 := le_mul_of_one_le_right (by positivity) (one_le_pow₀ (by norm_num))

end Newtonsistemas

/-- C15 (counterexample): with `DF1_DX = 1e101` and the other three partial derivatives 0
(`F1`, `F2`, the starting point, the tolerance and the cap as configured) the first body
has `det = 1e101*0 - 0*0 = 0`, so `|det| < 1e-15`, but it does not end in
SingularJacobian: `df1_dx` is rejected by `VALIDAR` (line 193) before `det` is computed,
and the run ends there. -/
theorem C15_contraejemplo_parcial_rechazada :
    lt (fabs (Newtonsistemas.detEn (Newtonsistemas.sistemaDerivadaEnorme Real.exp)
        (Newtonsistemas.Estado.mk (fin 1) (fin 1) 0 [] [(fin 1, fin 1)])))
      (fin (1 / 10 ^ 15)) = true ∧
    Newtonsistemas.cuerpo Real.sqrt (Newtonsistemas.sistemaDerivadaEnorme Real.exp)
        Newtonsistemas.TOLERANCIA Newtonsistemas.MAX_ITER
        (Newtonsistemas.Estado.mk (fin 1) (fin 1) 0 [] [(fin 1, fin 1)]) =
      .para (.numericFault (Falla.esInvalido "df1_dx"))
        (Newtonsistemas.Estado.mk (fin 1) (fin 1) 0 [] [(fin 1, fin 1)]) ∧
    (Newtonsistemas.newton Real.sqrt (Newtonsistemas.sistemaDerivadaEnorme Real.exp)
        Newtonsistemas.X_INICIAL Newtonsistemas.Y_INICIAL Newtonsistemas.TOLERANCIA
        Newtonsistemas.MAX_ITER).1 = .numericFault (Falla.esInvalido "df1_dx") := by
  have hdet : Newtonsistemas.detEn (Newtonsistemas.sistemaDerivadaEnorme Real.exp)
      (Newtonsistemas.Estado.mk (fin 1) (fin 1) 0 [] [(fin 1, fin 1)]) = fin 0 := by
    simp only [Newtonsistemas.detEn, Newtonsistemas.sistemaDerivadaEnorme,
      Newtonsistemas.determinante, fin_mul_fin, fin_sub_fin, mul_zero, sub_zero]
  have he : Real.exp 1 ≤ 3 := by
    have := Real.exp_one_lt_d9
    linarith
  have h1 : Newtonsistemas.VALIDAR "f1" (Newtonsistemas.F1 (fin (1 : ℝ)) (fin 1)) =
      Except.ok () := by
    simp only [Newtonsistemas.F1, fin_mul_fin, fin_add_fin, fin_sub_fin]
    refine Newtonsistemas.VALIDAR_fin_ns _ (le_trans ?_ Newtonsistemas.cien_le)
    rw [abs_le]
    constructor <;> norm_num
  have h2 : Newtonsistemas.VALIDAR "f2" (Newtonsistemas.F2 Real.exp (fin (1 : ℝ)) (fin 1)) =
      Except.ok () := by
    simp only [Newtonsistemas.F2, cexp, fin_add_fin, fin_sub_fin]
    refine Newtonsistemas.VALIDAR_fin_ns _ (le_trans ?_ Newtonsistemas.cien_le)
    rw [abs_le]
    constructor <;> linarith [Real.exp_pos 1]
  have h3 : Newtonsistemas.VALIDAR "df1_dx" (fin (10 ^ 101) : Doble ℝ) =
      Except.error (Falla.esInvalido "df1_dx") := by
    simp only [Newtonsistemas.VALIDAR, Newtonsistemas.verificar_nan_inf, isnan_fin, isinf_fin,
      es_numerico_valido_1e101, Bool.false_eq_true, if_false, Bool.not_false, if_true]
  have hc : Newtonsistemas.cuerpo Real.sqrt (Newtonsistemas.sistemaDerivadaEnorme Real.exp)
      Newtonsistemas.TOLERANCIA Newtonsistemas.MAX_ITER
      (Newtonsistemas.Estado.mk (fin 1) (fin 1) 0 [] [(fin 1, fin 1)]) =
      .para (.numericFault (Falla.esInvalido "df1_dx"))
        (Newtonsistemas.Estado.mk (fin 1) (fin 1) 0 [] [(fin 1, fin 1)]) := by
    simp only [Newtonsistemas.cuerpo, Newtonsistemas.sistemaDerivadaEnorme, h1, h2, h3,
      trasValidar]
  refine ⟨?_, hc, ?_⟩
  · rw [hdet, fabs_fin, lt_fin_fin, abs_zero]
    exact decide_eq_true (by positivity)
  · show (Newtonsistemas.bucle Real.sqrt (Newtonsistemas.sistemaDerivadaEnorme Real.exp)
        Newtonsistemas.TOLERANCIA Newtonsistemas.MAX_ITER (49 + 1)
        (Newtonsistemas.Estado.mk (fin 1) (fin 1) 0 [] [(fin 1, fin 1)])).1 = _
    rw [Newtonsistemas.bucle_para_ns 49 hc]

/-- C15: the body of the 2-D Newton loop ends in SingularJacobian if and only if `f1`,
`f2` and the four partial derivatives pass `VALIDAR` (they are finite with magnitude at
most 1e100) and `|det| < 1e-15`; the state is then left as it was (nothing is written,
`dx` and `dy` are not computed) and `main` returns `EXIT_FAILURE`.  When one of the six
values is rejected, `VALIDAR` ends the run with `exit(EXIT_FAILURE)` before `det` is
tested, whatever `det` is.  The increments are computed only when the checks up to
`VALIDAR(det)` pass and the guard does not fire, and then `det` is finite with
`|det| >= 1e-15`; in every other case the body ends the run (SingularJacobian or a
fault) with the state unchanged. -/
theorem C15_guardia_de_singularidad (raiz : α → α) (S : Newtonsistemas.Sistema α)
    (tol : Doble α) (maxIter : Int) (s : Newtonsistemas.Estado α) :
    ((∃ s1, Newtonsistemas.cuerpo raiz S tol maxIter s = .para .singularJacobian s1) ↔
      ((es_numerico_valido (S.f1 s.x s.y) = true ∧ es_numerico_valido (S.f2 s.x s.y) = true ∧
        es_numerico_valido (S.df1_dx s.x s.y) = true ∧
        es_numerico_valido (S.df1_dy s.x s.y) = true ∧
        es_numerico_valido (S.df2_dx s.x s.y) = true ∧
        es_numerico_valido (S.df2_dy s.x s.y) = true) ∧
       lt (fabs (Newtonsistemas.detEn S s)) (fin (1 / 10 ^ 15)) = true)) ∧
    (∀ s1, Newtonsistemas.cuerpo raiz S tol maxIter s = .para .singularJacobian s1 →
      s1 = s ∧
      Newtonsistemas.finDeMain S (Newtonsistemas.Parada.singularJacobian, s1) =
        some CodigoSalida.EXIT_FAILURE) ∧
    (¬ (es_numerico_valido (S.f1 s.x s.y) = true ∧ es_numerico_valido (S.f2 s.x s.y) = true ∧
        es_numerico_valido (S.df1_dx s.x s.y) = true ∧
        es_numerico_valido (S.df1_dy s.x s.y) = true ∧
        es_numerico_valido (S.df2_dx s.x s.y) = true ∧
        es_numerico_valido (S.df2_dy s.x s.y) = true) →
      ∃ e, Newtonsistemas.cuerpo raiz S tol maxIter s = .para (.numericFault e) s ∧
        Newtonsistemas.finDeMain S (Newtonsistemas.Parada.numericFault e, s) =
          some CodigoSalida.EXIT_FAILURE) ∧
    (Newtonsistemas.llegaADet S s = true →
      lt (fabs (Newtonsistemas.detEn S s)) (fin (1 / 10 ^ 15)) = false →
      ∃ v, Newtonsistemas.detEn S s = fin v ∧ 1 / 10 ^ 15 ≤ |v|) ∧
    (¬ (Newtonsistemas.llegaADet S s = true ∧
        lt (fabs (Newtonsistemas.detEn S s)) (fin (1 / 10 ^ 15)) = false) →
      Newtonsistemas.cuerpo raiz S tol maxIter s = .para .singularJacobian s ∨
        ∃ e, Newtonsistemas.cuerpo raiz S tol maxIter s = .para (.numericFault e) s) := by
  have clave : ∀ s1, Newtonsistemas.cuerpo raiz S tol maxIter s = .para .singularJacobian s1 →
      Newtonsistemas.llegaADet S s = true ∧
      lt (fabs (Newtonsistemas.detEn S s)) (fin (1 / 10 ^ 15)) = true ∧ s1 = s := by
    intro s1 hc
    cases h0 : Newtonsistemas.llegaADet S s with
    | false =>
      obtain ⟨e, he⟩ := @Newtonsistemas.cuerpo_sin_llegaADet α _ raiz S tol maxIter s h0
      rw [he] at hc; cases hc
    | true =>
      cases hd : Newtonsistemas.llegaADivergencia raiz S s with
      | true =>
        have h := Newtonsistemas.cuerpo_de_llegaADivergencia tol maxIter hd
        rw [h] at hc
        repeat' split at hc
        all_goals cases hc
      | false =>
        have h := @Newtonsistemas.cuerpo_de_llegaADet α _ raiz S tol maxIter s h0
        cases h1 : lt (fabs (Newtonsistemas.detEn S s)) (fin (1 / 10 ^ 15)) with
        | true =>
          rw [h, h1] at hc
          simp only [if_true] at hc
          cases hc
          exact ⟨rfl, rfl, rfl⟩
        | false =>
          exfalso
          rw [h, h1] at hc
          simp only [Bool.false_eq_true, if_false, trasValidar] at hc
          repeat' split at hc
          all_goals cases hc
  refine ⟨⟨?_, ?_⟩, fun s1 hc => ⟨(clave s1 hc).2.2, rfl⟩, ?_, ?_, ?_⟩
  · rintro ⟨s1, hc⟩
    obtain ⟨h0, h1, _⟩ := clave s1 hc
    obtain ⟨a, b, c, d, e, f, _⟩ := (Newtonsistemas.llegaADet_iff_valido S s).1 h0
    exact ⟨⟨a, b, c, d, e, f⟩, h1⟩
  · rintro ⟨⟨a, b, c, d, e, f⟩, h1⟩
    refine ⟨s, ?_⟩
    rw [Newtonsistemas.cuerpo_de_llegaADet tol maxIter
      ((Newtonsistemas.llegaADet_iff_valido S s).2
        ⟨a, b, c, d, e, f, Newtonsistemas.valido_de_pequeno h1⟩), h1]
    rfl
  · intro hn
    cases h0 : Newtonsistemas.llegaADet S s with
    | false =>
      obtain ⟨e, he⟩ := @Newtonsistemas.cuerpo_sin_llegaADet α _ raiz S tol maxIter s h0
      exact ⟨e, he, rfl⟩
    | true =>
      obtain ⟨a, b, c, d, e, f, _⟩ := (Newtonsistemas.llegaADet_iff_valido S s).1 h0
      exact absurd ⟨a, b, c, d, e, f⟩ hn
  · intro h0 h1
    obtain ⟨_, _, _, _, _, _, h7⟩ := (Newtonsistemas.llegaADet_iff_valido S s).1 h0
    obtain ⟨v, hv, _⟩ := (es_numerico_valido_eq_true_iff _).1 h7
    refine ⟨v, hv, ?_⟩
    rw [hv, fabs_fin, lt_fin_fin, decide_eq_false_iff_not, not_lt] at h1
    exact h1
  · intro hn
    cases h0 : Newtonsistemas.llegaADet S s with
    | false =>
      exact Or.inr (@Newtonsistemas.cuerpo_sin_llegaADet α _ raiz S tol maxIter s h0)
    | true =>
      cases h1 : lt (fabs (Newtonsistemas.detEn S s)) (fin (1 / 10 ^ 15)) with
      | false => exact absurd ⟨h0, h1⟩ hn
      | true =>
        left
        rw [Newtonsistemas.cuerpo_de_llegaADet tol maxIter h0, h1]
        rfl

namespace Newtonsistemas

theorem ejecuciones_sigue_ns {raiz : α → α} {S : Sistema α} {tol : Doble α} {maxIter : Int}
    {s s1 : Estado α} (n : Nat) (hc : cuerpo raiz S tol maxIter s = .sigue s1) :
    ejecuciones raiz S tol maxIter (n + 1) s = ejecuciones raiz S tol maxIter n s1 + 1 := by
  simp only [ejecuciones, hc]

theorem ejecuciones_para_ns {raiz : α → α} {S : Sistema α} {tol : Doble α} {maxIter : Int}
    {s s1 : Estado α} {m : Parada} (n : Nat) (hc : cuerpo raiz S tol maxIter s = .para m s1) :
    ejecuciones raiz S tol maxIter (n + 1) s = 1 := by
  simp only [ejecuciones, hc]

/-- What one body does to the counter: a body that goes on, or that stops as Diverged, has
incremented `iteracion`, and it reached the divergence test. -/
theorem cuerpo_iteracion {raiz : α → α} {S : Sistema α} {tol : Doble α} {maxIter : Int}
    {s s1 : Estado α}
    (hc : cuerpo raiz S tol maxIter s = .sigue s1 ∨
      cuerpo raiz S tol maxIter s = .para .diverged s1) :
    llegaADivergencia raiz S s = true ∧ s1 = trasActualizar raiz S s := by
  cases hd : llegaADivergencia raiz S s with
  | false =>
    obtain ⟨s2, h | ⟨e, h⟩⟩ := @cuerpo_sin_llegaADivergencia α _ raiz S tol maxIter s hd
    · rcases hc with hc | hc <;> rw [h] at hc <;> cases hc
    · rcases hc with hc | hc <;> rw [h] at hc <;> cases hc
  | true =>
    have h := @cuerpo_de_llegaADivergencia α _ raiz S tol maxIter s hd
    refine ⟨rfl, ?_⟩
    rcases hc with hc | hc
    · rw [h] at hc
      repeat' split at hc
      all_goals cases hc
      rfl
    · rw [h] at hc
      repeat' split at hc
      all_goals cases hc
      rfl

/-- In a run that stops as Diverged the final counter `iteracion` is the counter at entry
plus the number of bodies executed, the one that stopped included. -/
theorem iteracion_de_divergencia (raiz : α → α) (S : Sistema α) (tol : Doble α)
    (maxIter : Int) :
    ∀ (n : Nat) (s : Estado α), (bucle raiz S tol maxIter n s).1 = .diverged →
      (bucle raiz S tol maxIter n s).2.iteracion = s.iteracion + ejecuciones raiz S tol maxIter n s := by
  intro n
  induction n with
  | zero => intro s h; simp [bucle] at h
  | succ n ih =>
    intro s h
    cases hc : cuerpo raiz S tol maxIter s with
    | sigue s1 =>
      rw [bucle_sigue_ns n hc] at h ⊢
      rw [ejecuciones_sigue_ns n hc, ih s1 h, (cuerpo_iteracion (Or.inl hc)).2]
      simp only [trasActualizar]
      push_cast
      ring
    | para m s1 =>
      rw [bucle_para_ns n hc] at h ⊢
      rw [ejecuciones_para_ns n hc]
      simp only at h
      subst h
      rw [(cuerpo_iteracion (Or.inr hc)).2]
      simp only [trasActualizar]
      push_cast
      ring

end Newtonsistemas

/-- C19 (amended): the body of the 2-D Newton loop executed with counter `iteracion = i`
(the 0-based index of the iteration, written in its record) stops as Diverged if and only
if the divergence test of line 241 is reached (the checks of `f1`, `f2`, the partial
derivatives, `det`, `dx`, `dy`, `error` and of the new point pass and `|det| >= 1e-15`),
`error > 1e5` and `i + 1 > 3`: the counter is incremented before the test, so the stop can
happen from `i = 3` on and never during the iterations 0..2.  The stop comes after the
record and the new point were written. -/
theorem C19_divergencia_sistema (raiz : α → α) (S : Newtonsistemas.Sistema α) (tol : Doble α)
    (maxIter : Int) (s : Newtonsistemas.Estado α) :
    ((∃ s1, Newtonsistemas.cuerpo raiz S tol maxIter s = .para .diverged s1) ↔
      (((es_numerico_valido (S.f1 s.x s.y) = true ∧ es_numerico_valido (S.f2 s.x s.y) = true ∧
         es_numerico_valido (S.df1_dx s.x s.y) = true ∧
         es_numerico_valido (S.df1_dy s.x s.y) = true ∧
         es_numerico_valido (S.df2_dx s.x s.y) = true ∧
         es_numerico_valido (S.df2_dy s.x s.y) = true ∧
         es_numerico_valido (Newtonsistemas.detEn S s) = true) ∧
        lt (fabs (Newtonsistemas.detEn S s)) (fin (1 / 10 ^ 15)) = false ∧
        es_numerico_valido (Newtonsistemas.incrementosEn S s).1 = true ∧
        es_numerico_valido (Newtonsistemas.incrementosEn S s).2 = true ∧
        es_numerico_valido (Newtonsistemas.errorEn raiz S s) = true ∧
        es_numerico_valido (s.x + (Newtonsistemas.incrementosEn S s).1) = true ∧
        es_numerico_valido (s.y + (Newtonsistemas.incrementosEn S s).2) = true) ∧
       gt (Newtonsistemas.errorEn raiz S s) (fin (10 ^ 5)) = true ∧ s.iteracion + 1 > 3)) ∧
    (∀ s1, Newtonsistemas.cuerpo raiz S tol maxIter s = .para .diverged s1 →
      s1 = Newtonsistemas.trasActualizar raiz S s ∧ s1.iteracion = s.iteracion + 1 ∧
      s1.registros.length = s.registros.length + 1) ∧
    (s.iteracion ≤ 2 → ∀ s1, Newtonsistemas.cuerpo raiz S tol maxIter s ≠ .para .diverged s1) ∧
    (∀ n : Nat, (Newtonsistemas.bucle raiz S tol maxIter n s).1 = .diverged →
      (Newtonsistemas.bucle raiz S tol maxIter n s).2.iteracion =
        s.iteracion + Newtonsistemas.ejecuciones raiz S tol maxIter n s) := by
  have clave : ∀ s1, Newtonsistemas.cuerpo raiz S tol maxIter s = .para .diverged s1 →
      Newtonsistemas.llegaADivergencia raiz S s = true ∧
      gt (Newtonsistemas.errorEn raiz S s) (fin (10 ^ 5)) = true ∧ s.iteracion + 1 > 3 ∧
      s1 = Newtonsistemas.trasActualizar raiz S s := by
    intro s1 hc
    obtain ⟨hd, hs⟩ := Newtonsistemas.cuerpo_iteracion (Or.inr hc)
    have h := @Newtonsistemas.cuerpo_de_llegaADivergencia α _ raiz S tol maxIter s hd
    rw [h] at hc
    split at hc
    · rename_i hg
      simp only [Bool.and_eq_true, decide_eq_true_eq] at hg
      exact ⟨hd, hg.1, hg.2, hs⟩
    · split at hc
      · cases hc
      · split at hc <;> cases hc
  refine ⟨⟨?_, ?_⟩, ?_, ?_,
    fun n => Newtonsistemas.iteracion_de_divergencia raiz S tol maxIter n s⟩
  · rintro ⟨s1, hc⟩
    obtain ⟨hd, hg, hi, _⟩ := clave s1 hc
    exact ⟨(Newtonsistemas.llegaADivergencia_iff_valido raiz S s).1 hd, hg, hi⟩
  · rintro ⟨hv, hg, hi⟩
    have hd := (Newtonsistemas.llegaADivergencia_iff_valido raiz S s).2 hv
    refine ⟨Newtonsistemas.trasActualizar raiz S s, ?_⟩
    rw [Newtonsistemas.cuerpo_de_llegaADivergencia tol maxIter hd]
    simp only [hg, decide_eq_true hi, Bool.and_self, if_true]
  · intro s1 hc
    obtain ⟨_, _, _, hs⟩ := clave s1 hc
    refine ⟨hs, ?_, ?_⟩
    · rw [hs]; rfl
    · rw [hs]
      simp only [Newtonsistemas.trasActualizar, List.length_append, List.length_singleton]
  · intro hi s1 hc
    obtain ⟨_, _, h3, _⟩ := clave s1 hc
    omega

namespace Newtonsistemas

/-- One body for the example `sistemaPasoConstante` at a finite point `(a, 0)`. -/
theorem paso_constante (a : ℝ) (it : Int) (regs : List (Registro ℝ))
    (tray : List (Doble ℝ × Doble ℝ)) (ha : |a + 10 ^ 6| ≤ 10 ^ 100) :
    llegaADivergencia Real.sqrt sistemaPasoConstante (Estado.mk (fin a) (fin 0) it regs tray)
      = true ∧
    errorEn Real.sqrt sistemaPasoConstante (Estado.mk (fin a) (fin 0) it regs tray)
      = fin (10 ^ 6) ∧
    trasActualizar Real.sqrt sistemaPasoConstante (Estado.mk (fin a) (fin 0) it regs tray) =
      Estado.mk (fin (a + 10 ^ 6)) (fin 0) (it + 1)
        (regs ++ [Registro.mk it (fin a) (fin 0) (fin (-(10 ^ 6))) (fin 0) (fin 1) (fin (10 ^ 6))])
        (tray ++ [(fin (a + 10 ^ 6), fin 0)]) := by
  have hdet : detEn sistemaPasoConstante (Estado.mk (fin a) (fin 0) it regs tray) = fin 1 := by
    simp only [detEn, sistemaPasoConstante, determinante, fin_mul_fin, fin_sub_fin]
    norm_num
  have hinc : incrementosEn sistemaPasoConstante (Estado.mk (fin a) (fin 0) it regs tray) =
      (fin (10 ^ 6), fin 0) := by
    unfold incrementosEn
    rw [hdet]
    simp only [incrementos, sistemaPasoConstante, neg_fin, fin_mul_fin, fin_add_fin,
      fin_div_fin _ _ (one_ne_zero)]
    norm_num
  have herr : errorEn Real.sqrt sistemaPasoConstante (Estado.mk (fin a) (fin 0) it regs tray) =
      fin (10 ^ 6) := by
    have hs : Real.sqrt (10 ^ 6 * 10 ^ 6 + 0 * 0) = 10 ^ 6 := by
      rw [zero_mul, add_zero]
      exact Real.sqrt_mul_self (by positivity)
    simp only [errorEn, hinc, fin_mul_fin, fin_add_fin, csqrt]
    rw [if_neg (by norm_num), hs]
  have h100 : (1 : ℝ) ≤ 10 ^ 100 := one_le_pow₀ (by norm_num)
  have h6 : |(10 : ℝ) ^ 6| ≤ 10 ^ 100 := by
    rw [abs_of_nonneg (by positivity)]
    exact pow_le_pow_right₀ (by norm_num) (by norm_num)
  have h0 : |(0 : ℝ)| ≤ 10 ^ 100 := by rw [abs_zero]; positivity
  have h1 : |(1 : ℝ)| ≤ 10 ^ 100 := by rw [abs_one]; exact h100
  have hm6 : |(-(10 : ℝ) ^ 6)| ≤ 10 ^ 100 := by rw [abs_neg]; exact h6
  refine ⟨?_, herr, ?_⟩
  · rw [llegaADivergencia_iff, llegaADet_iff, hdet, hinc, herr]
    refine ⟨⟨VALIDAR_fin_ns _ hm6, VALIDAR_fin_ns _ h0, VALIDAR_fin_ns _ h1, VALIDAR_fin_ns _ h0,
      VALIDAR_fin_ns _ h0, VALIDAR_fin_ns _ h1, VALIDAR_fin_ns _ h1⟩, ?_, VALIDAR_fin_ns _ h6,
      VALIDAR_fin_ns _ h0, VALIDAR_fin_ns _ h6, ?_⟩
    · rw [fabs_fin, lt_fin_fin, abs_one]
      exact decide_eq_false (by norm_num)
    · exact validar_punto_fin _ ha (by rw [add_zero]; exact h0)
  · unfold trasActualizar
    rw [herr, hdet, hinc]
    simp only [sistemaPasoConstante, fin_add_fin, add_zero]

/-- The body for the example `sistemaPasoConstante` at a finite point `(a, 0)`: the stop
as Diverged depends on the incremented counter only. -/
theorem cuerpo_paso_constante (a : ℝ) (it : Int) (regs : List (Registro ℝ))
    (tray : List (Doble ℝ × Doble ℝ)) (ha : |a + 10 ^ 6| ≤ 10 ^ 100) (hit : it + 1 < 50) :
    cuerpo Real.sqrt sistemaPasoConstante TOLERANCIA MAX_ITER
        (Estado.mk (fin a) (fin 0) it regs tray) =
      if it + 1 > 3 then
        .para .diverged
          (Estado.mk (fin (a + 10 ^ 6)) (fin 0) (it + 1)
            (regs ++
              [Registro.mk it (fin a) (fin 0) (fin (-(10 ^ 6))) (fin 0) (fin 1) (fin (10 ^ 6))])
            (tray ++ [(fin (a + 10 ^ 6), fin 0)]))
      else
        .sigue
          (Estado.mk (fin (a + 10 ^ 6)) (fin 0) (it + 1)
            (regs ++
              [Registro.mk it (fin a) (fin 0) (fin (-(10 ^ 6))) (fin 0) (fin 1) (fin (10 ^ 6))])
            (tray ++ [(fin (a + 10 ^ 6), fin 0)])) := by
  obtain ⟨hl, herr, htras⟩ := paso_constante a it regs tray ha
  rw [cuerpo_de_llegaADivergencia TOLERANCIA MAX_ITER hl, herr, htras]
  have hg : gt (fin (10 ^ 6) : Doble ℝ) (fin (10 ^ 5)) = true := by
    rw [gt_fin_fin]; exact decide_eq_true (by norm_num)
  have hnt : lt (fin (10 ^ 6) : Doble ℝ) TOLERANCIA = false := by
    unfold TOLERANCIA
    rw [lt_fin_fin]; exact decide_eq_false (by norm_num)
  have hnm : ¬ (it + 1 ≥ MAX_ITER) := by unfold MAX_ITER; omega
  by_cases h3 : it + 1 > 3
  · rw [if_pos h3, hg, decide_eq_true h3]
    rfl
  · rw [if_neg h3, hg, decide_eq_false h3, hnt, if_neg hnm]
    rfl

theorem combustible_cuatro : max 1 (MAX_ITER).toNat = 46 + 1 + 3 := by decide

/-- The first bodies for the example `sistemaPasoConstante` from `(0, 0)`: after `k <= 3`
bodies the point is `(k*1e6, 0)`, the counter is `k` and the `k` records written carry
the indices `0 .. k-1` and the error `1e6`. -/
theorem corrida_paso_constante :
    ∀ k : Nat, k ≤ 3 → ∀ n : Nat, ∃ (regs : List (Registro ℝ)) (tray : List (Doble ℝ × Doble ℝ)),
      regs.map (fun r => r.iter) = (List.range k).map Int.ofNat ∧
      regs.map (fun r => r.error) = List.replicate k (fin (10 ^ 6)) ∧
      bucle Real.sqrt sistemaPasoConstante TOLERANCIA MAX_ITER (n + k)
          (Estado.mk (fin 0) (fin 0) 0 [] [(fin 0, fin 0)]) =
        bucle Real.sqrt sistemaPasoConstante TOLERANCIA MAX_ITER n
          (Estado.mk (fin ((k : ℝ) * 10 ^ 6)) (fin 0) (k : Int) regs tray) ∧
      ejecuciones Real.sqrt sistemaPasoConstante TOLERANCIA MAX_ITER (n + k)
          (Estado.mk (fin 0) (fin 0) 0 [] [(fin 0, fin 0)]) =
        ejecuciones Real.sqrt sistemaPasoConstante TOLERANCIA MAX_ITER n
          (Estado.mk (fin ((k : ℝ) * 10 ^ 6)) (fin 0) (k : Int) regs tray) + k := by
  intro k
  induction k with
  | zero =>
    intro _ n
    refine ⟨[], [(fin 0, fin 0)], rfl, rfl, ?_, ?_⟩
    · simp only [Nat.cast_zero, zero_mul, add_zero]
    · simp only [Nat.cast_zero, zero_mul, add_zero]
  | succ k ih =>
    intro hk n
    obtain ⟨regs, tray, h1, h2, hb, he⟩ := ih (by omega) (n + 1)
    have hk3 : (k : ℝ) ≤ 3 := by exact_mod_cast (by omega : k ≤ 3)
    have hk0 : (0 : ℝ) ≤ (k : ℝ) := Nat.cast_nonneg k
    have ha : |(k : ℝ) * 10 ^ 6 + 10 ^ 6| ≤ 10 ^ 100 := by
      rw [abs_of_nonneg (by positivity)]
      calc (k : ℝ) * 10 ^ 6 + 10 ^ 6 ≤ 3 * 10 ^ 6 + 10 ^ 6 := by nlinarith
        _ ≤ 10 ^ 100 := by norm_num
    have hc := cuerpo_paso_constante ((k : ℝ) * 10 ^ 6) (k : Int) regs tray ha (by omega)
    rw [if_neg (by omega)] at hc
    have hx : (k : ℝ) * 10 ^ 6 + 10 ^ 6 = ((k + 1 : Nat) : ℝ) * 10 ^ 6 := by push_cast; ring
    have hcast : (k : Int) + 1 = ((k + 1 : Nat) : Int) := by push_cast; rfl
    rw [hx, hcast] at hc
    have hn : n + (k + 1) = n + 1 + k := by omega
    refine ⟨regs ++ [Registro.mk (k : Int) (fin ((k : ℝ) * 10 ^ 6)) (fin 0) (fin (-(10 ^ 6)))
        (fin 0) (fin 1) (fin (10 ^ 6))],
      tray ++ [(fin (((k + 1 : Nat) : ℝ) * 10 ^ 6), fin 0)], ?_, ?_, ?_, ?_⟩
    · rw [List.map_append, h1, List.range_succ, List.map_append]
      rfl
    · rw [List.map_append, h2, List.replicate_succ']
      rfl
    · rw [hn, hb]
      exact bucle_sigue_ns n hc
    · rw [hn, he, ejecuciones_sigue_ns n hc]
      ring

end Newtonsistemas


/-- C19 (counterexample): with `F1 = -1e6`, `F2 = 0`, the identity as Jacobian and the
start `(0, 0)`, every iteration has `dx = 1e6`, `dy = 0` and `error = 1e6 > 1e5`; the
iterations with index 0, 1 and 2 go on and the iteration with index 3 stops as Diverged
(the counter is 4 when it is tested): four bodies are executed and the four records
carry the indices 0, 1, 2, 3. -/
theorem C19_contraejemplo_divergencia_en_iteracion_tres :
    (Newtonsistemas.newton Real.sqrt Newtonsistemas.sistemaPasoConstante (fin 0) (fin 0)
      Newtonsistemas.TOLERANCIA Newtonsistemas.MAX_ITER).1 = Newtonsistemas.Parada.diverged ∧
    (Newtonsistemas.newton Real.sqrt Newtonsistemas.sistemaPasoConstante (fin 0) (fin 0)
      Newtonsistemas.TOLERANCIA Newtonsistemas.MAX_ITER).2.iteracion = 4 ∧
    (Newtonsistemas.newton Real.sqrt Newtonsistemas.sistemaPasoConstante (fin 0) (fin 0)
      Newtonsistemas.TOLERANCIA Newtonsistemas.MAX_ITER).2.registros.map (fun r => r.iter)
        = [0, 1, 2, 3] ∧
    (Newtonsistemas.newton Real.sqrt Newtonsistemas.sistemaPasoConstante (fin 0) (fin 0)
      Newtonsistemas.TOLERANCIA Newtonsistemas.MAX_ITER).2.registros.map (fun r => r.error)
        = [fin (10 ^ 6), fin (10 ^ 6), fin (10 ^ 6), fin (10 ^ 6)] ∧
    Newtonsistemas.ejecuciones Real.sqrt Newtonsistemas.sistemaPasoConstante
      Newtonsistemas.TOLERANCIA Newtonsistemas.MAX_ITER
      (max 1 Newtonsistemas.MAX_ITER.toNat)
      (Newtonsistemas.Estado.mk (fin 0) (fin 0) 0 [] [(fin 0, fin 0)]) = 4 := by
  obtain ⟨regs, tray, h1, h2, hb, he⟩ :=
    Newtonsistemas.corrida_paso_constante 3 (le_refl _) (46 + 1)
  have hc := Newtonsistemas.cuerpo_paso_constante (((3 : Nat) : ℝ) * 10 ^ 6) ((3 : Nat) : Int)
    regs tray (by norm_num) (by norm_num)
  rw [if_pos (by norm_num)] at hc
  unfold Newtonsistemas.newton
  rw [Newtonsistemas.combustible_cuatro, hb, Newtonsistemas.bucle_para_ns 46 hc, he,
    Newtonsistemas.ejecuciones_para_ns 46 hc]
  refine ⟨rfl, by norm_num, ?_, ?_, rfl⟩
  · simp only [List.map_append, h1]
    rfl
  · simp only [List.map_append, h2]
    rfl


/-! ## The quadrature of the Fourier coefficients (C13) -/

namespace Fourier

omit [LinearOrderedField α] in
@[simp] theorem VALIDAR_fin_fo (nombre : String) (v : α) :
    VALIDAR nombre (fin v) = Except.ok () := rfl

theorem FUNCION_ORIGINAL_fin (L x : α) :
    FUNCION_ORIGINAL (fin L) (fin x) = fin (triangular L x) := by
  unfold FUNCION_ORIGINAL triangular
  by_cases h : x < L
  · rw [lt_fin_fin, if_pos (decide_eq_true h), if_pos h]
  · rw [lt_fin_fin, if_neg (by rw [decide_eq_false h]; exact Bool.false_ne_true), if_neg h,
      fin_mul_fin, fin_sub_fin]

/-- The loop of `a0` on a function that is finite and accepted at every sample. -/
theorem bucleA0_fin (f : Doble α → Doble α) (g : α → α) (dx : α) (p : Nat)
    (hf : ∀ i : Nat, i < p → f (fin ((i : α) * dx)) = fin (g (i * dx)))
    (hv : ∀ i : Nat, i < p → |g (i * dx)| ≤ 10 ^ 100) :
    ∀ (k i : Nat) (a : α), i + k ≤ p →
      bucleA0 f (fin dx) k i (fin a) =
        Except.ok (fin (a + ∑ j in Finset.range k, g (((i + j : Nat) : α) * dx))) := by
  intro k
  induction k with
  | zero => intro i a _; simp [bucleA0]
  | succ k ih =>
    intro i a hik
    have hval : es_numerico_valido (fin (g (i * dx))) = true := by
      rw [es_numerico_valido_fin]; exact decide_eq_true (hv i (by omega))
    simp only [bucleA0, fin_mul_fin, hf i (by omega), VALIDAR_fin_fo, hval, Bool.not_true,
      Bool.false_eq_true, if_false, fin_add_fin]
    rw [ih (i + 1) (a + g (i * dx)) (by omega)]
    have hs : ∑ j in Finset.range (k + 1), g (((i + j : Nat) : α) * dx) =
        g (i * dx) + ∑ j in Finset.range k, g (((i + 1 + j : Nat) : α) * dx) := by
      rw [Finset.sum_range_succ', add_comm]
      congr 1
      refine Finset.sum_congr rfl (fun j _ => ?_)
      rw [Nat.add_right_comm, Nat.add_assoc]
    rw [hs, add_assoc]

end Fourier

namespace Fourier

/-- The inner loop on finite samples whose partial sums stay within the overflow bound. -/
theorem bucleSumas_fin (coseno seno : α → α) (pi : α) (f : Doble α → Doble α) (g : α → α)
    (L dx : α) (n p : Nat) (hL : L ≠ 0)
    (hf : ∀ i : Nat, i < p → f (fin ((i : α) * dx)) = fin (g (i * dx))) :
    ∀ (k i : Nat) (A B : α), i + k ≤ p →
      (∀ m : Nat, m ≤ k →
        |A + ∑ j in Finset.range m, g (((i + j : Nat) : α) * dx) *
            coseno (n * pi * (((i + j : Nat) : α) * dx) / L)| ≤ 10 ^ 50 ∧
        |B + ∑ j in Finset.range m, g (((i + j : Nat) : α) * dx) *
            seno (n * pi * (((i + j : Nat) : α) * dx) / L)| ≤ 10 ^ 50) →
      bucleSumas coseno seno pi f (fin L) (fin dx) n k i (fin A, fin B) =
        Except.ok
          (fin (A + ∑ j in Finset.range k, g (((i + j : Nat) : α) * dx) *
              coseno (n * pi * (((i + j : Nat) : α) * dx) / L)),
           fin (B + ∑ j in Finset.range k, g (((i + j : Nat) : α) * dx) *
              seno (n * pi * (((i + j : Nat) : α) * dx) / L))) := by
  intro k
  induction k with
  | zero => intro i A B _ _; simp [bucleSumas]
  | succ k ih =>
    intro i A B hik hb
    have hs : ∀ (h : α → α) (m : Nat),
        ∑ j in Finset.range (m + 1), g (((i + j : Nat) : α) * dx) *
            h (n * pi * (((i + j : Nat) : α) * dx) / L) =
          g (i * dx) * h (n * pi * (i * dx) / L) +
            ∑ j in Finset.range m, g (((i + 1 + j : Nat) : α) * dx) *
              h (n * pi * (((i + 1 + j : Nat) : α) * dx) / L) := by
      intro h m
      rw [Finset.sum_range_succ', add_comm]
      congr 1
      refine Finset.sum_congr rfl (fun j _ => ?_)
      rw [Nat.add_right_comm, Nat.add_assoc]
    have h1 := hb 1 (by omega)
    rw [hs coseno 0, hs seno 0] at h1
    simp only [Finset.sum_range_zero, add_zero] at h1
    have hih := ih (i + 1) (A + g (i * dx) * coseno (n * pi * (i * dx) / L))
      (B + g (i * dx) * seno (n * pi * (i * dx) / L)) (by omega) (by
        intro m hm
        have := hb (m + 1) (by omega)
        rw [hs coseno m, hs seno m, ← add_assoc, ← add_assoc] at this
        exact this)
    simp only [bucleSumas, fin_mul_fin, hf i (by omega), VALIDAR_fin_fo, fin_div_fin _ _ hL, ctrig,
      fin_add_fin, fabs_fin, gt_fin_fin, decide_eq_false (not_lt.2 h1.1),
      decide_eq_false (not_lt.2 h1.2), Bool.or_self, Bool.false_eq_true, if_false]
    rw [hih, hs coseno k, hs seno k, add_assoc, add_assoc]

/-- The outer loop: every term from `n` to `n + k - 1` is written, the other cells are
kept. -/
theorem bucleTerminos_fin (coseno seno : α → α) (pi : α) (f : Doble α → Doble α) (g : α → α)
    (L dx : α) (puntos : Nat) (hL : L ≠ 0)
    (hf : ∀ i : Nat, i < puntos → f (fin ((i : α) * dx)) = fin (g (i * dx)))
    (hb : ∀ n m : Nat, m ≤ puntos →
        |∑ j in Finset.range m, g ((j : α) * dx) * coseno (n * pi * ((j : α) * dx) / L)|
          ≤ 10 ^ 50 ∧
        |∑ j in Finset.range m, g ((j : α) * dx) * seno (n * pi * ((j : α) * dx) / L)|
          ≤ 10 ^ 50) :
    ∀ (k n : Nat) (t : (Nat → Doble α) × (Nat → Doble α)),
      ∃ t1 : (Nat → Doble α) × (Nat → Doble α),
        bucleTerminos coseno seno pi f (fin L) (fin dx) puntos k n t = Except.ok t1 ∧
        (∀ m : Nat, m < n → t1.1 m = t.1 m ∧ t1.2 m = t.2 m) ∧
        ∀ m : Nat, n ≤ m → m < n + k →
          t1.1 m = fin ((∑ j in Finset.range puntos,
            g ((j : α) * dx) * coseno (m * pi * ((j : α) * dx) / L)) * dx / L) ∧
          t1.2 m = fin ((∑ j in Finset.range puntos,
            g ((j : α) * dx) * seno (m * pi * ((j : α) * dx) / L)) * dx / L) := by
  intro k
  induction k with
  | zero => intro n t; exact ⟨t, rfl, fun m _ => ⟨rfl, rfl⟩, fun m h1 h2 => absurd h2 (by omega)⟩
  | succ k ih =>
    intro n t
    have hsum := bucleSumas_fin coseno seno pi f g L dx n puntos hL hf puntos 0 0 0 (by omega) (by
      intro m hm
      simp only [zero_add]
      exact hb n m hm)
    simp only [zero_add] at hsum
    obtain ⟨t1, h1, h3, h2⟩ := ih (n + 1)
      (Function.update t.1 n (fin ((∑ j in Finset.range puntos,
          g ((j : α) * dx) * coseno (n * pi * ((j : α) * dx) / L)) * dx / L)),
       Function.update t.2 n (fin ((∑ j in Finset.range puntos,
          g ((j : α) * dx) * seno (n * pi * ((j : α) * dx) / L)) * dx / L)))
    refine ⟨t1, ?_, ?_, ?_⟩
    · simp only [bucleTerminos, hsum, fin_mul_fin, fin_div_fin _ _ hL, VALIDAR_fin_fo]
      exact h1
    · intro m hm
      obtain ⟨a, b⟩ := h3 m (by omega)
      rw [a, b]
      exact ⟨Function.update_noteq (by omega) _ _, Function.update_noteq (by omega) _ _⟩
    · intro m hm1 hm2
      by_cases hmn : m = n
      · subst hmn
        obtain ⟨a, b⟩ := h3 m (by omega)
        rw [a, b]
        exact ⟨Function.update_same _ _ _, Function.update_same _ _ _⟩
      · exact h2 m (by omega) (by omega)

/-- The computation of the coefficients for a function that is finite and bounded by `b`
at the samples, with `0 < L`, `0 < puntos`, `puntos * b <= 1e50` and `cos`, `sin` bounded
by 1: it returns, and the values are the quadrature sums of the specification. -/
theorem calcularCoeficientes_fin (coseno seno : α → α) (pi : α) (f : Doble α → Doble α)
    (g : α → α) (L b : α) (nTerminos puntos : Nat) (hL : 0 < L) (hp : 0 < puntos)
    (hf : ∀ i : Nat, i < puntos →
      f (fin ((i : α) * (2 * L / puntos))) = fin (g (i * (2 * L / puntos))))
    (hg : ∀ i : Nat, i < puntos → |g (i * (2 * L / puntos))| ≤ b) (hb : puntos * b ≤ 10 ^ 50)
    (hc : ∀ t, |coseno t| ≤ 1) (hs : ∀ t, |seno t| ≤ 1) :
    ∃ c : Coeficientes α,
      calcularCoeficientes coseno seno pi f (fin L) nTerminos puntos = Except.ok c ∧
      c.a0 = fin (a0Especificado g L puntos) ∧
      ∀ n : Nat, 1 ≤ n → n ≤ nTerminos →
        c.an n = fin (anEspecificado coseno pi g L puntos n) ∧
        c.bn n = fin (bnEspecificado seno pi g L puntos n) := by
  have hL0 : L ≠ 0 := ne_of_gt hL
  have hp0 : (puntos : α) ≠ 0 := Nat.cast_ne_zero.2 (by omega)
  have hpp : (0 : α) < puntos := Nat.cast_pos.2 hp
  have hdx : 0 < 2 * L / puntos := by positivity
  have hb0 : 0 ≤ b := le_trans (abs_nonneg _) (hg 0 hp)
  have h1p : (1 : α) ≤ puntos := by exact_mod_cast hp
  have hb100 : b ≤ 10 ^ 100 := by
    calc b = 1 * b := (one_mul b).symm
      _ ≤ puntos * b := mul_le_mul_of_nonneg_right h1p hb0
      _ ≤ 10 ^ 50 := hb
      _ ≤ 10 ^ 100 := pow_le_pow_right₀ (by norm_num) (by norm_num)
  have hcota : ∀ (h : α → α), (∀ t, |h t| ≤ 1) → ∀ n m : Nat, m ≤ puntos →
      |∑ j in Finset.range m, g ((j : α) * (2 * L / puntos)) *
          h (n * pi * ((j : α) * (2 * L / puntos)) / L)| ≤ 10 ^ 50 := by
    intro h hh n m hm
    calc |∑ j in Finset.range m, g ((j : α) * (2 * L / puntos)) *
          h (n * pi * ((j : α) * (2 * L / puntos)) / L)|
        ≤ ∑ j in Finset.range m, |g ((j : α) * (2 * L / puntos)) *
          h (n * pi * ((j : α) * (2 * L / puntos)) / L)| := Finset.abs_sum_le_sum_abs _ _
      _ ≤ ∑ _j in Finset.range m, b := by
          refine Finset.sum_le_sum (fun j hj => ?_)
          rw [abs_mul]
          have hjp : j < puntos := lt_of_lt_of_le (Finset.mem_range.1 hj) hm
          calc |g ((j : α) * (2 * L / puntos))| * |h (n * pi * ((j : α) * (2 * L / puntos)) / L)|
              ≤ b * 1 := mul_le_mul (hg j hjp) (hh _) (abs_nonneg _) hb0
            _ = b := mul_one b
      _ = m * b := by rw [Finset.sum_const, Finset.card_range, nsmul_eq_mul]
      _ ≤ puntos * b := mul_le_mul_of_nonneg_right (by exact_mod_cast hm) hb0
      _ ≤ 10 ^ 50 := hb
  have ha0 := bucleA0_fin f g (2 * L / puntos) puntos hf (fun i hi => le_trans (hg i hi) hb100)
    puntos 0 0 (by omega)
  simp only [zero_add] at ha0
  obtain ⟨t1, ht1, _, ht2⟩ := bucleTerminos_fin coseno seno pi f g L (2 * L / puntos) puntos hL0
    hf (fun n m hm => ⟨hcota coseno hc n m hm, hcota seno hs n m hm⟩) nTerminos 1
    (fun _ => nan, fun _ => nan)
  refine ⟨Coeficientes.mk (fin ((∑ j in Finset.range puntos, g ((j : α) * (2 * L / puntos))) *
      (2 * L / puntos / L))) t1.1 t1.2, ?_, ?_, ?_⟩
  · simp only [calcularCoeficientes, fin_mul_fin, fin_div_fin _ _ hp0, fin_div_fin _ _ hL0,
      VALIDAR_fin_fo, le_fin_fin, decide_eq_false (not_le.2 hdx), Bool.false_eq_true, if_false,
      ha0, ht1]
  · show fin _ = fin _
    rw [a0Especificado, mul_comm]
  · intro n hn1 hn2
    obtain ⟨a, b⟩ := ht2 n hn1 (by omega)
    refine ⟨a.trans ?_, b.trans ?_⟩
    · rw [anEspecificado]
      congr 1
      rw [mul_div_assoc, mul_comm]
    · rw [bnEspecificado]
      congr 1
      rw [mul_div_assoc, mul_comm]

end Fourier

namespace Fourier

theorem triangular_muestra (i : Nat) (hi : i < 1000) :
    triangular Real.pi ((i : ℝ) * (2 * Real.pi / (1000 : Nat))) =
      (if i < 500 then (i : ℝ) else 1000 - i) * (2 * Real.pi / 1000) := by
  have hpi := Real.pi_pos
  unfold triangular
  by_cases h : i < 500
  · have hlt : (i : ℝ) * (2 * Real.pi / (1000 : Nat)) < Real.pi := by
      have : (i : ℝ) ≤ 499 := by exact_mod_cast (by omega : i ≤ 499)
      push_cast
      nlinarith
    rw [if_pos hlt, if_pos h]
    push_cast
    ring
  · have hge : ¬ ((i : ℝ) * (2 * Real.pi / (1000 : Nat)) < Real.pi) := by
      have : (500 : ℝ) ≤ i := by exact_mod_cast (by omega : 500 ≤ i)
      push_cast
      rw [not_lt]
      nlinarith
    rw [if_neg hge, if_neg h]
    push_cast
    ring

theorem triangular_acotada (i : Nat) (hi : i < 1000) :
    |triangular Real.pi ((i : ℝ) * (2 * Real.pi / (1000 : Nat)))| ≤ 4 := by
  have hpi := Real.pi_pos
  have h4 := Real.pi_le_four
  rw [triangular_muestra i hi]
  have hi0 : (0 : ℝ) ≤ i := Nat.cast_nonneg i
  have hi1 : (i : ℝ) ≤ 999 := by exact_mod_cast (by omega : i ≤ 999)
  by_cases h : i < 500
  · rw [if_pos h, abs_of_nonneg (by positivity)]
    have : (i : ℝ) ≤ 499 := by exact_mod_cast (by omega : i ≤ 499)
    nlinarith
  · rw [if_neg h]
    have : (500 : ℝ) ≤ i := by exact_mod_cast (by omega : 500 ≤ i)
    rw [abs_of_nonneg (by nlinarith)]
    nlinarith

/-- The configured program computes its coefficients without fault, and they are the
quadrature sums. -/
theorem coeficientes_configurados :
    ∃ c : Coeficientes ℝ,
      calcularCoeficientes Real.cos Real.sin Real.pi (FUNCION_ORIGINAL (L Real.pi))
        (L Real.pi) N_TERMINOS 1000 = Except.ok c ∧
      c.a0 = fin (a0Especificado (triangular Real.pi) Real.pi 1000) ∧
      ∀ n : Nat, 1 ≤ n → n ≤ N_TERMINOS →
        c.an n = fin (anEspecificado Real.cos Real.pi (triangular Real.pi) Real.pi 1000 n) ∧
        c.bn n = fin (bnEspecificado Real.sin Real.pi (triangular Real.pi) Real.pi 1000 n) :=
  calcularCoeficientes_fin Real.cos Real.sin Real.pi (FUNCION_ORIGINAL (L Real.pi))
    (triangular Real.pi) Real.pi 4 N_TERMINOS 1000 Real.pi_pos (by norm_num)
    (fun i _ => FUNCION_ORIGINAL_fin Real.pi _) triangular_acotada (by norm_num)
    Real.abs_cos_le_one Real.abs_sin_le_one

end Fourier

/-- C13: the coefficient computation of `fourier.c` (triangular wave, `L = pi`,
`N_TERMINOS = 10`, 1000 quadrature points, exact real arithmetic) returns without fault,
and its results are the quadrature sums on the grid `x_i = i*dx`, `i = 0..999`,
`dx = 2L/1000`: `a0 = (dx/L)*sum f(x_i)`, and for `n = 1..N_TERMINOS`,
`an[n] = (dx/L)*sum f(x_i)*cos(n*pi*x_i/L)`, `bn[n] = (dx/L)*sum f(x_i)*sin(n*pi*x_i/L)`. -/
theorem C13_coeficientes_son_sumas_de_cuadratura :
    ∃ c : Fourier.Coeficientes ℝ,
      Fourier.calcularCoeficientes Real.cos Real.sin Real.pi
        (Fourier.FUNCION_ORIGINAL (Fourier.L Real.pi)) (Fourier.L Real.pi)
        Fourier.N_TERMINOS 1000 = Except.ok c ∧
      c.a0 = fin ((2 * Real.pi / (1000 : Nat) / Real.pi) *
        ∑ i in Finset.range 1000,
          Fourier.triangular Real.pi (i * (2 * Real.pi / (1000 : Nat)))) ∧
      ∀ n : Nat, 1 ≤ n → n ≤ Fourier.N_TERMINOS →
        c.an n = fin ((2 * Real.pi / (1000 : Nat) / Real.pi) *
          ∑ i in Finset.range 1000,
            Fourier.triangular Real.pi (i * (2 * Real.pi / (1000 : Nat))) *
              Real.cos (n * Real.pi * (i * (2 * Real.pi / (1000 : Nat))) / Real.pi)) ∧
        c.bn n = fin ((2 * Real.pi / (1000 : Nat) / Real.pi) *
          ∑ i in Finset.range 1000,
            Fourier.triangular Real.pi (i * (2 * Real.pi / (1000 : Nat))) *
              Real.sin (n * Real.pi * (i * (2 * Real.pi / (1000 : Nat))) / Real.pi)) :=
  Fourier.coeficientes_configurados


/-! ## Monotone mean-squared error of the Fourier reconstruction (C12) -/

namespace Fourier

theorem suma_cos (φ : ℝ) (k : Nat) :
    2 * (1 - Real.cos φ) * ∑ i in Finset.range (k + 1), Real.cos (i * φ) =
      1 - Real.cos φ + Real.cos (k * φ) - Real.cos ((k + 1 : Nat) * φ) := by
  induction k with
  | zero => simp; ring
  | succ k ih =>
    rw [Finset.sum_range_succ, mul_add, ih]
    have h1 : ((k : ℝ)) * φ = ((k + 1 : Nat) : ℝ) * φ - φ := by push_cast; ring
    have h2 : ((k + 1 + 1 : Nat) : ℝ) * φ = ((k + 1 : Nat) : ℝ) * φ + φ := by push_cast; ring
    rw [h1, h2, Real.cos_sub, Real.cos_add]
    ring

theorem suma_i_cos (φ : ℝ) (k : Nat) :
    2 * (1 - Real.cos φ) * ∑ i in Finset.range (k + 1), (i : ℝ) * Real.cos (i * φ) =
      (k + 1) * Real.cos (k * φ) - k * Real.cos ((k + 1 : Nat) * φ) - 1 := by
  induction k with
  | zero => simp
  | succ k ih =>
    rw [Finset.sum_range_succ, mul_add, ih]
    have h1 : ((k : ℝ)) * φ = ((k + 1 : Nat) : ℝ) * φ - φ := by push_cast; ring
    have h2 : ((k + 1 + 1 : Nat) : ℝ) * φ = ((k + 1 : Nat) : ℝ) * φ + φ := by push_cast; ring
    rw [h1, h2, Real.cos_sub, Real.cos_add]
    push_cast
    ring

/-- The triangle of half-width `H` on the integers: `i` below `H`, `2H - i` from `H` on. -/
theorem reflejo_triangulo (H : Nat) (g : ℝ → ℝ) :
    ∑ i in Finset.range (H + H), (if i < H then (i : ℝ) else 2 * H - i) * g i =
      ∑ i in Finset.range H, (i : ℝ) * g i +
        ∑ j in Finset.range H, ((j : ℝ) + 1) * g (2 * H - (j + 1)) := by
  rw [Finset.sum_range_add]
  congr 1
  · refine Finset.sum_congr rfl (fun i hi => ?_)
    rw [if_pos (Finset.mem_range.1 hi)]
  · rw [← Finset.sum_range_reflect]
    refine Finset.sum_congr rfl (fun j hj => ?_)
    have hj1 : j < H := Finset.mem_range.1 hj
    have hc : ((H + (H - 1 - j) : Nat) : ℝ) = 2 * H - (j + 1) := by
      rw [Nat.cast_add, Nat.cast_sub (by omega), Nat.cast_sub (by omega)]
      push_cast
      ring
    rw [if_neg (by omega), hc]
    congr 1
    ring

theorem cos_reflejado (H : Nat) (φ : ℝ) (hs : Real.sin (H * φ) = 0) (z : ℝ) :
    Real.cos ((2 * H - z) * φ) = Real.cos (z * φ) := by
  have h2 : (2 * (H : ℝ) - z) * φ = 2 * (H * φ) - z * φ := by ring
  rw [h2, Real.cos_sub, Real.cos_two_mul, Real.sin_two_mul, hs]
  have := Real.sin_sq_add_cos_sq (H * φ)
  rw [hs] at this
  have hc : Real.cos (H * φ) ^ 2 = 1 := by linarith [this]
  rw [hc]
  ring

theorem sin_reflejado (H : Nat) (φ : ℝ) (hs : Real.sin (H * φ) = 0) (z : ℝ) :
    Real.sin ((2 * H - z) * φ) = - Real.sin (z * φ) := by
  have h2 : (2 * (H : ℝ) - z) * φ = 2 * (H * φ) - z * φ := by ring
  rw [h2, Real.sin_sub, Real.cos_two_mul, Real.sin_two_mul, hs]
  have := Real.sin_sq_add_cos_sq (H * φ)
  rw [hs] at this
  have hc : Real.cos (H * φ) ^ 2 = 1 := by linarith [this]
  rw [hc]
  ring

/-- The cosine transform of the triangle: `(1 - cos φ) * T = cos(Hφ) - 1` when
`sin(Hφ) = 0`. -/
theorem triangulo_cos (H : Nat) (hH : 0 < H) (φ : ℝ) (hs : Real.sin (H * φ) = 0) :
    (1 - Real.cos φ) *
        ∑ i in Finset.range (H + H),
          (if i < H then (i : ℝ) else 2 * H - i) * Real.cos (i * φ) =
      Real.cos (H * φ) - 1 := by
  obtain ⟨h, rfl⟩ : ∃ h, H = h + 1 := ⟨H - 1, by omega⟩
  have hr := reflejo_triangulo (h + 1) (fun z => Real.cos (z * φ))
  simp only [cos_reflejado (h + 1) φ hs] at hr
  rw [hr]
  have e2 : ∑ j in Finset.range (h + 1), ((j : ℝ) + 1) * Real.cos (((j : ℝ) + 1) * φ) =
      ∑ i in Finset.range (h + 1 + 1), (i : ℝ) * Real.cos (i * φ) := by
    rw [Finset.sum_range_succ' _ (h + 1)]
    simp
  rw [e2]
  have p1 := suma_i_cos φ h
  have p2 := suma_i_cos φ (h + 1)
  have h1 : ((h : ℝ)) * φ = ((h + 1 : Nat) : ℝ) * φ - φ := by push_cast; ring
  have h2 : ((h + 1 + 1 : Nat) : ℝ) * φ = ((h + 1 : Nat) : ℝ) * φ + φ := by push_cast; ring
  rw [h1, Real.cos_sub, hs] at p1
  rw [h2, Real.cos_add, hs] at p2
  push_cast at p1 p2 ⊢
  linear_combination (1 / 2) * p1 + (1 / 2) * p2

theorem triangulo_sin (H : Nat) (φ : ℝ) (hs : Real.sin (H * φ) = 0) :
    ∑ i in Finset.range (H + H),
        (if i < H then (i : ℝ) else 2 * H - i) * Real.sin (i * φ) = 0 := by
  have hr := reflejo_triangulo H (fun z => Real.sin (z * φ))
  simp only [sin_reflejado H φ hs] at hr
  rw [hr]
  have e2 : ∑ j in Finset.range H, ((j : ℝ) + 1) * -Real.sin (((j : ℝ) + 1) * φ) =
      - ∑ i in Finset.range (H + 1), (i : ℝ) * Real.sin (i * φ) := by
    rw [Finset.sum_range_succ' _ H]
    simp [Finset.sum_neg_distrib]
  rw [e2, Finset.sum_range_succ, hs]
  ring

theorem suma_cos_periodo (M : Nat) (hM : 0 < M) (ψ : ℝ) (h1 : Real.cos ψ ≠ 1)
    (hs : Real.sin (M * ψ) = 0) (hc : Real.cos (M * ψ) = 1) :
    ∑ j in Finset.range M, Real.cos (j * ψ) = 0 := by
  obtain ⟨m, rfl⟩ : ∃ m, M = m + 1 := ⟨M - 1, by omega⟩
  have p := suma_cos ψ m
  have hm : ((m : ℝ)) * ψ = ((m + 1 : Nat) : ℝ) * ψ - ψ := by push_cast; ring
  rw [hm, Real.cos_sub, hs, hc] at p
  have hne : 2 * (1 - Real.cos ψ) ≠ 0 := by
    intro h
    apply h1
    linarith
  have : 2 * (1 - Real.cos ψ) * ∑ j in Finset.range (m + 1), Real.cos (j * ψ) = 0 := by
    rw [p]; ring
  rcases mul_eq_zero.1 this with h | h
  · exact absurd h hne
  · exact h

end Fourier

namespace Fourier

theorem cos_malla_ne_uno (m M : Nat) (h0 : 0 < m) (hm : m < M) :
    Real.cos (m * (2 * Real.pi / M)) ≠ 1 := by
  have hpi := Real.pi_pos
  have hM : (0 : ℝ) < M := by exact_mod_cast (by omega : 0 < M)
  have hm0 : (0 : ℝ) < m := by exact_mod_cast h0
  have hmM : (m : ℝ) < M := by exact_mod_cast hm
  have hx0 : 0 < (m : ℝ) * (2 * Real.pi / M) := by positivity
  have hx1 : (m : ℝ) * (2 * Real.pi / M) < 2 * Real.pi := by
    rw [← mul_div_assoc, div_lt_iff₀ hM]
    nlinarith
  intro h
  rw [Real.cos_eq_one_iff_of_lt_of_lt (by linarith) hx1] at h
  linarith

theorem malla_periodo (m M : Nat) (hM : 0 < M) :
    (M : ℝ) * (m * (2 * Real.pi / M)) = m * (2 * Real.pi) := by
  have hM0 : (M : ℝ) ≠ 0 := by exact_mod_cast (by omega : M ≠ 0)
  field_simp

theorem suma_cos_malla (m M : Nat) (h0 : 0 < m) (hm : m < M) :
    ∑ j in Finset.range M, Real.cos (j * (m * (2 * Real.pi / M))) = 0 := by
  refine suma_cos_periodo M (by omega) _ (cos_malla_ne_uno m M h0 hm) ?_ ?_
  · rw [malla_periodo m M (by omega)]
    have := Real.sin_nat_mul_pi (m * 2)
    push_cast at this
    rw [← this]
    congr 1
    ring
  · rw [malla_periodo m M (by omega)]
    exact Real.cos_nat_mul_two_pi m

theorem cos_ortogonal (n K M : Nat) (hn : n < K) (hK : n + K < M) :
    ∑ j in Finset.range M,
      Real.cos (j * (n * (2 * Real.pi / M))) * Real.cos (j * (K * (2 * Real.pi / M))) = 0 := by
  have h1 := suma_cos_malla (K - n) M (by omega) (by omega)
  have h2 := suma_cos_malla (K + n) M (by omega) (by omega)
  have e : ∀ j : Nat,
      Real.cos (j * (n * (2 * Real.pi / M))) * Real.cos (j * (K * (2 * Real.pi / M))) =
        (Real.cos (j * ((K - n : Nat) * (2 * Real.pi / M))) +
          Real.cos (j * ((K + n : Nat) * (2 * Real.pi / M)))) / 2 := by
    intro j
    have a1 : (j : ℝ) * ((K - n : Nat) * (2 * Real.pi / M)) =
        j * (K * (2 * Real.pi / M)) - j * (n * (2 * Real.pi / M)) := by
      rw [Nat.cast_sub (by omega)]; ring
    have a2 : (j : ℝ) * ((K + n : Nat) * (2 * Real.pi / M)) =
        j * (K * (2 * Real.pi / M)) + j * (n * (2 * Real.pi / M)) := by
      push_cast; ring
    rw [a1, a2, Real.cos_sub, Real.cos_add]
    ring
  simp only [e]
  rw [← Finset.sum_div, Finset.sum_add_distrib, h1, h2]
  norm_num

theorem cos_cuadrado_malla (K M : Nat) (h0 : 0 < K) (hK : K + K < M) :
    ∑ j in Finset.range M, Real.cos (j * (K * (2 * Real.pi / M))) ^ 2 = M / 2 := by
  have h2 := suma_cos_malla (K + K) M (by omega) hK
  have e : ∀ j : Nat, Real.cos (j * (K * (2 * Real.pi / M))) ^ 2 =
      1 / 2 + Real.cos (j * ((K + K : Nat) * (2 * Real.pi / M))) / 2 := by
    intro j
    have a2 : (j : ℝ) * ((K + K : Nat) * (2 * Real.pi / M)) =
        2 * (j * (K * (2 * Real.pi / M))) := by
      push_cast; ring
    rw [a2, Real.cos_two_mul]
    ring
  simp only [e]
  rw [Finset.sum_add_distrib, ← Finset.sum_div, ← Finset.sum_div, h2]
  simp

/-- The cosine series with coefficients `a` is orthogonal on the grid to every cosine of
higher index. -/
theorem serie_ortogonal (a0 : ℝ) (a : Nat → ℝ) (K M : Nat) (h0 : 0 < K) :
    ∀ N : Nat, N < K → N + K < M →
      ∑ j in Finset.range M,
        (a0 / 2 + ∑ n in Finset.Icc 1 N, a n * Real.cos (j * (n * (2 * Real.pi / M)))) *
          Real.cos (j * (K * (2 * Real.pi / M))) = 0 := by
  intro N
  induction N with
  | zero =>
    intro _ hK
    have h := suma_cos_malla K M h0 (by omega)
    simp only [Finset.Icc_eq_empty_of_lt Nat.zero_lt_one, Finset.sum_empty, add_zero]
    rw [← Finset.mul_sum, h, mul_zero]
  | succ N ih =>
    intro hN hK
    have hi := ih (by omega) (by omega)
    have ho := cos_ortogonal (N + 1) K M hN hK
    have e : ∀ j : Nat,
        (a0 / 2 + ∑ n in Finset.Icc 1 (N + 1), a n * Real.cos (j * (n * (2 * Real.pi / M)))) *
            Real.cos (j * (K * (2 * Real.pi / M))) =
          (a0 / 2 + ∑ n in Finset.Icc 1 N, a n * Real.cos (j * (n * (2 * Real.pi / M)))) *
            Real.cos (j * (K * (2 * Real.pi / M))) +
          a (N + 1) * (Real.cos (j * ((N + 1 : Nat) * (2 * Real.pi / M))) *
            Real.cos (j * (K * (2 * Real.pi / M)))) := by
      intro j
      rw [Finset.sum_Icc_succ_top (by omega)]
      ring
    simp only [e]
    rw [Finset.sum_add_distrib, hi, ← Finset.mul_sum, ho]
    ring

theorem suma_cuadrados_paso (G : Finset Nat) (r c : Nat → ℝ) (a : ℝ) :
    ∑ j in G, (r j - a * c j) ^ 2 =
      ∑ j in G, r j ^ 2 - 2 * a * ∑ j in G, r j * c j + a ^ 2 * ∑ j in G, c j ^ 2 := by
  rw [Finset.mul_sum, Finset.mul_sum, ← Finset.sum_sub_distrib, ← Finset.sum_add_distrib]
  refine Finset.sum_congr rfl (fun j _ => ?_)
  ring

end Fourier

namespace Fourier

theorem cos_fin_de_malla (n : Nat) : Real.cos ((100 : Nat) * (n * (2 * Real.pi / (100 : Nat)))) = 1 := by
  rw [malla_periodo n 100 (by norm_num)]
  exact Real.cos_nat_mul_two_pi n

/-- One more term of a cosine series changes the sum of squared residuals over the
101-point grid by `a_K*(51*a_K - 2*(2π/100)*T + 2*s)`, with `T` the cosine transform of
the triangle on the 100-point grid and `s` the value of the shorter series at `2π`. -/
theorem paso_mse_malla (a0 : ℝ) (a : Nat → ℝ) (N : Nat) (hN : N + 1 < 50) :
    ∑ j in Finset.range 101,
      ((if j < 50 then (j : ℝ) else 2 * (50 : Nat) - j) * (2 * Real.pi / (100 : Nat)) -
        (a0 / 2 + ∑ n in Finset.Icc 1 (N + 1),
          a n * Real.cos (j * (n * (2 * Real.pi / (100 : Nat)))))) ^ 2 =
    ∑ j in Finset.range 101,
      ((if j < 50 then (j : ℝ) else 2 * (50 : Nat) - j) * (2 * Real.pi / (100 : Nat)) -
        (a0 / 2 + ∑ n in Finset.Icc 1 N,
          a n * Real.cos (j * (n * (2 * Real.pi / (100 : Nat)))))) ^ 2 +
    a (N + 1) * (51 * a (N + 1) -
      2 * ((2 * Real.pi / (100 : Nat)) *
        ∑ i in Finset.range (50 + 50),
          (if i < 50 then (i : ℝ) else 2 * (50 : Nat) - i) *
            Real.cos (i * ((N + 1 : Nat) * (2 * Real.pi / (100 : Nat))))) +
      2 * (a0 / 2 + ∑ n in Finset.Icc 1 N, a n)) := by
  have e : ∀ j : Nat,
      ((if j < 50 then (j : ℝ) else 2 * (50 : Nat) - j) * (2 * Real.pi / (100 : Nat)) -
        (a0 / 2 + ∑ n in Finset.Icc 1 (N + 1),
          a n * Real.cos (j * (n * (2 * Real.pi / (100 : Nat)))))) ^ 2 =
      (((if j < 50 then (j : ℝ) else 2 * (50 : Nat) - j) * (2 * Real.pi / (100 : Nat)) -
        (a0 / 2 + ∑ n in Finset.Icc 1 N,
          a n * Real.cos (j * (n * (2 * Real.pi / (100 : Nat)))))) -
        a (N + 1) * Real.cos (j * ((N + 1 : Nat) * (2 * Real.pi / (100 : Nat))))) ^ 2 := by
    intro j
    rw [Finset.sum_Icc_succ_top (by omega)]
    ring
  simp only [e]
  rw [suma_cuadrados_paso]
  have hc2 : ∑ j in Finset.range 101,
      Real.cos (j * ((N + 1 : Nat) * (2 * Real.pi / (100 : Nat)))) ^ 2 = 51 := by
    rw [Finset.sum_range_succ, cos_cuadrado_malla (N + 1) 100 (by omega) (by omega),
      cos_fin_de_malla]
    norm_num
  have hrc : ∑ j in Finset.range 101,
      ((if j < 50 then (j : ℝ) else 2 * (50 : Nat) - j) * (2 * Real.pi / (100 : Nat)) -
        (a0 / 2 + ∑ n in Finset.Icc 1 N,
          a n * Real.cos (j * (n * (2 * Real.pi / (100 : Nat)))))) *
        Real.cos (j * ((N + 1 : Nat) * (2 * Real.pi / (100 : Nat)))) =
      (2 * Real.pi / (100 : Nat)) *
        ∑ i in Finset.range (50 + 50),
          (if i < 50 then (i : ℝ) else 2 * (50 : Nat) - i) *
            Real.cos (i * ((N + 1 : Nat) * (2 * Real.pi / (100 : Nat)))) -
      (a0 / 2 + ∑ n in Finset.Icc 1 N, a n) := by
    simp only [sub_mul]
    rw [Finset.sum_sub_distrib]
    congr 1
    · rw [Finset.sum_range_succ, Finset.mul_sum]
      have h100 : (if 100 < 50 then ((100 : Nat) : ℝ) else 2 * (50 : Nat) - (100 : Nat)) = 0 := by
        norm_num
      rw [h100, zero_mul, zero_mul, add_zero]
      refine Finset.sum_congr rfl (fun j _ => ?_)
      ring
    · rw [Finset.sum_range_succ, serie_ortogonal a0 a (N + 1) 100 (by omega) N (by omega) (by omega),
        cos_fin_de_malla, zero_add, mul_one]
      congr 1
      refine Finset.sum_congr rfl (fun n _ => ?_)
      rw [cos_fin_de_malla, mul_one]
  rw [hc2, hrc]
  ring

end Fourier

namespace Fourier

theorem sin_media_malla (H n : Nat) (hH : 0 < H) :
    Real.sin ((H : ℝ) * (n * (2 * Real.pi / (H + H : Nat)))) = 0 := by
  have hH0 : (H : ℝ) ≠ 0 := by exact_mod_cast (by omega : H ≠ 0)
  have e : (H : ℝ) * (n * (2 * Real.pi / (H + H : Nat))) = n * Real.pi := by
    push_cast
    field_simp
    ring
  rw [e]
  exact Real.sin_nat_mul_pi n

theorem cos_nat_por_pi (n : Nat) : Real.cos (n * Real.pi) = (-1) ^ n := by
  induction n with
  | zero => simp
  | succ n ih =>
    have e2 : ((n + 1 : Nat) : ℝ) * Real.pi = n * Real.pi + Real.pi := by push_cast; ring
    rw [e2, Real.cos_add_pi, ih, pow_succ]
    ring

theorem cos_media_malla (H n : Nat) (hH : 0 < H) :
    Real.cos ((H : ℝ) * (n * (2 * Real.pi / (H + H : Nat)))) = (-1) ^ n := by
  have hH0 : (H : ℝ) ≠ 0 := by exact_mod_cast (by omega : H ≠ 0)
  have e : (H : ℝ) * (n * (2 * Real.pi / (H + H : Nat))) = n * Real.pi := by
    push_cast
    field_simp
    ring
  rw [e]
  exact cos_nat_por_pi n

/-- The quadrature `a_n` of the triangular wave in terms of the transform of the
triangle. -/
theorem an_como_triangulo (n : Nat) :
    anEspecificado Real.cos Real.pi (triangular Real.pi) Real.pi 1000 n =
      (Real.pi / 250000) *
        ∑ i in Finset.range (500 + 500),
          (if i < 500 then (i : ℝ) else 2 * (500 : Nat) - i) *
            Real.cos (i * (n * (2 * Real.pi / (500 + 500 : Nat)))) := by
  have hpi : Real.pi ≠ 0 := Real.pi_ne_zero
  unfold anEspecificado
  rw [Finset.mul_sum, Finset.mul_sum]
  refine Finset.sum_congr rfl (fun i hi => ?_)
  rw [triangular_muestra i (Finset.mem_range.1 hi)]
  have e : (n : ℝ) * Real.pi * ((i : ℝ) * (2 * Real.pi / (1000 : Nat))) / Real.pi =
      i * (n * (2 * Real.pi / (500 + 500 : Nat))) := by
    push_cast
    field_simp
    ring
  rw [e]
  push_cast
  field_simp
  ring_nf

theorem bn_como_triangulo (n : Nat) :
    bnEspecificado Real.sin Real.pi (triangular Real.pi) Real.pi 1000 n =
      (Real.pi / 250000) *
        ∑ i in Finset.range (500 + 500),
          (if i < 500 then (i : ℝ) else 2 * (500 : Nat) - i) *
            Real.sin (i * (n * (2 * Real.pi / (500 + 500 : Nat)))) := by
  have hpi : Real.pi ≠ 0 := Real.pi_ne_zero
  unfold bnEspecificado
  rw [Finset.mul_sum, Finset.mul_sum]
  refine Finset.sum_congr rfl (fun i hi => ?_)
  rw [triangular_muestra i (Finset.mem_range.1 hi)]
  have e : (n : ℝ) * Real.pi * ((i : ℝ) * (2 * Real.pi / (1000 : Nat))) / Real.pi =
      i * (n * (2 * Real.pi / (500 + 500 : Nat))) := by
    push_cast
    field_simp
    ring
  rw [e]
  push_cast
  field_simp
  ring_nf

theorem bn_cero (n : Nat) :
    bnEspecificado Real.sin Real.pi (triangular Real.pi) Real.pi 1000 n = 0 := by
  rw [bn_como_triangulo, triangulo_sin 500 _ (sin_media_malla 500 n (by norm_num)), mul_zero]

theorem an_por_uno_menos_cos (n : Nat) :
    (1 - Real.cos (n * (2 * Real.pi / (500 + 500 : Nat)))) *
        anEspecificado Real.cos Real.pi (triangular Real.pi) Real.pi 1000 n =
      (Real.pi / 250000) * ((-1) ^ n - 1) := by
  have h := triangulo_cos 500 (by norm_num) _ (sin_media_malla 500 n (by norm_num))
  rw [cos_media_malla 500 n (by norm_num)] at h
  rw [an_como_triangulo, ← h]
  ring

theorem suma_i (H : Nat) : 2 * ∑ i in Finset.range H, (i : ℝ) = H * (H - 1) := by
  induction H with
  | zero => simp
  | succ H ih =>
    rw [Finset.sum_range_succ, mul_add, ih]
    push_cast
    ring

theorem suma_triangulo (H : Nat) :
    ∑ i in Finset.range (H + H), (if i < H then (i : ℝ) else 2 * H - i) = (H : ℝ) ^ 2 := by
  have hr := reflejo_triangulo H (fun _ => (1 : ℝ))
  simp only [mul_one] at hr
  rw [hr, Finset.sum_add_distrib, Finset.sum_const, Finset.card_range, nsmul_eq_mul, mul_one]
  have h := suma_i H
  linear_combination h

theorem a0_valor : a0Especificado (triangular Real.pi) Real.pi 1000 = Real.pi := by
  have hpi : Real.pi ≠ 0 := Real.pi_ne_zero
  unfold a0Especificado
  have e : ∑ i in Finset.range 1000, triangular Real.pi ((i : ℝ) * (2 * Real.pi / (1000 : Nat))) =
      (2 * Real.pi / 1000) *
        ∑ i in Finset.range (500 + 500), (if i < 500 then (i : ℝ) else 2 * (500 : Nat) - i) := by
    rw [Finset.mul_sum]
    refine Finset.sum_congr rfl (fun i hi => ?_)
    rw [triangular_muestra i (Finset.mem_range.1 hi)]
    push_cast
    ring_nf
  rw [e, suma_triangulo 500]
  have h5 : ((500 : Nat) : ℝ) = 500 := by norm_cast
  have h1000 : ((1000 : Nat) : ℝ) = 1000 := by norm_cast
  rw [h5, h1000]
  field_simp
  ring

end Fourier

namespace Fourier

theorem abs_sin_nat_mul_le (k : Nat) (y : ℝ) : |Real.sin (k * y)| ≤ k * |Real.sin y| := by
  induction k with
  | zero => simp
  | succ k ih =>
    have e : ((k + 1 : Nat) : ℝ) * y = k * y + y := by push_cast; ring
    rw [e, Real.sin_add]
    have h1 : |Real.sin (k * y) * Real.cos y| ≤ |Real.sin (k * y)| := by
      rw [abs_mul]
      exact mul_le_of_le_one_right (abs_nonneg _) (Real.abs_cos_le_one y)
    have h2 : |Real.cos (k * y) * Real.sin y| ≤ |Real.sin y| := by
      rw [abs_mul]
      exact mul_le_of_le_one_left (abs_nonneg _) (Real.abs_cos_le_one _)
    have h3 := abs_add (Real.sin (k * y) * Real.cos y) (Real.cos (k * y) * Real.sin y)
    push_cast
    linarith

theorem uno_menos_cos_multiplo (k : Nat) (x : ℝ) :
    1 - Real.cos (k * x) ≤ (k : ℝ) ^ 2 * (1 - Real.cos x) := by
  have h := abs_sin_nat_mul_le k (x / 2)
  have e1 : Real.cos (k * x) = 1 - 2 * Real.sin (k * (x / 2)) ^ 2 := by
    have : (k : ℝ) * x = 2 * (k * (x / 2)) := by ring
    rw [this, Real.cos_two_mul]
    have := Real.sin_sq_add_cos_sq ((k : ℝ) * (x / 2))
    linarith
  have e2 : Real.cos x = 1 - 2 * Real.sin (x / 2) ^ 2 := by
    have : x = 2 * (x / 2) := by ring
    rw [this, Real.cos_two_mul]
    have := Real.sin_sq_add_cos_sq (2 * (x / 2) / 2)
    have e3 : 2 * (x / 2) / 2 = x / 2 := by ring
    rw [e3] at this ⊢
    linarith
  have h2 : Real.sin (k * (x / 2)) ^ 2 ≤ ((k : ℝ) * |Real.sin (x / 2)|) ^ 2 := by
    rw [← sq_abs (Real.sin (k * (x / 2)))]
    exact pow_le_pow_left₀ (abs_nonneg _) h 2
  rw [mul_pow, sq_abs] at h2
  rw [e1, e2]
  linarith

theorem uno_menos_cos_cota (x : ℝ) (h0 : 0 ≤ x) (h1 : x ≤ 1 / 10) :
    499 / 1000 * x ^ 2 ≤ 1 - Real.cos x := by
  have hb := Real.cos_bound (x := x) (by rw [abs_of_nonneg h0]; linarith)
  rw [abs_of_nonneg h0] at hb
  have hb2 := (abs_le.1 hb).2
  have hx2 : x ^ 2 ≤ 1 / 100 := by nlinarith
  have hx4 : x ^ 4 ≤ x ^ 2 * (1 / 100) := by
    have : x ^ 4 = x ^ 2 * x ^ 2 := by ring
    rw [this]
    exact mul_le_mul_of_nonneg_left hx2 (sq_nonneg x)
  nlinarith [sq_nonneg x]

theorem an_cota (n : Nat) (B : ℝ) (hn : n ≤ 10) (hB0 : 0 ≤ B)
    (hB : 2 ≤ 499 / 1000 * B * (n : ℝ) ^ 2 * (314 / 100)) :
    -B ≤ anEspecificado Real.cos Real.pi (triangular Real.pi) Real.pi 1000 n := by
  have hpi := Real.pi_pos
  have h314 := Real.pi_gt_d2
  have h315 := Real.pi_lt_d2
  have hf := an_por_uno_menos_cos n
  have hn0 : (0 : ℝ) ≤ n := Nat.cast_nonneg n
  have hn10 : (n : ℝ) ≤ 10 := by exact_mod_cast hn
  have hx : (n : ℝ) * (2 * Real.pi / (500 + 500 : Nat)) = n * Real.pi / 500 := by
    push_cast; ring
  rw [hx] at hf
  have hx0 : 0 ≤ (n : ℝ) * Real.pi / 500 := by positivity
  have hx1 : (n : ℝ) * Real.pi / 500 ≤ 1 / 10 := by nlinarith
  have hD := uno_menos_cos_cota _ hx0 hx1
  have hw : (-2 : ℝ) ≤ (-1) ^ n - 1 := by
    rcases neg_one_pow_eq_or ℝ n with h | h <;> rw [h] <;> norm_num
  have hBD : 2 * (Real.pi / 250000) ≤ B * (1 - Real.cos (n * Real.pi / 500)) := by
    have h1 : B * (499 / 1000 * (n * Real.pi / 500) ^ 2) ≤
        B * (1 - Real.cos (n * Real.pi / 500)) := mul_le_mul_of_nonneg_left hD hB0
    have h2 : B * (499 / 1000 * (n * Real.pi / 500) ^ 2) =
        (499 / 1000 * B * (n : ℝ) ^ 2) * Real.pi * (Real.pi / 250000) := by ring
    have h3 : 0 ≤ 499 / 1000 * B * (n : ℝ) ^ 2 := by positivity
    have h4 : 2 ≤ (499 / 1000 * B * (n : ℝ) ^ 2) * Real.pi := by nlinarith
    have h5 : 2 * (Real.pi / 250000) ≤
        (499 / 1000 * B * (n : ℝ) ^ 2) * Real.pi * (Real.pi / 250000) :=
      mul_le_mul_of_nonneg_right h4 (by positivity)
    linarith
  have hDpos : 0 < 1 - Real.cos (n * Real.pi / 500) := by
    have h0 : 0 ≤ 1 - Real.cos (n * Real.pi / 500) := by linarith [Real.cos_le_one (n * Real.pi / 500)]
    rcases h0.lt_or_eq with h | h
    · exact h
    · rw [← h, mul_zero] at hBD
      linarith [div_pos hpi (by norm_num : (0 : ℝ) < 250000)]
  by_contra hlt
  rw [not_le] at hlt
  have h6 : (1 - Real.cos (n * Real.pi / 500)) *
      anEspecificado Real.cos Real.pi (triangular Real.pi) Real.pi 1000 n <
      (1 - Real.cos (n * Real.pi / 500)) * (-B) := mul_lt_mul_of_pos_left hlt hDpos
  have h7 : Real.pi / 250000 * (-2) ≤ Real.pi / 250000 * ((-1) ^ n - 1) :=
    mul_le_mul_of_nonneg_left hw (by positivity)
  linarith

theorem an_par (n : Nat) (hn : 0 < n) (hn2 : n < 1000) (hpar : (-1 : ℝ) ^ n = 1) :
    anEspecificado Real.cos Real.pi (triangular Real.pi) Real.pi 1000 n = 0 := by
  have hf := an_por_uno_menos_cos n
  rw [hpar, sub_self, mul_zero] at hf
  rcases mul_eq_zero.1 hf with h | h
  · exact absurd (by linarith) (cos_malla_ne_uno n (500 + 500) hn (by omega))
  · exact h

/-- The partial sums of the cosine coefficients at `x = 2π` stay nonnegative up to the
eighth term. -/
theorem serie_en_extremo_no_negativa (N : Nat) (hN : N ≤ 8) :
    0 ≤ a0Especificado (triangular Real.pi) Real.pi 1000 / 2 +
      ∑ n in Finset.Icc 1 N,
        anEspecificado Real.cos Real.pi (triangular Real.pi) Real.pi 1000 n := by
  have h314 := Real.pi_gt_d2
  have h1 := an_cota 1 (128 / 100) (by norm_num) (by norm_num) (by norm_num)
  have h2 := an_par 2 (by norm_num) (by norm_num) (by norm_num)
  have h3 := an_cota 3 (1423 / 10000) (by norm_num) (by norm_num) (by norm_num)
  have h4 := an_par 4 (by norm_num) (by norm_num) (by norm_num)
  have h5 := an_cota 5 (512 / 10000) (by norm_num) (by norm_num) (by norm_num)
  have h6 := an_par 6 (by norm_num) (by norm_num) (by norm_num)
  have h7 := an_cota 7 (2613 / 100000) (by norm_num) (by norm_num) (by norm_num)
  have h8 := an_par 8 (by norm_num) (by norm_num) (by norm_num)
  rw [a0_valor]
  interval_cases N <;>
    simp only [Finset.Icc_eq_empty_of_lt Nat.zero_lt_one, Finset.sum_empty, Finset.Icc_self,
      Finset.sum_singleton, Finset.sum_Icc_succ_top (by norm_num : 1 ≤ 1 + 1),
      Finset.sum_Icc_succ_top (by norm_num : 1 ≤ 2 + 1),
      Finset.sum_Icc_succ_top (by norm_num : 1 ≤ 3 + 1),
      Finset.sum_Icc_succ_top (by norm_num : 1 ≤ 4 + 1),
      Finset.sum_Icc_succ_top (by norm_num : 1 ≤ 5 + 1),
      Finset.sum_Icc_succ_top (by norm_num : 1 ≤ 6 + 1),
      Finset.sum_Icc_succ_top (by norm_num : 1 ≤ 7 + 1)] <;>
    linarith

/-- The change of the sum of squared residuals when the term `N + 1` is added is not
positive. -/
theorem cambio_no_positivo (N : Nat) (hN : N < 10) :
    anEspecificado Real.cos Real.pi (triangular Real.pi) Real.pi 1000 (N + 1) *
      (51 * anEspecificado Real.cos Real.pi (triangular Real.pi) Real.pi 1000 (N + 1) -
        2 * ((2 * Real.pi / (100 : Nat)) *
          ∑ i in Finset.range (50 + 50),
            (if i < 50 then (i : ℝ) else 2 * (50 : Nat) - i) *
              Real.cos (i * ((N + 1 : Nat) * (2 * Real.pi / (100 : Nat))))) +
        2 * (a0Especificado (triangular Real.pi) Real.pi 1000 / 2 +
          ∑ n in Finset.Icc 1 N,
            anEspecificado Real.cos Real.pi (triangular Real.pi) Real.pi 1000 n)) ≤ 0 := by
  have hpi := Real.pi_pos
  rcases neg_one_pow_eq_or ℝ (N + 1) with hpar | himpar
  · rw [an_par (N + 1) (by omega) (by omega) hpar, zero_mul]
  · have hN8 : N ≤ 8 := by
      rcases Nat.lt_or_ge N 9 with h | h
      · omega
      · have : N = 9 := by omega
        subst this
        norm_num at himpar
    have hs := serie_en_extremo_no_negativa N hN8
    have ha := an_por_uno_menos_cos (N + 1)
    have hT := triangulo_cos 50 (by norm_num)
      (((N + 1 : Nat) : ℝ) * (2 * Real.pi / (50 + 50 : Nat)))
      (sin_media_malla 50 (N + 1) (by norm_num))
    rw [cos_media_malla 50 (N + 1) (by norm_num)] at hT
    rw [himpar] at ha hT
    have h100 : ((50 + 50 : Nat) : ℝ) = ((100 : Nat) : ℝ) := by norm_num
    rw [h100] at hT
    have hmul := uno_menos_cos_multiplo 10 (((N + 1 : Nat) : ℝ) * (2 * Real.pi / (500 + 500 : Nat)))
    have e10 : ((10 : Nat) : ℝ) * (((N + 1 : Nat) : ℝ) * (2 * Real.pi / (500 + 500 : Nat))) =
        ((N + 1 : Nat) : ℝ) * (2 * Real.pi / (100 : Nat)) := by
      push_cast; ring
    rw [e10] at hmul
    have hD1 : 0 < 1 - Real.cos (((N + 1 : Nat) : ℝ) * (2 * Real.pi / (500 + 500 : Nat))) := by
      have := cos_malla_ne_uno (N + 1) (500 + 500) (by omega) (by omega)
      have := Real.cos_le_one (((N + 1 : Nat) : ℝ) * (2 * Real.pi / (500 + 500 : Nat)))
      rcases this.lt_or_eq with h | h
      · linarith
      · contradiction
    have hD2 : 0 < 1 - Real.cos (((N + 1 : Nat) : ℝ) * (2 * Real.pi / (100 : Nat))) := by
      have := cos_malla_ne_uno (N + 1) 100 (by omega) (by omega)
      have := Real.cos_le_one (((N + 1 : Nat) : ℝ) * (2 * Real.pi / (100 : Nat)))
      rcases this.lt_or_eq with h | h
      · linarith
      · contradiction
    generalize anEspecificado Real.cos Real.pi (triangular Real.pi) Real.pi 1000 (N + 1) = a
      at ha ⊢
    generalize a0Especificado (triangular Real.pi) Real.pi 1000 / 2 +
      ∑ n in Finset.Icc 1 N,
        anEspecificado Real.cos Real.pi (triangular Real.pi) Real.pi 1000 n = s at hs ⊢
    generalize ∑ i in Finset.range (50 + 50),
      (if i < 50 then (i : ℝ) else 2 * (50 : Nat) - i) *
        Real.cos (i * ((N + 1 : Nat) * (2 * Real.pi / (100 : Nat)))) = T at hT ⊢
    generalize 1 - Real.cos (((N + 1 : Nat) : ℝ) * (2 * Real.pi / (500 + 500 : Nat))) = D
      at ha hmul hD1
    generalize 1 - Real.cos (((N + 1 : Nat) : ℝ) * (2 * Real.pi / (100 : Nat))) = E
      at hT hmul hD2
    have ha0 : a ≤ 0 := by
      by_contra h
      rw [not_le] at h
      have := mul_pos hD1 h
      nlinarith
    have hbr : 0 ≤ (51 * a - 2 * (2 * Real.pi / (100 : Nat) * T) + 2 * s) * (D * E) := by
      have e : (51 * a - 2 * (2 * Real.pi / (100 : Nat) * T) + 2 * s) * (D * E) =
          51 * (D * a) * E - 2 * (2 * Real.pi / (100 : Nat)) * (E * T) * D + 2 * s * (D * E) := by
        ring
      rw [e, ha, hT]
      have h1 : 0 ≤ 2 * s * (D * E) := by positivity
      have h2 : Real.pi * E ≤ Real.pi * ((10 : Nat) ^ 2 * D) :=
        mul_le_mul_of_nonneg_left hmul hpi.le
      have h3 : 0 < Real.pi * D := mul_pos hpi hD1
      push_cast at h2 ⊢
      nlinarith
    have hbr2 : 0 ≤ 51 * a - 2 * (2 * Real.pi / (100 : Nat) * T) + 2 * s :=
      nonneg_of_mul_nonneg_left hbr (mul_pos hD1 hD2)
    exact mul_nonpos_of_nonpos_of_nonneg ha0 hbr2

end Fourier

namespace Fourier

theorem triangular_en_malla_de_error (j : Nat) (hj : j < 101) :
    triangular Real.pi (0 + (j : ℝ) * (2 * Real.pi - 0) / (100 : Nat)) =
      (if j < 50 then (j : ℝ) else 2 * (50 : Nat) - j) * (2 * Real.pi / (100 : Nat)) := by
  have hpi := Real.pi_pos
  unfold triangular
  by_cases h : j < 50
  · have hlt : 0 + (j : ℝ) * (2 * Real.pi - 0) / (100 : Nat) < Real.pi := by
      have : (j : ℝ) ≤ 49 := by exact_mod_cast (by omega : j ≤ 49)
      push_cast
      nlinarith
    rw [if_pos hlt, if_pos h]
    ring
  · have hge : ¬ (0 + (j : ℝ) * (2 * Real.pi - 0) / (100 : Nat) < Real.pi) := by
      have : (50 : ℝ) ≤ j := by exact_mod_cast (by omega : 50 ≤ j)
      push_cast
      rw [not_lt]
      nlinarith
    rw [if_neg hge, if_neg h]
    push_cast
    ring

theorem serie_en_malla_de_error (N j : Nat) :
    serieEspecificada Real.cos Real.sin Real.pi Real.pi
        (a0Especificado (triangular Real.pi) Real.pi 1000)
        (anEspecificado Real.cos Real.pi (triangular Real.pi) Real.pi 1000)
        (bnEspecificado Real.sin Real.pi (triangular Real.pi) Real.pi 1000) N
        (0 + (j : ℝ) * (2 * Real.pi - 0) / (100 : Nat)) =
      a0Especificado (triangular Real.pi) Real.pi 1000 / 2 +
        ∑ n in Finset.Icc 1 N,
          anEspecificado Real.cos Real.pi (triangular Real.pi) Real.pi 1000 n *
            Real.cos (j * (n * (2 * Real.pi / (100 : Nat)))) := by
  have hpi : Real.pi ≠ 0 := Real.pi_ne_zero
  unfold serieEspecificada
  congr 1
  refine Finset.sum_congr rfl (fun n _ => ?_)
  have e : (n : ℝ) * Real.pi * (0 + (j : ℝ) * (2 * Real.pi - 0) / (100 : Nat)) / Real.pi =
      j * (n * (2 * Real.pi / (100 : Nat))) := by
    field_simp
    ring
  rw [bn_cero, zero_mul, add_zero, e]

theorem ecm_en_malla (N : Nat) :
    errorCuadraticoMedio Real.cos Real.sin Real.pi Real.pi (triangular Real.pi)
        (a0Especificado (triangular Real.pi) Real.pi 1000)
        (anEspecificado Real.cos Real.pi (triangular Real.pi) Real.pi 1000)
        (bnEspecificado Real.sin Real.pi (triangular Real.pi) Real.pi 1000)
        0 (2 * Real.pi) 100 N =
      (∑ j in Finset.range 101,
        ((if j < 50 then (j : ℝ) else 2 * (50 : Nat) - j) * (2 * Real.pi / (100 : Nat)) -
          (a0Especificado (triangular Real.pi) Real.pi 1000 / 2 +
            ∑ n in Finset.Icc 1 N,
              anEspecificado Real.cos Real.pi (triangular Real.pi) Real.pi 1000 n *
                Real.cos (j * (n * (2 * Real.pi / (100 : Nat)))))) ^ 2) /
        ((100 + 1 : Nat) : ℝ) := by
  unfold errorCuadraticoMedio
  congr 1
  refine Finset.sum_congr rfl (fun j hj => ?_)
  rw [triangular_en_malla_de_error j (Finset.mem_range.1 hj), serie_en_malla_de_error]

/-- The mean-squared error of the specification does not grow with one more term. -/
theorem ecm_no_creciente (N : Nat) (hN : N < 10) :
    errorCuadraticoMedio Real.cos Real.sin Real.pi Real.pi (triangular Real.pi)
        (a0Especificado (triangular Real.pi) Real.pi 1000)
        (anEspecificado Real.cos Real.pi (triangular Real.pi) Real.pi 1000)
        (bnEspecificado Real.sin Real.pi (triangular Real.pi) Real.pi 1000)
        0 (2 * Real.pi) 100 (N + 1) ≤
      errorCuadraticoMedio Real.cos Real.sin Real.pi Real.pi (triangular Real.pi)
        (a0Especificado (triangular Real.pi) Real.pi 1000)
        (anEspecificado Real.cos Real.pi (triangular Real.pi) Real.pi 1000)
        (bnEspecificado Real.sin Real.pi (triangular Real.pi) Real.pi 1000)
        0 (2 * Real.pi) 100 N := by
  rw [ecm_en_malla, ecm_en_malla]
  refine div_le_div_of_nonneg_right ?_ (by positivity)
  rw [paso_mse_malla _ _ N (by omega)]
  linarith [cambio_no_positivo N hN]

end Fourier

namespace Fourier

theorem bucleSerie_fin (coseno seno : α → α) (pi l xv : α) (c : Coeficientes α)
    (a b : Nat → α) (hl : l ≠ 0) :
    ∀ (k n : Nat) (s : α),
      (∀ m : Nat, n ≤ m → m < n + k → c.an m = fin (a m) ∧ c.bn m = fin (b m)) →
      bucleSerie coseno seno pi (fin l) c (fin xv) k n (fin s) =
        fin (s + ∑ m in Finset.Ico n (n + k),
          (a m * coseno (m * pi * xv / l) + b m * seno (m * pi * xv / l))) := by
  intro k
  induction k with
  | zero => intro n s _; simp [bucleSerie]
  | succ k ih =>
    intro n s h
    obtain ⟨ha, hb⟩ := h n (le_refl n) (by omega)
    simp only [bucleSerie, ha, hb, fin_mul_fin, fin_div_fin _ _ hl, ctrig, fin_add_fin]
    rw [ih (n + 1) _ (fun m h1 h2 => h m (by omega) (by omega)),
      Finset.sum_eq_sum_Ico_succ_bot (by omega : n < n + (k + 1))]
    have e : n + 1 + k = n + (k + 1) := by omega
    rw [e, add_assoc]

theorem bucleSerie_especificada (coseno seno : α → α) (pi l xv a0 : α) (c : Coeficientes α)
    (a b : Nat → α) (N : Nat) (hl : l ≠ 0)
    (h : ∀ m : Nat, 1 ≤ m → m ≤ N → c.an m = fin (a m) ∧ c.bn m = fin (b m)) :
    bucleSerie coseno seno pi (fin l) c (fin xv) N 1 (fin (a0 / 2)) =
      fin (serieEspecificada coseno seno pi l a0 a b N xv) := by
  rw [bucleSerie_fin coseno seno pi l xv c a b hl N 1 (a0 / 2)
    (fun m h1 h2 => h m h1 (by omega))]
  unfold serieEspecificada
  have e : Finset.Ico 1 (1 + N) = Finset.Icc 1 N := by
    ext m
    simp only [Finset.mem_Ico, Finset.mem_Icc]
    omega
  rw [e]

/-- The loop of the error analysis over finite, valid samples: the accumulator grows by
the squared residuals and every point is counted. -/
theorem bucleError_fin (coseno seno : α → α) (pi l ini fi a0 : α) (f : Doble α → Doble α)
    (g : α → α) (c : Coeficientes α) (a b : Nat → α) (N P : Nat) (hl : l ≠ 0) (hP : 0 < P)
    (ha0 : c.a0 = fin a0)
    (h : ∀ m : Nat, 1 ≤ m → m ≤ N → c.an m = fin (a m) ∧ c.bn m = fin (b m))
    (hf : ∀ j : Nat, j < P + 1 →
      f (fin (ini + j * (fi - ini) / P)) = fin (g (ini + j * (fi - ini) / P)))
    (hg : ∀ j : Nat, j < P + 1 → |g (ini + j * (fi - ini) / P)| ≤ 10 ^ 100)
    (hS : ∀ j : Nat, j < P + 1 →
      |serieEspecificada coseno seno pi l a0 a b N (ini + j * (fi - ini) / P)| ≤ 10 ^ 100) :
    ∀ (k i : Nat) (s : AnalisisError α) (e : α), i + k ≤ P + 1 → s.error_cuadratico = fin e →
      (bucleError coseno seno pi f (fin l) (fin ini) (fin fi) c N P k i s).error_cuadratico =
        fin (e + ∑ j in Finset.Ico i (i + k),
          (g (ini + j * (fi - ini) / P) -
            serieEspecificada coseno seno pi l a0 a b N (ini + j * (fi - ini) / P)) ^ 2) ∧
      (bucleError coseno seno pi f (fin l) (fin ini) (fin fi) c N P k i s).puntos_validos =
        s.puntos_validos + k := by
  have hP0 : (P : α) ≠ 0 := by exact_mod_cast (by omega : P ≠ 0)
  intro k
  induction k with
  | zero => intro i s e _ he; simp [bucleError, he]
  | succ k ih =>
    intro i s e hik he
    have hv1 : es_numerico_valido (fin (g (ini + i * (fi - ini) / P))) = true :=
      (es_numerico_valido_fin _).trans (decide_eq_true (hg i (by omega)))
    have hv2 : es_numerico_valido
        (fin (serieEspecificada coseno seno pi l a0 a b N (ini + i * (fi - ini) / P))) = true :=
      (es_numerico_valido_fin _).trans (decide_eq_true (hS i (by omega)))
    simp only [bucleError, fin_sub_fin, fin_mul_fin, fin_div_fin _ _ hP0, fin_add_fin,
      hf i (by omega), ha0, fin_div_two, bucleSerie_especificada coseno seno pi l _ a0 c a b N hl h,
      hv1, hv2, Bool.and_self, if_true, fabs_fin, he]
    obtain ⟨h1, h2⟩ := ih (i + 1)
      (AnalisisError.mk (fin (e + |g (ini + i * (fi - ini) / P) -
          serieEspecificada coseno seno pi l a0 a b N (ini + i * (fi - ini) / P)| *
          |g (ini + i * (fi - ini) / P) -
          serieEspecificada coseno seno pi l a0 a b N (ini + i * (fi - ini) / P)|))
        (if gt (fin |g (ini + i * (fi - ini) / P) -
          serieEspecificada coseno seno pi l a0 a b N (ini + i * (fi - ini) / P)|) s.error_maximo
          then fin |g (ini + i * (fi - ini) / P) -
            serieEspecificada coseno seno pi l a0 a b N (ini + i * (fi - ini) / P)|
          else s.error_maximo)
        (s.puntos_validos + 1)) _ (by omega) rfl
    have e1 : i + 1 + k = i + (k + 1) := by omega
    refine ⟨h1.trans ?_, h2.trans ?_⟩
    · rw [Finset.sum_eq_sum_Ico_succ_bot (by omega : i < i + (k + 1)), e1, abs_mul_abs_self]
      congr 1
      ring
    · show s.puntos_validos + 1 + k = s.puntos_validos + (k + 1)
      omega

theorem analisisDeError_fin (raiz coseno seno : α → α) (pi l ini fi a0 : α)
    (f : Doble α → Doble α) (g : α → α) (c : Coeficientes α) (a b : Nat → α) (N P : Nat)
    (hl : l ≠ 0) (hP : 0 < P) (ha0 : c.a0 = fin a0)
    (h : ∀ m : Nat, 1 ≤ m → m ≤ N → c.an m = fin (a m) ∧ c.bn m = fin (b m))
    (hf : ∀ j : Nat, j < P + 1 →
      f (fin (ini + j * (fi - ini) / P)) = fin (g (ini + j * (fi - ini) / P)))
    (hg : ∀ j : Nat, j < P + 1 → |g (ini + j * (fi - ini) / P)| ≤ 10 ^ 100)
    (hS : ∀ j : Nat, j < P + 1 →
      |serieEspecificada coseno seno pi l a0 a b N (ini + j * (fi - ini) / P)| ≤ 10 ^ 100) :
    (analisisDeError raiz coseno seno pi f (fin l) (fin ini) (fin fi) c N P).error_cuadratico =
        fin (raiz (errorCuadraticoMedio coseno seno pi l g a0 a b ini fi P N)) ∧
      (analisisDeError raiz coseno seno pi f (fin l) (fin ini) (fin fi) c N P).puntos_validos =
        P + 1 := by
  obtain ⟨h1, h2⟩ := bucleError_fin coseno seno pi l ini fi a0 f g c a b N P hl hP ha0 h hf hg hS
    (P + 1) 0 (AnalisisError.mk (fin 0) (fin 0) 0) 0 (by omega) rfl
  have hpos : 0 < (bucleError coseno seno pi f (fin l) (fin ini) (fin fi) c N P (P + 1) 0
      (AnalisisError.mk (fin 0) (fin 0) 0)).puntos_validos := by rw [h2]; omega
  have hP1 : ((P + 1 : Nat) : α) ≠ 0 := by exact_mod_cast (by omega : P + 1 ≠ 0)
  have hnn : ¬ errorCuadraticoMedio coseno seno pi l g a0 a b ini fi P N < 0 := by
    rw [not_lt]
    unfold errorCuadraticoMedio
    exact div_nonneg (Finset.sum_nonneg (fun j _ => sq_nonneg _)) (Nat.cast_nonneg _)
  simp only [Nat.zero_add, zero_add] at h1 h2
  simp only [analisisDeError, h1, h2, fin_div_fin _ _ hP1]
  rw [if_pos (Nat.succ_pos P)]
  refine ⟨?_, rfl⟩
  dsimp only
  have e : (∑ j in Finset.Ico 0 (P + 1),
      (g (ini + j * (fi - ini) / P) -
        serieEspecificada coseno seno pi l a0 a b N (ini + j * (fi - ini) / P)) ^ 2) /
      ((P + 1 : Nat) : α) = errorCuadraticoMedio coseno seno pi l g a0 a b ini fi P N := by
    unfold errorCuadraticoMedio
    rw [Finset.range_eq_Ico]
  rw [e]
  simp only [csqrt, if_neg hnn]

end Fourier

namespace Fourier

theorem an_acotado (n : Nat) :
    |anEspecificado Real.cos Real.pi (triangular Real.pi) Real.pi 1000 n| ≤ 8 := by
  have hpi := Real.pi_pos
  unfold anEspecificado
  have e : 2 * Real.pi / ((1000 : Nat) : ℝ) / Real.pi = 1 / 500 := by
    push_cast
    field_simp
    ring
  rw [e, abs_mul, abs_of_nonneg (by norm_num : (0 : ℝ) ≤ 1 / 500)]
  have hs : |∑ i in Finset.range 1000,
      triangular Real.pi ((i : ℝ) * (2 * Real.pi / (1000 : Nat))) *
        Real.cos (n * Real.pi * ((i : ℝ) * (2 * Real.pi / (1000 : Nat))) / Real.pi)| ≤
      ∑ _i in Finset.range 1000, (4 : ℝ) := by
    refine le_trans (Finset.abs_sum_le_sum_abs _ _) (Finset.sum_le_sum (fun i hi => ?_))
    rw [abs_mul]
    calc |triangular Real.pi ((i : ℝ) * (2 * Real.pi / (1000 : Nat)))| *
          |Real.cos (n * Real.pi * ((i : ℝ) * (2 * Real.pi / (1000 : Nat))) / Real.pi)|
        ≤ 4 * 1 := mul_le_mul (triangular_acotada i (Finset.mem_range.1 hi))
          (Real.abs_cos_le_one _) (abs_nonneg _) (by norm_num)
      _ = 4 := by norm_num
  rw [Finset.sum_const, Finset.card_range, nsmul_eq_mul] at hs
  push_cast at hs ⊢
  linarith

theorem serie_acotada (N j : Nat) (hN : N ≤ 10) :
    |serieEspecificada Real.cos Real.sin Real.pi Real.pi
        (a0Especificado (triangular Real.pi) Real.pi 1000)
        (anEspecificado Real.cos Real.pi (triangular Real.pi) Real.pi 1000)
        (bnEspecificado Real.sin Real.pi (triangular Real.pi) Real.pi 1000) N
        (0 + (j : ℝ) * (2 * Real.pi - 0) / (100 : Nat))| ≤ 10 ^ 100 := by
  have hpi := Real.pi_pos
  have h4 := Real.pi_le_four
  rw [serie_en_malla_de_error, a0_valor]
  have hs : |∑ n in Finset.Icc 1 N,
      anEspecificado Real.cos Real.pi (triangular Real.pi) Real.pi 1000 n *
        Real.cos (j * (n * (2 * Real.pi / (100 : Nat))))| ≤ ∑ _n in Finset.Icc 1 N, (8 : ℝ) := by
    refine le_trans (Finset.abs_sum_le_sum_abs _ _) (Finset.sum_le_sum (fun n _ => ?_))
    rw [abs_mul]
    calc |anEspecificado Real.cos Real.pi (triangular Real.pi) Real.pi 1000 n| *
          |Real.cos (j * (n * (2 * Real.pi / (100 : Nat))))|
        ≤ 8 * 1 := mul_le_mul (an_acotado n) (Real.abs_cos_le_one _) (abs_nonneg _) (by norm_num)
      _ = 8 := by norm_num
  rw [Finset.sum_const, Nat.card_Icc, nsmul_eq_mul] at hs
  have hN' : ((N + 1 - 1 : Nat) : ℝ) ≤ 10 := by
    rw [Nat.add_sub_cancel]
    exact_mod_cast hN
  have h1 := abs_add (Real.pi / 2)
    (∑ n in Finset.Icc 1 N,
      anEspecificado Real.cos Real.pi (triangular Real.pi) Real.pi 1000 n *
        Real.cos (j * (n * (2 * Real.pi / (100 : Nat)))))
  rw [abs_of_pos (by positivity : (0 : ℝ) < Real.pi / 2)] at h1
  have h100 : (82 : ℝ) ≤ 10 ^ 100 := by norm_num
  linarith

theorem triangular_de_error_acotada (j : Nat) (hj : j < 101) :
    |triangular Real.pi (0 + (j : ℝ) * (2 * Real.pi - 0) / (100 : Nat))| ≤ 10 ^ 100 := by
  have hpi := Real.pi_pos
  have h4 := Real.pi_le_four
  rw [triangular_en_malla_de_error j hj]
  have hj0 : (0 : ℝ) ≤ j := Nat.cast_nonneg j
  have hj1 : (j : ℝ) ≤ 100 := by exact_mod_cast (by omega : j ≤ 100)
  have h100 : (4 : ℝ) ≤ 10 ^ 100 := by norm_num
  by_cases h : j < 50
  · rw [if_pos h, abs_of_nonneg (by positivity)]
    push_cast
    nlinarith
  · rw [if_neg h]
    have : (50 : ℝ) ≤ j := by exact_mod_cast (by omega : 50 ≤ j)
    push_cast
    rw [abs_of_nonneg (by nlinarith)]
    nlinarith

/-- The error analysis of the configured program with `N` terms returns the root of the
mean-squared error of the specification, over all 101 points. -/
theorem analisis_configurado (c : Coeficientes ℝ) (N : Nat) (hN : N ≤ N_TERMINOS)
    (ha0 : c.a0 = fin (a0Especificado (triangular Real.pi) Real.pi 1000))
    (h : ∀ n : Nat, 1 ≤ n → n ≤ N_TERMINOS →
      c.an n = fin (anEspecificado Real.cos Real.pi (triangular Real.pi) Real.pi 1000 n) ∧
      c.bn n = fin (bnEspecificado Real.sin Real.pi (triangular Real.pi) Real.pi 1000 n)) :
    (analisisDeError Real.sqrt Real.cos Real.sin Real.pi (FUNCION_ORIGINAL (L Real.pi))
        (L Real.pi) GRAFICO_INICIO (GRAFICO_FIN Real.pi) c N 100).error_cuadratico =
      fin (Real.sqrt (errorCuadraticoMedio Real.cos Real.sin Real.pi Real.pi
        (triangular Real.pi) (a0Especificado (triangular Real.pi) Real.pi 1000)
        (anEspecificado Real.cos Real.pi (triangular Real.pi) Real.pi 1000)
        (bnEspecificado Real.sin Real.pi (triangular Real.pi) Real.pi 1000)
        0 (2 * Real.pi) 100 N)) ∧
    (analisisDeError Real.sqrt Real.cos Real.sin Real.pi (FUNCION_ORIGINAL (L Real.pi))
        (L Real.pi) GRAFICO_INICIO (GRAFICO_FIN Real.pi) c N 100).puntos_validos = 101 :=
  analisisDeError_fin Real.sqrt Real.cos Real.sin Real.pi Real.pi 0 (2 * Real.pi) _
    (FUNCION_ORIGINAL (L Real.pi)) (triangular Real.pi) c _ _ N 100 Real.pi_ne_zero
    (by norm_num) ha0 (fun m h1 h2 => h m h1 (le_trans h2 hN))
    (fun j _ => FUNCION_ORIGINAL_fin Real.pi _)
    (fun j hj => triangular_de_error_acotada j hj)
    (fun j _ => serie_acotada N j hN)

end Fourier

/-- C12: for the triangular wave of `fourier.c` (`L = pi`) with the coefficients `a0`,
`an[1..10]`, `bn[1..10]` that the program computes by quadrature held fixed, the error
analysis of the program run with `N` terms (`N = 0..10`) uses all 101 points of the grid
on `[0, 2*pi]` and returns the square root of the mean-squared error between the function
and its `N`-term reconstruction; that mean-squared error, and with it the returned root,
does not increase from `N` to `N + 1` for every `N < 10` (exact real arithmetic). -/
theorem C12_error_cuadratico_medio_no_creciente :
    ∃ c : Fourier.Coeficientes ℝ,
      Fourier.calcularCoeficientes Real.cos Real.sin Real.pi
        (Fourier.FUNCION_ORIGINAL (Fourier.L Real.pi)) (Fourier.L Real.pi)
        Fourier.N_TERMINOS 1000 = Except.ok c ∧
      (∀ N : Nat, N ≤ Fourier.N_TERMINOS →
        (Fourier.analisisDeError Real.sqrt Real.cos Real.sin Real.pi
            (Fourier.FUNCION_ORIGINAL (Fourier.L Real.pi)) (Fourier.L Real.pi)
            Fourier.GRAFICO_INICIO (Fourier.GRAFICO_FIN Real.pi) c N 100).error_cuadratico =
          fin (Real.sqrt (Fourier.errorCuadraticoMedio Real.cos Real.sin Real.pi Real.pi
            (Fourier.triangular Real.pi)
            (Fourier.a0Especificado (Fourier.triangular Real.pi) Real.pi 1000)
            (Fourier.anEspecificado Real.cos Real.pi (Fourier.triangular Real.pi) Real.pi 1000)
            (Fourier.bnEspecificado Real.sin Real.pi (Fourier.triangular Real.pi) Real.pi 1000)
            0 (2 * Real.pi) 100 N)) ∧
        (Fourier.analisisDeError Real.sqrt Real.cos Real.sin Real.pi
            (Fourier.FUNCION_ORIGINAL (Fourier.L Real.pi)) (Fourier.L Real.pi)
            Fourier.GRAFICO_INICIO (Fourier.GRAFICO_FIN Real.pi) c N 100).puntos_validos =
          101) ∧
      ∀ N : Nat, N < Fourier.N_TERMINOS →
        Fourier.errorCuadraticoMedio Real.cos Real.sin Real.pi Real.pi
            (Fourier.triangular Real.pi)
            (Fourier.a0Especificado (Fourier.triangular Real.pi) Real.pi 1000)
            (Fourier.anEspecificado Real.cos Real.pi (Fourier.triangular Real.pi) Real.pi 1000)
            (Fourier.bnEspecificado Real.sin Real.pi (Fourier.triangular Real.pi) Real.pi 1000)
            0 (2 * Real.pi) 100 (N + 1) ≤
          Fourier.errorCuadraticoMedio Real.cos Real.sin Real.pi Real.pi
            (Fourier.triangular Real.pi)
            (Fourier.a0Especificado (Fourier.triangular Real.pi) Real.pi 1000)
            (Fourier.anEspecificado Real.cos Real.pi (Fourier.triangular Real.pi) Real.pi 1000)
            (Fourier.bnEspecificado Real.sin Real.pi (Fourier.triangular Real.pi) Real.pi 1000)
            0 (2 * Real.pi) 100 N ∧
        Real.sqrt (Fourier.errorCuadraticoMedio Real.cos Real.sin Real.pi Real.pi
            (Fourier.triangular Real.pi)
            (Fourier.a0Especificado (Fourier.triangular Real.pi) Real.pi 1000)
            (Fourier.anEspecificado Real.cos Real.pi (Fourier.triangular Real.pi) Real.pi 1000)
            (Fourier.bnEspecificado Real.sin Real.pi (Fourier.triangular Real.pi) Real.pi 1000)
            0 (2 * Real.pi) 100 (N + 1)) ≤
          Real.sqrt (Fourier.errorCuadraticoMedio Real.cos Real.sin Real.pi Real.pi
            (Fourier.triangular Real.pi)
            (Fourier.a0Especificado (Fourier.triangular Real.pi) Real.pi 1000)
            (Fourier.anEspecificado Real.cos Real.pi (Fourier.triangular Real.pi) Real.pi 1000)
            (Fourier.bnEspecificado Real.sin Real.pi (Fourier.triangular Real.pi) Real.pi 1000)
            0 (2 * Real.pi) 100 N) := by
  obtain ⟨c, hc, ha0, h⟩ := Fourier.coeficientes_configurados
  exact ⟨c, hc, fun N hN => Fourier.analisis_configurado c N hN ha0 h,
    fun N hN => ⟨Fourier.ecm_no_creciente N hN,
      Real.sqrt_le_sqrt (Fourier.ecm_no_creciente N hN)⟩⟩


/-! ## The warnings of the three steppers leave the results alone (C24) -/

/-- C24: the step index only feeds the warning flags: for all arguments (special values
included) and any two step indices `p`, `q`, `rk4_validado` ends the same way (same fault,
or same returned value), and `rk4_sistema_validado` and `rk4_sistema2_validado` end the
same way with the same pair written through their pointers. -/
theorem C24_avisos_no_alteran_el_calculo (raiz : α → α) (f : Doble α → Doble α → Doble α)
    (g : Doble α → Doble α → Doble α → Doble α) (f1 f2 : Doble α → Doble α → Doble α)
    (t x y yp h : Doble α) (p q : Int) :
    (fun r : Ecuacion1.SalidaRK4 α => r.resultado) <$> Ecuacion1.rk4_validado f x y h p =
      (fun r : Ecuacion1.SalidaRK4 α => r.resultado) <$> Ecuacion1.rk4_validado f x y h q ∧
    (fun r : Ecuacion2.SalidaRK4 α => (r.y, r.yp)) <$>
        Ecuacion2.rk4_sistema_validado g x y yp h p =
      (fun r : Ecuacion2.SalidaRK4 α => (r.y, r.yp)) <$>
        Ecuacion2.rk4_sistema_validado g x y yp h q ∧
    (fun r : Ecuacion3.SalidaRK4 α => (r.x, r.y)) <$>
        Ecuacion3.rk4_sistema2_validado raiz f1 f2 t x y h p =
      (fun r : Ecuacion3.SalidaRK4 α => (r.x, r.y)) <$>
        Ecuacion3.rk4_sistema2_validado raiz f1 f2 t x y h q := by
  refine ⟨?_, ?_, ?_⟩
  · simp only [Ecuacion1.rk4_validado, map_bind, map_pure]
  · simp only [Ecuacion2.rk4_sistema_validado, map_bind, map_pure]
  · simp only [Ecuacion3.rk4_sistema2_validado, map_bind, map_pure]

/-! ## The energy factor of one step of the system steppers (C25) -/

namespace Ecuacion3

theorem factor_energia_le_uno (h : ℝ) (h0 : 0 < h) (h1 : h ≤ 2 * Real.sqrt 2) :
    1 - h ^ 6 / 72 + h ^ 8 / 576 ≤ 1 := by
  have hs : Real.sqrt 2 ^ 2 = 2 := Real.sq_sqrt (by norm_num)
  have h2 : h ^ 2 ≤ 8 := by nlinarith [Real.sqrt_nonneg 2]
  have e : 1 - h ^ 6 / 72 + h ^ 8 / 576 = 1 - h ^ 6 * (8 - h ^ 2) / 576 := by ring
  rw [e]
  have : 0 ≤ h ^ 6 * (8 - h ^ 2) / 576 := by
    have h6 : 0 ≤ h ^ 6 := by positivity
    have : 0 ≤ h ^ 6 * (8 - h ^ 2) := mul_nonneg h6 (by linarith)
    positivity
  linarith

end Ecuacion3

/-- C25: for all real `y`, `y'` and `h` one call of `rk4_sistema_validado` (field
`(y', -y)`) returns a state whose energy `y^2 + y'^2` is exactly
`(1 - h^6/72 + h^8/576)` times the energy before the step, and likewise one call of
`rk4_sistema2_validado` (field `(y, -x)`) for `x^2 + y^2`; for `0 < h <= 2*sqrt(2)` the
factor is at most 1, so the step does not increase the energy. -/
theorem C25_factor_de_energia (raiz : ℝ → ℝ) (t : Doble ℝ) (x y yp h : ℝ) (paso : Int) :
    (∃ r : Ecuacion2.SalidaRK4 ℝ,
      Ecuacion2.rk4_sistema_validado Ecuacion2.EDO_FUNCION (fin x) (fin y) (fin yp) (fin h) paso
        = Except.ok r ∧
      r.y * r.y + r.yp * r.yp = fin ((1 - h ^ 6 / 72 + h ^ 8 / 576) * (y * y + yp * yp))) ∧
    (∃ r : Ecuacion3.SalidaRK4 ℝ,
      Ecuacion3.rk4_sistema2_validado raiz Ecuacion3.F1 Ecuacion3.F2 t (fin y) (fin yp) (fin h)
        paso = Except.ok r ∧
      r.x * r.x + r.y * r.y = fin ((1 - h ^ 6 / 72 + h ^ 8 / 576) * (y * y + yp * yp))) ∧
    (0 < h → h ≤ 2 * Real.sqrt 2 →
      1 - h ^ 6 / 72 + h ^ 8 / 576 ≤ 1 ∧
      (1 - h ^ 6 / 72 + h ^ 8 / 576) * (y * y + yp * yp) ≤ y * y + yp * yp) := by
  refine ⟨?_, ?_, ?_⟩
  · obtain ⟨r, hr, h1, h2⟩ := Ecuacion2.rk4_sistema_validado_fin x y yp h paso
    refine ⟨r, hr, ?_⟩
    rw [h1, h2, fin_mul_fin, fin_mul_fin, fin_add_fin, Ecuacion3.energia_paso]
  · obtain ⟨r, hr, h1, h2⟩ := Ecuacion3.rk4_sistema2_validado_fin raiz t y yp h paso
    refine ⟨r, hr, ?_⟩
    rw [h1, h2, fin_mul_fin, fin_mul_fin, fin_add_fin, Ecuacion3.energia_paso]
  · intro h0 h1
    have hf := Ecuacion3.factor_energia_le_uno h h0 h1
    refine ⟨hf, ?_⟩
    have hE : 0 ≤ y * y + yp * yp := by nlinarith [mul_self_nonneg y, mul_self_nonneg yp]
    nlinarith

/-! ## Closed form of the scalar step and of its iterates (C26) -/

namespace Ecuacion1

theorem pasosSeguidos_fin (h : α) :
    ∀ (n : Nat) (x y : α) (paso : Int),
      pasosSeguidos EDO_FUNCION (fin h) n (fin x, fin y, paso) =
        Except.ok (fin (x + n * h), fin ((x + n * h) - 1 + factorRK4 h ^ n * (y - x + 1)),
          paso + n) := by
  intro n
  induction n with
  | zero =>
    intro x y paso
    have e : x - 1 + (y - x + 1) = y := by ring
    simp only [pasosSeguidos, Nat.cast_zero, zero_mul, add_zero, pow_zero, one_mul, e]
  | succ n ih =>
    intro x y paso
    have e1 : x + h + (n : α) * h = x + ((n + 1 : Nat) : α) * h := by
      rw [Nat.cast_succ]; ring
    have e2 : x + ((n + 1 : Nat) : α) * h - 1 +
        factorRK4 h ^ n * (x + h - 1 + factorRK4 h * (y - x + 1) - (x + h) + 1) =
        x + ((n + 1 : Nat) : α) * h - 1 + factorRK4 h ^ (n + 1) * (y - x + 1) := by
      ring
    have e3 : paso + 1 + (n : Int) = paso + ((n + 1 : Nat) : Int) := by
      rw [Nat.cast_succ]; ring
    simp only [pasosSeguidos, rk4_validado_fin, fin_add_fin, ih, pasoRK4_forma_cerrada]
    rw [e1, e2, e3]

end Ecuacion1

/-- C26: for all real `x`, `y`, `h` and every step index, `rk4_validado(x, y, h, paso)`
returns `(x + h) - 1 + p(h)*(y - x + 1)` with `p(h) = 1 - h + h^2/2 - h^3/6 + h^4/24`;
hence `n` steps from `x = X_INICIAL = 0`, `y = Y_INICIAL = 1` give `x = n*h` and
`y_n = n*h - 1 + 2*p(h)^n`, which is the analytic solution
`SOLUCION_EXACTA(n*h) = n*h - 1 + 2*exp(-h)^n` with `exp(-h)` replaced by its Taylor
polynomial of degree 4, `p(h) = sum_{m < 5} (-h)^m / m!`. -/
theorem C26_forma_cerrada_de_los_iterados (x y h : ℝ) (paso : Int) (n : Nat) :
    (∃ r : Ecuacion1.SalidaRK4 ℝ,
      Ecuacion1.rk4_validado Ecuacion1.EDO_FUNCION (fin x) (fin y) (fin h) paso = Except.ok r ∧
      r.resultado =
        fin ((x + h) - 1 + (1 - h + h ^ 2 / 2 - h ^ 3 / 6 + h ^ 4 / 24) * (y - x + 1))) ∧
    Ecuacion1.pasosSeguidos Ecuacion1.EDO_FUNCION (fin h) n
        (Ecuacion1.X_INICIAL, Ecuacion1.Y_INICIAL, 0) =
      Except.ok (fin (n * h),
        fin (n * h - 1 + 2 * (1 - h + h ^ 2 / 2 - h ^ 3 / 6 + h ^ 4 / 24) ^ n), (n : Int)) ∧
    Ecuacion1.SOLUCION_EXACTA Real.exp (fin (n * h)) =
      fin (n * h - 1 + 2 * Real.exp (-h) ^ n) ∧
    1 - h + h ^ 2 / 2 - h ^ 3 / 6 + h ^ 4 / 24 =
      ∑ m in Finset.range 5, (-h) ^ m / (m.factorial : ℝ) := by
  refine ⟨⟨_, Ecuacion1.rk4_validado_fin x y h paso, ?_⟩, ?_, ?_, ?_⟩
  · show fin _ = fin _
    rw [Ecuacion1.pasoRK4_forma_cerrada]
    rfl
  · have hp := Ecuacion1.pasosSeguidos_fin h n 0 1 0
    have e1 : (0 : ℝ) + n * h = n * h := by ring
    have e2 : (n : ℝ) * h - 1 + Ecuacion1.factorRK4 h ^ n * (1 - 0 + 1) =
        n * h - 1 + 2 * (1 - h + h ^ 2 / 2 - h ^ 3 / 6 + h ^ 4 / 24) ^ n := by
      unfold Ecuacion1.factorRK4; ring
    rw [e1, e2, zero_add] at hp
    exact hp
  · rw [Ecuacion1.SOLUCION_EXACTA_fin]
    rw [← Real.exp_nat_mul, mul_neg]
  · simp only [Finset.sum_range_succ, Finset.sum_range_zero, Nat.factorial]
    norm_num
    ring

/-! ## The recovery branch is not reached on the configured problem (C27) -/

namespace Ecuacion1

theorem paso_configurado_valido (x y : α) (paso : Int) (hx0 : 0 ≤ x) (hx5 : x ≤ 5)
    (hy : |y| ≤ 10 ^ 100) :
    ∃ r : SalidaRK4 α,
      rk4_validado EDO_FUNCION (fin x) (fin y) PASO_H paso = Except.ok r ∧
      es_numerico_valido r.resultado = true := by
  refine ⟨_, rk4_validado_fin x y (1 / 10) paso, ?_⟩
  refine (es_numerico_valido_fin _).trans (decide_eq_true ?_)
  rw [pasoRK4_forma_cerrada]
  have hc : (100 : α) ≤ 10 ^ 100 := by
    calc (100 : α) = 10 ^ 2 := by norm_num
      _ ≤ 10 ^ 100 := pow_le_pow_right₀ (by norm_num) (by norm_num)
  generalize (10 : α) ^ 100 = c at hy hc ⊢
  have hp : factorRK4 (1 / 10 : α) = 723870 / 800000 := by
    unfold factorRK4; norm_num
  rw [hp]
  obtain ⟨h1, h2⟩ := abs_le.1 hy
  rw [abs_le]
  constructor <;> linarith

theorem no_entra_en_recuperacion (sol : Doble α → Doble α) (s : Estado α) (x : α)
    (hx : s.x = fin x) (hx0 : 0 ≤ x) :
    entraEnRecuperacion EDO_FUNCION sol X_FINAL PASO_H s = false := by
  unfold entraEnRecuperacion
  cases hl : llegaAlPaso sol X_FINAL PASO_H s with
  | false => rfl
  | true =>
    simp only [llegaAlPaso, Bool.and_eq_true, Bool.not_eq_true', Bool.not_eq_eq_eq_not,
      Bool.not_true] at hl
    obtain ⟨⟨⟨⟨_, _⟩, _⟩, h4⟩, h5⟩ := hl
    obtain ⟨y, hy, hyb⟩ := (es_numerico_valido_eq_true_iff s.y).1 h4
    rw [hx] at h5
    simp only [X_FINAL, ge_fin_fin, decide_eq_false_iff_not, not_le] at h5
    obtain ⟨r, hr, hv⟩ := paso_configurado_valido x y s.paso hx0 h5.le hyb
    rw [hx, hy, hr]
    simp only [Bool.true_and, hv, Bool.not_true]

theorem cuerpo_sigue_contadores {f : Doble α → Doble α → Doble α} {sol : Doble α → Doble α}
    {xFinal h : Doble α} {pt : Int} {s s1 : Estado α}
    (hc : cuerpo f sol xFinal h pt s = .sigue s1) :
    s1.paso = s.paso + 1 ∧ s1.paso ≤ pt * 10 ∧ s1.errores_numericos = s.errores_numericos ∧
      s1.x = s.x + h := by
  revert hc
  refine cuerpo_casos f sol xFinal h pt s
    (fun r => r = .sigue s1 → s1.paso = s.paso + 1 ∧ s1.paso ≤ pt * 10 ∧
      s1.errores_numericos = s.errores_numericos ∧ s1.x = s.x + h)
    (fun s2 y b1 b2 b3 _ _ hc => ?_) (fun m s2 _ _ _ _ _ hc => by cases hc)
  unfold avanzar at hc
  by_cases hcap : s2.paso + 1 > pt * 10
  · rw [if_pos hcap] at hc
    cases hc
  · rw [if_neg hcap] at hc
    cases hc
    exact ⟨congrArg (· + 1) b1, not_lt.1 hcap, b3, congrArg (· + h) b2⟩

theorem cuerpo_para_contadores {f : Doble α → Doble α → Doble α} {sol : Doble α → Doble α}
    {xFinal h : Doble α} {pt : Int} {s s1 : Estado α} {m : Parada}
    (hc : cuerpo f sol xFinal h pt s = .para m s1) :
    m ≠ .sinCombustible ∧ s.paso ≤ s1.paso ∧ s1.paso ≤ s.paso + 1 ∧
      (m = .valorInvalido ∨ s1.errores_numericos = s.errores_numericos) := by
  revert hc
  refine cuerpo_casos f sol xFinal h pt s
    (fun r => r = .para m s1 → m ≠ .sinCombustible ∧ s.paso ≤ s1.paso ∧
      s1.paso ≤ s.paso + 1 ∧ (m = .valorInvalido ∨ s1.errores_numericos = s.errores_numericos))
    (fun s3 y b1 _ b3 _ _ hc => ?_) (fun m2 s2 a1 a2 _ a4 _ hc => ?_)
  · unfold avanzar at hc
    by_cases hcap : s3.paso + 1 > pt * 10
    · rw [if_pos hcap] at hc
      cases hc
      refine ⟨fun hh => Parada.noConfusion hh, ?_, ?_, Or.inr b3⟩
      · show s.paso ≤ s3.paso + 1
        omega
      · show s3.paso + 1 ≤ s.paso + 1
        omega
    · rw [if_neg hcap] at hc
      cases hc
  · cases hc
    refine ⟨a1, ?_, ?_, a4⟩
    · rw [a2]
    · rw [a2]; omega

theorem cuerpo_conserva_x_no_negativa (f : Doble α → Doble α → Doble α)
    (sol : Doble α → Doble α) (xF : Doble α) (h : α) (pt : Int) (s s1 : Estado α) (x : α)
    (hx : s.x = fin x) (hx0 : 0 ≤ x) (h0 : 0 ≤ h)
    (hc : cuerpo f sol xF (fin h) pt s = .sigue s1) :
    ∃ x1 : α, s1.x = fin x1 ∧ 0 ≤ x1 :=
  ⟨x + h, by rw [(cuerpo_sigue_contadores hc).2.2.2, hx]; rfl, add_nonneg hx0 h0⟩

end Ecuacion1

/-- C27: for the configured problem (`f = x - y`, `h = 0.1`, `X_FINAL = 5`) over exact
arithmetic, from every `x` in `[0, 5]` and every `y` accepted by `es_numerico_valido` the
full step `rk4_validado(x, y, 0.1)` returns a value that `es_numerico_valido` accepts; so
no body executed from a state with `x >= 0` enters the recovery branch, and such states
are the only ones visited: the loop starts at `x = 0` and every body that goes on leaves
`x >= 0`. -/
theorem C27_recuperacion_inalcanzable (sol : Doble α → Doble α) :
    (∀ (x y : α) (paso : Int), 0 ≤ x → x ≤ 5 → |y| ≤ 10 ^ 100 →
      ∃ r : Ecuacion1.SalidaRK4 α,
        Ecuacion1.rk4_validado Ecuacion1.EDO_FUNCION (fin x) (fin y) Ecuacion1.PASO_H paso =
          Except.ok r ∧
        es_numerico_valido r.resultado = true) ∧
    (∀ (s : Ecuacion1.Estado α) (x : α), s.x = fin x → 0 ≤ x →
      Ecuacion1.entraEnRecuperacion Ecuacion1.EDO_FUNCION sol Ecuacion1.X_FINAL
        Ecuacion1.PASO_H s = false) ∧
    (Ecuacion1.estadoInicial (Ecuacion1.X_INICIAL : Doble α) Ecuacion1.Y_INICIAL).x = fin 0 ∧
    (∀ (pt : Int) (s s1 : Ecuacion1.Estado α) (x : α), s.x = fin x → 0 ≤ x →
      Ecuacion1.cuerpo Ecuacion1.EDO_FUNCION sol Ecuacion1.X_FINAL Ecuacion1.PASO_H pt s =
        .sigue s1 →
      ∃ x1 : α, s1.x = fin x1 ∧ 0 ≤ x1) :=
  ⟨fun x y paso h0 h5 hy => Ecuacion1.paso_configurado_valido x y paso h0 h5 hy,
    fun s x hx h0 => Ecuacion1.no_entra_en_recuperacion sol s x hx h0,
    rfl,
    fun pt s s1 x hx h0 hc =>
      Ecuacion1.cuerpo_conserva_x_no_negativa Ecuacion1.EDO_FUNCION sol Ecuacion1.X_FINAL
        (1 / 10) pt s s1 x hx h0 (by norm_num) hc⟩

/-! ## The step cap and the end of the run of the scalar integrator (C21, C22) -/

namespace Ecuacion1

theorem ejecuciones_sigue_e1 {f : Doble α → Doble α → Doble α} {sol : Doble α → Doble α}
    {xFinal h : Doble α} {pt : Int} {s s1 : Estado α} (n : Nat)
    (hc : cuerpo f sol xFinal h pt s = .sigue s1) :
    ejecuciones f sol xFinal h pt (n + 1) s = ejecuciones f sol xFinal h pt n s1 + 1 := by
  simp only [ejecuciones, hc]

theorem ejecuciones_para_e1 {f : Doble α → Doble α → Doble α} {sol : Doble α → Doble α}
    {xFinal h : Doble α} {pt : Int} {s s1 : Estado α} {m : Parada} (n : Nat)
    (hc : cuerpo f sol xFinal h pt s = .para m s1) :
    ejecuciones f sol xFinal h pt (n + 1) s = 1 := by
  simp only [ejecuciones, hc]

/-- With a budget above the number of steps left under the cap, the loop stops by itself:
more budget changes nothing, the step counter ends at most one above the cap and the
bodies executed are at most the steps left plus one. -/
theorem bucle_termina (f : Doble α → Doble α → Doble α) (sol : Doble α → Doble α)
    (xFinal h : Doble α) (pt : Int) :
    ∀ (n : Nat) (s : Estado α), s.paso ≤ pt * 10 → pt * 10 - s.paso < n →
      (bucle f sol xFinal h pt n s).1 ≠ .sinCombustible ∧
      (∀ k : Nat, bucle f sol xFinal h pt (n + k) s = bucle f sol xFinal h pt n s) ∧
      (bucle f sol xFinal h pt n s).2.paso ≤ pt * 10 + 1 ∧
      (ejecuciones f sol xFinal h pt n s : Int) ≤ pt * 10 - s.paso + 1 := by
  intro n
  induction n with
  | zero =>
    intro s h1 h2
    simp only [Nat.cast_zero] at h2
    omega
  | succ n ih =>
    intro s h1 h2
    cases hc : cuerpo f sol xFinal h pt s with
    | sigue s1 =>
      obtain ⟨e1, e2, _, _⟩ := cuerpo_sigue_contadores hc
      have h3 : pt * 10 - s1.paso < n := by
        rw [e1]
        push_cast at h2
        omega
      obtain ⟨i1, i2, i3, i4⟩ := ih s1 e2 h3
      rw [bucle_sigue_e1 n hc, ejecuciones_sigue_e1 n hc]
      refine ⟨i1, fun k => ?_, i3, ?_⟩
      · have e : n + 1 + k = (n + k) + 1 := by omega
        rw [e, bucle_sigue_e1 (n + k) hc]
        exact i2 k
      · push_cast
        omega
    | para m s1 =>
      obtain ⟨e1, _, e3, _⟩ := cuerpo_para_contadores hc
      rw [bucle_para_e1 n hc, ejecuciones_para_e1 n hc]
      refine ⟨e1, fun k => ?_, ?_, ?_⟩
      · have e : n + 1 + k = (n + k) + 1 := by omega
        rw [e, bucle_para_e1 (n + k) hc]
      · show s1.paso ≤ pt * 10 + 1
        omega
      · push_cast
        omega

theorem pasos_totales_fin [FloorRing α] (xI xF h : α) (h0 : 0 < h) (hx : xI < xF) :
    pasos_totales (fin xI) (fin xF) (fin h) = ⌊(xF - xI) / h⌋ + 1 ∧
      1 ≤ pasos_totales (fin xI) (fin xF) (fin h) := by
  have hq : 0 < (xF - xI) / h := div_pos (sub_pos.2 hx) h0
  have e : pasos_totales (fin xI) (fin xF) (fin h) = ⌊(xF - xI) / h⌋ + 1 := by
    simp only [pasos_totales, fin_sub_fin, fin_div_fin _ _ h0.ne', truncar, if_pos hq.le]
  refine ⟨e, ?_⟩
  rw [e]
  have := Int.floor_nonneg.2 hq.le
  omega

/-- Line 144 with the range of `int`: the variable holds `floor((xF - xI)/h) + 1` when
that number is at most `INT_MAX`, and has no defined value when it is larger. -/
theorem pasos_totales_int_fin [FloorRing α] (xI xF h : α) (h0 : 0 < h) (hx : xI < xF) :
    (⌊(xF - xI) / h⌋ + 1 ≤ INT_MAX →
      pasos_totales_int (fin xI) (fin xF) (fin h) = some (⌊(xF - xI) / h⌋ + 1)) ∧
    (INT_MAX < ⌊(xF - xI) / h⌋ + 1 → pasos_totales_int (fin xI) (fin xF) (fin h) = none) := by
  have hq : 0 < (xF - xI) / h := div_pos (sub_pos.2 hx) h0
  have hf := Int.floor_nonneg.2 hq.le
  have e : pasos_totales_int (fin xI) (fin xF) (fin h) =
      (enInt ⌊(xF - xI) / h⌋).bind fun q => enInt (q + 1) := by
    simp only [pasos_totales_int, fin_sub_fin, fin_div_fin _ _ h0.ne', convertirAInt, truncar,
      if_pos hq.le]
  rw [e]
  simp only [INT_MAX] at *
  constructor
  · intro hr
    have e1 : enInt ⌊(xF - xI) / h⌋ = some ⌊(xF - xI) / h⌋ := by
      simp only [enInt, INT_MIN, INT_MAX]
      rw [if_pos ⟨by omega, by omega⟩]
    have e2 : enInt (⌊(xF - xI) / h⌋ + 1) = some (⌊(xF - xI) / h⌋ + 1) := by
      simp only [enInt, INT_MIN, INT_MAX]
      rw [if_pos ⟨by omega, by omega⟩]
    rw [e1, Option.some_bind, e2]
  · intro hr
    by_cases hc : ⌊(xF - xI) / h⌋ ≤ 2147483647
    · have e1 : enInt ⌊(xF - xI) / h⌋ = some ⌊(xF - xI) / h⌋ := by
        simp only [enInt, INT_MIN, INT_MAX]
        rw [if_pos ⟨by omega, by omega⟩]
      have e2 : enInt (⌊(xF - xI) / h⌋ + 1) = none := by
        simp only [enInt, INT_MIN, INT_MAX]
        rw [if_neg (fun hh => by omega)]
      rw [e1, Option.some_bind, e2]
    · have e1 : enInt ⌊(xF - xI) / h⌋ = none := by
        simp only [enInt, INT_MIN, INT_MAX]
        rw [if_neg (fun hh => hc hh.2)]
      rw [e1, Option.none_bind]

end Ecuacion1

/-- C22 (counterexample): on the interval `[0, 3]` with `h = 1e-9` the estimate
`floor((X_FINAL - X_INICIAL)/h) + 1 = 3000000001` is larger than `INT_MAX`, so the
conversion `(int)` of line 144 is outside its domain and the variable `pasos_totales` of
the program does not hold the estimate. -/
theorem C22_contraejemplo_fuera_de_int :
    (0 : ℚ) < 1 / 10 ^ 9 ∧ (0 : ℚ) < 3 ∧
    ⌊((3 : ℚ) - 0) / (1 / 10 ^ 9)⌋ + 1 = 3000000001 ∧
    INT_MAX < ⌊((3 : ℚ) - 0) / (1 / 10 ^ 9)⌋ + 1 ∧
    Ecuacion1.pasos_totales_int (fin (0 : ℚ)) (fin 3) (fin (1 / 10 ^ 9)) = none := by
  have e : ⌊((3 : ℚ) - 0) / (1 / 10 ^ 9)⌋ = 3000000000 := by
    rw [show ((3 : ℚ) - 0) / (1 / 10 ^ 9) = ((3000000000 : Int) : ℚ) by norm_num,
      Int.floor_intCast]
  have hr : INT_MAX < ⌊((3 : ℚ) - 0) / (1 / 10 ^ 9)⌋ + 1 := by
    rw [e]
    decide
  refine ⟨by norm_num, by norm_num, by rw [e]; rfl, hr, ?_⟩
  exact (Ecuacion1.pasos_totales_int_fin (0 : ℚ) 3 (1 / 10 ^ 9) (by norm_num) (by norm_num)).2 hr

/-- C22: over exact arithmetic, for every step size `h > 0` and interval
`X_INICIAL < X_FINAL` (any function, exact solution and initial value): when
`floor((X_FINAL - X_INICIAL)/h) + 1` is larger than `INT_MAX`, line 144 gives
`pasos_totales` no defined value; when `10*(floor((X_FINAL - X_INICIAL)/h) + 1)` is at most
`INT_MAX`, the variable `pasos_totales` is `floor((X_FINAL - X_INICIAL)/h) + 1`, the
product `pasos_totales * 10` of the cap test is in the range of `int`, the integration
loop stops by itself (the budget of the model run is never what ends it, and a larger
budget gives the same result), the step counter `paso` ends at most at
`10*pasos_totales + 1`, which is at most `INT_MAX`, and at most `10*pasos_totales + 1`
bodies are executed. -/
theorem C22_bucle_escalar_acotado [FloorRing α] (f : Doble α → Doble α → Doble α)
    (sol : Doble α → Doble α) (xI xF h : α) (yI : Doble α) (h0 : 0 < h) (hx : xI < xF) :
    (INT_MAX < ⌊(xF - xI) / h⌋ + 1 →
      Ecuacion1.pasos_totales_int (fin xI) (fin xF) (fin h) = none) ∧
    (10 * (⌊(xF - xI) / h⌋ + 1) ≤ INT_MAX →
      Ecuacion1.pasos_totales_int (fin xI) (fin xF) (fin h) =
        some (Ecuacion1.pasos_totales (fin xI) (fin xF) (fin h)) ∧
      Ecuacion1.pasos_totales (fin xI) (fin xF) (fin h) = ⌊(xF - xI) / h⌋ + 1 ∧
      Ecuacion1.tope_de_pasos (Ecuacion1.pasos_totales (fin xI) (fin xF) (fin h)) =
        some (Ecuacion1.pasos_totales (fin xI) (fin xF) (fin h) * 10) ∧
      (Ecuacion1.integrar f sol (fin xI) (fin xF) yI (fin h)).1 ≠
        Ecuacion1.Parada.sinCombustible ∧
      (∀ k : Nat,
        Ecuacion1.bucle f sol (fin xF) (fin h)
            (Ecuacion1.pasos_totales (fin xI) (fin xF) (fin h))
            ((Ecuacion1.pasos_totales (fin xI) (fin xF) (fin h) * 10).toNat + 2 + k)
            (Ecuacion1.estadoInicial (fin xI) yI) =
          Ecuacion1.integrar f sol (fin xI) (fin xF) yI (fin h)) ∧
      (Ecuacion1.integrar f sol (fin xI) (fin xF) yI (fin h)).2.paso ≤
        10 * Ecuacion1.pasos_totales (fin xI) (fin xF) (fin h) + 1 ∧
      10 * Ecuacion1.pasos_totales (fin xI) (fin xF) (fin h) + 1 ≤ INT_MAX ∧
      (Ecuacion1.ejecuciones f sol (fin xF) (fin h)
          (Ecuacion1.pasos_totales (fin xI) (fin xF) (fin h))
          ((Ecuacion1.pasos_totales (fin xI) (fin xF) (fin h) * 10).toNat + 2)
          (Ecuacion1.estadoInicial (fin xI) yI) : Int) ≤
        10 * Ecuacion1.pasos_totales (fin xI) (fin xF) (fin h) + 1) := by
  obtain ⟨e, h1⟩ := Ecuacion1.pasos_totales_fin xI xF h h0 hx
  obtain ⟨i1, i2⟩ := Ecuacion1.pasos_totales_int_fin xI xF h h0 hx
  refine ⟨i2, fun hr => ?_⟩
  have hb := Ecuacion1.bucle_termina f sol (fin xF) (fin h)
    (Ecuacion1.pasos_totales (fin xI) (fin xF) (fin h))
    ((Ecuacion1.pasos_totales (fin xI) (fin xF) (fin h) * 10).toNat + 2)
    (Ecuacion1.estadoInicial (fin xI) yI)
    (by show (0 : Int) ≤ _; omega)
    (by
      show _ - (0 : Int) < _
      push_cast
      rw [Int.toNat_of_nonneg (by omega)]
      omega)
  obtain ⟨b1, b2, b3, b4⟩ := hb
  have hm : (INT_MAX : Int) = 2147483647 := rfl
  rw [hm] at hr
  refine ⟨?_, e, ?_, b1, b2, ?_, ?_, ?_⟩
  · rw [e]
    exact i1 (by rw [hm]; omega)
  · rw [e]
    simp only [Ecuacion1.tope_de_pasos, enInt, INT_MIN, INT_MAX]
    rw [if_pos ⟨by omega, by omega⟩]
  · show (Ecuacion1.bucle _ _ _ _ _ _ _).2.paso ≤ _
    omega
  · rw [hm, e]
    omega
  · have : (Ecuacion1.estadoInicial (fin xI) yI).paso = 0 := rfl
    rw [this] at b4
    omega

/-- C22 (witness): the configured interval `[0, 5]` with `h = 0.1` over ℚ, for
`y' = x - y`, `y(0) = 1`, with the line `x - 1` in the place of the exact solution:
`pasos_totales = 51`, and the loop stops with `paso <= 511`. -/
theorem C22_bucle_escalar_acotado_witness :
    (0 : ℚ) < 1 / 10 ∧ (0 : ℚ) < 5 ∧ 10 * (⌊((5 : ℚ) - 0) / (1 / 10)⌋ + 1) ≤ INT_MAX ∧
    Ecuacion1.pasos_totales (fin (0 : ℚ)) (fin 5) (fin (1 / 10)) = 51 ∧
    Ecuacion1.pasos_totales_int (fin (0 : ℚ)) (fin 5) (fin (1 / 10)) =
      some (Ecuacion1.pasos_totales (fin (0 : ℚ)) (fin 5) (fin (1 / 10))) ∧
    (Ecuacion1.integrar Ecuacion1.EDO_FUNCION (fun x => x - fin 1) (fin (0 : ℚ)) (fin 5) (fin 1)
        (fin (1 / 10))).1 ≠ Ecuacion1.Parada.sinCombustible ∧
    (Ecuacion1.integrar Ecuacion1.EDO_FUNCION (fun x => x - fin 1) (fin (0 : ℚ)) (fin 5) (fin 1)
        (fin (1 / 10))).2.paso ≤
      10 * Ecuacion1.pasos_totales (fin (0 : ℚ)) (fin 5) (fin (1 / 10)) + 1 := by
  have e : ⌊((5 : ℚ) - 0) / (1 / 10)⌋ = 50 := by
    rw [show ((5 : ℚ) - 0) / (1 / 10) = ((50 : Int) : ℚ) by norm_num, Int.floor_intCast]
  have hr : 10 * (⌊((5 : ℚ) - 0) / (1 / 10)⌋ + 1) ≤ INT_MAX := by
    rw [e]
    decide
  have t := (C22_bucle_escalar_acotado Ecuacion1.EDO_FUNCION (fun x => x - fin 1) 0 5 (1 / 10)
    (fin 1) (by norm_num) (by norm_num)).2 hr
  exact ⟨by norm_num, by norm_num, hr, t.2.1.trans (by rw [e]; rfl), t.1, t.2.2.2.1,
    t.2.2.2.2.2.1⟩

namespace Ecuacion1

theorem bucle_errores (f : Doble α → Doble α → Doble α) (sol : Doble α → Doble α)
    (xFinal h : Doble α) (pt : Int) :
    ∀ (n : Nat) (s : Estado α),
      (bucle f sol xFinal h pt n s).1 = .valorInvalido ∨
      (bucle f sol xFinal h pt n s).2.errores_numericos = s.errores_numericos := by
  intro n
  induction n with
  | zero => intro s; exact Or.inr rfl
  | succ n ih =>
    intro s
    cases hc : cuerpo f sol xFinal h pt s with
    | sigue s1 =>
      rw [bucle_sigue_e1 n hc]
      rcases ih s1 with h1 | h1
      · exact Or.inl h1
      · exact Or.inr (h1.trans (cuerpo_sigue_contadores hc).2.2.1)
    | para m s1 =>
      rw [bucle_para_e1 n hc]
      rcases (cuerpo_para_contadores hc).2.2.2 with h1 | h1
      · exact Or.inl h1
      · exact Or.inr h1

theorem sin_recuperacion_es_exito (f : Doble α → Doble α → Doble α) (sol : Doble α → Doble α)
    (xFinal h xI yI : Doble α) (pt : Int) (n : Nat)
    (hs : (bucle f sol xFinal h pt n (estadoInicial xI yI)).1 = .sinRecuperacion) :
    finDeMain (bucle f sol xFinal h pt n (estadoInicial xI yI)) = some .EXIT_SUCCESS ∧
      estadoDelResumen (bucle f sol xFinal h pt n (estadoInicial xI yI)) = some "EXITOSO" := by
  have he : (bucle f sol xFinal h pt n (estadoInicial xI yI)).2.errores_numericos = 0 := by
    rcases bucle_errores f sol xFinal h pt n (estadoInicial xI yI) with h1 | h1
    · rw [hs] at h1; cases h1
    · exact h1
  simp only [finDeMain, estadoDelResumen, hs, he, if_true, and_self]

theorem reintento_rechazado {f : Doble α → Doble α → Doble α} {sol : Doble α → Doble α}
    {xFinal h : Doble α} (pt : Int) {s : Estado α} {r r1 r2 : SalidaRK4 α}
    (hl : llegaAlPaso sol xFinal h s = true)
    (h0 : rk4_validado f s.x s.y h s.paso = Except.ok r)
    (hr : es_numerico_valido r.resultado = false)
    (h1 : rk4_validado f s.x s.y (h / fin 2) s.paso = Except.ok r1)
    (h2 : rk4_validado f (s.x + h / fin 2) r1.resultado (h / fin 2) s.paso = Except.ok r2)
    (hr2 : es_numerico_valido r2.resultado = false) :
    cuerpo f sol xFinal h pt s = .para .sinRecuperacion (trasEscribir sol s) := by
  rw [cuerpo_llega pt hl]
  simp only [h0, hr, h1, h2, hr2, Bool.not_false, if_true, Bool.false_eq_true, if_false]

/-- The run `y' = x - y`, `y(0) = 1e99`, `h = 8` on `[0, 16]`: the first full step and the
two half-steps are all rejected. -/
theorem corrida_sin_recuperacion [FloorRing α] (g : α → α) :
    integrar EDO_FUNCION (SOLUCION_EXACTA g) (fin 0) (fin 16) (fin (10 ^ 99)) (fin 8) =
      (.sinRecuperacion,
        trasEscribir (SOLUCION_EXACTA g) (estadoInicial (fin 0) (fin (10 ^ 99)))) := by
  have e100 : (10 : α) ^ 100 = 10 * 10 ^ 99 := by
    rw [show (100 : Nat) = 99 + 1 from rfl, pow_succ]; ring
  have hc : (0 : α) < 10 ^ 99 := by positivity
  have hl : llegaAlPaso (SOLUCION_EXACTA g) (fin 16) (fin 8)
      (estadoInicial (fin (0 : α)) (fin (10 ^ 99))) = true := by
    have hv : es_numerico_valido (fin ((10 : α) ^ 99)) = true := by
      refine (es_numerico_valido_fin _).trans (decide_eq_true ?_)
      rw [e100, abs_of_pos hc]
      linarith
    simp only [llegaAlPaso, estadoInicial, SOLUCION_EXACTA_fin, fin_sub_fin, fabs_fin,
      VALIDAR_fin_e1, terminaCorrida, fin_div_two, fin_add_fin, le_fin_fin, ge_fin_fin, hv]
    norm_num
  have hr : es_numerico_valido
      (fin (pasoRK4Especificado (fun a b => a - b) (0 : α) (10 ^ 99) 8)) = false := by
    rw [es_numerico_valido_fin, decide_eq_false_iff_not, not_le, pasoRK4_forma_cerrada, e100]
    have hp : factorRK4 (8 : α) = 331 / 3 := by unfold factorRK4; norm_num
    rw [hp]
    generalize (10 : α) ^ 99 = c at hc
    rw [abs_of_pos (by linarith)]
    linarith
  have hr2 : es_numerico_valido
      (fin (pasoRK4Especificado (fun a b => a - b) ((0 : α) + 8 / 2)
        (pasoRK4Especificado (fun a b => a - b) (0 : α) (10 ^ 99) (8 / 2)) (8 / 2))) = false := by
    rw [es_numerico_valido_fin, decide_eq_false_iff_not, not_le, pasoRK4_forma_cerrada,
      pasoRK4_forma_cerrada, e100]
    have hp : factorRK4 (8 / 2 : α) = 5 := by unfold factorRK4; norm_num
    rw [hp]
    generalize (10 : α) ^ 99 = c at hc
    rw [abs_of_pos (by linarith)]
    linarith
  have hpt : pasos_totales (fin (0 : α)) (fin 16) (fin 8) = 3 := by
    rw [(pasos_totales_fin (0 : α) 16 8 (by norm_num) (by norm_num)).1]
    have : ((16 : α) - 0) / 8 = ((2 : Int) : α) := by norm_num
    rw [this, Int.floor_intCast]
    rfl
  have hcu := reintento_rechazado (f := EDO_FUNCION) 3 hl (rk4_validado_fin (0 : α) (10 ^ 99) 8 0)
    hr (by
      show rk4_validado EDO_FUNCION (fin 0) (fin (10 ^ 99)) (fin 8 / fin 2) 0 = _
      rw [fin_div_two]
      exact rk4_validado_fin (0 : α) (10 ^ 99) (8 / 2) 0)
    (by
      show rk4_validado EDO_FUNCION (fin 0 + fin 8 / fin 2) _ (fin 8 / fin 2) 0 = _
      rw [fin_div_two, fin_add_fin]
      exact rk4_validado_fin _ _ (8 / 2) 0) hr2
  unfold integrar
  rw [hpt]
  exact bucle_para_e1 _ hcu

end Ecuacion1

/-- C21 (observed behaviour): when the body of the loop of `ecuacion1.c` reaches the step,
the full-step result is rejected and the result of the two half-steps is rejected too, the
loop is left at once by the `break` of line 234, with `x`, `y`, `paso` and
`errores_numericos` as they were; `errores_numericos` is only changed on the path that
returns at line 202, so every run whose loop ends this way prints `Estado: EXITOSO` and
returns `EXIT_SUCCESS`.  Such a run exists: `y' = x - y`, `y(0) = 1e99`, `h = 8` on
`[0, 16]` (full step `7 + (331/3)*(1e99 + 1)`, half-steps `2.5e100 + 32`). -/
theorem C21_sin_recuperacion_termina_con_exito [FloorRing α] (g : α → α) :
    (∀ (f : Doble α → Doble α → Doble α) (sol : Doble α → Doble α) (xFinal h : Doble α)
        (pt : Int) (s : Ecuacion1.Estado α) (r r1 r2 : Ecuacion1.SalidaRK4 α),
      Ecuacion1.llegaAlPaso sol xFinal h s = true →
      Ecuacion1.rk4_validado f s.x s.y h s.paso = Except.ok r →
      es_numerico_valido r.resultado = false →
      Ecuacion1.rk4_validado f s.x s.y (h / fin 2) s.paso = Except.ok r1 →
      Ecuacion1.rk4_validado f (s.x + h / fin 2) r1.resultado (h / fin 2) s.paso =
        Except.ok r2 →
      es_numerico_valido r2.resultado = false →
      Ecuacion1.cuerpo f sol xFinal h pt s =
          .para .sinRecuperacion (Ecuacion1.trasEscribir sol s) ∧
        (Ecuacion1.trasEscribir sol s).x = s.x ∧ (Ecuacion1.trasEscribir sol s).y = s.y ∧
        (Ecuacion1.trasEscribir sol s).paso = s.paso ∧
        (Ecuacion1.trasEscribir sol s).errores_numericos = s.errores_numericos) ∧
    (∀ (f : Doble α → Doble α → Doble α) (sol : Doble α → Doble α)
        (xFinal h xI yI : Doble α) (pt : Int) (n : Nat),
      (Ecuacion1.bucle f sol xFinal h pt n (Ecuacion1.estadoInicial xI yI)).1 =
        .sinRecuperacion →
      Ecuacion1.finDeMain (Ecuacion1.bucle f sol xFinal h pt n
          (Ecuacion1.estadoInicial xI yI)) = some .EXIT_SUCCESS ∧
        Ecuacion1.estadoDelResumen (Ecuacion1.bucle f sol xFinal h pt n
          (Ecuacion1.estadoInicial xI yI)) = some "EXITOSO") ∧
    (Ecuacion1.integrar Ecuacion1.EDO_FUNCION (Ecuacion1.SOLUCION_EXACTA g) (fin 0) (fin 16)
        (fin (10 ^ 99)) (fin 8)).1 = .sinRecuperacion ∧
    (Ecuacion1.integrar Ecuacion1.EDO_FUNCION (Ecuacion1.SOLUCION_EXACTA g) (fin 0) (fin 16)
        (fin (10 ^ 99)) (fin 8)).2.paso = 0 ∧
    Ecuacion1.finDeMain (Ecuacion1.integrar Ecuacion1.EDO_FUNCION (Ecuacion1.SOLUCION_EXACTA g)
        (fin 0) (fin 16) (fin (10 ^ 99)) (fin 8)) = some .EXIT_SUCCESS ∧
    Ecuacion1.estadoDelResumen (Ecuacion1.integrar Ecuacion1.EDO_FUNCION
        (Ecuacion1.SOLUCION_EXACTA g) (fin 0) (fin 16) (fin (10 ^ 99)) (fin 8)) =
      some "EXITOSO" := by
  refine ⟨fun f sol xFinal h pt s r r1 r2 hl h0 hr h1 h2 hr2 =>
      ⟨Ecuacion1.reintento_rechazado pt hl h0 hr h1 h2 hr2, rfl, rfl, rfl, rfl⟩,
    fun f sol xFinal h xI yI pt n hs =>
      Ecuacion1.sin_recuperacion_es_exito f sol xFinal h xI yI pt n hs, ?_⟩
  rw [Ecuacion1.corrida_sin_recuperacion g]
  exact ⟨rfl, rfl, rfl, rfl⟩

/-! ## The sine coefficients of the triangular wave (C28) -/

namespace Fourier

theorem malla_simetrica (n i : Nat) (h1 : 1 ≤ i) (hi : i < 1000) :
    triangular Real.pi (((1000 - i : Nat) : ℝ) * (2 * Real.pi / (1000 : Nat))) =
        triangular Real.pi ((i : ℝ) * (2 * Real.pi / (1000 : Nat))) ∧
      Real.sin (n * Real.pi * (((1000 - i : Nat) : ℝ) * (2 * Real.pi / (1000 : Nat))) / Real.pi) =
        -Real.sin (n * Real.pi * ((i : ℝ) * (2 * Real.pi / (1000 : Nat))) / Real.pi) := by
  have hpi : Real.pi ≠ 0 := Real.pi_ne_zero
  have hc : ((1000 - i : Nat) : ℝ) = 1000 - i := by
    rw [Nat.cast_sub hi.le]; norm_num
  constructor
  · rw [triangular_muestra i hi, triangular_muestra (1000 - i) (by omega), hc]
    by_cases h5 : i < 500
    · rw [if_pos h5, if_neg (by omega)]
      ring
    · by_cases h6 : i = 500
      · subst h6
        norm_num
      · rw [if_neg h5, if_pos (by omega)]
  · have e : (n : ℝ) * Real.pi * (((1000 - i : Nat) : ℝ) * (2 * Real.pi / (1000 : Nat))) / Real.pi =
        n * (2 * Real.pi) -
          n * Real.pi * ((i : ℝ) * (2 * Real.pi / (1000 : Nat))) / Real.pi := by
      rw [hc]
      push_cast
      field_simp
      ring
    rw [e, Real.sin_nat_mul_two_pi_sub]

end Fourier

/-- C28: for the triangular wave with `L = pi` over exact real arithmetic, the coefficient
computation of `fourier.c` returns, and every sine coefficient is exactly zero:
`bn[n] = 0` for `n = 1..10`.  The 1000-point grid is symmetric about `x = L`: for
`1 <= i <= 999`, `f(x_{1000-i}) = f(x_i)` and
`sin(n*pi*x_{1000-i}/L) = -sin(n*pi*x_i/L)`. -/
theorem C28_coeficientes_seno_nulos :
    ∃ c : Fourier.Coeficientes ℝ,
      Fourier.calcularCoeficientes Real.cos Real.sin Real.pi
        (Fourier.FUNCION_ORIGINAL (Fourier.L Real.pi)) (Fourier.L Real.pi)
        Fourier.N_TERMINOS 1000 = Except.ok c ∧
      (∀ n : Nat, 1 ≤ n → n ≤ Fourier.N_TERMINOS → c.bn n = fin 0) ∧
      ∀ n i : Nat, 1 ≤ i → i < 1000 →
        Fourier.triangular Real.pi (((1000 - i : Nat) : ℝ) * (2 * Real.pi / (1000 : Nat))) =
          Fourier.triangular Real.pi ((i : ℝ) * (2 * Real.pi / (1000 : Nat))) ∧
        Real.sin (n * Real.pi * (((1000 - i : Nat) : ℝ) * (2 * Real.pi / (1000 : Nat))) /
            Real.pi) =
          -Real.sin (n * Real.pi * ((i : ℝ) * (2 * Real.pi / (1000 : Nat))) / Real.pi) := by
  obtain ⟨c, hc, _, h⟩ := Fourier.coeficientes_configurados
  refine ⟨c, hc, fun n h1 h2 => ?_, fun n i h1 hi => Fourier.malla_simetrica n i h1 hi⟩
  rw [(h n h1 h2).2, Fourier.bn_cero]

/-! ## Divergent samples of the Fourier reconstruction (C23) -/

namespace Fourier

omit [LinearOrderedField α] in
theorem VALIDAR_no_finito (nombre : String) (v : Doble α) (h : ¬ ∃ w, v = fin w) :
    ∃ e, VALIDAR nombre v = Except.error e := by
  cases v with
  | nan => exact ⟨_, rfl⟩
  | posInf => exact ⟨_, rfl⟩
  | negInf => exact ⟨_, rfl⟩
  | fin w => exact absurd ⟨w, rfl⟩ h

theorem sumando_finito {v w : α} {t : Doble α} (h : fin v + t = fin w) : ∃ u, t = fin u := by
  cases t with
  | fin u => exact ⟨u, rfl⟩
  | nan => cases h
  | posInf => cases h
  | negInf => cases h

theorem valido_es_finito {v : Doble α} (h : es_numerico_valido v = true) : ∃ w, v = fin w := by
  obtain ⟨w, hw, _⟩ := (es_numerico_valido_eq_true_iff v).1 h
  exact ⟨w, hw⟩

/-- The inner loop of the reconstruction started on a finite partial sum, when the partial
sums stay valid for `k` more terms and the next one is rejected: a finite rejected sum
takes the divergence branch, a NaN or an infinity ends the run. -/
theorem bucleSerieGrafico_primer_invalido (coseno seno : α → α) (pi : α) (L : Doble α)
    (c : Coeficientes α) (x : Doble α) :
    ∀ (k m K : Nat), (∃ v, sumaParcial coseno seno pi L c x m = fin v) →
      (∀ j : Nat, m < j → j ≤ m + k →
        es_numerico_valido (sumaParcial coseno seno pi L c x j) = true) →
      es_numerico_valido (sumaParcial coseno seno pi L c x (m + k + 1)) = false →
      k + 1 ≤ K →
      ((∃ w, sumaParcial coseno seno pi L c x (m + k + 1) = fin w) →
        bucleSerieGrafico coseno seno pi L c x K (m + 1) (sumaParcial coseno seno pi L c x m) =
          Except.ok (fin 0, true)) ∧
      ((¬ ∃ w, sumaParcial coseno seno pi L c x (m + k + 1) = fin w) →
        ∃ e, bucleSerieGrafico coseno seno pi L c x K (m + 1)
          (sumaParcial coseno seno pi L c x m) = Except.error e) := by
  intro k
  induction k with
  | zero =>
    intro m K hm _ hinv hK
    obtain ⟨K, rfl⟩ : ∃ K1, K = K1 + 1 := ⟨K - 1, by omega⟩
    obtain ⟨v, hv⟩ := hm
    have hP : sumaParcial coseno seno pi L c x (m + 1) =
        fin v + termino coseno seno pi L c x (m + 1) := by
      rw [sumaParcial, hv]
    rw [Nat.add_zero] at hinv ⊢
    constructor
    · rintro ⟨w, hw⟩
      obtain ⟨u, hu⟩ := sumando_finito (hP.symm.trans hw)
      have hs : fin v + fin u = fin w := by rw [← hu, ← hP, hw]
      rw [hw] at hinv
      simp only [bucleSerieGrafico, hv, hu, VALIDAR_fin_fo, hs, hinv, Bool.not_false, if_true]
    · intro hnf
      have ht : ¬ ∃ u, termino coseno seno pi L c x (m + 1) = fin u := by
        rintro ⟨u, hu⟩
        exact hnf ⟨v + u, by rw [hP, hu]; rfl⟩
      obtain ⟨e, he⟩ := VALIDAR_no_finito "termino" _ ht
      exact ⟨e, by simp only [bucleSerieGrafico, he]⟩
  | succ k ih =>
    intro m K hm hval hinv hK
    obtain ⟨K, rfl⟩ : ∃ K1, K = K1 + 1 := ⟨K - 1, by omega⟩
    obtain ⟨v, hv⟩ := hm
    have hP : sumaParcial coseno seno pi L c x (m + 1) =
        fin v + termino coseno seno pi L c x (m + 1) := by
      rw [sumaParcial, hv]
    have hv1 := hval (m + 1) (by omega) (by omega)
    obtain ⟨w, hw⟩ := valido_es_finito hv1
    obtain ⟨u, hu⟩ := sumando_finito (hP.symm.trans hw)
    have hs : fin v + fin u = fin w := by rw [← hu, ← hP, hw]
    have e1 : m + (k + 1) + 1 = (m + 1) + k + 1 := by omega
    rw [e1] at hinv ⊢
    have hi := ih (m + 1) K ⟨w, hw⟩ (fun j h1 h2 => hval j (by omega) (by omega)) hinv
      (by omega)
    rw [hw] at hv1 hi
    have hstep : bucleSerieGrafico coseno seno pi L c x (K + 1) (m + 1)
        (sumaParcial coseno seno pi L c x m) =
        bucleSerieGrafico coseno seno pi L c x K (m + 1 + 1) (fin w) := by
      simp only [bucleSerieGrafico, hv, hu, VALIDAR_fin_fo, hs, hv1, Bool.not_true,
        Bool.false_eq_true, if_false]
    rw [hstep]
    exact hi

end Fourier

/-- C23 (amended): take a sample of the reconstruction loop of `fourier.c` whose `x`,
`f_orig` and `a0/2` are finite (they pass `VALIDAR`), any coefficient sequence, and let
the partial sum after the term `m` (`1 <= m <= N_TERMINOS`) be the first one rejected by
`es_numerico_valido`.  If that sum is finite (magnitude above `1e100`), the series value of
the sample is reset to 0 and the body returns: with `f_orig` accepted the sample is
written with series value 0 and `errores_puntos` grows by exactly one, with `f_orig`
rejected nothing is written and `errores_puntos` grows by two; the loop goes on with the
next sample.  If that sum is NaN or infinite, `VALIDAR` ends the whole run. -/
theorem C23_muestra_divergente (coseno seno : α → α) (pi : α) (f : Doble α → Doble α)
    (L inicio dx : Doble α) (c : Fourier.Coeficientes α) (N i m : Nat)
    (s : Fourier.EstadoGrafico α) (xv fv v0 : α)
    (hx : inicio + fin (i : α) * dx = fin xv) (hf : f (fin xv) = fin fv)
    (h0 : c.a0 / fin 2 = fin v0) (hm1 : 1 ≤ m) (hmN : m ≤ N)
    (hval : ∀ j : Nat, 1 ≤ j → j < m →
      es_numerico_valido (Fourier.sumaParcial coseno seno pi L c (fin xv) j) = true)
    (hinv : es_numerico_valido (Fourier.sumaParcial coseno seno pi L c (fin xv) m) = false) :
    ((∃ w, Fourier.sumaParcial coseno seno pi L c (fin xv) m = fin w) →
      Fourier.muestraGrafico coseno seno pi f L inicio dx c N i s =
        Except.ok
          (if es_numerico_valido (fin fv) then
            Fourier.EstadoGrafico.mk (s.errores_puntos + 1) (s.orig ++ [(fin xv, fin fv)])
              (s.serie ++ [(fin xv, fin 0)])
          else Fourier.EstadoGrafico.mk (s.errores_puntos + 2) s.orig s.serie) ∧
      ∀ k : Nat, Fourier.bucleGrafico coseno seno pi f L inicio dx c N (k + 1) i s =
        Fourier.bucleGrafico coseno seno pi f L inicio dx c N k (i + 1)
          (if es_numerico_valido (fin fv) then
            Fourier.EstadoGrafico.mk (s.errores_puntos + 1) (s.orig ++ [(fin xv, fin fv)])
              (s.serie ++ [(fin xv, fin 0)])
          else Fourier.EstadoGrafico.mk (s.errores_puntos + 2) s.orig s.serie)) ∧
    ((¬ ∃ w, Fourier.sumaParcial coseno seno pi L c (fin xv) m = fin w) →
      (∃ e, Fourier.muestraGrafico coseno seno pi f L inicio dx c N i s = Except.error e) ∧
      ∀ k : Nat, ∃ e,
        Fourier.bucleGrafico coseno seno pi f L inicio dx c N (k + 1) i s = Except.error e) := by
  obtain ⟨k, rfl⟩ : ∃ k, m = 0 + k + 1 := ⟨m - 1, by omega⟩
  have hb := Fourier.bucleSerieGrafico_primer_invalido coseno seno pi L c (fin xv) k 0 N
    ⟨v0, h0⟩ (fun j h1 h2 => hval j (by omega) (by omega)) hinv (by omega)
  have hP0 : Fourier.sumaParcial coseno seno pi L c (fin xv) 0 = fin v0 := h0
  rw [hP0] at hb
  have hv0 : es_numerico_valido (fin (0 : α)) = true := by
    refine (es_numerico_valido_fin _).trans (decide_eq_true ?_)
    rw [abs_zero]
    positivity
  constructor
  · intro hw
    have hbs := hb.1 hw
    have hmu : Fourier.muestraGrafico coseno seno pi f L inicio dx c N i s =
        Except.ok
          (if es_numerico_valido (fin fv) then
            Fourier.EstadoGrafico.mk (s.errores_puntos + 1) (s.orig ++ [(fin xv, fin fv)])
              (s.serie ++ [(fin xv, fin 0)])
          else Fourier.EstadoGrafico.mk (s.errores_puntos + 2) s.orig s.serie) := by
      simp only [Fourier.muestraGrafico, hx, hf, h0, Fourier.VALIDAR_fin_fo, hbs, if_true, hv0,
        Bool.and_true]
      by_cases hfv : es_numerico_valido (fin fv) = true
      · simp only [hfv, if_true]
      · simp only [hfv, if_false, Bool.false_eq_true]
        congr 2
        ring
    refine ⟨hmu, fun k1 => ?_⟩
    simp only [Fourier.bucleGrafico, hmu]
  · intro hw
    obtain ⟨e, he⟩ := hb.2 hw
    have hmu : Fourier.muestraGrafico coseno seno pi f L inicio dx c N i s = Except.error e := by
      simp only [Fourier.muestraGrafico, hx, hf, h0, Fourier.VALIDAR_fin_fo, he]
    exact ⟨⟨e, hmu⟩, fun k1 => ⟨e, by simp only [Fourier.bucleGrafico, hmu]⟩⟩

namespace Doble

theorem posInf_mul_fin {b : α} (hb : 0 < b) : (posInf * fin b : Doble α) = posInf := by
  show mul posInf (fin b) = posInf
  simp [mul, ne_of_gt hb, infConSigno, hb]

end Doble

namespace Fourier

theorem primera_muestra :
    ( GRAFICO_INICIO : Doble ℝ) + fin ((0 : Nat) : ℝ) *
        ((GRAFICO_FIN Real.pi - GRAFICO_INICIO) / fin ((PUNTOS_GRAFICO : Nat) : ℝ)) =
      fin 0 := by
  have h5 : ((PUNTOS_GRAFICO : Nat) : ℝ) ≠ 0 := by
    unfold PUNTOS_GRAFICO; norm_num
  simp only [GRAFICO_FIN, GRAFICO_INICIO, fin_mul_fin, fin_sub_fin, fin_div_fin _ _ h5,
    fin_add_fin, Nat.cast_zero, zero_mul, add_zero]

theorem termino_en_cero (a b : Doble ℝ) (n : Nat) :
    termino Real.cos Real.sin Real.pi (L Real.pi)
      (Coeficientes.mk (fin 0) (fun _ => a) (fun _ => b)) (fin 0) n = a * fin 1 + b * fin 0 := by
  have hpi : Real.pi ≠ 0 := Real.pi_ne_zero
  simp only [termino, L, fin_mul_fin, fin_div_fin _ _ hpi, ctrig, mul_zero, zero_div,
    Real.cos_zero, Real.sin_zero]

theorem dx_configurado :
    VALIDAR "dx" (((GRAFICO_FIN Real.pi : Doble ℝ) - GRAFICO_INICIO) /
      fin ((PUNTOS_GRAFICO : Nat) : ℝ)) = Except.ok () := by
  have h5 : ((PUNTOS_GRAFICO : Nat) : ℝ) ≠ 0 := by
    unfold PUNTOS_GRAFICO; norm_num
  simp only [GRAFICO_FIN, GRAFICO_INICIO, fin_mul_fin, fin_sub_fin, fin_div_fin _ _ h5,
    VALIDAR_fin_fo]

end Fourier

/-- C23 (counterexample): with the coefficients `a0 = 0`, `an[n] = +Inf`, `bn[n] = 0` the
first sample of the configured grid (`x = 0`) has the term `Inf*cos(0) + 0*sin(0) = +Inf`,
so the partial sum after the first term is `+Inf`, which `es_numerico_valido` rejects; the
body does not reset the sample: `VALIDAR(termino)` ends the run, and so the whole
reconstruction of lines 194-240 ends with that fault. -/
theorem C23_contraejemplo_suma_infinita :
    Fourier.sumaParcial Real.cos Real.sin Real.pi (Fourier.L Real.pi)
        (Fourier.Coeficientes.mk (fin 0) (fun _ => posInf) (fun _ => fin 0)) (fin 0) 1 =
      (posInf : Doble ℝ) ∧
    es_numerico_valido (posInf : Doble ℝ) = false ∧
    Fourier.muestraGrafico Real.cos Real.sin Real.pi
        (Fourier.FUNCION_ORIGINAL (Fourier.L Real.pi)) (Fourier.L Real.pi)
        Fourier.GRAFICO_INICIO
        ((Fourier.GRAFICO_FIN Real.pi - Fourier.GRAFICO_INICIO) /
          fin ((Fourier.PUNTOS_GRAFICO : Nat) : ℝ))
        (Fourier.Coeficientes.mk (fin 0) (fun _ => posInf) (fun _ => fin 0))
        Fourier.N_TERMINOS 0 (Fourier.EstadoGrafico.mk 0 [] []) =
      Except.error (Falla.esInfinito "termino") ∧
    Fourier.generarDatos Real.cos Real.sin Real.pi
        (Fourier.FUNCION_ORIGINAL (Fourier.L Real.pi)) (Fourier.L Real.pi)
        Fourier.GRAFICO_INICIO (Fourier.GRAFICO_FIN Real.pi)
        (Fourier.Coeficientes.mk (fin 0) (fun _ => posInf) (fun _ => fin 0))
        Fourier.N_TERMINOS Fourier.PUNTOS_GRAFICO =
      Except.error (Falla.esInfinito "termino") := by
  have ht : Fourier.termino Real.cos Real.sin Real.pi (Fourier.L Real.pi)
      (Fourier.Coeficientes.mk (fin 0) (fun _ => posInf) (fun _ => fin 0)) (fin 0) 1 =
      (posInf : Doble ℝ) := by
    rw [Fourier.termino_en_cero, posInf_mul_fin one_pos, fin_mul_fin]
    rfl
  have hm : Fourier.muestraGrafico Real.cos Real.sin Real.pi
      (Fourier.FUNCION_ORIGINAL (Fourier.L Real.pi)) (Fourier.L Real.pi)
      Fourier.GRAFICO_INICIO
      ((Fourier.GRAFICO_FIN Real.pi - Fourier.GRAFICO_INICIO) /
        fin ((Fourier.PUNTOS_GRAFICO : Nat) : ℝ))
      (Fourier.Coeficientes.mk (fin 0) (fun _ => posInf) (fun _ => fin 0))
      Fourier.N_TERMINOS 0 (Fourier.EstadoGrafico.mk 0 [] []) =
      Except.error (Falla.esInfinito "termino") := by
    simp only [Fourier.muestraGrafico, Fourier.primera_muestra, Fourier.L,
      Fourier.FUNCION_ORIGINAL_fin, Fourier.VALIDAR_fin_fo, fin_div_two, Fourier.N_TERMINOS,
      Fourier.bucleSerieGrafico]
    rw [show Fourier.termino Real.cos Real.sin Real.pi (fin Real.pi)
      (Fourier.Coeficientes.mk (fin 0) (fun _ => posInf) (fun _ => fin 0)) (fin 0) 1 =
      (posInf : Doble ℝ) from ht]
    rfl
  refine ⟨?_, rfl, hm, ?_⟩
  · rw [Fourier.sumaParcial, ht, Fourier.sumaParcial, fin_div_two]
    rfl
  · simp only [Fourier.generarDatos, Fourier.dx_configurado, Fourier.bucleGrafico, hm]

/-- C23 (witness): the coefficients `a0 = 0`, `an[n] = 2e100`, `bn[n] = 0` at the first
sample of the configured grid (`x = 0`, `f_orig = 0`): the partial sum after the first
term is `2e100`, finite and rejected, so the sample is written with series value 0 and
`errores_puntos` becomes 1. -/
theorem C23_muestra_divergente_witness :
    es_numerico_valido (Fourier.sumaParcial Real.cos Real.sin Real.pi (Fourier.L Real.pi)
        (Fourier.Coeficientes.mk (fin 0) (fun _ => fin (2 * 10 ^ 100)) (fun _ => fin 0))
        (fin 0) 1) = false ∧
    Fourier.muestraGrafico Real.cos Real.sin Real.pi
        (Fourier.FUNCION_ORIGINAL (Fourier.L Real.pi)) (Fourier.L Real.pi)
        Fourier.GRAFICO_INICIO
        ((Fourier.GRAFICO_FIN Real.pi - Fourier.GRAFICO_INICIO) /
          fin ((Fourier.PUNTOS_GRAFICO : Nat) : ℝ))
        (Fourier.Coeficientes.mk (fin 0) (fun _ => fin (2 * 10 ^ 100)) (fun _ => fin 0))
        Fourier.N_TERMINOS 0 (Fourier.EstadoGrafico.mk 0 [] []) =
      Except.ok
        (if es_numerico_valido (fin (Fourier.triangular Real.pi 0)) then
          Fourier.EstadoGrafico.mk (0 + 1) ([] ++ [(fin 0, fin (Fourier.triangular Real.pi 0))])
            ([] ++ [(fin 0, fin 0)])
        else Fourier.EstadoGrafico.mk (0 + 2) [] []) := by
  have hP : Fourier.sumaParcial Real.cos Real.sin Real.pi (Fourier.L Real.pi)
      (Fourier.Coeficientes.mk (fin 0) (fun _ => fin (2 * 10 ^ 100)) (fun _ => fin 0))
      (fin 0) 1 = fin (0 / 2 + (2 * 10 ^ 100 * 1 + 0 * 0)) := by
    rw [Fourier.sumaParcial, Fourier.termino_en_cero]
    simp only [Fourier.sumaParcial, fin_div_two, fin_mul_fin, fin_add_fin]
  have hinv : es_numerico_valido (Fourier.sumaParcial Real.cos Real.sin Real.pi
      (Fourier.L Real.pi)
      (Fourier.Coeficientes.mk (fin 0) (fun _ => fin (2 * 10 ^ 100)) (fun _ => fin 0))
      (fin 0) 1) = false := by
    rw [hP, es_numerico_valido_fin, decide_eq_false_iff_not, not_le]
    have hc : (0 : ℝ) < 10 ^ 100 := by positivity
    generalize (10 : ℝ) ^ 100 = c at hc
    rw [abs_of_pos (by linarith)]
    linarith
  exact ⟨hinv,
    ((C23_muestra_divergente Real.cos Real.sin Real.pi
      (Fourier.FUNCION_ORIGINAL (Fourier.L Real.pi)) (Fourier.L Real.pi)
      Fourier.GRAFICO_INICIO
      ((Fourier.GRAFICO_FIN Real.pi - Fourier.GRAFICO_INICIO) /
        fin ((Fourier.PUNTOS_GRAFICO : Nat) : ℝ))
      (Fourier.Coeficientes.mk (fin 0) (fun _ => fin (2 * 10 ^ 100)) (fun _ => fin 0))
      Fourier.N_TERMINOS 0 1 (Fourier.EstadoGrafico.mk 0 [] []) 0
      (Fourier.triangular Real.pi 0) (0 / 2)
      Fourier.primera_muestra (Fourier.FUNCION_ORIGINAL_fin Real.pi 0) (fin_div_two 0)
      (le_refl 1) (by decide) (fun j h1 h2 => absurd h1 (by omega)) hinv).1
        ⟨_, hP⟩).1⟩

/-! ## The central difference of `derivadas.c` on `sin(x) + x^2` (C30) -/

namespace Derivadas

theorem sin_ge_sub_cubo (h : ℝ) (h0 : 0 ≤ h) : h - h ^ 3 / 6 ≤ Real.sin h := by
  have hd : ∀ t : ℝ, HasDerivAt (fun t => Real.sin t - t + t ^ 3 / 6)
      (Real.cos t - 1 + (3 * t ^ 2) / 6) t := by
    intro t
    have h3 : HasDerivAt (fun t : ℝ => t ^ 3) (3 * t ^ 2) t := by
      simpa using hasDerivAt_pow 3 t
    exact ((Real.hasDerivAt_sin t).sub (hasDerivAt_id t)).add (h3.div_const 6)
  have hmono : Monotone (fun t => Real.sin t - t + t ^ 3 / 6) := by
    refine monotone_of_deriv_nonneg (fun t => (hd t).differentiableAt) (fun t => ?_)
    rw [(hd t).deriv]
    have := Real.one_sub_sq_div_two_le_cos (x := t)
    linarith
  have := hmono h0
  simp only [Real.sin_zero] at this
  norm_num at this
  linarith

theorem cociente_seno (h : ℝ) (h0 : 0 < h) : |Real.sin h / h - 1| ≤ h ^ 2 / 6 := by
  have h1 := sin_ge_sub_cubo h h0.le
  have h2 := Real.sin_le h0.le
  have e : Real.sin h / h - 1 = (Real.sin h - h) / h := by
    field_simp
  rw [e, abs_div, abs_of_pos h0, div_le_iff₀ h0, abs_le]
  constructor
  · nlinarith
  · nlinarith [sq_nonneg h]

theorem diferencia_central (x0 h : ℝ) (h0 : 0 < h) :
    (Real.sin (x0 + h) + (x0 + h) * (x0 + h) - (Real.sin (x0 - h) + (x0 - h) * (x0 - h))) /
        (2 * h) =
      Real.cos x0 * Real.sin h / h + 2 * x0 := by
  rw [Real.sin_add, Real.sin_sub]
  field_simp
  ring

theorem error_de_la_diferencia (x0 h : ℝ) (h0 : 0 < h) :
    |Real.cos x0 * Real.sin h / h + 2 * x0 - (Real.cos x0 + 2 * x0)| ≤ h ^ 2 / 6 := by
  have e : Real.cos x0 * Real.sin h / h + 2 * x0 - (Real.cos x0 + 2 * x0) =
      Real.cos x0 * (Real.sin h / h - 1) := by ring
  rw [e, abs_mul]
  calc |Real.cos x0| * |Real.sin h / h - 1| ≤ 1 * (h ^ 2 / 6) :=
        mul_le_mul (Real.abs_cos_le_one x0) (cociente_seno h h0) (abs_nonneg _) zero_le_one
    _ = h ^ 2 / 6 := one_mul _

theorem f_acotada (a : ℝ) (ha : |a| ≤ 4) : |Real.sin a + a * a| ≤ 17 := by
  have h1 := Real.abs_sin_le_one a
  have h2 : |a * a| ≤ 16 := by
    rw [abs_mul]
    calc |a| * |a| ≤ 4 * 4 := mul_le_mul ha ha (abs_nonneg _) (by norm_num)
      _ = 16 := by norm_num
  calc |Real.sin a + a * a| ≤ |Real.sin a| + |a * a| := abs_add _ _
    _ ≤ 1 + 16 := add_le_add h1 h2
    _ = 17 := by norm_num

theorem muestra_pequena (a : ℝ) (ha : |a| ≤ 4) : |Real.sin a + a * a| ≤ 10 ^ 100 := by
  have hc : (17 : ℝ) ≤ 10 ^ 100 := by
    calc (17 : ℝ) ≤ 10 ^ 2 := by norm_num
      _ ≤ 10 ^ 100 := pow_le_pow_right₀ (by norm_num) (by norm_num)
  exact (f_acotada a ha).trans hc

theorem VALIDAR_fin_de (nombre : String) (v : α) :
    VALIDAR nombre (fin v) =
      if |v| ≤ 10 ^ 100 then Except.ok () else Except.error (Falla.esInvalido nombre) := by
  unfold VALIDAR verificar_nan_inf
  rw [es_numerico_valido_fin]
  generalize (10 : α) ^ 100 = c
  by_cases h : |v| ≤ c
  · simp [h]
  · simp [h]

theorem derivada_acotada (x0 h c : ℝ) (h0 : 0 < h) (hc : 100 ≤ c)
    (hp : |Real.sin (x0 + h) + (x0 + h) * (x0 + h)| ≤ c)
    (hm : |Real.sin (x0 - h) + (x0 - h) * (x0 - h)| ≤ c) :
    |Real.cos x0 * Real.sin h / h + 2 * x0| ≤ c := by
  have s1 := Real.neg_one_le_sin (x0 + h)
  have s2 := Real.neg_one_le_sin (x0 - h)
  have hp2 := (abs_le.1 hp).2
  have hm2 := (abs_le.1 hm).2
  have hx : x0 * x0 ≤ c + 1 := by
    rcases le_total 0 x0 with hx0 | hx0
    · nlinarith
    · nlinarith
  have hq : |Real.cos x0 * Real.sin h / h| ≤ 1 := by
    rw [mul_div_assoc, abs_mul]
    have h3 : |Real.sin h / h| ≤ 1 := by
      rw [abs_div, abs_of_pos h0, div_le_one h0]
      exact (Real.abs_sin_le_abs).trans (le_of_eq (abs_of_pos h0))
    calc |Real.cos x0| * |Real.sin h / h| ≤ 1 * 1 :=
          mul_le_mul (Real.abs_cos_le_one x0) h3 (abs_nonneg _) zero_le_one
      _ = 1 := one_mul _
  have hx2 : |2 * x0| ≤ c - 1 := by
    rw [abs_le]
    constructor
    · by_contra hn
      rw [not_le] at hn
      nlinarith
    · by_contra hn
      rw [not_le] at hn
      nlinarith
  calc |Real.cos x0 * Real.sin h / h + 2 * x0|
      ≤ |Real.cos x0 * Real.sin h / h| + |2 * x0| := abs_add _ _
    _ ≤ 1 + (c - 1) := add_le_add hq hx2
    _ = c := by ring

end Derivadas

/-- C30 (amended): for `f(x) = sin(x) + x^2`, every real `x0` and every `h > 0`, over exact
real arithmetic: when `f(x0 + h)` and `f(x0 - h)` have magnitude at most `1e100`,
`calcular_derivada_primera(x0, h)` returns `cos(x0)*sin(h)/h + 2*x0`; when one of them is
larger, `VALIDAR(f_plus)` or `VALIDAR(f_minus)` ends the run instead; the value
`cos(x0)*sin(h)/h + 2*x0` is within `h^2/6` of the analytic derivative `cos(x0) + 2*x0`
used in the error analysis. -/
theorem C30_derivada_primera (x0 h : ℝ) (h0 : 0 < h) :
    (|Real.sin (x0 + h) + (x0 + h) * (x0 + h)| ≤ 10 ^ 100 →
      |Real.sin (x0 - h) + (x0 - h) * (x0 - h)| ≤ 10 ^ 100 →
      ∃ aviso : Bool,
        Derivadas.calcular_derivada_primera (Derivadas.FUNCION_X Real.sin) (fin x0) (fin h) =
          Except.ok (Derivadas.SalidaDerivada.mk
            (fin (Real.cos x0 * Real.sin h / h + 2 * x0)) aviso)) ∧
    (10 ^ 100 < |Real.sin (x0 + h) + (x0 + h) * (x0 + h)| →
      Derivadas.calcular_derivada_primera (Derivadas.FUNCION_X Real.sin) (fin x0) (fin h) =
        Except.error (Falla.esInvalido "f_plus")) ∧
    (|Real.sin (x0 + h) + (x0 + h) * (x0 + h)| ≤ 10 ^ 100 →
      10 ^ 100 < |Real.sin (x0 - h) + (x0 - h) * (x0 - h)| →
      Derivadas.calcular_derivada_primera (Derivadas.FUNCION_X Real.sin) (fin x0) (fin h) =
        Except.error (Falla.esInvalido "f_minus")) ∧
    |Real.cos x0 * Real.sin h / h + 2 * x0 - (Real.cos x0 + 2 * x0)| ≤ h ^ 2 / 6 := by
  have h2 : (2 : ℝ) * h ≠ 0 := by positivity
  have hc : (100 : ℝ) ≤ 10 ^ 100 := by
    calc (100 : ℝ) = 10 ^ 2 := by norm_num
      _ ≤ 10 ^ 100 := pow_le_pow_right₀ (by norm_num) (by norm_num)
  refine ⟨fun hp hm => ?_, fun hp => ?_, fun hp hm => ?_,
    Derivadas.error_de_la_diferencia x0 h h0⟩
  · have hd := Derivadas.derivada_acotada x0 h (10 ^ 100) h0 hc hp hm
    rw [← Derivadas.diferencia_central x0 h h0] at hd ⊢
    refine ⟨decide (|Real.sin (x0 + h) + (x0 + h) * (x0 + h) -
      (Real.sin (x0 - h) + (x0 - h) * (x0 - h))| < 1 / 10 ^ 15), ?_⟩
    simp only [Derivadas.calcular_derivada_primera, Derivadas.FUNCION_X, ctrig, fin_add_fin,
      fin_sub_fin, fin_mul_fin, fin_div_fin _ _ h2, Derivadas.VALIDAR_fin_de, if_pos hp,
      if_pos hm, if_pos hd, bind, Except.bind, pure, Except.pure, fabs_fin, lt_fin_fin]
  · simp only [Derivadas.calcular_derivada_primera, Derivadas.FUNCION_X, ctrig, fin_add_fin,
      fin_sub_fin, fin_mul_fin, Derivadas.VALIDAR_fin_de, if_neg (not_le.2 hp), bind,
      Except.bind]
  · simp only [Derivadas.calcular_derivada_primera, Derivadas.FUNCION_X, ctrig, fin_add_fin,
      fin_sub_fin, fin_mul_fin, Derivadas.VALIDAR_fin_de, if_pos hp, if_neg (not_le.2 hm), bind,
      Except.bind]

/-- C30 (counterexample): at `x0 = 1e51` with `h = 1` the value
`f(x0 + h) = sin(1e51 + 1) + (1e51 + 1)^2` exceeds `1e100`, so `VALIDAR(f_plus)` ends the
run and `calcular_derivada_primera` returns nothing. -/
theorem C30_contraejemplo_punto_grande :
    Derivadas.calcular_derivada_primera (Derivadas.FUNCION_X Real.sin) (fin ((10 : ℝ) ^ 51))
        (fin 1) = Except.error (Falla.esInvalido "f_plus") := by
  have hbig : (10 : ℝ) ^ 100 < |Real.sin (10 ^ 51 + 1) + (10 ^ 51 + 1) * (10 ^ 51 + 1)| := by
    have s1 := Real.neg_one_le_sin ((10 : ℝ) ^ 51 + 1)
    have e : (10 : ℝ) ^ 100 = 10 ^ 49 * 10 ^ 51 := by rw [← pow_add]
    have h49 : (10 : ℝ) ^ 49 ≤ 10 ^ 51 := pow_le_pow_right₀ (by norm_num) (by norm_num)
    have hpos : (0 : ℝ) < 10 ^ 51 := by positivity
    rw [e]
    generalize (10 : ℝ) ^ 51 = c at *
    generalize (10 : ℝ) ^ 49 = d at *
    have : 0 ≤ Real.sin (c + 1) + (c + 1) * (c + 1) := by nlinarith
    rw [abs_of_nonneg this]
    nlinarith
  simp only [Derivadas.calcular_derivada_primera, Derivadas.FUNCION_X, ctrig, fin_add_fin,
    fin_sub_fin, fin_mul_fin, Derivadas.VALIDAR_fin_de, if_neg (not_le.2 hbig), bind,
    Except.bind]

/-- C30 (witness): the configured point `x0 = 1` and step `h = 0.0001`, where both
values of `f` are small and the function returns. -/
theorem C30_derivada_primera_witness :
    (0 : ℝ) < 1 / 10 ^ 4 ∧
    |Real.sin (1 + 1 / 10 ^ 4) + (1 + 1 / 10 ^ 4) * (1 + 1 / 10 ^ 4)| ≤ 10 ^ 100 ∧
    |Real.sin (1 - 1 / 10 ^ 4) + (1 - 1 / 10 ^ 4) * (1 - 1 / 10 ^ 4)| ≤ 10 ^ 100 ∧
    ∃ aviso : Bool,
      Derivadas.calcular_derivada_primera (Derivadas.FUNCION_X Real.sin) (fin 1)
          (fin (1 / 10 ^ 4)) =
        Except.ok (Derivadas.SalidaDerivada.mk
          (fin (Real.cos 1 * Real.sin (1 / 10 ^ 4) / (1 / 10 ^ 4) + 2 * 1)) aviso) :=
  ⟨by positivity,
    Derivadas.muestra_pequena _ (by rw [abs_le]; constructor <;> norm_num),
    Derivadas.muestra_pequena _ (by rw [abs_le]; constructor <;> norm_num),
    (C30_derivada_primera 1 (1 / 10 ^ 4) (by positivity)).1
      (Derivadas.muestra_pequena _ (by rw [abs_le]; constructor <;> norm_num))
      (Derivadas.muestra_pequena _ (by rw [abs_le]; constructor <;> norm_num))⟩

/-! ## The retry of the sampling loop of `derivadas.c` (C29) -/

namespace Derivadas

theorem gt_tras_doblar {h : Doble α} {c : α} (hc : 0 < c) (hg : gt h (fin c) = true) :
    gt (h * fin 2) (fin c) = true := by
  cases h with
  | nan => cases hg
  | negInf => cases hg
  | posInf =>
    rw [posInf_mul_fin (by norm_num : (0 : α) < 2)]
    rfl
  | fin v =>
    rw [gt_fin_fin, decide_eq_true_iff] at hg
    rw [fin_mul_fin, gt_fin_fin, decide_eq_true_iff]
    linarith

theorem umbral_pos : (0 : α) < 1 / 10 ^ 10 := by positivity

/-- From a step above `1e-10` the statements after `try_calc` never give the sample up;
an accepted sample leaves a step that is the old one doubled some number of times, still
above `1e-10`. -/
theorem try_calc_no_abandona (f : Doble α → Doble α) (x : Doble α) :
    ∀ (k : Nat) (h : Doble α), gt h (fin (1 / 10 ^ 10)) = true →
      (∀ h1, try_calc f x k h ≠ .abandonado h1) ∧
      (∀ h1 d1 d2, try_calc f x k h = .aceptado h1 d1 d2 →
        gt h1 (fin (1 / 10 ^ 10)) = true ∧ (∃ j : Nat, h1 = (fun t => t * fin 2)^[j] h) ∧
        es_numerico_valido d1 = true ∧ es_numerico_valido d2 = true) := by
  intro k
  induction k with
  | zero =>
    intro h _
    exact ⟨fun h1 hc => (by cases hc), fun h1 d1 d2 hc => (by cases hc)⟩
  | succ k ih =>
    intro h hg
    obtain ⟨i1, i2⟩ := ih (h * fin 2) (gt_tras_doblar umbral_pos hg)
    by_cases hv : (!es_numerico_valido ((f (x + h) - f (x - h)) / (fin 2 * h)) ||
        !es_numerico_valido ((f (x + h) - fin 2 * f x + f (x - h)) / (h * h))) = true
    · have e : try_calc f x (k + 1) h = try_calc f x k (h * fin 2) := by
        simp only [try_calc, hv, hg, if_true]
      rw [e]
      refine ⟨i1, fun h1 d1 d2 hc => ?_⟩
      obtain ⟨a1, ⟨j, hj⟩, a3, a4⟩ := i2 h1 d1 d2 hc
      exact ⟨a1, ⟨j + 1, by rw [Function.iterate_succ_apply]; exact hj⟩, a3, a4⟩
    · have e : try_calc f x (k + 1) h =
          .aceptado h ((f (x + h) - f (x - h)) / (fin 2 * h))
            ((f (x + h) - fin 2 * f x + f (x - h)) / (h * h)) := by
        simp only [try_calc, hv, if_false, Bool.false_eq_true]
      rw [e]
      simp only [Bool.or_eq_true, Bool.not_eq_true', not_or, Bool.not_eq_false] at hv
      refine ⟨fun h1 hc => (by cases hc), fun h1 d1 d2 hc => ?_⟩
      cases hc
      exact ⟨hg, ⟨0, rfl⟩, hv.1, hv.2⟩

/-- A sample whose two quotients are rejected at every doubling of the step keeps jumping
back: no budget is enough. -/
theorem try_calc_sin_fin (f : Doble α → Doble α) (x : Doble α) :
    ∀ (k : Nat) (h : Doble α), gt h (fin (1 / 10 ^ 10)) = true →
      (∀ j : Nat,
        (!es_numerico_valido
            ((f (x + (fun t => t * fin 2)^[j] h) - f (x - (fun t => t * fin 2)^[j] h)) /
              (fin 2 * (fun t => t * fin 2)^[j] h)) ||
          !es_numerico_valido
            ((f (x + (fun t => t * fin 2)^[j] h) - fin 2 * f x +
                f (x - (fun t => t * fin 2)^[j] h)) /
              ((fun t => t * fin 2)^[j] h * (fun t => t * fin 2)^[j] h))) = true) →
      try_calc f x k h = .sinCombustible := by
  intro k
  induction k with
  | zero => intro h _ _; rfl
  | succ k ih =>
    intro h hg hinv
    have h0 := hinv 0
    simp only [Function.iterate_zero, id_eq] at h0
    have e : try_calc f x (k + 1) h = try_calc f x k (h * fin 2) := by
      simp only [try_calc, h0, hg, if_true]
    rw [e]
    refine ih (h * fin 2) (gt_tras_doblar umbral_pos hg) (fun j => ?_)
    have := hinv (j + 1)
    simp only [Function.iterate_succ_apply] at this
    exact this

theorem bucleMuestreo_contadores (f : Doble α → Doble α) (inicio dx : Doble α) (p : Nat) :
    ∀ (k i : Nat) (s s1 : EstadoMuestreo α), gt s.h (fin (1 / 10 ^ 10)) = true →
      bucleMuestreo f inicio dx p k i s = some s1 →
      s1.puntos_invalidos = s.puntos_invalidos ∧ s1.puntos_validos = s.puntos_validos + k ∧
      s1.datos.length = s.datos.length + k ∧
      gt s1.h (fin (1 / 10 ^ 10)) = true ∧ ∃ j : Nat, s1.h = (fun t => t * fin 2)^[j] s.h := by
  intro k
  induction k with
  | zero =>
    intro i s s1 hg hb
    simp only [bucleMuestreo, Option.some.injEq] at hb
    subst hb
    exact ⟨rfl, by simp, rfl, hg, ⟨0, rfl⟩⟩
  | succ k ih =>
    intro i s s1 hg hb
    obtain ⟨n1, n2⟩ := try_calc_no_abandona f (inicio + fin (i : α) * dx) p s.h hg
    cases ht : try_calc f (inicio + fin (i : α) * dx) p s.h with
    | sinCombustible => simp only [bucleMuestreo, ht] at hb; cases hb
    | abandonado h1 => exact absurd ht (n1 h1)
    | aceptado h1 d1 d2 =>
      obtain ⟨a1, ⟨j, hj⟩, _, _⟩ := n2 h1 d1 d2 ht
      simp only [bucleMuestreo, ht] at hb
      obtain ⟨b1, b2, b3, b4, ⟨j2, hj2⟩⟩ := ih (i + 1) _ s1 a1 hb
      refine ⟨b1, ?_, ?_, b4, ⟨j2 + j, ?_⟩⟩
      · rw [b2]
        push_cast
        ring
      · rw [b3]
        simp only [List.length_append, List.length_singleton]
        omega
      · rw [hj2, Function.iterate_add_apply]
        show (fun t => t * fin 2)^[j2] h1 = _
        rw [hj]

end Derivadas

namespace Derivadas

theorem FUNCION_X_fin (seno : α → α) (a : α) :
    FUNCION_X seno (fin a) = fin (seno a + a * a) := rfl

theorem cociente_nan (y : Doble α) :
    (!es_numerico_valido (((nan : Doble α) - nan) / y)) = true := by
  cases y <;> rfl

theorem cociente_primero_valido (fp fm : ℝ) (hp : |fp| ≤ 17) (hm : |fm| ≤ 17) :
    es_numerico_valido (fin ((fp - fm) / (2 * (1 / 10 ^ 4)))) = true := by
  have hc : (10 : ℝ) ^ 10 ≤ 10 ^ 100 := pow_le_pow_right₀ (by norm_num) (by norm_num)
  obtain ⟨p1, p2⟩ := abs_le.1 hp
  obtain ⟨m1, m2⟩ := abs_le.1 hm
  refine (es_numerico_valido_fin _).trans (decide_eq_true ?_)
  refine le_trans ?_ hc
  rw [abs_div, abs_of_pos (by norm_num : (0 : ℝ) < 2 * (1 / 10 ^ 4)),
    div_le_iff₀ (by norm_num), abs_le]
  constructor <;> norm_num <;> linarith

theorem cociente_segundo_valido (fp fz fm : ℝ) (hp : |fp| ≤ 17) (hz : |fz| ≤ 17)
    (hm : |fm| ≤ 17) :
    es_numerico_valido (fin ((fp - 2 * fz + fm) / (1 / 10 ^ 4 * (1 / 10 ^ 4)))) = true := by
  have hc : (10 : ℝ) ^ 10 ≤ 10 ^ 100 := pow_le_pow_right₀ (by norm_num) (by norm_num)
  obtain ⟨p1, p2⟩ := abs_le.1 hp
  obtain ⟨m1, m2⟩ := abs_le.1 hm
  obtain ⟨z1, z2⟩ := abs_le.1 hz
  refine (es_numerico_valido_fin _).trans (decide_eq_true ?_)
  refine le_trans ?_ hc
  rw [abs_div, abs_of_pos (by norm_num : (0 : ℝ) < 1 / 10 ^ 4 * (1 / 10 ^ 4)),
    div_le_iff₀ (by norm_num), abs_le]
  constructor <;> norm_num <;> linarith

theorem try_calc_configurado (x : ℝ) (hx : |x| ≤ 3) (k : Nat) :
    ∃ d1 d2 : Doble ℝ,
      try_calc (FUNCION_X Real.sin) (fin x) (k + 1) (fin (1 / 10 ^ 4)) =
        .aceptado (fin (1 / 10 ^ 4)) d1 d2 := by
  obtain ⟨hx1, hx2⟩ := abs_le.1 hx
  have hp := f_acotada (x + 1 / 10 ^ 4) (by rw [abs_le]; constructor <;> norm_num <;> linarith)
  have hm := f_acotada (x - 1 / 10 ^ 4) (by rw [abs_le]; constructor <;> norm_num <;> linarith)
  have hz := f_acotada x (by rw [abs_le]; constructor <;> linarith)
  have e2 : (2 : ℝ) * (1 / 10 ^ 4) ≠ 0 := by norm_num
  have e3 : (1 : ℝ) / 10 ^ 4 * (1 / 10 ^ 4) ≠ 0 := by norm_num
  refine ⟨fin ((Real.sin (x + 1 / 10 ^ 4) + (x + 1 / 10 ^ 4) * (x + 1 / 10 ^ 4) -
      (Real.sin (x - 1 / 10 ^ 4) + (x - 1 / 10 ^ 4) * (x - 1 / 10 ^ 4))) /
        (2 * (1 / 10 ^ 4))),
    fin ((Real.sin (x + 1 / 10 ^ 4) + (x + 1 / 10 ^ 4) * (x + 1 / 10 ^ 4) -
      2 * (Real.sin x + x * x) +
      (Real.sin (x - 1 / 10 ^ 4) + (x - 1 / 10 ^ 4) * (x - 1 / 10 ^ 4))) /
        (1 / 10 ^ 4 * (1 / 10 ^ 4))), ?_⟩
  simp only [try_calc, FUNCION_X_fin, fin_add_fin, fin_sub_fin, fin_mul_fin, fin_div_fin _ _ e2,
    fin_div_fin _ _ e3, cociente_primero_valido _ _ hp hm,
    cociente_segundo_valido _ _ _ hp hz hm, Bool.not_true, Bool.or_self, Bool.false_eq_true,
    if_false]

theorem muestra_configurada (i : Nat) (hi : i ≤ 100) :
    ∃ x : ℝ, ( GRAFICO_INICIO : Doble ℝ) + fin (i : ℝ) *
        ((GRAFICO_FIN - GRAFICO_INICIO) / fin ((GRAFICO_PUNTOS : Nat) : ℝ)) = fin x ∧
      |x| ≤ 3 := by
  have h100 : ((GRAFICO_PUNTOS : Nat) : ℝ) ≠ 0 := by unfold GRAFICO_PUNTOS; norm_num
  refine ⟨1 - 2 + (i : ℝ) * ((1 + 2 - (1 - 2)) / ((GRAFICO_PUNTOS : Nat) : ℝ)), ?_, ?_⟩
  · simp only [GRAFICO_FIN, GRAFICO_INICIO, PUNTO_X0, fin_sub_fin, fin_add_fin,
      fin_div_fin _ _ h100, fin_mul_fin]
  · have h0 : (0 : ℝ) ≤ i := Nat.cast_nonneg i
    have h1 : (i : ℝ) ≤ 100 := by exact_mod_cast hi
    unfold GRAFICO_PUNTOS
    rw [abs_le]
    constructor <;> norm_num <;> linarith

theorem bucleMuestreo_configurado :
    ∀ (k i : Nat) (s : EstadoMuestreo ℝ), s.h = fin (1 / 10 ^ 4) → i + k ≤ 101 →
      ∃ s1 : EstadoMuestreo ℝ,
        bucleMuestreo (FUNCION_X Real.sin) GRAFICO_INICIO
          ((GRAFICO_FIN - GRAFICO_INICIO) / fin ((GRAFICO_PUNTOS : Nat) : ℝ)) 1 k i s =
            some s1 ∧
        s1.h = fin (1 / 10 ^ 4) := by
  intro k
  induction k with
  | zero => intro i s hs _; exact ⟨s, rfl, hs⟩
  | succ k ih =>
    intro i s hs hik
    obtain ⟨x, hx, hxb⟩ := muestra_configurada i (by omega)
    obtain ⟨d1, d2, ht⟩ := try_calc_configurado x hxb 0
    obtain ⟨s1, h1, h2⟩ := ih (i + 1)
      (EstadoMuestreo.mk (fin (1 / 10 ^ 4)) (s.puntos_validos + 1) s.puntos_invalidos
        (s.datos ++ [(fin x, d1, d2)])) rfl (by omega)
    refine ⟨s1, ?_, h2⟩
    simp only [bucleMuestreo, hx, hs, ht]
    exact h1

end Derivadas

/-- C29: in the sampling loop of `derivadas.c`, for any function in the place of
`FUNCION_X`: from a step `h > 1e-10` (as `PASO_H = 1e-4` is) the retry only doubles `h`, so
the test `h > 1e-10` holds at every retry and no sample is ever given up; whenever the loop
over `GRAFICO_PUNTOS + 1 = 101` samples returns, `puntos_invalidos = 0`,
`puntos_validos = 101`, 101 lines were written and `h` is `PASO_H` doubled some number of
times (it is not restored between samples); a sample whose quotients are rejected at every
doubling keeps jumping back whatever the budget, so the loop does not return.  On the
configured function `sin(x) + x^2` over the reals every sample is accepted at the first
pass and the loop returns with `h = PASO_H`. -/
theorem C29_muestreo_sin_abandono (f : Doble α → Doble α) (inicio final x : Doble α)
    (presupuesto : Nat) :
    (∀ (k : Nat) (h h1 : Doble α), gt h (fin (1 / 10 ^ 10)) = true →
      Derivadas.try_calc f x k h ≠ .abandonado h1) ∧
    (∀ s1 : Derivadas.EstadoMuestreo α,
      Derivadas.muestrear f inicio final Derivadas.PASO_H Derivadas.GRAFICO_PUNTOS
        presupuesto = some s1 →
      s1.puntos_invalidos = 0 ∧ s1.puntos_validos = 101 ∧ s1.datos.length = 101 ∧
      gt s1.h (fin (1 / 10 ^ 10)) = true ∧
      ∃ j : Nat, s1.h = (fun t => t * fin 2)^[j] Derivadas.PASO_H) ∧
    (∀ (k : Nat) (h : Doble α), gt h (fin (1 / 10 ^ 10)) = true →
      (∀ j : Nat,
        (!es_numerico_valido
            ((f (x + (fun t => t * fin 2)^[j] h) - f (x - (fun t => t * fin 2)^[j] h)) /
              (fin 2 * (fun t => t * fin 2)^[j] h)) ||
          !es_numerico_valido
            ((f (x + (fun t => t * fin 2)^[j] h) - fin 2 * f x +
                f (x - (fun t => t * fin 2)^[j] h)) /
              ((fun t => t * fin 2)^[j] h * (fun t => t * fin 2)^[j] h))) = true) →
      Derivadas.try_calc f x k h = .sinCombustible) ∧
    (∀ p : Nat, Derivadas.muestrear (fun _ => (nan : Doble α)) inicio final Derivadas.PASO_H
        Derivadas.GRAFICO_PUNTOS p = none) ∧
    ∃ s1 : Derivadas.EstadoMuestreo ℝ,
      Derivadas.muestrear (Derivadas.FUNCION_X Real.sin) Derivadas.GRAFICO_INICIO
        Derivadas.GRAFICO_FIN Derivadas.PASO_H Derivadas.GRAFICO_PUNTOS 1 = some s1 ∧
      s1.h = Derivadas.PASO_H ∧ s1.puntos_invalidos = 0 ∧ s1.puntos_validos = 101 := by
  have hg0 : gt (Derivadas.PASO_H : Doble α) (fin (1 / 10 ^ 10)) = true := by
    unfold Derivadas.PASO_H
    rw [gt_fin_fin, decide_eq_true_iff]
    have h1 : (0 : α) < 10 ^ 4 := by positivity
    have h2 : (10 : α) ^ 4 < 10 ^ 10 := pow_lt_pow_right₀ (by norm_num) (by norm_num)
    exact one_div_lt_one_div_of_lt h1 h2
  refine ⟨fun k h h1 hg => (Derivadas.try_calc_no_abandona f x k h hg).1 h1, ?_,
    fun k h hg hinv => Derivadas.try_calc_sin_fin f x k h hg hinv, ?_, ?_⟩
  · intro s1 hs
    obtain ⟨a1, a2, a3, a4, a5⟩ := Derivadas.bucleMuestreo_contadores f inicio _ presupuesto
      (Derivadas.GRAFICO_PUNTOS + 1) 0 _ s1 hg0 hs
    refine ⟨a1, ?_, ?_, a4, a5⟩
    · rw [a2]; rfl
    · rw [a3]; rfl
  · intro p
    have ht : Derivadas.try_calc (fun _ => (nan : Doble α))
        (inicio + fin ((0 : Nat) : α) *
          ((final - inicio) / fin ((Derivadas.GRAFICO_PUNTOS : Nat) : α))) p
        Derivadas.PASO_H = .sinCombustible :=
      Derivadas.try_calc_sin_fin _ _ p _ hg0
        (fun j => by rw [Derivadas.cociente_nan]; rfl)
    simp only [Derivadas.muestrear, Derivadas.bucleMuestreo, ht]
  · obtain ⟨s1, h1, h2⟩ := Derivadas.bucleMuestreo_configurado
      (Derivadas.GRAFICO_PUNTOS + 1) 0 (Derivadas.EstadoMuestreo.mk Derivadas.PASO_H 0 0 [])
      rfl (by decide)
    have hg1 : gt (Derivadas.PASO_H : Doble ℝ) (fin (1 / 10 ^ 10)) = true := by
      unfold Derivadas.PASO_H
      rw [gt_fin_fin, decide_eq_true_iff]
      norm_num
    obtain ⟨a1, a2, _, _, _⟩ := Derivadas.bucleMuestreo_contadores _ _ _ 1
      (Derivadas.GRAFICO_PUNTOS + 1) 0 _ s1 hg1 h1
    exact ⟨s1, h1, h2, a1, by rw [a2]; rfl⟩

end Informe
